import Mathlib

/-!
# sljit: the architecture independent layer (`sljitLir.c`, `sljitLir.h`)

A shallow embedding of the architecture independent part of the stack-less
JIT compiler: the compiler object, its two fragment buffers, the error
latch, the argument checks and the compare-and-branch helpers.

Conventions of the embedding.

* C `int` and `long` values are `Int`; `&`, `|` and `~` are `Int.land`,
  `Int.lor` and `Int.lnot` (two's complement). `unsigned long` values are
  `Nat`, reduced modulo `ULONG_MOD` where the C arithmetic can wrap.
* The preprocessor configuration is a value of `Config`; a definition whose
  C text depends on an `#if` takes the configuration as an argument.
* The C allocator is the explicit state `Heap`.
* The functions of the per-architecture back end (`sljitNative*.c`), which
  the architecture independent code calls, are the fields of `Emitter`.
-/

namespace Sljit

/-! ## Build configuration (`sljitConfigInternal.h`) -/

/-- The `SLJIT_CONFIG_*` selections for which the platform descriptor defines
the register counts. -/
inductive Arch where
  | X86_32 | X86_64 | ARM_V5 | ARM_V7 | ARM_THUMB2 | ARM_64
  | PPC_32 | PPC_64 | MIPS_32 | MIPS_64 | SPARC_32
deriving DecidableEq, Repr

/-- One preprocessor configuration of a supported target. `long_size` is
`sizeof(long)`; `argument_checks` is `SLJIT_ARGUMENT_CHECKS`, `verbose` is
`SLJIT_VERBOSE` (`SLJIT_DEBUG` is off); `fastcall`, `win64` and `aix` are
`SLJIT_X86_32_FASTCALL`, `_WIN64` and `_AIX`; `compiler_size` is
`sizeof(struct sljit_compiler)`, which the C compiler fixes. -/
structure Config where
  arch : Arch
  long_size : Nat
  compiler_size : Nat
  argument_checks : Bool
  verbose : Bool
  fastcall : Bool
  win64 : Bool
  aix : Bool
deriving DecidableEq, Repr

/-- The macro `SLJIT_CONFIG_X86`. -/
def Config.X86 (cfg : Config) : Bool :=
  cfg.arch == Arch.X86_32 || cfg.arch == Arch.X86_64

/-- The macro `SLJIT_CONFIG_MIPS`. -/
def Config.MIPS (cfg : Config) : Bool :=
  cfg.arch == Arch.MIPS_32 || cfg.arch == Arch.MIPS_64

/-- The macro `SLJIT_CONFIG_PPC`. -/
def Config.PPC (cfg : Config) : Bool :=
  cfg.arch == Arch.PPC_32 || cfg.arch == Arch.PPC_64

/-- The macro `SLJIT_64BIT_ARCHITECTURE`; its negation is
`SLJIT_32BIT_ARCHITECTURE`. -/
def Config.is64 (cfg : Config) : Bool :=
  cfg.arch == Arch.X86_64 || cfg.arch == Arch.ARM_64 || cfg.arch == Arch.PPC_64
    || cfg.arch == Arch.MIPS_64

/-- The integer types accepted by the `SLJIT_COMPILE_ASSERT` of
`sljit_create_compiler`: `sizeof(long)` is 4 or 8. -/
def Config.valid (cfg : Config) : Prop :=
  cfg.long_size = 4 ∨ cfg.long_size = 8

instance (cfg : Config) : Decidable cfg.valid := by
  unfold Config.valid; infer_instance

/-- One more than the largest `unsigned long`. -/
def ULONG_MOD (cfg : Config) : Nat := 2 ^ (8 * cfg.long_size)

def SLJIT_NUM_REGS (cfg : Config) : Int :=
  match cfg.arch with
  | Arch.X86_32 => 10
  | Arch.X86_64 => 12
  | Arch.ARM_V5 => 11
  | Arch.ARM_V7 => 11
  | Arch.ARM_THUMB2 => 11
  | Arch.ARM_64 => 25
  | Arch.PPC_32 => 22
  | Arch.PPC_64 => 22
  | Arch.MIPS_32 => 17
  | Arch.MIPS_64 => 17
  | Arch.SPARC_32 => 18

def SLJIT_NUM_SAVED_REGS (cfg : Config) : Int :=
  match cfg.arch with
  | Arch.X86_32 => 7
  | Arch.X86_64 => if cfg.win64 then 8 else 6
  | Arch.ARM_V5 => 8
  | Arch.ARM_V7 => 8
  | Arch.ARM_THUMB2 => 7
  | Arch.ARM_64 => 10
  | Arch.PPC_32 => 17
  | Arch.PPC_64 => 17
  | Arch.MIPS_32 => 8
  | Arch.MIPS_64 => 8
  | Arch.SPARC_32 => 14

def SLJIT_NUM_SCRATCH_REGS (cfg : Config) : Int :=
  SLJIT_NUM_REGS cfg - SLJIT_NUM_SAVED_REGS cfg

def SLJIT_NUM_FLOAT_REGS : Int := 6

def SLJIT_LOCALS_OFFSET (cfg : Config) : Int :=
  match cfg.arch with
  | Arch.X86_32 => if cfg.fastcall then (2 + 4) * cfg.long_size else (3 + 1 + 4) * cfg.long_size
  | Arch.X86_64 => if cfg.win64 then (4 + 2) * cfg.long_size else cfg.long_size
  | Arch.ARM_V5 => 0
  | Arch.ARM_V7 => 0
  | Arch.ARM_THUMB2 => 0
  | Arch.ARM_64 => 2 * cfg.long_size
  | Arch.PPC_32 => if cfg.aix then (6 + 8) * cfg.long_size else (3 + 1) * cfg.long_size
  | Arch.PPC_64 => (6 + 8) * cfg.long_size
  | Arch.MIPS_32 => 4 * cfg.long_size
  | Arch.MIPS_64 => 0
  | Arch.SPARC_32 => (23 + 1) * cfg.long_size

/-! ## Constants of `sljitLir.h` and `sljitLir.c` -/

def SLJIT_SUCCESS : Int := 0
def SLJIT_ERR_COMPILED : Int := 1
def SLJIT_ERR_ALLOC_FAILED : Int := 2
def SLJIT_ERR_EX_ALLOC_FAILED : Int := 3
def SLJIT_ERR_UNSUPPORTED : Int := 4
def SLJIT_ERR_BAD_ARGUMENT : Int := 5

def SLJIT_UNUSED : Int := 0
def SLJIT_R0 : Int := 1
def SLJIT_R3 : Int := 4
def SLJIT_R6 : Int := 7
def SLJIT_S0 (cfg : Config) : Int := SLJIT_NUM_REGS cfg
def SLJIT_SP (cfg : Config) : Int := SLJIT_NUM_REGS cfg + 1
/-- The macro `SLJIT_R(i)`. -/
def SLJIT_R (i : Int) : Int := 1 + i
/-- The macro `SLJIT_S(i)`. -/
def SLJIT_S (cfg : Config) (i : Int) : Int := SLJIT_NUM_REGS cfg - i
def SLJIT_FIRST_SAVED_REG (cfg : Config) : Int :=
  SLJIT_S0 cfg - SLJIT_NUM_SAVED_REGS cfg + 1
def SLJIT_RETURN_REG : Int := SLJIT_R0
def SLJIT_FR0 : Int := 1
def SLJIT_FS0 : Int := SLJIT_NUM_FLOAT_REGS

def SLJIT_MEM : Int := 0x80
def SLJIT_IMM : Int := 0x40
def SLJIT_MEM1 (r1 : Int) : Int := Int.lor SLJIT_MEM r1
def SLJIT_MEM2 (r1 r2 : Int) : Int := Int.lor (Int.lor SLJIT_MEM r1) (r2 <<< (8 : Int))

def SLJIT_R1 : Int := 2
def SLJIT_R2 : Int := 3
def SLJIT_S1 (cfg : Config) : Int := SLJIT_NUM_REGS cfg - 1

def SLJIT_DOUBLE_ALIGNMENT : Int := 0x00000001
def SLJIT_MAX_LOCAL_SIZE : Int := 65536

def SLJIT_INT_OP : Int := 0x100
def SLJIT_SINGLE_OP : Int := 0x100
def SLJIT_SET_E : Int := 0x0200
def SLJIT_SET_U : Int := 0x0400
def SLJIT_SET_S : Int := 0x0800
def SLJIT_SET_O : Int := 0x1000
def SLJIT_SET_C : Int := 0x2000
def SLJIT_KEEP_FLAGS : Int := 0x4000

def SLJIT_OP0_BASE : Int := 0
def SLJIT_BREAKPOINT : Int := SLJIT_OP0_BASE + 0
def SLJIT_NOP : Int := SLJIT_OP0_BASE + 1
def SLJIT_LUMUL : Int := SLJIT_OP0_BASE + 2
def SLJIT_LSMUL : Int := SLJIT_OP0_BASE + 3
def SLJIT_LUDIV : Int := SLJIT_OP0_BASE + 4
def SLJIT_LSDIV : Int := SLJIT_OP0_BASE + 5

def SLJIT_OP1_BASE : Int := 32
def SLJIT_MOV : Int := SLJIT_OP1_BASE + 0
def SLJIT_MOV_UB : Int := SLJIT_OP1_BASE + 1
def SLJIT_MOV_SB : Int := SLJIT_OP1_BASE + 2
def SLJIT_MOV_UH : Int := SLJIT_OP1_BASE + 3
def SLJIT_MOV_SH : Int := SLJIT_OP1_BASE + 4
def SLJIT_MOV_UI : Int := SLJIT_OP1_BASE + 5
def SLJIT_MOV_SI : Int := SLJIT_OP1_BASE + 6
def SLJIT_MOV_P : Int := SLJIT_OP1_BASE + 7
def SLJIT_MOVU : Int := SLJIT_OP1_BASE + 8
def SLJIT_MOVU_UB : Int := SLJIT_OP1_BASE + 9
def SLJIT_MOVU_SB : Int := SLJIT_OP1_BASE + 10
def SLJIT_MOVU_UH : Int := SLJIT_OP1_BASE + 11
def SLJIT_MOVU_SH : Int := SLJIT_OP1_BASE + 12
def SLJIT_MOVU_UI : Int := SLJIT_OP1_BASE + 13
def SLJIT_MOVU_SI : Int := SLJIT_OP1_BASE + 14
def SLJIT_MOVU_P : Int := SLJIT_OP1_BASE + 15
def SLJIT_NOT : Int := SLJIT_OP1_BASE + 16
def SLJIT_NEG : Int := SLJIT_OP1_BASE + 17
def SLJIT_CLZ : Int := SLJIT_OP1_BASE + 18
def SLJIT_OP2_BASE : Int := 96
def SLJIT_ADD : Int := SLJIT_OP2_BASE + 0
def SLJIT_ADDC : Int := SLJIT_OP2_BASE + 1
def SLJIT_SUB : Int := SLJIT_OP2_BASE + 2
def SLJIT_SUBC : Int := SLJIT_OP2_BASE + 3
def SLJIT_MUL : Int := SLJIT_OP2_BASE + 4
def SLJIT_AND : Int := SLJIT_OP2_BASE + 5
def SLJIT_OR : Int := SLJIT_OP2_BASE + 6
def SLJIT_XOR : Int := SLJIT_OP2_BASE + 7
def SLJIT_SHL : Int := SLJIT_OP2_BASE + 8
def SLJIT_LSHR : Int := SLJIT_OP2_BASE + 9
def SLJIT_ASHR : Int := SLJIT_OP2_BASE + 10
def SLJIT_FOP1_BASE : Int := 128
def SLJIT_DMOV : Int := SLJIT_FOP1_BASE + 0
def SLJIT_CONVD_FROMS : Int := SLJIT_FOP1_BASE + 1
def SLJIT_CONVW_FROMD : Int := SLJIT_FOP1_BASE + 2
def SLJIT_CONVI_FROMD : Int := SLJIT_FOP1_BASE + 3
def SLJIT_CONVD_FROMW : Int := SLJIT_FOP1_BASE + 4
def SLJIT_CONVD_FROMI : Int := SLJIT_FOP1_BASE + 5
def SLJIT_DCMP : Int := SLJIT_FOP1_BASE + 6
def SLJIT_DNEG : Int := SLJIT_FOP1_BASE + 7
def SLJIT_DABS : Int := SLJIT_FOP1_BASE + 8
def SLJIT_FOP2_BASE : Int := 160
def SLJIT_DADD : Int := SLJIT_FOP2_BASE + 0
def SLJIT_DSUB : Int := SLJIT_FOP2_BASE + 1
def SLJIT_DMUL : Int := SLJIT_FOP2_BASE + 2
def SLJIT_DDIV : Int := SLJIT_FOP2_BASE + 3

def SLJIT_EQUAL : Int := 0
def SLJIT_NOT_EQUAL : Int := 1
def SLJIT_NOT_ZERO : Int := 1
def SLJIT_LESS : Int := 2
def SLJIT_GREATER_EQUAL : Int := 3
def SLJIT_GREATER : Int := 4
def SLJIT_LESS_EQUAL : Int := 5
def SLJIT_SIG_LESS : Int := 6
def SLJIT_SIG_GREATER_EQUAL : Int := 7
def SLJIT_SIG_GREATER : Int := 8
def SLJIT_SIG_LESS_EQUAL : Int := 9
def SLJIT_OVERFLOW : Int := 10
def SLJIT_NOT_OVERFLOW : Int := 11
def SLJIT_MUL_OVERFLOW : Int := 12
def SLJIT_MUL_NOT_OVERFLOW : Int := 13
def SLJIT_D_EQUAL : Int := 14
def SLJIT_D_NOT_EQUAL : Int := 15
def SLJIT_D_LESS : Int := 16
def SLJIT_D_GREATER_EQUAL : Int := 17
def SLJIT_D_GREATER : Int := 18
def SLJIT_D_LESS_EQUAL : Int := 19
def SLJIT_D_UNORDERED : Int := 20
def SLJIT_D_ORDERED : Int := 21
def SLJIT_JUMP : Int := 22
def SLJIT_FAST_CALL : Int := 23
def SLJIT_CALL0 : Int := 24
def SLJIT_CALL1 : Int := 25
def SLJIT_CALL2 : Int := 26
def SLJIT_CALL3 : Int := 27
def SLJIT_REWRITABLE_JUMP : Int := 0x1000

def BUF_SIZE : Nat := 4096

def ABUF_SIZE (cfg : Config) : Nat := if cfg.is64 then 4096 else 2048

def CPOOL_SIZE : Nat := 512

def REG_MASK : Int := 0x3f

/-- The macro `OFFS_REG(reg)`: `((reg) >> 8) & REG_MASK`. -/
def OFFS_REG (reg : Int) : Int := Int.land (reg >>> (8 : Int)) REG_MASK

def OFFS_REG_MASK : Int := REG_MASK <<< (8 : Int)

/-- The macro `TO_OFFS_REG(reg)`: `(reg) << 8`. -/
def TO_OFFS_REG (reg : Int) : Int := reg <<< (8 : Int)

/-- The macro `ADDRESSING_DEPENDS_ON(exp, reg)`. -/
def ADDRESSING_DEPENDS_ON (exp reg : Int) : Bool :=
  decide (Int.land exp SLJIT_MEM ≠ 0)
    && (decide (Int.land exp REG_MASK = reg) || decide (OFFS_REG exp = reg))

def JUMP_LABEL : Int := 0x1
def JUMP_ADDR : Int := 0x2

def UNMOVABLE_INS : Int := 32

/-- `SLJIT_OFFSETOF(struct sljit_memory_fragment, memory)`: the fragment
header is the `next` pointer and the `unsigned long used_size`, both of the
size of `long`. -/
def OFFSETOF_memory (cfg : Config) : Nat := 2 * cfg.long_size

/-- The number of `memory` bytes of an instruction-buffer fragment, the
unsigned difference `BUF_SIZE - SLJIT_OFFSETOF(...)` of `ensure_buf`. -/
def BUF_CAPACITY (cfg : Config) : Nat :=
  (BUF_SIZE + ULONG_MOD cfg - OFFSETOF_memory cfg % ULONG_MOD cfg) % ULONG_MOD cfg

/-- The number of `memory` bytes of an auxiliary-buffer fragment, the
unsigned difference `ABUF_SIZE - SLJIT_OFFSETOF(...)` of `ensure_abuf`. -/
def ABUF_CAPACITY (cfg : Config) : Nat :=
  (ABUF_SIZE cfg + ULONG_MOD cfg - OFFSETOF_memory cfg % ULONG_MOD cfg) % ULONG_MOD cfg

/-! ## The C allocator -/

/-- A pointer into a `malloc`ed block: the block and the byte offset. For a
pointer into a fragment the offset counts from the start of its `memory`
array. -/
structure Ptr where
  block : Nat
  off : Nat
deriving DecidableEq, Repr

/-- The state of `malloc` and `free`. `outcomes` fixes what the coming
`malloc` calls do: `none` is an out-of-memory failure, `some g` a success
whose block holds the (arbitrary, uninitialised) bytes `g`; when the list is
exhausted no memory is left. `next_block` names the next block handed out,
`malloc_calls` counts the calls made so far and `freed` lists the released
blocks. -/
structure Heap where
  next_block : Nat
  malloc_calls : Nat
  outcomes : List (Option (List Nat))
  freed : List Nat
deriving DecidableEq, Repr

/-- The content of a fresh block of `n` bytes: the garbage `g`, cut or
padded to `n` bytes. -/
def fresh_bytes (g : List Nat) (n : Nat) : List Nat :=
  (List.range n).map (fun i => g.getD i 0)

/-- The C library call `malloc(n)`: `none` is `NULL`, otherwise the new block and
its content. -/
def malloc (h : Heap) (n : Nat) : Option (Nat × List Nat) × Heap :=
  match h.outcomes with
  | [] => (none, { h with malloc_calls := h.malloc_calls + 1 })
  | none :: rest => (none, { h with malloc_calls := h.malloc_calls + 1, outcomes := rest })
  | some g :: rest =>
    (some (h.next_block, fresh_bytes g n),
     { h with next_block := h.next_block + 1, malloc_calls := h.malloc_calls + 1,
              outcomes := rest })

/-- The C library call `free(block)`. -/
def free (h : Heap) (block : Nat) : Heap :=
  { h with freed := block :: h.freed }

/-! ## Main structures (`sljitLir.h`) -/

/-- The C type `struct sljit_memory_fragment`. The `next` pointer is the position in
the fragment list that holds the fragment; `block` is the `malloc`ed block
the fragment lives in and `memory` the content of its `memory` array. -/
structure sljit_memory_fragment where
  block : Nat
  used_size : Nat
  memory : List Nat
deriving DecidableEq, Repr

/-- A non-`NULL` pointer to a fragment together with the chain reached
through `next`: `head` is the fragment pointed to, `next` the fragments
after it, ending at the one whose `next` is `NULL`. -/
structure fragment_list where
  head : sljit_memory_fragment
  next : List sljit_memory_fragment
deriving DecidableEq, Repr

/-- The fragments of a chain in traversal order. -/
def fragment_list.toList (l : fragment_list) : List sljit_memory_fragment :=
  l.head :: l.next

/-- The C type `union { unsigned long target; struct sljit_label* label; }` of a
jump: the member written last. -/
inductive jump_u where
  | target (target : Nat)
  | label (label : Ptr)
deriving DecidableEq, Repr

/-- The C type `struct sljit_jump`. -/
structure sljit_jump where
  next : Option Ptr
  addr : Nat
  flags : Int
  u : jump_u
deriving DecidableEq, Repr

/-- The C type `struct sljit_compiler`, with the members of every configuration
(a member that a configuration does not compile keeps its initial value).
`buf` and `abuf` are never `NULL` in a compiler that `sljit_create_compiler`
returned. -/
structure sljit_compiler where
  error : Int
  options : Int
  labels : Option Ptr
  jumps : Option Ptr
  consts : Option Ptr
  last_label : Option Ptr
  last_jump : Option Ptr
  last_const : Option Ptr
  buf : fragment_list
  abuf : fragment_list
  scratches : Int
  saveds : Int
  fscratches : Int
  fsaveds : Int
  local_size : Int
  size : Nat
  executable_size : Nat
  args : Int
  mode32 : Int
  flags_saved : Int
  cpool : Option Ptr
  cpool_unique : Option Ptr
  cpool_diff : Nat
  cpool_fill : Nat
  patches : Nat
  shift_imm : Nat
  cache_arg : Int
  cache_argw : Int
  imm : Int
  delay_slot : Int
  verbose : Option Ptr
  logical_local_size : Int
  skip_checks : Int
deriving DecidableEq, Repr

/-! ## Creating a compiler -/

/-- The `memory` array of a fragment that lives in a block with the given
content: what follows the header. -/
def fragment_memory (cfg : Config) (bytes : List Nat) : List Nat :=
  bytes.drop (OFFSETOF_memory cfg)

/-- The compiler object after `memset(compiler, 0, sizeof(struct
sljit_compiler))` and the assignments that every configuration makes, for
the two fragments allocated for `buf` and `abuf`. -/
def initial_compiler (buf abuf : sljit_memory_fragment) : sljit_compiler :=
  { error := SLJIT_SUCCESS, options := 0,
    labels := none, jumps := none, consts := none,
    last_label := none, last_jump := none, last_const := none,
    buf := { head := { buf with used_size := 0 }, next := [] },
    abuf := { head := { abuf with used_size := 0 }, next := [] },
    scratches := -1, saveds := -1, fscratches := -1, fsaveds := -1, local_size := -1,
    size := 0, executable_size := 0,
    args := 0, mode32 := 0, flags_saved := 0,
    cpool := none, cpool_unique := none, cpool_diff := 0, cpool_fill := 0, patches := 0,
    shift_imm := 0, cache_arg := 0, cache_argw := 0, imm := 0, delay_slot := 0,
    verbose := none, logical_local_size := 0, skip_checks := 0 }

/-- The function `sljit_create_compiler`: `none` is `NULL`. The call of
`init_compiler` (x86 and ARM v5), which sets up CPU feature detection of the
back end and does not touch the compiler, is not part of the embedding. -/
def sljit_create_compiler (cfg : Config) (h : Heap) : Option sljit_compiler × Heap :=
  match malloc h cfg.compiler_size with
  | (none, h1) => (none, h1)
  | (some (cblock, _), h1) =>
    match malloc h1 BUF_SIZE with
    | (none, h2) =>
      match malloc h2 (ABUF_SIZE cfg) with
      | (none, h3) => (none, free h3 cblock)
      | (some (ablock, _), h3) => (none, free (free h3 ablock) cblock)
    | (some (bblock, bbytes), h2) =>
      match malloc h2 (ABUF_SIZE cfg) with
      | (none, h3) => (none, free (free h3 bblock) cblock)
      | (some (ablock, abytes), h3) =>
        let compiler := initial_compiler
          { block := bblock, used_size := 0, memory := fragment_memory cfg bbytes }
          { block := ablock, used_size := 0, memory := fragment_memory cfg abytes }
        let compiler :=
          if cfg.arch = Arch.X86_32 then { compiler with args := -1 } else compiler
        let compiler :=
          if cfg.MIPS || cfg.arch == Arch.SPARC_32 then
            { compiler with delay_slot := UNMOVABLE_INS }
          else compiler
        if cfg.arch = Arch.ARM_V5 then
          match malloc h3 (CPOOL_SIZE * cfg.long_size + CPOOL_SIZE * 1) with
          | (none, h4) => (none, free (free (free h4 bblock) ablock) cblock)
          | (some (pblock, _), h4) =>
            (some { compiler with
                      cpool := some { block := pblock, off := 0 },
                      cpool_unique := some { block := pblock, off := CPOOL_SIZE * cfg.long_size },
                      cpool_diff := 0xffffffff }, h4)
        else (some compiler, h3)

/-! ## Jump targets -/

/-- The function `sljit_set_label`, as the change of the jump record that `jump`
points to: `none` is a `NULL` argument, and a `NULL` jump has no record. -/
def sljit_set_label (jump : Option sljit_jump) (label : Option Ptr) : Option sljit_jump :=
  match jump, label with
  | some j, some l =>
    some { j with flags := Int.lor (Int.land j.flags (Int.lnot JUMP_ADDR)) JUMP_LABEL,
                  u := jump_u.label l }
  | _, _ => jump

/-- The function `sljit_set_target`, as the change of the jump record that `jump`
points to. -/
def sljit_set_target (jump : Option sljit_jump) (target : Nat) : Option sljit_jump :=
  match jump with
  | some j =>
    some { j with flags := Int.lor (Int.land j.flags (Int.lnot JUMP_LABEL)) JUMP_ADDR,
                  u := jump_u.target target }
  | none => none

/-! ## Fragment buffers -/

/-- The function `ensure_buf`. `size` is an `unsigned long` value; the returned
pointer is `none` for `NULL`. `SLJIT_ASSERT(size <= 256)` is an empty
statement (`SLJIT_DEBUG` is off). -/
def ensure_buf (cfg : Config) (compiler : sljit_compiler) (size : Nat) (h : Heap) :
    Option Ptr × sljit_compiler × Heap :=
  if (compiler.buf.head.used_size + size) % ULONG_MOD cfg ≤ BUF_CAPACITY cfg then
    (some { block := compiler.buf.head.block, off := compiler.buf.head.used_size },
     { compiler with buf := { compiler.buf with head := { compiler.buf.head with
         used_size := (compiler.buf.head.used_size + size) % ULONG_MOD cfg } } },
     h)
  else
    match malloc h BUF_SIZE with
    | (none, h1) => (none, { compiler with error := SLJIT_ERR_ALLOC_FAILED }, h1)
    | (some (block, bytes), h1) =>
      (some { block := block, off := 0 },
       { compiler with buf :=
           { head := { block := block, used_size := size, memory := fragment_memory cfg bytes },
             next := compiler.buf.toList } },
       h1)

/-- The function `ensure_abuf`. -/
def ensure_abuf (cfg : Config) (compiler : sljit_compiler) (size : Nat) (h : Heap) :
    Option Ptr × sljit_compiler × Heap :=
  if (compiler.abuf.head.used_size + size) % ULONG_MOD cfg ≤ ABUF_CAPACITY cfg then
    (some { block := compiler.abuf.head.block, off := compiler.abuf.head.used_size },
     { compiler with abuf := { compiler.abuf with head := { compiler.abuf.head with
         used_size := (compiler.abuf.head.used_size + size) % ULONG_MOD cfg } } },
     h)
  else
    match malloc h (ABUF_SIZE cfg) with
    | (none, h1) => (none, { compiler with error := SLJIT_ERR_ALLOC_FAILED }, h1)
    | (some (block, bytes), h1) =>
      (some { block := block, off := 0 },
       { compiler with abuf :=
           { head := { block := block, used_size := size, memory := fragment_memory cfg bytes },
             next := compiler.abuf.toList } },
       h1)

/-- The conversion of an `int` to `unsigned long`. -/
def to_ulong (cfg : Config) (x : Int) : Nat := (x % (ULONG_MOD cfg : Int)).toNat

/-- The conversion of a value to `long`: the value of that range that differs
from `x` by a multiple of `ULONG_MOD`. -/
def to_long (cfg : Config) (x : Int) : Int :=
  (x + (ULONG_MOD cfg : Int) / 2) % (ULONG_MOD cfg : Int) - (ULONG_MOD cfg : Int) / 2

/-- The function `sljit_alloc_memory`. -/
def sljit_alloc_memory (cfg : Config) (compiler : sljit_compiler) (size : Int) (h : Heap) :
    Option Ptr × sljit_compiler × Heap :=
  if compiler.error ≠ 0 then (none, compiler, h)
  else if cfg.is64 then
    if size ≤ 0 ∨ size > 128 then (none, compiler, h)
    else ensure_abuf cfg compiler (to_ulong cfg (Int.land (size + 7) (Int.lnot 0x111))) h
  else
    if size ≤ 0 ∨ size > 64 then (none, compiler, h)
    else ensure_abuf cfg compiler (to_ulong cfg (Int.land (size + 3) (Int.lnot 0x11))) h

/-- The loop of `reverse_buf`, entered with the fragment `buf`, the chain `tmp`
that `buf->next` holds and the already reversed chain `prev`. -/
def reverse_buf_loop (buf : sljit_memory_fragment) (tmp prev : List sljit_memory_fragment) :
    fragment_list :=
  match tmp with
  | [] => { head := buf, next := prev }
  | t :: rest => reverse_buf_loop t rest (buf :: prev)

/-- The function `reverse_buf`. -/
def reverse_buf (compiler : sljit_compiler) : sljit_compiler :=
  { compiler with buf := reverse_buf_loop compiler.buf.head compiler.buf.next [] }

/-! ## Using the fragment buffers

What the emitters do with a pointer returned by `ensure_buf`: they store
the bytes of the instruction through it. -/

/-- The array `mem` after the bytes `bytes` are stored from offset `off` on;
a store that does not fit the array is not made. -/
def write_at (mem : List Nat) (off : Nat) (bytes : List Nat) : List Nat :=
  if off + bytes.length ≤ mem.length then
    mem.take off ++ bytes ++ mem.drop (off + bytes.length)
  else mem

/-- The fragment after a store through the pointer `p`. -/
def sljit_memory_fragment.store (f : sljit_memory_fragment) (p : Ptr) (bytes : List Nat) :
    sljit_memory_fragment :=
  if f.block = p.block then { f with memory := write_at f.memory p.off bytes } else f

/-- The chain after a store through the pointer `p`. -/
def fragment_list.store (l : fragment_list) (p : Ptr) (bytes : List Nat) : fragment_list :=
  { head := l.head.store p bytes, next := l.next.map (fun f => f.store p bytes) }

/-- One emission into the instruction buffer: `ensure_buf` for the length of
`payload`, and the store of `payload` through the returned pointer. `none`
when `ensure_buf` returns `NULL`. -/
def emit_payload (cfg : Config) (compiler : sljit_compiler) (payload : List Nat) (h : Heap) :
    Option (Ptr × sljit_compiler × Heap) :=
  match ensure_buf cfg compiler payload.length h with
  | (some p, c1, h1) => some (p, { c1 with buf := c1.buf.store p payload }, h1)
  | (none, _, _) => none

/-- A sequence of emissions into the instruction buffer, each successful. -/
def emit_payloads (cfg : Config) (compiler : sljit_compiler) (payloads : List (List Nat))
    (h : Heap) : Option (sljit_compiler × Heap) :=
  match payloads with
  | [] => some (compiler, h)
  | p :: rest =>
    match emit_payload cfg compiler p h with
    | some (_, c1, h1) => emit_payloads cfg c1 rest h1
    | none => none

/-- The used bytes of a fragment: the first `used_size` bytes of `memory`. -/
def sljit_memory_fragment.used (f : sljit_memory_fragment) : List Nat :=
  f.memory.take f.used_size

/-- The used bytes of the fragments of a chain, in list order. -/
def fragment_list.used (l : fragment_list) : List Nat :=
  (l.toList.map sljit_memory_fragment.used).flatten

/-- The sum of `used_size` over the fragments of a chain. -/
def fragment_list.total_size (l : fragment_list) : Nat :=
  (l.toList.map sljit_memory_fragment.used_size).sum

/-! ## Argument checks (`SLJIT_ARGUMENT_CHECKS`)

A `FUNCTION_CHECK_*` macro is a sequence of `CHECK_ARGUMENT(x)` statements,
each of which leaves the enclosing check function with 1 when `x` is zero.
The embedding of such a macro is `true` when control falls through it, so
when every `CHECK_ARGUMENT` it reaches holds. The text a check function
prints under `SLJIT_VERBOSE` is not part of the embedding. -/

/-- The macro `FUNCTION_CHECK_IS_REG(r)`. -/
def FUNCTION_CHECK_IS_REG (cfg : Config) (compiler : sljit_compiler) (r : Int) : Bool :=
  (decide (r ≥ SLJIT_R0) && decide (r < SLJIT_R0 + compiler.scratches))
    || (decide (r > SLJIT_S0 cfg - compiler.saveds) && decide (r ≤ SLJIT_S0 cfg))

/-- The macro `FUNCTION_CHECK_IS_REG_OR_UNUSED(r)`. -/
def FUNCTION_CHECK_IS_REG_OR_UNUSED (cfg : Config) (compiler : sljit_compiler) (r : Int) :
    Bool :=
  decide (r = SLJIT_UNUSED)
    || (decide (r ≥ SLJIT_R0) && decide (r < SLJIT_R0 + compiler.scratches))
    || (decide (r > SLJIT_S0 cfg - compiler.saveds) && decide (r ≤ SLJIT_S0 cfg))

/-- The macro `CHECK_NOT_VIRTUAL_REG(p)`, empty unless the target is x86-32. -/
def CHECK_NOT_VIRTUAL_REG (cfg : Config) (p : Int) : Bool :=
  if cfg.arch = Arch.X86_32 then decide (p < SLJIT_R3) || decide (p > SLJIT_R6) else true

/-- The last branch that `FUNCTION_CHECK_SRC`, `FUNCTION_CHECK_DST` and
`FUNCTION_FCHECK` share, for a memory operand; `fcheck` adds the test that
only `FUNCTION_FCHECK` makes on the index register. -/
def FUNCTION_CHECK_MEM (cfg : Config) (compiler : sljit_compiler) (fcheck : Bool)
    (p i : Int) : Bool :=
  decide (Int.land p SLJIT_MEM ≠ 0)
    && FUNCTION_CHECK_IS_REG_OR_UNUSED cfg compiler (Int.land p REG_MASK)
    && CHECK_NOT_VIRTUAL_REG cfg (Int.land p REG_MASK)
    && (if Int.land p OFFS_REG_MASK ≠ 0 then
          decide (Int.land p REG_MASK ≠ SLJIT_UNUSED)
            && FUNCTION_CHECK_IS_REG cfg compiler (OFFS_REG p)
            && CHECK_NOT_VIRTUAL_REG cfg (OFFS_REG p)
            && (if fcheck then
                  decide (Int.land p OFFS_REG_MASK ≠ TO_OFFS_REG (SLJIT_SP cfg))
                    && decide (Int.land i (Int.lnot 0x3) = 0)
                else decide (Int.land i (Int.lnot 0x3) = 0))
        else true)
    && decide (Int.land p
        (Int.lnot (Int.lor (Int.lor (Int.lor SLJIT_MEM SLJIT_IMM) REG_MASK) OFFS_REG_MASK)) = 0)

/-- The macro `FUNCTION_CHECK_SRC(p, i)`. -/
def FUNCTION_CHECK_SRC (cfg : Config) (compiler : sljit_compiler) (p i : Int) : Bool :=
  (decide (compiler.scratches ≠ -1) && decide (compiler.saveds ≠ -1))
    && (if FUNCTION_CHECK_IS_REG cfg compiler p then decide (i = 0)
        else if p = SLJIT_IMM then true
        else if p = SLJIT_MEM1 (SLJIT_SP cfg) then
          decide (i ≥ 0) && decide (i < compiler.logical_local_size)
        else FUNCTION_CHECK_MEM cfg compiler false p i)

/-- The macro `FUNCTION_CHECK_DST(p, i)`. -/
def FUNCTION_CHECK_DST (cfg : Config) (compiler : sljit_compiler) (p i : Int) : Bool :=
  (decide (compiler.scratches ≠ -1) && decide (compiler.saveds ≠ -1))
    && (if FUNCTION_CHECK_IS_REG_OR_UNUSED cfg compiler p then decide (i = 0)
        else if p = SLJIT_MEM1 (SLJIT_SP cfg) then
          decide (i ≥ 0) && decide (i < compiler.logical_local_size)
        else FUNCTION_CHECK_MEM cfg compiler false p i)

/-- The macro `FUNCTION_FCHECK(p, i)`. -/
def FUNCTION_FCHECK (cfg : Config) (compiler : sljit_compiler) (p i : Int) : Bool :=
  (decide (compiler.fscratches ≠ -1) && decide (compiler.fsaveds ≠ -1))
    && (if (decide (p ≥ SLJIT_FR0) && decide (p < SLJIT_FR0 + compiler.fscratches))
            || (decide (p > SLJIT_FS0 - compiler.fsaveds) && decide (p ≤ SLJIT_FS0)) then
          decide (i = 0)
        else if p = SLJIT_MEM1 (SLJIT_SP cfg) then
          decide (i ≥ 0) && decide (i < compiler.logical_local_size)
        else FUNCTION_CHECK_MEM cfg compiler true p i)

/-- The function `check_sljit_emit_cmp`: 0 when the arguments are accepted, 1
otherwise. -/
def check_sljit_emit_cmp (cfg : Config) (compiler : sljit_compiler)
    (type src1 src1w src2 src2w : Int) : Int :=
  if cfg.argument_checks then
    if decide (Int.land type
          (Int.lnot (Int.lor (Int.lor 0xff SLJIT_REWRITABLE_JUMP) SLJIT_INT_OP)) = 0)
        && (decide (Int.land type 0xff ≥ SLJIT_EQUAL)
              && decide (Int.land type 0xff ≤ SLJIT_SIG_LESS_EQUAL))
        && FUNCTION_CHECK_SRC cfg compiler src1 src1w
        && FUNCTION_CHECK_SRC cfg compiler src2 src2w then 0
    else 1
  else 0

/-- The function `check_sljit_emit_fcmp`; `fpu` is the value of
`sljit_is_fpu_available()`. -/
def check_sljit_emit_fcmp (cfg : Config) (fpu : Int) (compiler : sljit_compiler)
    (type src1 src1w src2 src2w : Int) : Int :=
  if cfg.argument_checks then
    if decide (fpu ≠ 0)
        && decide (Int.land type
            (Int.lnot (Int.lor (Int.lor 0xff SLJIT_REWRITABLE_JUMP) SLJIT_SINGLE_OP)) = 0)
        && (decide (Int.land type 0xff ≥ SLJIT_D_EQUAL)
              && decide (Int.land type 0xff ≤ SLJIT_D_ORDERED))
        && FUNCTION_FCHECK cfg compiler src1 src1w
        && FUNCTION_FCHECK cfg compiler src2 src2w then 0
    else 1
  else 0

/-- The function `check_sljit_get_local_base`. -/
def check_sljit_get_local_base (cfg : Config) (compiler : sljit_compiler)
    (dst dstw _offset : Int) : Int :=
  if cfg.argument_checks then
    if FUNCTION_CHECK_DST cfg compiler dst dstw then 0 else 1
  else 0

/-! ## Argument checks of the operations -/

/-- The macro `GET_OPCODE(op)`. -/
def GET_OPCODE (op : Int) : Int :=
  Int.land op (Int.lnot (Int.lor (Int.lor (Int.lor (Int.lor (Int.lor (Int.lor
    SLJIT_INT_OP SLJIT_SET_E) SLJIT_SET_U) SLJIT_SET_S) SLJIT_SET_O) SLJIT_SET_C)
    SLJIT_KEEP_FLAGS))

/-- The macro `GET_FLAGS(op)`. -/
def GET_FLAGS (op : Int) : Int :=
  Int.land op (Int.lor (Int.lor (Int.lor (Int.lor
    SLJIT_SET_E SLJIT_SET_U) SLJIT_SET_S) SLJIT_SET_O) SLJIT_SET_C)

/-- The macro `FUNCTION_CHECK_OP()` on the variable `op`: the first
`CHECK_ARGUMENT`, then the `switch` on `GET_OPCODE(op)`, whose case labels are
distinct constants. -/
def FUNCTION_CHECK_OP (op : Int) : Bool :=
  (decide (GET_FLAGS op = 0) || decide (Int.land op SLJIT_KEEP_FLAGS = 0))
    && (if GET_OPCODE op = SLJIT_NOT ∨ GET_OPCODE op = SLJIT_CLZ
            ∨ GET_OPCODE op = SLJIT_AND ∨ GET_OPCODE op = SLJIT_OR
            ∨ GET_OPCODE op = SLJIT_XOR ∨ GET_OPCODE op = SLJIT_SHL
            ∨ GET_OPCODE op = SLJIT_LSHR ∨ GET_OPCODE op = SLJIT_ASHR then
          decide (Int.land op (Int.lor (Int.lor (Int.lor
            SLJIT_SET_U SLJIT_SET_S) SLJIT_SET_O) SLJIT_SET_C) = 0)
        else if GET_OPCODE op = SLJIT_NEG then
          decide (Int.land op (Int.lor (Int.lor SLJIT_SET_U SLJIT_SET_S) SLJIT_SET_C) = 0)
        else if GET_OPCODE op = SLJIT_MUL then
          decide (Int.land op (Int.lor (Int.lor (Int.lor
            SLJIT_SET_E SLJIT_SET_U) SLJIT_SET_S) SLJIT_SET_C) = 0)
        else if GET_OPCODE op = SLJIT_ADD then
          decide (Int.land op (Int.lor SLJIT_SET_U SLJIT_SET_S) = 0)
        else if GET_OPCODE op = SLJIT_SUB then true
        else if GET_OPCODE op = SLJIT_ADDC ∨ GET_OPCODE op = SLJIT_SUBC then
          decide (Int.land op (Int.lor (Int.lor (Int.lor
            SLJIT_SET_E SLJIT_SET_U) SLJIT_SET_S) SLJIT_SET_O) = 0)
        else if GET_OPCODE op = SLJIT_BREAKPOINT ∨ GET_OPCODE op = SLJIT_NOP
            ∨ GET_OPCODE op = SLJIT_LUMUL ∨ GET_OPCODE op = SLJIT_LSMUL
            ∨ GET_OPCODE op = SLJIT_MOV ∨ GET_OPCODE op = SLJIT_MOV_UI
            ∨ GET_OPCODE op = SLJIT_MOV_P ∨ GET_OPCODE op = SLJIT_MOVU
            ∨ GET_OPCODE op = SLJIT_MOVU_UI ∨ GET_OPCODE op = SLJIT_MOVU_P then
          decide (Int.land op (Int.lor (Int.lor (Int.lor (Int.lor (Int.lor (Int.lor
            SLJIT_INT_OP SLJIT_SET_E) SLJIT_SET_U) SLJIT_SET_S) SLJIT_SET_O) SLJIT_SET_C)
            SLJIT_KEEP_FLAGS) = 0)
        else
          decide (Int.land op (Int.lor (Int.lor (Int.lor (Int.lor (Int.lor
            SLJIT_SET_E SLJIT_SET_U) SLJIT_SET_S) SLJIT_SET_O) SLJIT_SET_C)
            SLJIT_KEEP_FLAGS) = 0))

/-- The macro `FUNCTION_CHECK_OP1()` on the variables `op`, `dst` and `src`. -/
def FUNCTION_CHECK_OP1 (cfg : Config) (op dst src : Int) : Bool :=
  if GET_OPCODE op ≥ SLJIT_MOVU ∧ GET_OPCODE op ≤ SLJIT_MOVU_P then
    (decide (Int.land src SLJIT_MEM = 0) || decide (Int.land src REG_MASK ≠ SLJIT_SP cfg))
      && (decide (Int.land dst SLJIT_MEM = 0)
            || decide (Int.land dst REG_MASK ≠ SLJIT_SP cfg))
      && (if Int.land src SLJIT_MEM ≠ 0 ∧ Int.land src REG_MASK ≠ 0 then
            decide (Int.land dst REG_MASK ≠ Int.land src REG_MASK)
              && decide (OFFS_REG dst ≠ Int.land src REG_MASK)
          else true)
  else true

/-- The loop of `check_sljit_generate_code` over the jump records; `jumps` are
the records reached from `compiler->jumps` through `next`, in that order. -/
def check_sljit_generate_code_loop : List sljit_jump → Bool
  | [] => true
  | jump :: rest =>
    decide (Int.land jump.flags (Int.lor JUMP_LABEL JUMP_ADDR) ≠ 0)
      && check_sljit_generate_code_loop rest

/-- The function `check_sljit_generate_code`: 0 when the compiler is accepted,
1 otherwise; `jumps` are the records of the list that starts at
`compiler->jumps`. -/
def check_sljit_generate_code (cfg : Config) (compiler : sljit_compiler)
    (jumps : List sljit_jump) : Int :=
  if cfg.argument_checks then
    if decide (compiler.size > 0) && check_sljit_generate_code_loop jumps then 0 else 1
  else 0

/-- The function `check_sljit_emit_enter`: 0 when the arguments are accepted, 1
otherwise. -/
def check_sljit_emit_enter (cfg : Config) (_compiler : sljit_compiler)
    (options args scratches saveds fscratches fsaveds local_size : Int) : Int :=
  if cfg.argument_checks then
    if decide (Int.land options (Int.lnot SLJIT_DOUBLE_ALIGNMENT) = 0)
        && (decide (args ≥ 0) && decide (args ≤ 3))
        && (decide (scratches ≥ 0) && decide (scratches ≤ SLJIT_NUM_REGS cfg))
        && (decide (saveds ≥ 0) && decide (saveds ≤ SLJIT_NUM_REGS cfg))
        && decide (scratches + saveds ≤ SLJIT_NUM_REGS cfg)
        && decide (args ≤ saveds)
        && (decide (fscratches ≥ 0) && decide (fscratches ≤ SLJIT_NUM_FLOAT_REGS))
        && (decide (fsaveds ≥ 0) && decide (fsaveds ≤ SLJIT_NUM_FLOAT_REGS))
        && decide (fscratches + fsaveds ≤ SLJIT_NUM_FLOAT_REGS)
        && (decide (local_size ≥ 0) && decide (local_size ≤ SLJIT_MAX_LOCAL_SIZE)) then 0
    else 1
  else 0

/-- The function `check_sljit_set_context`, with the compiler it leaves: a set
`skip_checks` is cleared and ends the check. -/
def check_sljit_set_context (cfg : Config) (compiler : sljit_compiler)
    (options args scratches saveds fscratches fsaveds local_size : Int) :
    Int × sljit_compiler :=
  if compiler.skip_checks ≠ 0 then (0, { compiler with skip_checks := 0 })
  else if cfg.argument_checks then
    if decide (Int.land options (Int.lnot SLJIT_DOUBLE_ALIGNMENT) = 0)
        && (decide (args ≥ 0) && decide (args ≤ 3))
        && (decide (scratches ≥ 0) && decide (scratches ≤ SLJIT_NUM_REGS cfg))
        && (decide (saveds ≥ 0) && decide (saveds ≤ SLJIT_NUM_REGS cfg))
        && decide (scratches + saveds ≤ SLJIT_NUM_REGS cfg)
        && decide (args ≤ saveds)
        && (decide (fscratches ≥ 0) && decide (fscratches ≤ SLJIT_NUM_FLOAT_REGS))
        && (decide (fsaveds ≥ 0) && decide (fsaveds ≤ SLJIT_NUM_FLOAT_REGS))
        && decide (fscratches + fsaveds ≤ SLJIT_NUM_FLOAT_REGS)
        && (decide (local_size ≥ 0) && decide (local_size ≤ SLJIT_MAX_LOCAL_SIZE)) then (0, compiler)
    else (1, compiler)
  else (0, compiler)

/-- The function `set_emit_enter`. -/
def set_emit_enter (cfg : Config) (compiler : sljit_compiler)
    (options _args scratches saveds fscratches fsaveds local_size : Int) : sljit_compiler :=
  { compiler with
    options := options, scratches := scratches, saveds := saveds,
    fscratches := fscratches, fsaveds := fsaveds,
    logical_local_size :=
      if cfg.argument_checks then local_size else compiler.logical_local_size }

/-- The function `set_set_context`. -/
def set_set_context (cfg : Config) (compiler : sljit_compiler)
    (options _args scratches saveds fscratches fsaveds local_size : Int) : sljit_compiler :=
  { compiler with
    options := options, scratches := scratches, saveds := saveds,
    fscratches := fscratches, fsaveds := fsaveds,
    logical_local_size :=
      if cfg.argument_checks then local_size else compiler.logical_local_size }

/-- The function `check_sljit_emit_op1`, with the compiler it leaves. -/
def check_sljit_emit_op1 (cfg : Config) (compiler : sljit_compiler)
    (op dst dstw src srcw : Int) : Int × sljit_compiler :=
  if compiler.skip_checks ≠ 0 then (0, { compiler with skip_checks := 0 })
  else if cfg.argument_checks then
    if (decide (GET_OPCODE op ≥ SLJIT_MOV) && decide (GET_OPCODE op ≤ SLJIT_CLZ))
        && FUNCTION_CHECK_OP op
        && FUNCTION_CHECK_SRC cfg compiler src srcw
        && FUNCTION_CHECK_DST cfg compiler dst dstw
        && FUNCTION_CHECK_OP1 cfg op dst src then (0, compiler)
    else (1, compiler)
  else (0, compiler)

/-- The function `check_sljit_emit_op2`, with the compiler it leaves. -/
def check_sljit_emit_op2 (cfg : Config) (compiler : sljit_compiler)
    (op dst dstw src1 src1w src2 src2w : Int) : Int × sljit_compiler :=
  if compiler.skip_checks ≠ 0 then (0, { compiler with skip_checks := 0 })
  else if cfg.argument_checks then
    if (decide (GET_OPCODE op ≥ SLJIT_ADD) && decide (GET_OPCODE op ≤ SLJIT_ASHR))
        && FUNCTION_CHECK_OP op
        && FUNCTION_CHECK_SRC cfg compiler src1 src1w
        && FUNCTION_CHECK_SRC cfg compiler src2 src2w
        && FUNCTION_CHECK_DST cfg compiler dst dstw then (0, compiler)
    else (1, compiler)
  else (0, compiler)

/-- The macro `FUNCTION_CHECK_FOP()` on the variable `op`. -/
def FUNCTION_CHECK_FOP (op : Int) : Bool :=
  (decide (GET_FLAGS op = 0) || decide (Int.land op SLJIT_KEEP_FLAGS = 0))
    && (if GET_OPCODE op = SLJIT_DCMP then
          decide (Int.land op (Int.lor (Int.lor (Int.lor
            SLJIT_SET_U SLJIT_SET_O) SLJIT_SET_C) SLJIT_KEEP_FLAGS) = 0)
            && decide (Int.land op (Int.lor SLJIT_SET_E SLJIT_SET_S) ≠ 0)
        else
          decide (Int.land op (Int.lor (Int.lor (Int.lor (Int.lor (Int.lor
            SLJIT_SET_E SLJIT_SET_U) SLJIT_SET_S) SLJIT_SET_O) SLJIT_SET_C)
            SLJIT_KEEP_FLAGS) = 0))

/-- The function `check_sljit_emit_return`. -/
def check_sljit_emit_return (cfg : Config) (compiler : sljit_compiler)
    (op src srcw : Int) : Int :=
  if cfg.argument_checks then
    if decide (compiler.scratches ≥ 0)
        && (if op ≠ SLJIT_UNUSED then
              (decide (op ≥ SLJIT_MOV) && decide (op ≤ SLJIT_MOV_P))
                && FUNCTION_CHECK_SRC cfg compiler src srcw
            else decide (src = 0) && decide (srcw = 0)) then 0
    else 1
  else 0

/-- The function `check_sljit_emit_fast_enter`. -/
def check_sljit_emit_fast_enter (cfg : Config) (compiler : sljit_compiler)
    (dst dstw : Int) : Int :=
  if cfg.argument_checks then
    if FUNCTION_CHECK_DST cfg compiler dst dstw then 0 else 1
  else 0

/-- The function `check_sljit_emit_fast_return`. -/
def check_sljit_emit_fast_return (cfg : Config) (compiler : sljit_compiler)
    (src srcw : Int) : Int :=
  if cfg.argument_checks then
    if FUNCTION_CHECK_SRC cfg compiler src srcw then 0 else 1
  else 0

/-- The function `check_sljit_emit_op0`. -/
def check_sljit_emit_op0 (cfg : Config) (compiler : sljit_compiler) (op : Int) : Int :=
  if cfg.argument_checks then
    if ((decide (op ≥ SLJIT_BREAKPOINT) && decide (op ≤ SLJIT_LSMUL))
          || (decide (Int.land op (Int.lnot SLJIT_INT_OP) ≥ SLJIT_LUDIV)
                && decide (Int.land op (Int.lnot SLJIT_INT_OP) ≤ SLJIT_LSDIV)))
        && (decide (op < SLJIT_LUMUL) || decide (compiler.scratches ≥ 2)) then 0
    else 1
  else 0

/-- The function `check_sljit_emit_fop1`, with the compiler it leaves; `fpu`
is the value of `sljit_is_fpu_available()`. -/
def check_sljit_emit_fop1 (cfg : Config) (fpu : Int) (compiler : sljit_compiler)
    (op dst dstw src srcw : Int) : Int × sljit_compiler :=
  if compiler.skip_checks ≠ 0 then (0, { compiler with skip_checks := 0 })
  else if cfg.argument_checks then
    if decide (fpu ≠ 0)
        && (decide (GET_OPCODE op ≥ SLJIT_DMOV) && decide (GET_OPCODE op ≤ SLJIT_DABS))
        && FUNCTION_CHECK_FOP op
        && FUNCTION_FCHECK cfg compiler src srcw
        && FUNCTION_FCHECK cfg compiler dst dstw then (0, compiler)
    else (1, compiler)
  else (0, compiler)

/-- The function `check_sljit_emit_fop1_cmp`, with the compiler it leaves. -/
def check_sljit_emit_fop1_cmp (cfg : Config) (fpu : Int) (compiler : sljit_compiler)
    (op src1 src1w src2 src2w : Int) : Int × sljit_compiler :=
  if compiler.skip_checks ≠ 0 then (0, { compiler with skip_checks := 0 })
  else if cfg.argument_checks then
    if decide (fpu ≠ 0)
        && decide (GET_OPCODE op = SLJIT_DCMP)
        && FUNCTION_CHECK_FOP op
        && FUNCTION_FCHECK cfg compiler src1 src1w
        && FUNCTION_FCHECK cfg compiler src2 src2w then (0, compiler)
    else (1, compiler)
  else (0, compiler)

/-- The function `check_sljit_emit_fop1_convw_fromd`, with the compiler it
leaves. -/
def check_sljit_emit_fop1_convw_fromd (cfg : Config) (fpu : Int) (compiler : sljit_compiler)
    (op dst dstw src srcw : Int) : Int × sljit_compiler :=
  if compiler.skip_checks ≠ 0 then (0, { compiler with skip_checks := 0 })
  else if cfg.argument_checks then
    if decide (fpu ≠ 0)
        && (decide (GET_OPCODE op ≥ SLJIT_CONVW_FROMD)
              && decide (GET_OPCODE op ≤ SLJIT_CONVI_FROMD))
        && FUNCTION_CHECK_FOP op
        && FUNCTION_FCHECK cfg compiler src srcw
        && FUNCTION_CHECK_DST cfg compiler dst dstw then (0, compiler)
    else (1, compiler)
  else (0, compiler)

/-- The function `check_sljit_emit_fop1_convd_fromw`, with the compiler it
leaves. -/
def check_sljit_emit_fop1_convd_fromw (cfg : Config) (fpu : Int) (compiler : sljit_compiler)
    (op dst dstw src srcw : Int) : Int × sljit_compiler :=
  if compiler.skip_checks ≠ 0 then (0, { compiler with skip_checks := 0 })
  else if cfg.argument_checks then
    if decide (fpu ≠ 0)
        && (decide (GET_OPCODE op ≥ SLJIT_CONVD_FROMW)
              && decide (GET_OPCODE op ≤ SLJIT_CONVD_FROMI))
        && FUNCTION_CHECK_FOP op
        && FUNCTION_CHECK_SRC cfg compiler src srcw
        && FUNCTION_FCHECK cfg compiler dst dstw then (0, compiler)
    else (1, compiler)
  else (0, compiler)

/-- The check that the macro `SELECT_FOP1_OPERATION_WITH_CHECKS` runs for `op`,
which is the check of `sljit_emit_fop1`. -/
def SELECT_FOP1_CHECK (cfg : Config) (fpu : Int) (compiler : sljit_compiler)
    (op dst dstw src srcw : Int) : Int × sljit_compiler :=
  if GET_OPCODE op ≥ SLJIT_CONVW_FROMD ∧ GET_OPCODE op ≤ SLJIT_DCMP then
    if GET_OPCODE op = SLJIT_DCMP then
      check_sljit_emit_fop1_cmp cfg fpu compiler op dst dstw src srcw
    else if Int.lor (GET_OPCODE op) 0x1 = SLJIT_CONVI_FROMD then
      check_sljit_emit_fop1_convw_fromd cfg fpu compiler op dst dstw src srcw
    else check_sljit_emit_fop1_convd_fromw cfg fpu compiler op dst dstw src srcw
  else check_sljit_emit_fop1 cfg fpu compiler op dst dstw src srcw

/-- The function `check_sljit_emit_fop2`. -/
def check_sljit_emit_fop2 (cfg : Config) (fpu : Int) (compiler : sljit_compiler)
    (op dst dstw src1 src1w src2 src2w : Int) : Int :=
  if cfg.argument_checks then
    if decide (fpu ≠ 0)
        && (decide (GET_OPCODE op ≥ SLJIT_DADD) && decide (GET_OPCODE op ≤ SLJIT_DDIV))
        && FUNCTION_CHECK_FOP op
        && FUNCTION_FCHECK cfg compiler src1 src1w
        && FUNCTION_FCHECK cfg compiler src2 src2w
        && FUNCTION_FCHECK cfg compiler dst dstw then 0
    else 1
  else 0

/-- The function `check_sljit_emit_jump`, with the compiler it leaves. -/
def check_sljit_emit_jump (cfg : Config) (compiler : sljit_compiler) (type : Int) :
    Int × sljit_compiler :=
  if compiler.skip_checks ≠ 0 then (0, { compiler with skip_checks := 0 })
  else if cfg.argument_checks then
    if decide (Int.land type
          (Int.lnot (Int.lor (Int.lor 0xff SLJIT_REWRITABLE_JUMP) SLJIT_INT_OP)) = 0)
        && (decide (Int.land type 0xff ≥ SLJIT_EQUAL)
              && decide (Int.land type 0xff ≤ SLJIT_CALL3))
        && (decide (Int.land type 0xff < SLJIT_JUMP)
              || decide (Int.land type SLJIT_INT_OP = 0)) then (0, compiler)
    else (1, compiler)
  else (0, compiler)

/-- The function `check_sljit_emit_ijump`, with the compiler it leaves. -/
def check_sljit_emit_ijump (cfg : Config) (compiler : sljit_compiler)
    (type src srcw : Int) : Int × sljit_compiler :=
  if compiler.skip_checks ≠ 0 then (0, { compiler with skip_checks := 0 })
  else if cfg.argument_checks then
    if (decide (type ≥ SLJIT_JUMP) && decide (type ≤ SLJIT_CALL3))
        && FUNCTION_CHECK_SRC cfg compiler src srcw then (0, compiler)
    else (1, compiler)
  else (0, compiler)

/-- The function `check_sljit_emit_const`. -/
def check_sljit_emit_const (cfg : Config) (compiler : sljit_compiler)
    (dst dstw _init_value : Int) : Int :=
  if cfg.argument_checks then
    if FUNCTION_CHECK_DST cfg compiler dst dstw then 0 else 1
  else 0

/-- The macro `CHECK(x)` of a build with argument checks or verbose output: a
non-zero `x` is stored as `SLJIT_ERR_BAD_ARGUMENT` and ends the function
with that value (`some`); otherwise control goes on (`none`). -/
def CHECK (compiler : sljit_compiler) (x : Int) : Option (Int × sljit_compiler) :=
  if x ≠ 0 then
    some (SLJIT_ERR_BAD_ARGUMENT, { compiler with error := SLJIT_ERR_BAD_ARGUMENT })
  else none

/-! ## The back end -/

/-- The functions of the per-architecture back end (`sljitNativeX86_common.c`
and its siblings, included by `sljitLir.c`) that the architecture
independent code calls. Each takes the compiler and the allocator state
and returns its C result with the new compiler and allocator state; a
returned jump is the pointer to its record, `none` for `NULL`. -/
structure Emitter where
  sljit_is_fpu_available : Int
  sljit_emit_op1 : sljit_compiler → (op dst dstw src srcw : Int) → Heap →
    Int × sljit_compiler × Heap
  sljit_emit_op2 : sljit_compiler → (op dst dstw src1 src1w src2 src2w : Int) → Heap →
    Int × sljit_compiler × Heap
  sljit_emit_fop1 : sljit_compiler → (op dst dstw src srcw : Int) → Heap →
    Int × sljit_compiler × Heap
  sljit_emit_jump : sljit_compiler → (type : Int) → Heap →
    Option Ptr × sljit_compiler × Heap
  emit_cmp_to0 : sljit_compiler → (type src srcw : Int) → Heap →
    Option Ptr × sljit_compiler × Heap

/-- The macro `ADJUST_LOCAL_OFFSET(p, i)`: the new value of the `long` variable
`i`. `SLJIT_LOCALS_OFFSET` is a multiple of `sizeof(long)`, so an
`unsigned long`: `(i) += SLJIT_LOCALS_OFFSET` adds in `unsigned long`
arithmetic, which wraps around at `ULONG_MOD`, and converts the sum back to
`long`. Where `SLJIT_LOCALS_OFFSET` is the constant 0 the sum is `i`, which
the conversion leaves as it is. -/
def ADJUST_LOCAL_OFFSET (cfg : Config) (p i : Int) : Int :=
  if p = SLJIT_MEM1 (SLJIT_SP cfg) then to_long cfg (i + SLJIT_LOCALS_OFFSET cfg) else i

/-- The statement `compiler->skip_checks = 1;`, compiled when `SLJIT_VERBOSE` or
`SLJIT_ARGUMENT_CHECKS` is on. -/
def set_skip_checks (cfg : Config) (compiler : sljit_compiler) : sljit_compiler :=
  if cfg.verbose || cfg.argument_checks then { compiler with skip_checks := 1 } else compiler

/-- The function `emit_mov_before_return`. -/
def emit_mov_before_return (cfg : Config) (E : Emitter) (compiler : sljit_compiler)
    (op src srcw : Int) (h : Heap) : Int × sljit_compiler × Heap :=
  if op = SLJIT_UNUSED then (SLJIT_SUCCESS, compiler, h)
  else if cfg.is64 ∧ src = SLJIT_RETURN_REG ∧ (op = SLJIT_MOV ∨ op = SLJIT_MOV_P) then
    (SLJIT_SUCCESS, compiler, h)
  else if ¬ cfg.is64 ∧ src = SLJIT_RETURN_REG
      ∧ (op = SLJIT_MOV ∨ op = SLJIT_MOV_UI ∨ op = SLJIT_MOV_SI ∨ op = SLJIT_MOV_P) then
    (SLJIT_SUCCESS, compiler, h)
  else
    E.sljit_emit_op1 (set_skip_checks cfg compiler) op SLJIT_RETURN_REG 0 src srcw h

/-! ## Compare and branch -/

/-- The `switch (condition)` of `sljit_emit_cmp`: the condition to test once
the two operands are exchanged. -/
def swapped_condition (condition : Int) : Int :=
  if condition = SLJIT_LESS then SLJIT_GREATER
  else if condition = SLJIT_GREATER_EQUAL then SLJIT_LESS_EQUAL
  else if condition = SLJIT_GREATER then SLJIT_LESS
  else if condition = SLJIT_LESS_EQUAL then SLJIT_GREATER_EQUAL
  else if condition = SLJIT_SIG_LESS then SLJIT_SIG_GREATER
  else if condition = SLJIT_SIG_GREATER_EQUAL then SLJIT_SIG_LESS_EQUAL
  else if condition = SLJIT_SIG_GREATER then SLJIT_SIG_LESS
  else if condition = SLJIT_SIG_LESS_EQUAL then SLJIT_SIG_GREATER_EQUAL
  else condition

/-- The values of `condition`, `type`, `src1`, `src1w`, `src2`, `src2w` in
`sljit_emit_cmp`. -/
structure cmp_args where
  condition : Int
  type : Int
  src1 : Int
  src1w : Int
  src2 : Int
  src2w : Int
deriving DecidableEq, Repr

/-- The arguments of `sljit_emit_cmp` after `condition = type & 0xff;`. -/
def cmp_entry (type src1 src1w src2 src2w : Int) : cmp_args :=
  { condition := Int.land type 0xff, type := type,
    src1 := src1, src1w := src1w, src2 := src2, src2w := src2w }

/-- The block of `sljit_emit_cmp` that makes an immediate the second source:
`if ((src1 & SLJIT_IMM) && !(src2 & SLJIT_IMM)) { ... }`. -/
def cmp_imm_second (a : cmp_args) : cmp_args :=
  if Int.land a.src1 SLJIT_IMM ≠ 0 ∧ Int.land a.src2 SLJIT_IMM = 0 then
    { condition := swapped_condition a.condition,
      type := Int.lor (swapped_condition a.condition)
        (Int.land a.type (Int.lor SLJIT_INT_OP SLJIT_REWRITABLE_JUMP)),
      src1 := a.src2, src1w := a.src2w, src2 := a.src1, src2w := a.src1w }
  else a

/-- The flag that the subtraction of `sljit_emit_cmp` sets, for `condition`. -/
def cmp_flags (condition : Int) : Int :=
  if condition ≤ SLJIT_NOT_ZERO then SLJIT_SET_E
  else if condition ≤ SLJIT_LESS_EQUAL then SLJIT_SET_U
  else SLJIT_SET_S

/-- The default path of `sljit_emit_cmp`, from the exchange of the operands
on: the subtraction and the jump. -/
def emit_cmp_default (cfg : Config) (E : Emitter) (compiler : sljit_compiler)
    (a : cmp_args) (h : Heap) : Option Ptr × sljit_compiler × Heap :=
  let a := cmp_imm_second a
  let flags := cmp_flags a.condition
  match E.sljit_emit_op2 (set_skip_checks cfg compiler)
      (Int.lor (Int.lor SLJIT_SUB flags) (Int.land a.type SLJIT_INT_OP))
      SLJIT_UNUSED 0 a.src1 a.src1w a.src2 a.src2w h with
  | (r, c1, h1) =>
    if r ≠ 0 then (none, c1, h1)
    else E.sljit_emit_jump (set_skip_checks cfg c1)
      (Int.lor a.condition (Int.land a.type SLJIT_REWRITABLE_JUMP)) h1

/-- The first `if` of the ARM64 block of `sljit_emit_cmp`: an immediate zero
first source becomes the second source. -/
def cmp_zero_second (a : cmp_args) : cmp_args :=
  if Int.land a.src1 SLJIT_IMM ≠ 0 ∧ a.src1w = 0 then
    { a with src1 := a.src2, src1w := a.src2w, src2 := SLJIT_IMM, src2w := 0 }
  else a

/-- Whether `sljit_emit_cmp` leaves through `return emit_cmp_to0(...)`, the
ARM64 comparison with zero. -/
def cmp_to0_path (cfg : Config) (a : cmp_args) : Prop :=
  cfg.arch = Arch.ARM_64 ∧ (a.condition = SLJIT_EQUAL ∨ a.condition = SLJIT_NOT_EQUAL)
    ∧ Int.land (cmp_zero_second a).src2 SLJIT_IMM ≠ 0 ∧ (cmp_zero_second a).src2w = 0

instance (cfg : Config) (a : cmp_args) : Decidable (cmp_to0_path cfg a) := by
  unfold cmp_to0_path; infer_instance

/-- The function `sljit_emit_cmp` of `sljitLir.c`, compiled when `SLJIT_CONFIG_MIPS`
is off. -/
def sljit_emit_cmp (cfg : Config) (E : Emitter) (compiler : sljit_compiler)
    (type src1 src1w src2 src2w : Int) (h : Heap) : Option Ptr × sljit_compiler × Heap :=
  if compiler.error ≠ 0 then (none, compiler, h)
  else if cfg.argument_checks
      ∧ check_sljit_emit_cmp cfg compiler type src1 src1w src2 src2w ≠ 0 then
    (none, { compiler with error := SLJIT_ERR_BAD_ARGUMENT }, h)
  else
    let a := cmp_entry type src1 src1w src2 src2w
    if cfg.arch = Arch.ARM_64 ∧ (a.condition = SLJIT_EQUAL ∨ a.condition = SLJIT_NOT_EQUAL) then
      let a := cmp_zero_second a
      if Int.land a.src2 SLJIT_IMM ≠ 0 ∧ a.src2w = 0 then
        E.emit_cmp_to0 compiler a.type a.src1 a.src1w h
      else emit_cmp_default cfg E compiler a h
    else emit_cmp_default cfg E compiler a h

/-- The function `sljit_emit_fcmp` of `sljitLir.c`, compiled when `SLJIT_CONFIG_MIPS`
is off. The result of `sljit_emit_fop1` is not looked at. -/
def sljit_emit_fcmp (cfg : Config) (E : Emitter) (compiler : sljit_compiler)
    (type src1 src1w src2 src2w : Int) (h : Heap) : Option Ptr × sljit_compiler × Heap :=
  if compiler.error ≠ 0 then (none, compiler, h)
  else if cfg.argument_checks
      ∧ check_sljit_emit_fcmp cfg E.sljit_is_fpu_available compiler
          type src1 src1w src2 src2w ≠ 0 then
    (none, { compiler with error := SLJIT_ERR_BAD_ARGUMENT }, h)
  else
    let condition := Int.land type 0xff
    let flags := if condition ≤ SLJIT_D_NOT_EQUAL then SLJIT_SET_E else SLJIT_SET_S
    let flags := if Int.land type SLJIT_SINGLE_OP ≠ 0 then Int.lor flags SLJIT_SINGLE_OP
      else flags
    match E.sljit_emit_fop1 (set_skip_checks cfg compiler) (Int.lor SLJIT_DCMP flags)
        src1 src1w src2 src2w h with
    | (_, c1, h1) =>
      E.sljit_emit_jump (set_skip_checks cfg c1)
        (Int.lor condition (Int.land type SLJIT_REWRITABLE_JUMP)) h1

/-- The function `sljit_get_local_base` of `sljitLir.c`, compiled when `SLJIT_CONFIG_X86`
is off. -/
def sljit_get_local_base (cfg : Config) (E : Emitter) (compiler : sljit_compiler)
    (dst dstw offset : Int) (h : Heap) : Int × sljit_compiler × Heap :=
  if compiler.error ≠ 0 then (compiler.error, compiler, h)
  else if cfg.argument_checks
      ∧ check_sljit_get_local_base cfg compiler dst dstw offset ≠ 0 then
    (SLJIT_ERR_BAD_ARGUMENT, { compiler with error := SLJIT_ERR_BAD_ARGUMENT }, h)
  else
    let offset := ADJUST_LOCAL_OFFSET cfg (SLJIT_MEM1 (SLJIT_SP cfg)) offset
    if offset ≠ 0 then
      E.sljit_emit_op2 (set_skip_checks cfg compiler) (Int.lor SLJIT_ADD SLJIT_KEEP_FLAGS)
        dst dstw (SLJIT_SP cfg) 0 SLJIT_IMM offset h
    else
      E.sljit_emit_op1 (set_skip_checks cfg compiler) SLJIT_MOV dst dstw (SLJIT_SP cfg) 0 h

/-! ## Labels, jumps and constants

The records of the labels, jumps and constants of a compiler live in its
auxiliary buffer. The embedding keeps the records of one kind as a function
from their pointers to their values. -/

/-- The C type `struct sljit_label`. -/
structure sljit_label where
  next : Option Ptr
  addr : Nat
  size : Nat
deriving DecidableEq, Repr

/-- The C type `struct sljit_const`. -/
structure sljit_const where
  next : Option Ptr
  addr : Nat
deriving DecidableEq, Repr

/-- The assignment `*p = v` on the records of one kind. -/
def store_record {α : Type} (m : Ptr → α) (p : Ptr) (v : α) : Ptr → α :=
  fun q => if q = p then v else m q

/-- The function `set_label`: the compiler and the label records that it
leaves. -/
def set_label (label : Ptr) (compiler : sljit_compiler) (m : Ptr → sljit_label) :
    sljit_compiler × (Ptr → sljit_label) :=
  let m1 := store_record m label { m label with next := none }
  let m2 := store_record m1 label { m1 label with size := compiler.size }
  match compiler.last_label with
  | some last =>
    ({ compiler with last_label := some label },
     store_record m2 last { m2 last with next := some label })
  | none => ({ compiler with labels := some label, last_label := some label }, m2)

/-- The function `set_jump`: the compiler and the jump records that it leaves. -/
def set_jump (jump : Ptr) (compiler : sljit_compiler) (flags : Int) (m : Ptr → sljit_jump) :
    sljit_compiler × (Ptr → sljit_jump) :=
  let m1 := store_record m jump { m jump with next := none }
  let m2 := store_record m1 jump { m1 jump with flags := flags }
  match compiler.last_jump with
  | some last =>
    ({ compiler with last_jump := some jump },
     store_record m2 last { m2 last with next := some jump })
  | none => ({ compiler with jumps := some jump, last_jump := some jump }, m2)

/-- The function `set_const`: the compiler and the constant records that it
leaves. -/
def set_const (const_ : Ptr) (compiler : sljit_compiler) (m : Ptr → sljit_const) :
    sljit_compiler × (Ptr → sljit_const) :=
  let m1 := store_record m const_ { m const_ with next := none }
  let m2 := store_record m1 const_ { m1 const_ with addr := compiler.size }
  match compiler.last_const with
  | some last =>
    ({ compiler with last_const := some const_ },
     store_record m2 last { m2 last with next := some const_ })
  | none => ({ compiler with consts := some const_, last_const := some const_ }, m2)

/-- The pointers that a loop `for (p = head; p; p = p->next)` visits, `fuel` of
them at most; `next` reads the member `next` of a record. -/
def traverse (next : Ptr → Option Ptr) : Nat → Option Ptr → List Ptr
  | 0, _ => []
  | _ + 1, none => []
  | fuel + 1, some p => p :: traverse next fuel (next p)

/-- The list that starts at `head` holds the records `l`, in this order, and
the last of them has `next == NULL`. -/
def is_list (next : Ptr → Option Ptr) : Option Ptr → List Ptr → Prop
  | head, [] => head = none
  | head, p :: rest => head = some p ∧ is_list next (next p) rest

/-- Calls of `set_label` in a row. A call is the pointer to the new record
and the value that `compiler->size` has when the call is made; the
instructions emitted between two calls change the counter. -/
def set_labels : sljit_compiler → (Ptr → sljit_label) → List (Ptr × Nat) →
    sljit_compiler × (Ptr → sljit_label)
  | compiler, m, [] => (compiler, m)
  | compiler, m, (label, size) :: rest =>
    match set_label label { compiler with size := size } m with
    | (c1, m1) => set_labels c1 m1 rest

/-- Calls of `set_jump` in a row. A call is the pointer to the new record and
the `flags` argument. -/
def set_jumps : sljit_compiler → (Ptr → sljit_jump) → List (Ptr × Int) →
    sljit_compiler × (Ptr → sljit_jump)
  | compiler, m, [] => (compiler, m)
  | compiler, m, (jump, flags) :: rest =>
    match set_jump jump compiler flags m with
    | (c1, m1) => set_jumps c1 m1 rest

/-- Calls of `set_const` in a row. A call is the pointer to the new record
and the value that `compiler->size` has when the call is made. -/
def set_consts : sljit_compiler → (Ptr → sljit_const) → List (Ptr × Nat) →
    sljit_compiler × (Ptr → sljit_const)
  | compiler, m, [] => (compiler, m)
  | compiler, m, (const_, size) :: rest =>
    match set_const const_ { compiler with size := size } m with
    | (c1, m1) => set_consts c1 m1 rest

/-! ## Sequences of calls -/

/-- One call of `ensure_buf` or of `ensure_abuf`, with its size. -/
inductive ensure_call where
  | buf (size : Nat)
  | abuf (size : Nat)
deriving DecidableEq, Repr

/-- The size a call asks for. -/
def ensure_call.size : ensure_call → Nat
  | ensure_call.buf n => n
  | ensure_call.abuf n => n

/-- The call made. -/
def ensure_call.run (cfg : Config) (compiler : sljit_compiler) (call : ensure_call)
    (h : Heap) : Option Ptr × sljit_compiler × Heap :=
  match call with
  | ensure_call.buf n => ensure_buf cfg compiler n h
  | ensure_call.abuf n => ensure_abuf cfg compiler n h

/-- The chain a call works on. -/
def ensure_call.chain (call : ensure_call) (compiler : sljit_compiler) : fragment_list :=
  match call with
  | ensure_call.buf _ => compiler.buf
  | ensure_call.abuf _ => compiler.abuf

/-- A sequence of calls made one after the other: the returned pointers in
call order, and the final state. -/
def ensure_calls (cfg : Config) (compiler : sljit_compiler) (calls : List ensure_call)
    (h : Heap) : List (Option Ptr) × sljit_compiler × Heap :=
  match calls with
  | [] => ([], compiler, h)
  | call :: rest =>
    match call.run cfg compiler h with
    | (r, c1, h1) =>
      match ensure_calls cfg c1 rest h1 with
      | (rs, c2, h2) => (r :: rs, c2, h2)

/-- Two byte ranges, each a pointer and a length, share no byte. -/
def regions_disjoint (p : Ptr) (n : Nat) (q : Ptr) (m : Nat) : Prop :=
  p.block ≠ q.block ∨ p.off + n ≤ q.off ∨ q.off + m ≤ p.off

instance (p : Ptr) (n : Nat) (q : Ptr) (m : Nat) : Decidable (regions_disjoint p n q m) := by
  unfold regions_disjoint; infer_instance

/-- One call of `sljit_set_label` or of `sljit_set_target` on a jump. -/
inductive target_call where
  | set_label (label : Option Ptr)
  | set_target (target : Nat)
deriving DecidableEq, Repr

/-- The call made on the jump record. -/
def target_call.run (jump : Option sljit_jump) : target_call → Option sljit_jump
  | target_call.set_label label => sljit_set_label jump label
  | target_call.set_target target => sljit_set_target jump target

/-- A sequence of calls on one jump, made one after the other. -/
def target_calls (jump : Option sljit_jump) (calls : List target_call) : Option sljit_jump :=
  calls.foldl target_call.run jump

/-! ## The documented lowering of the compare helpers -/

/-- The lowering that `sljitLir.h` documents for `sljit_emit_cmp`: a
subtraction `op` of the two sources with destination `SLJIT_UNUSED`, and,
when it returns no error, a jump of type `jump_type`; when it returns an
error the result is `NULL` and no jump is emitted. -/
def sub_then_jump (cfg : Config) (E : Emitter) (compiler : sljit_compiler)
    (op src1 src1w src2 src2w jump_type : Int) (h : Heap) :
    Option Ptr × sljit_compiler × Heap :=
  match E.sljit_emit_op2 (set_skip_checks cfg compiler) op SLJIT_UNUSED 0
      src1 src1w src2 src2w h with
  | (r, c1, h1) =>
    if r ≠ 0 then (none, c1, h1)
    else E.sljit_emit_jump (set_skip_checks cfg c1) jump_type h1

/-- The flag the comparison `condition` needs, as the specification lists
it: `SLJIT_SET_E` for `EQUAL` and `NOT_EQUAL`, `SLJIT_SET_U` for `LESS` to
`LESS_EQUAL`, `SLJIT_SET_S` for `SIG_LESS` to `SIG_LESS_EQUAL`. -/
def cmp_flag_spec (condition : Int) : Int :=
  if condition = SLJIT_EQUAL ∨ condition = SLJIT_NOT_EQUAL then SLJIT_SET_E
  else if SLJIT_LESS ≤ condition ∧ condition ≤ SLJIT_LESS_EQUAL then SLJIT_SET_U
  else if SLJIT_SIG_LESS ≤ condition ∧ condition ≤ SLJIT_SIG_LESS_EQUAL then SLJIT_SET_S
  else 0

/-- The lowering that `sljitLir.h` documents for `sljit_emit_fcmp`: the
comparison `op` of the two sources, followed by a jump of type `jump_type`. -/
def fcmp_then_jump (cfg : Config) (E : Emitter) (compiler : sljit_compiler)
    (op src1 src1w src2 src2w jump_type : Int) (h : Heap) :
    Option Ptr × sljit_compiler × Heap :=
  match E.sljit_emit_fop1 (set_skip_checks cfg compiler) op src1 src1w src2 src2w h with
  | (_, c1, h1) => E.sljit_emit_jump (set_skip_checks cfg c1) jump_type h1

/-- The flag the floating point relation `condition` needs, as the
specification lists it: `SLJIT_SET_E` for `D_EQUAL` and `D_NOT_EQUAL`,
`SLJIT_SET_S` for `D_LESS` to `D_ORDERED`. -/
def fcmp_flag_spec (condition : Int) : Int :=
  if condition = SLJIT_D_EQUAL ∨ condition = SLJIT_D_NOT_EQUAL then SLJIT_SET_E
  else if SLJIT_D_LESS ≤ condition ∧ condition ≤ SLJIT_D_ORDERED then SLJIT_SET_S
  else 0

/-! ## Well-formed buffers -/

/-- The fragments of both buffers of a compiler. -/
def sljit_compiler.fragments (compiler : sljit_compiler) : List sljit_memory_fragment :=
  compiler.buf.toList ++ compiler.abuf.toList

/-- The state of the two fragment buffers that `sljit_create_compiler`
establishes and the `ensure` calls keep: every fragment is within its
capacity and has a `memory` array of that capacity, and the fragments
live in distinct blocks that the allocator has handed out. -/
structure buffers_ok (cfg : Config) (compiler : sljit_compiler) (h : Heap) : Prop where
  buf_size : ∀ f ∈ compiler.buf.toList, f.used_size ≤ BUF_CAPACITY cfg
  buf_memory : ∀ f ∈ compiler.buf.toList, f.memory.length = BUF_CAPACITY cfg
  abuf_size : ∀ f ∈ compiler.abuf.toList, f.used_size ≤ ABUF_CAPACITY cfg
  abuf_memory : ∀ f ∈ compiler.abuf.toList, f.memory.length = ABUF_CAPACITY cfg
  below : ∀ f ∈ compiler.fragments, f.block < h.next_block
  nodup : (compiler.fragments.map sljit_memory_fragment.block).Nodup

/-- The chain `l1` holds every fragment of the chain `l`, in the same block
and with the same `memory`, and with at least its `used_size`. -/
def chain_extends (l l1 : fragment_list) : Prop :=
  ∀ f ∈ l.toList, ∃ f1 ∈ l1.toList,
    f1.block = f.block ∧ f1.memory = f.memory ∧ f.used_size ≤ f1.used_size

/-- The test `used_size + size <= BUF_SIZE - offsetof(memory)` of `ensure_buf`:
the head fragment has room for `size` more bytes. -/
def buf_has_room (cfg : Config) (compiler : sljit_compiler) (size : Nat) : Prop :=
  (compiler.buf.head.used_size + size) % ULONG_MOD cfg ≤ BUF_CAPACITY cfg

/-- The test `used_size + size <= ABUF_SIZE - offsetof(memory)` of
`ensure_abuf`. -/
def abuf_has_room (cfg : Config) (compiler : sljit_compiler) (size : Nat) : Prop :=
  (compiler.abuf.head.used_size + size) % ULONG_MOD cfg ≤ ABUF_CAPACITY cfg

instance (cfg : Config) (compiler : sljit_compiler) (size : Nat) :
    Decidable (buf_has_room cfg compiler size) := by
  unfold buf_has_room; infer_instance

instance (cfg : Config) (compiler : sljit_compiler) (size : Nat) :
    Decidable (abuf_has_room cfg compiler size) := by
  unfold abuf_has_room; infer_instance

/-! ## Conditional types -/

/-- The table `jump_names` of `sljitLir.c`: the name of each jump type. -/
def jump_names : List String :=
  ["equal", "not_equal",
   "less", "greater_equal",
   "greater", "less_equal",
   "sig_less", "sig_greater_equal",
   "sig_greater", "sig_less_equal",
   "overflow", "not_overflow",
   "mul_overflow", "mul_not_overflow",
   "equal", "not_equal",
   "less", "greater_equal",
   "greater", "less_equal",
   "unordered", "ordered",
   "jump", "fast_call",
   "call0", "call1", "call2", "call3"]

/-- The inversion of a conditional type that `sljitLir.h` documents: xor with
0x1. -/
def invert_condition (type : Int) : Int := Int.xor type 0x1

/-- The value of a machine word as a signed `long`. -/
def word_signed (cfg : Config) (a : Nat) : Int :=
  if a % ULONG_MOD cfg < ULONG_MOD cfg / 2 then ((a % ULONG_MOD cfg : Nat) : Int)
  else ((a % ULONG_MOD cfg : Nat) : Int) - (ULONG_MOD cfg : Int)

/-- Modelled from the spec: the relation that an integer comparison type
(`SLJIT_EQUAL` .. `SLJIT_SIG_LESS_EQUAL`) denotes on two machine words, the
one its name says, unsigned for the types without `SIG`. The back ends that
turn a type into a condition of the CPU are not part of the sources at hand.
Every other type gives `false`. -/
def condition_holds (cfg : Config) (type : Int) (a b : Nat) : Bool :=
  if type = SLJIT_EQUAL then decide (a % ULONG_MOD cfg = b % ULONG_MOD cfg)
  else if type = SLJIT_NOT_EQUAL then decide (a % ULONG_MOD cfg ≠ b % ULONG_MOD cfg)
  else if type = SLJIT_LESS then decide (a % ULONG_MOD cfg < b % ULONG_MOD cfg)
  else if type = SLJIT_GREATER_EQUAL then decide (a % ULONG_MOD cfg ≥ b % ULONG_MOD cfg)
  else if type = SLJIT_GREATER then decide (a % ULONG_MOD cfg > b % ULONG_MOD cfg)
  else if type = SLJIT_LESS_EQUAL then decide (a % ULONG_MOD cfg ≤ b % ULONG_MOD cfg)
  else if type = SLJIT_SIG_LESS then decide (word_signed cfg a < word_signed cfg b)
  else if type = SLJIT_SIG_GREATER_EQUAL then decide (word_signed cfg a ≥ word_signed cfg b)
  else if type = SLJIT_SIG_GREATER then decide (word_signed cfg a > word_signed cfg b)
  else if type = SLJIT_SIG_LESS_EQUAL then decide (word_signed cfg a ≤ word_signed cfg b)
  else false

/-! ## The stack utility (`sljitUtils.c`) -/

/-- The C type `struct sljit_stack`. -/
structure sljit_stack where
  top : Nat
  base : Nat
  limit : Nat
  max_limit : Nat
deriving DecidableEq, Repr

/-- The operating system under `sljitUtils.c` and the preprocessor symbols
that select its code. `win32` is `_WIN32` and `map_anon` is `MAP_ANON` being
defined; `page_size` is `si.dwPageSize` on Windows and the value of
`sysconf(_SC_PAGESIZE)` elsewhere; `open_result` is the value of
`open("/dev/zero", O_RDWR)`; `reserve n` is the pointer that
`VirtualAlloc(NULL, n, MEM_RESERVE, PAGE_READWRITE)` or `mmap(NULL, n, ..)`
returns, as an `unsigned long`; `commit a n` and `decommit a n` tell whether
`VirtualAlloc(a, n, MEM_COMMIT, PAGE_READWRITE)` and
`VirtualFree(a, n, MEM_DECOMMIT)` succeed. The calls of `madvise` and
`posix_madvise` change no value of the program; their arguments are
`sljit_stack_resize_madvise`. -/
structure StackSystem where
  win32 : Bool
  map_anon : Bool
  page_size : Int
  open_result : Int
  reserve : Nat → Nat
  commit : Nat → Nat → Bool
  decommit : Nat → Nat → Bool

/-- The static variables `uintptr_tage_align` and `dev_zero` of
`sljitUtils.c`. -/
structure StackStatics where
  uintptr_tage_align : Int
  dev_zero : Int
deriving DecidableEq, Repr

/-- The static variables when the program starts. -/
def initial_statics : StackStatics := { uintptr_tage_align := 0, dev_zero := -1 }

/-- The expression `(x + uintptr_tage_align) & ~uintptr_tage_align` for an
`unsigned long` value `x`. -/
def align_to_page (cfg : Config) (uintptr_tage_align : Int) (x : Nat) : Nat :=
  ((x + to_ulong cfg uintptr_tage_align) % ULONG_MOD cfg)
    &&& to_ulong cfg (Int.lnot uintptr_tage_align)

/-- The pointer `MAP_FAILED`, which is `(void*)-1`, as an `unsigned long`. -/
def MAP_FAILED (cfg : Config) : Nat := ULONG_MOD cfg - 1

/-- The function `sljit_stack_resize`, with the descriptor it leaves. -/
def sljit_stack_resize (cfg : Config) (sys : StackSystem) (st : StackStatics)
    (stack : sljit_stack) (new_limit : Nat) : Int × sljit_stack :=
  if new_limit > stack.max_limit ∨ new_limit < stack.base then (-1, stack)
  else if sys.win32 then
    let aligned_new_limit := align_to_page cfg st.uintptr_tage_align new_limit
    let aligned_old_limit := align_to_page cfg st.uintptr_tage_align stack.limit
    if aligned_new_limit ≠ aligned_old_limit then
      if aligned_new_limit > aligned_old_limit then
        if !sys.commit aligned_old_limit (aligned_new_limit - aligned_old_limit) then
          (-1, stack)
        else (0, { stack with limit := new_limit })
      else
        if !sys.decommit aligned_new_limit (aligned_old_limit - aligned_new_limit) then
          (-1, stack)
        else (0, { stack with limit := new_limit })
    else (0, { stack with limit := new_limit })
  else
    if new_limit ≥ stack.limit then (0, { stack with limit := new_limit })
    else (0, { stack with limit := new_limit })

/-- The call of `madvise` or `posix_madvise` that `sljit_stack_resize` makes: its
address and its length, `none` when the function makes no such call.
`dontneed` tells whether `MADV_DONTNEED` or `POSIX_MADV_DONTNEED` is
defined. -/
def sljit_stack_resize_madvise (cfg : Config) (sys : StackSystem) (st : StackStatics)
    (dontneed : Bool) (stack : sljit_stack) (new_limit : Nat) : Option (Nat × Nat) :=
  if new_limit > stack.max_limit ∨ new_limit < stack.base then none
  else if sys.win32 then none
  else
    if new_limit ≥ stack.limit then none
    else
      let aligned_new_limit := align_to_page cfg st.uintptr_tage_align new_limit
      let aligned_old_limit := align_to_page cfg st.uintptr_tage_align stack.limit
      if dontneed then
        if aligned_new_limit < aligned_old_limit then
          some (aligned_new_limit, aligned_old_limit - aligned_new_limit)
        else none
      else none

/-- Calls of `sljit_stack_resize` in a row on one descriptor, each with its
`new_limit`: the descriptor after the last call. -/
def stack_resizes (cfg : Config) (sys : StackSystem) (st : StackStatics) :
    sljit_stack → List Nat → sljit_stack
  | stack, [] => stack
  | stack, new_limit :: rest =>
    stack_resizes cfg sys st (sljit_stack_resize cfg sys st stack new_limit).2 rest

/-- The first use of `uintptr_tage_align` in `sljit_allocate_stack`: the page
size less one, of `GetSystemInfo` in `DWORD` arithmetic on Windows and of
`sysconf` elsewhere, where a negative page size counts as 4096. -/
def page_align_setup (cfg : Config) (sys : StackSystem) (st : StackStatics) : StackStatics :=
  if st.uintptr_tage_align = 0 then
    if sys.win32 then
      { st with uintptr_tage_align := to_long cfg ((sys.page_size - 1) % 4294967296) }
    else
      { st with uintptr_tage_align := (if sys.page_size < 0 then 4096 else sys.page_size) - 1 }
  else st

/-- The function `sljit_allocate_stack`: `none` is `NULL`, and `some` holds the
block of the descriptor and the descriptor. The member `top` is not read
before it is set. -/
def sljit_allocate_stack (cfg : Config) (sys : StackSystem) (st : StackStatics) (h : Heap)
    (limit max_limit : Nat) : Option (Nat × sljit_stack) × StackStatics × Heap :=
  if limit > max_limit ∨ limit < 1 then (none, st, h)
  else
    let st1 := page_align_setup cfg sys st
    let max_limit1 := align_to_page cfg st1.uintptr_tage_align max_limit
    match malloc h (4 * cfg.long_size) with
    | (none, h1) => (none, st1, h1)
    | (some (block, _), h1) =>
      if sys.win32 then
        if sys.reserve max_limit1 = 0 then (none, st1, free h1 block)
        else
          match sljit_stack_resize cfg sys st1
              { top := 0, base := sys.reserve max_limit1, limit := sys.reserve max_limit1,
                max_limit := (sys.reserve max_limit1 + max_limit1) % ULONG_MOD cfg }
              ((sys.reserve max_limit1 + limit) % ULONG_MOD cfg) with
          | (r, stack) =>
            if r ≠ 0 then (none, st1, free h1 block)
            else (some (block, { stack with top := stack.base }), st1, h1)
      else
        let st2 :=
          if sys.map_anon then st1
          else if st1.dev_zero < 0 then { st1 with dev_zero := sys.open_result }
          else st1
        if st2.dev_zero < 0 ∧ ¬ sys.map_anon = true then (none, st2, free h1 block)
        else if sys.reserve max_limit1 = MAP_FAILED cfg then (none, st2, free h1 block)
        else
          (some (block,
             { top := sys.reserve max_limit1, base := sys.reserve max_limit1,
               limit := (sys.reserve max_limit1 + limit) % ULONG_MOD cfg,
               max_limit := (sys.reserve max_limit1 + max_limit1) % ULONG_MOD cfg }),
           st2, h1)

/-! ## The unsupported configuration

The functions that `sljitLir.c` defines under `SLJIT_CONFIG_UNSUPPORTED`, in
the namespace `Unsupported`. Their first statement is `SLJIT_ASSERT_STOP()`,
which `sljitConfigInternal.h` makes empty without `SLJIT_DEBUG` and a halt of
the process with it; `debug` is `SLJIT_DEBUG`. A pointer to a compiler is an
argument that no function reads. -/

/-- What a call does: it returns a value, or `SLJIT_HALT_PROCESS()` ends the
process before the call returns. -/
inductive Outcome (α : Type) where
  | returns (value : α)
  | halts
deriving DecidableEq, Repr

namespace Unsupported

/-- The macro `SLJIT_ASSERT_STOP()`, followed by the statements `rest`. -/
def SLJIT_ASSERT_STOP {α : Type} (debug : Bool) (rest : Outcome α) : Outcome α :=
  if debug then Outcome.halts else rest

def sljit_get_platform_name : String := "unsupported"

def sljit_create_compiler (debug : Bool) : Outcome (Option Ptr) :=
  SLJIT_ASSERT_STOP debug (Outcome.returns none)

def sljit_alloc_memory (debug : Bool) (_compiler : Option Ptr) (_size : Int) :
    Outcome (Option Ptr) :=
  SLJIT_ASSERT_STOP debug (Outcome.returns none)

def sljit_generate_code (debug : Bool) (_compiler : Option Ptr) :
    Outcome (Option Ptr) :=
  SLJIT_ASSERT_STOP debug (Outcome.returns none)

def sljit_emit_label (debug : Bool) (_compiler : Option Ptr) :
    Outcome (Option Ptr) :=
  SLJIT_ASSERT_STOP debug (Outcome.returns none)

def sljit_emit_jump (debug : Bool) (_compiler : Option Ptr) (_type : Int) :
    Outcome (Option Ptr) :=
  SLJIT_ASSERT_STOP debug (Outcome.returns none)

def sljit_emit_cmp (debug : Bool) (_compiler : Option Ptr) (_type _src1 _src1w _src2 _src2w : Int) :
    Outcome (Option Ptr) :=
  SLJIT_ASSERT_STOP debug (Outcome.returns none)

def sljit_emit_fcmp (debug : Bool) (_compiler : Option Ptr) (_type _src1 _src1w _src2 _src2w : Int) :
    Outcome (Option Ptr) :=
  SLJIT_ASSERT_STOP debug (Outcome.returns none)

def sljit_emit_const (debug : Bool) (_compiler : Option Ptr) (_dst _dstw _initval : Int) :
    Outcome (Option Ptr) :=
  SLJIT_ASSERT_STOP debug (Outcome.returns none)

def sljit_emit_enter (debug : Bool) (_compiler : Option Ptr)
    (_options _args _scratches _saveds _fscratches _fsaveds _local_size : Int) : Outcome Int :=
  SLJIT_ASSERT_STOP debug (Outcome.returns SLJIT_ERR_UNSUPPORTED)

def sljit_set_context (debug : Bool) (_compiler : Option Ptr)
    (_options _args _scratches _saveds _fscratches _fsaveds _local_size : Int) : Outcome Int :=
  SLJIT_ASSERT_STOP debug (Outcome.returns SLJIT_ERR_UNSUPPORTED)

def sljit_emit_return (debug : Bool) (_compiler : Option Ptr)
    (_op _src _srcw : Int) : Outcome Int :=
  SLJIT_ASSERT_STOP debug (Outcome.returns SLJIT_ERR_UNSUPPORTED)

def sljit_emit_fast_enter (debug : Bool) (_compiler : Option Ptr)
    (_dst _dstw : Int) : Outcome Int :=
  SLJIT_ASSERT_STOP debug (Outcome.returns SLJIT_ERR_UNSUPPORTED)

def sljit_emit_fast_return (debug : Bool) (_compiler : Option Ptr)
    (_src _srcw : Int) : Outcome Int :=
  SLJIT_ASSERT_STOP debug (Outcome.returns SLJIT_ERR_UNSUPPORTED)

def sljit_emit_op0 (debug : Bool) (_compiler : Option Ptr)
    (_op : Int) : Outcome Int :=
  SLJIT_ASSERT_STOP debug (Outcome.returns SLJIT_ERR_UNSUPPORTED)

def sljit_emit_op1 (debug : Bool) (_compiler : Option Ptr)
    (_op _dst _dstw _src _srcw : Int) : Outcome Int :=
  SLJIT_ASSERT_STOP debug (Outcome.returns SLJIT_ERR_UNSUPPORTED)

def sljit_emit_op2 (debug : Bool) (_compiler : Option Ptr)
    (_op _dst _dstw _src1 _src1w _src2 _src2w : Int) : Outcome Int :=
  SLJIT_ASSERT_STOP debug (Outcome.returns SLJIT_ERR_UNSUPPORTED)

def sljit_emit_op_custom (debug : Bool) (_compiler : Option Ptr)
    (_instruction : Option Ptr) (_size : Int) : Outcome Int :=
  SLJIT_ASSERT_STOP debug (Outcome.returns SLJIT_ERR_UNSUPPORTED)

def sljit_emit_fop1 (debug : Bool) (_compiler : Option Ptr)
    (_op _dst _dstw _src _srcw : Int) : Outcome Int :=
  SLJIT_ASSERT_STOP debug (Outcome.returns SLJIT_ERR_UNSUPPORTED)

def sljit_emit_fop2 (debug : Bool) (_compiler : Option Ptr)
    (_op _dst _dstw _src1 _src1w _src2 _src2w : Int) : Outcome Int :=
  SLJIT_ASSERT_STOP debug (Outcome.returns SLJIT_ERR_UNSUPPORTED)

def sljit_emit_ijump (debug : Bool) (_compiler : Option Ptr)
    (_type _src _srcw : Int) : Outcome Int :=
  SLJIT_ASSERT_STOP debug (Outcome.returns SLJIT_ERR_UNSUPPORTED)

def sljit_emit_op_flags (debug : Bool) (_compiler : Option Ptr)
    (_op _dst _dstw _src _srcw _type : Int) : Outcome Int :=
  SLJIT_ASSERT_STOP debug (Outcome.returns SLJIT_ERR_UNSUPPORTED)

def sljit_get_local_base (debug : Bool) (_compiler : Option Ptr)
    (_dst _dstw _offset : Int) : Outcome Int :=
  SLJIT_ASSERT_STOP debug (Outcome.returns SLJIT_ERR_UNSUPPORTED)

end Unsupported

/-! ## The documented rules for modifier bits and operands -/

/-- The five modifier bits `SLJIT_SET_*`. -/
def SET_FLAGS : List Int :=
  [SLJIT_SET_E, SLJIT_SET_U, SLJIT_SET_S, SLJIT_SET_O, SLJIT_SET_C]

/-- The rule for the modifier bits of `op`, given the `SLJIT_SET_*` bits that
its opcode may request: `SLJIT_KEEP_FLAGS` comes with no `SLJIT_SET_*` bit,
and every `SLJIT_SET_*` bit of `op` is one of `legal`. -/
def flags_legal (legal : List Int) (op : Int) : Prop :=
  (Int.land op SLJIT_KEEP_FLAGS = 0 ∨ ∀ f ∈ SET_FLAGS, Int.land op f = 0)
    ∧ ∀ f ∈ SET_FLAGS, Int.land op f ≠ 0 → f ∈ legal

instance (legal : List Int) (op : Int) : Decidable (flags_legal legal op) := by
  unfold flags_legal
  infer_instance

/-- The `SLJIT_SET_*` bits that an op2 opcode may request. -/
def op2_legal_flags (opcode : Int) : List Int :=
  if opcode = SLJIT_ADD then [SLJIT_SET_E, SLJIT_SET_O, SLJIT_SET_C]
  else if opcode = SLJIT_ADDC ∨ opcode = SLJIT_SUBC then [SLJIT_SET_C]
  else if opcode = SLJIT_SUB then
    [SLJIT_SET_E, SLJIT_SET_U, SLJIT_SET_S, SLJIT_SET_O, SLJIT_SET_C]
  else if opcode = SLJIT_MUL then [SLJIT_SET_O]
  else if opcode = SLJIT_AND ∨ opcode = SLJIT_OR ∨ opcode = SLJIT_XOR
      ∨ opcode = SLJIT_SHL ∨ opcode = SLJIT_LSHR ∨ opcode = SLJIT_ASHR then [SLJIT_SET_E]
  else []

/-- The `SLJIT_SET_*` bits that an op1 opcode may request: none for a move. -/
def op1_legal_flags (opcode : Int) : List Int :=
  if opcode = SLJIT_NOT ∨ opcode = SLJIT_CLZ then [SLJIT_SET_E]
  else if opcode = SLJIT_NEG then [SLJIT_SET_E, SLJIT_SET_O]
  else []

/-- The moves that have an `SLJIT_INT_OP` form. -/
def int_op_moves : List Int :=
  [SLJIT_MOV_UB, SLJIT_MOV_SB, SLJIT_MOV_UH, SLJIT_MOV_SH, SLJIT_MOV_SI,
   SLJIT_MOVU_UB, SLJIT_MOVU_SB, SLJIT_MOVU_UH, SLJIT_MOVU_SH, SLJIT_MOVU_SI]

/-- The moves whose header comment reads `Flags: I`. -/
def flag_I_moves : List Int :=
  [SLJIT_MOV_UB, SLJIT_MOV_SB, SLJIT_MOV_UH, SLJIT_MOV_SH, SLJIT_MOV_UI, SLJIT_MOV_SI,
   SLJIT_MOVU_UB, SLJIT_MOVU_SB, SLJIT_MOVU_UH, SLJIT_MOVU_SH, SLJIT_MOVU_UI,
   SLJIT_MOVU_SI]

/-- A jump record with exactly one of `JUMP_LABEL` and `JUMP_ADDR` set. -/
def exactly_one_target (jump : sljit_jump) : Prop :=
  (Int.land jump.flags JUMP_LABEL ≠ 0 ∧ Int.land jump.flags JUMP_ADDR = 0)
    ∨ (Int.land jump.flags JUMP_LABEL = 0 ∧ Int.land jump.flags JUMP_ADDR ≠ 0)

instance (jump : sljit_jump) : Decidable (exactly_one_target jump) := by
  unfold exactly_one_target
  infer_instance

/-- The register counts of a compiler are those of a context that
`check_sljit_emit_enter` or `check_sljit_set_context` accepts. -/
def context_set (cfg : Config) (compiler : sljit_compiler) : Prop :=
  0 ≤ compiler.scratches ∧ 0 ≤ compiler.saveds
    ∧ compiler.scratches + compiler.saveds ≤ SLJIT_NUM_REGS cfg
    ∧ 0 ≤ compiler.fscratches ∧ 0 ≤ compiler.fsaveds
    ∧ compiler.fscratches + compiler.fsaveds ≤ SLJIT_NUM_FLOAT_REGS

instance (cfg : Config) (compiler : sljit_compiler) : Decidable (context_set cfg compiler) := by
  unfold context_set
  infer_instance

/-- The condition of `FUNCTION_CHECK_IS_REG(r)` as a function of the register
count of the target, which is the value of `SLJIT_S0`, and of the two counts
of the context. -/
def IS_REG_IN (num_regs scratches saveds r : Int) : Bool :=
  (decide (r ≥ SLJIT_R0) && decide (r < SLJIT_R0 + scratches))
    || (decide (r > num_regs - saveds) && decide (r ≤ num_regs))

/-! ## Sample values -/

/-- A 64-bit PowerPC build with argument checks. -/
def sample_config : Config :=
  { arch := Arch.PPC_64, long_size := 8, compiler_size := 256, argument_checks := true,
    verbose := false, fastcall := false, win64 := false, aix := false }

/-- The same build without argument checks. -/
def sample_config_unchecked : Config :=
  { sample_config with argument_checks := false }

/-- An allocator with memory for four blocks. -/
def sample_heap : Heap :=
  { next_block := 1, malloc_calls := 0,
    outcomes := [some [], some [], some [], some []], freed := [] }

/-- An allocator with memory for three blocks only. -/
def sample_heap_short : Heap :=
  { next_block := 1, malloc_calls := 0, outcomes := [some [], some [], some []], freed := [] }

/-- A compiler as `sljit_create_compiler` leaves it. -/
def sample_compiler : sljit_compiler :=
  initial_compiler
    { block := 2, used_size := 0, memory := List.replicate 4080 0 }
    { block := 3, used_size := 0, memory := List.replicate 4080 0 }

/-- A compiler on which an allocation has failed. -/
def sample_failed_compiler : sljit_compiler :=
  { sample_compiler with error := SLJIT_ERR_ALLOC_FAILED }

/-- A compiler on which a context of two scratch and one saved register and
sixteen bytes of locals is set. -/
def sample_entered_compiler : sljit_compiler :=
  { sample_compiler with scratches := 2, saveds := 1, fscratches := 2, fsaveds := 0,
                         local_size := 16, logical_local_size := 16 }

/-- A back end that counts the instructions it is asked for in `size` and
emits nothing. -/
def sample_emitter : Emitter :=
  { sljit_is_fpu_available := 1,
    sljit_emit_op1 := fun c _ _ _ _ _ h => (0, { c with size := c.size + 1, skip_checks := 0 }, h),
    sljit_emit_op2 := fun c _ _ _ _ _ _ _ h =>
      (0, { c with size := c.size + 1, skip_checks := 0 }, h),
    sljit_emit_fop1 := fun c _ _ _ _ _ h =>
      (0, { c with size := c.size + 1, skip_checks := 0 }, h),
    sljit_emit_jump := fun c _ h =>
      (some { block := c.abuf.head.block, off := 0 },
       { c with size := c.size + 1, skip_checks := 0 }, h),
    emit_cmp_to0 := fun c _ _ _ h =>
      (some { block := c.abuf.head.block, off := 0 },
       { c with size := c.size + 1, skip_checks := 0 }, h) }

/-- The back end `sample_emitter` with a `sljit_emit_op2` that also records
its operation word in `cache_arg` and the word of its second source in
`cache_argw`. -/
def sample_recording_emitter : Emitter :=
  { sample_emitter with
    sljit_emit_op2 := fun c op _ _ _ _ _ src2w h =>
      (0, { c with size := c.size + 1, skip_checks := 0, cache_arg := op,
                   cache_argw := src2w }, h) }

/-- A jump record with the rewritable bit and a patch bit set and no target. -/
def sample_jump : sljit_jump :=
  { next := none, addr := 0, flags := 0x1010, u := jump_u.target 0 }

/-- A jump record with both `JUMP_LABEL` and `JUMP_ADDR` set. -/
def sample_both_jump : sljit_jump :=
  { next := none, addr := 0, flags := 0x3, u := jump_u.target 0 }

/-- A jump record with `JUMP_LABEL` set. -/
def sample_label_jump : sljit_jump :=
  { next := none, addr := 0, flags := 0x1, u := jump_u.label { block := 3, off := 0 } }

/-- A compiler that holds one instruction. -/
def sample_sized_compiler : sljit_compiler :=
  { sample_compiler with size := 1 }

/-- A 32-bit x86 build with argument checks. -/
def sample_config_x86_32 : Config :=
  { arch := Arch.X86_32, long_size := 4, compiler_size := 256, argument_checks := true,
    verbose := false, fastcall := false, win64 := false, aix := false }

/-- A POSIX system with `MAP_ANON`, pages of 4096 bytes and a reservation at
the address 65536. -/
def sample_system : StackSystem :=
  { win32 := false, map_anon := true, page_size := 4096, open_result := 3,
    reserve := fun _ => 65536, commit := fun _ _ => true, decommit := fun _ _ => true }

/-- A stack descriptor of one committed page out of two. -/
def sample_stack : sljit_stack :=
  { top := 65536, base := 65536, limit := 69632, max_limit := 73728 }

/-- A stack descriptor as `sljit_allocate_stack` leaves it on `sample_system`
for a limit of 4096 and a maximum of 8000 bytes. -/
def sample_allocated_stack : sljit_stack :=
  { top := 65536, base := 65536, limit := 69632, max_limit := 73728 }

/-- The static variables after the first call of `sljit_allocate_stack` on
`sample_system`. -/
def sample_statics : StackStatics := { uintptr_tage_align := 4095, dev_zero := -1 }

/-- A stack descriptor of three pages with a limit inside the third. -/
def sample_wide_stack : sljit_stack :=
  { top := 65536, base := 65536, limit := 75000, max_limit := 77824 }

/-- Records of labels, all zero. -/
def sample_labels : Ptr → sljit_label := fun _ => { next := none, addr := 0, size := 0 }

/-- Records of jumps, all zero. -/
def sample_jumps : Ptr → sljit_jump :=
  fun _ => { next := none, addr := 0, flags := 0, u := jump_u.target 0 }

/-- Records of constants, all zero. -/
def sample_consts : Ptr → sljit_const := fun _ => { next := none, addr := 0 }

/-! # Theorems -/

/-! ## Bitwise identities on `Int` -/

/-- Two integers with the same bits are equal. -/
theorem int_eq_of_testBit_eq (a b : Int) (h : ∀ k, a.testBit k = b.testBit k) : a = b := by
  cases a with
  | ofNat m =>
    cases b with
    | ofNat n =>
      congr 1
      exact Nat.eq_of_testBit_eq (fun k => by simpa [Int.testBit] using h k)
    | negSucc n =>
      exfalso
      have hk := h (m + n)
      simp only [Int.testBit] at hk
      have h1 : m.testBit (m + n) = false :=
        Nat.testBit_lt_two_pow (lt_of_lt_of_le (Nat.lt_two_pow m) (Nat.pow_le_pow_right (by norm_num) (by omega)))
      have h2 : n.testBit (m + n) = false :=
        Nat.testBit_lt_two_pow (lt_of_lt_of_le (Nat.lt_two_pow n) (Nat.pow_le_pow_right (by norm_num) (by omega)))
      simp [h1, h2] at hk
  | negSucc m =>
    cases b with
    | ofNat n =>
      exfalso
      have hk := h (m + n)
      simp only [Int.testBit] at hk
      have h1 : m.testBit (m + n) = false :=
        Nat.testBit_lt_two_pow (lt_of_lt_of_le (Nat.lt_two_pow m) (Nat.pow_le_pow_right (by norm_num) (by omega)))
      have h2 : n.testBit (m + n) = false :=
        Nat.testBit_lt_two_pow (lt_of_lt_of_le (Nat.lt_two_pow n) (Nat.pow_le_pow_right (by norm_num) (by omega)))
      simp [h1, h2] at hk
    | negSucc n =>
      congr 1
      exact Nat.eq_of_testBit_eq (fun k => by simpa [Int.testBit] using h k)

theorem testBit_zero_int (k : Nat) : (0 : Int).testBit k = false := by
  show Nat.testBit 0 k = false
  simp

theorem land_lor_distrib (a b m : Int) :
    Int.land (Int.lor a b) m = Int.lor (Int.land a m) (Int.land b m) := by
  apply int_eq_of_testBit_eq
  intro k
  simp only [Int.testBit_land, Int.testBit_lor]
  cases a.testBit k <;> cases b.testBit k <;> cases m.testBit k <;> rfl

theorem land_land (a m n : Int) : Int.land (Int.land a m) n = Int.land a (Int.land m n) := by
  apply int_eq_of_testBit_eq
  intro k
  simp only [Int.testBit_land, Bool.and_assoc]

theorem lor_lor (a b c : Int) : Int.lor (Int.lor a b) c = Int.lor a (Int.lor b c) := by
  apply int_eq_of_testBit_eq
  intro k
  simp only [Int.testBit_lor, Bool.or_assoc]

theorem zero_lor (a : Int) : Int.lor 0 a = a := by
  apply int_eq_of_testBit_eq
  intro k
  rw [Int.testBit_lor, testBit_zero_int, Bool.false_or]

theorem lor_zero (a : Int) : Int.lor a 0 = a := by
  apply int_eq_of_testBit_eq
  intro k
  rw [Int.testBit_lor, testBit_zero_int, Bool.or_false]

theorem land_zero (a : Int) : Int.land a 0 = 0 := by
  apply int_eq_of_testBit_eq
  intro k
  rw [Int.testBit_land, testBit_zero_int, Bool.and_false]

theorem lor_land_self (a m : Int) : Int.lor (Int.land a m) m = m := by
  apply int_eq_of_testBit_eq
  intro k
  rw [Int.testBit_lor, Int.testBit_land]
  cases a.testBit k <;> cases m.testBit k <;> rfl

/-- The value of `t & 0x100` is 0 or 0x100. -/
theorem land_bit8 (t : Int) : Int.land t 0x100 = 0 ∨ Int.land t 0x100 = 0x100 := by
  have hbit : ∀ k, (0x100 : Int).testBit k = decide (8 = k) := by
    intro k
    show Nat.testBit (2 ^ 8) k = decide (8 = k)
    exact Nat.testBit_two_pow
  cases ht : t.testBit 8 with
  | false =>
    left
    apply int_eq_of_testBit_eq
    intro k
    rw [Int.testBit_land, testBit_zero_int, hbit]
    by_cases hk : 8 = k
    · subst hk; simp [ht]
    · simp [hk]
  | true =>
    right
    apply int_eq_of_testBit_eq
    intro k
    rw [Int.testBit_land, hbit]
    by_cases hk : 8 = k
    · subst hk; simp [ht]
    · simp [hk]

/-- Setting the bits `a` and clearing the bits `b` of `f`, for disjoint `a`
and `b`: `(f & ~b) | a`. -/
theorem set_clear_bits (f a b : Int) (hab : Int.land a b = 0) :
    Int.land (Int.lor (Int.land f (Int.lnot b)) a) (Int.lnot (Int.lor a b))
        = Int.land f (Int.lnot (Int.lor a b))
      ∧ Int.land (Int.lor (Int.land f (Int.lnot b)) a) a = a
      ∧ Int.land (Int.lor (Int.land f (Int.lnot b)) a) b = 0 := by
  have hbits : ∀ k, (a.testBit k && b.testBit k) = false := by
    intro k
    rw [← Int.testBit_land, hab, testBit_zero_int]
  refine ⟨?_, ?_, ?_⟩
  · apply int_eq_of_testBit_eq
    intro k
    have hk := hbits k
    simp only [Int.testBit_land, Int.testBit_lor, Int.testBit_lnot]
    cases f.testBit k <;> cases ha : a.testBit k <;> cases hb : b.testBit k <;> simp_all
  · apply int_eq_of_testBit_eq
    intro k
    simp only [Int.testBit_land, Int.testBit_lor, Int.testBit_lnot]
    cases f.testBit k <;> cases ha : a.testBit k <;> cases hb : b.testBit k <;> simp_all
  · apply int_eq_of_testBit_eq
    intro k
    have hk := hbits k
    simp only [Int.testBit_land, Int.testBit_lor, Int.testBit_lnot, testBit_zero_int]
    cases f.testBit k <;> cases ha : a.testBit k <;> cases hb : b.testBit k <;> simp_all

theorem set_flag_other_bits (f : Int) :
    Int.land (Int.lor (Int.land f (Int.lnot JUMP_ADDR)) JUMP_LABEL)
        (Int.lnot (Int.lor JUMP_LABEL JUMP_ADDR))
      = Int.land f (Int.lnot (Int.lor JUMP_LABEL JUMP_ADDR))
    ∧ Int.land (Int.lor (Int.land f (Int.lnot JUMP_LABEL)) JUMP_ADDR)
        (Int.lnot (Int.lor JUMP_LABEL JUMP_ADDR))
      = Int.land f (Int.lnot (Int.lor JUMP_LABEL JUMP_ADDR)) := by
  have hc : Int.lor JUMP_LABEL JUMP_ADDR = Int.lor JUMP_ADDR JUMP_LABEL := by decide
  constructor
  · exact (set_clear_bits f JUMP_LABEL JUMP_ADDR (by decide)).1
  · rw [hc]
    exact (set_clear_bits f JUMP_ADDR JUMP_LABEL (by decide)).1

theorem set_flag_own_bits (f : Int) :
    Int.land (Int.lor (Int.land f (Int.lnot JUMP_ADDR)) JUMP_LABEL) JUMP_LABEL = JUMP_LABEL
    ∧ Int.land (Int.lor (Int.land f (Int.lnot JUMP_ADDR)) JUMP_LABEL) JUMP_ADDR = 0
    ∧ Int.land (Int.lor (Int.land f (Int.lnot JUMP_LABEL)) JUMP_ADDR) JUMP_ADDR = JUMP_ADDR
    ∧ Int.land (Int.lor (Int.land f (Int.lnot JUMP_LABEL)) JUMP_ADDR) JUMP_LABEL = 0 :=
  ⟨(set_clear_bits f JUMP_LABEL JUMP_ADDR (by decide)).2.1,
   (set_clear_bits f JUMP_LABEL JUMP_ADDR (by decide)).2.2,
   (set_clear_bits f JUMP_ADDR JUMP_LABEL (by decide)).2.1,
   (set_clear_bits f JUMP_ADDR JUMP_LABEL (by decide)).2.2⟩

/-! ## The error latch -/

/-- C1. On a compiler whose error code is already non-zero,
`sljit_alloc_memory`, `sljit_emit_cmp` and `sljit_emit_fcmp` return `NULL`
and `sljit_get_local_base` returns the stored error code, and each leaves
the whole compiler object (error code, both fragment buffers, the label,
jump and constant lists, the code size) and the allocator as they were. -/
theorem latched_error_short_circuits (cfg : Config) (E : Emitter) (compiler : sljit_compiler)
    (h : Heap) (size type src1 src1w src2 src2w dst dstw offset : Int)
    (herr : compiler.error ≠ 0) :
    sljit_alloc_memory cfg compiler size h = (none, compiler, h)
      ∧ sljit_emit_cmp cfg E compiler type src1 src1w src2 src2w h = (none, compiler, h)
      ∧ sljit_emit_fcmp cfg E compiler type src1 src1w src2 src2w h = (none, compiler, h)
      ∧ sljit_get_local_base cfg E compiler dst dstw offset h
          = (compiler.error, compiler, h) := by
  simp [sljit_alloc_memory, sljit_emit_cmp, sljit_emit_fcmp, sljit_get_local_base, herr]


/-- The error latch on a compiler on which an allocation has failed. -/
theorem latched_error_short_circuits_witness :
    sample_failed_compiler.error ≠ 0
      ∧ sljit_alloc_memory sample_config sample_failed_compiler 8 sample_heap
          = (none, sample_failed_compiler, sample_heap)
      ∧ sljit_emit_cmp sample_config sample_emitter sample_failed_compiler
          SLJIT_LESS 1 0 SLJIT_IMM 10 sample_heap
          = (none, sample_failed_compiler, sample_heap)
      ∧ sljit_emit_fcmp sample_config sample_emitter sample_failed_compiler
          SLJIT_LESS 1 0 SLJIT_IMM 10 sample_heap
          = (none, sample_failed_compiler, sample_heap)
      ∧ sljit_get_local_base sample_config sample_emitter sample_failed_compiler 1 0 8
          sample_heap
          = (sample_failed_compiler.error, sample_failed_compiler, sample_heap) :=
  ⟨by decide,
   latched_error_short_circuits sample_config sample_emitter sample_failed_compiler
     sample_heap 8 SLJIT_LESS 1 0 SLJIT_IMM 10 1 0 8 (by decide)⟩

/-- C2. With argument checks compiled in and no error on entry, a failed
argument check of `sljit_emit_cmp`, `sljit_emit_fcmp` or
`sljit_get_local_base` sets the error code to `SLJIT_ERR_BAD_ARGUMENT` (5);
the functions that return a pointer return `NULL` and
`sljit_get_local_base` returns 5; nothing else of the compiler changes, so
no instruction byte and no label, jump or constant record is appended. -/
theorem bad_argument_latched (cfg : Config) (E : Emitter) (compiler : sljit_compiler)
    (h : Heap) (type src1 src1w src2 src2w dst dstw offset : Int)
    (hchecks : cfg.argument_checks = true) (herr : compiler.error = 0) :
    (check_sljit_emit_cmp cfg compiler type src1 src1w src2 src2w ≠ 0 →
        sljit_emit_cmp cfg E compiler type src1 src1w src2 src2w h
          = (none, { compiler with error := 5 }, h))
      ∧ (check_sljit_emit_fcmp cfg E.sljit_is_fpu_available compiler
            type src1 src1w src2 src2w ≠ 0 →
          sljit_emit_fcmp cfg E compiler type src1 src1w src2 src2w h
            = (none, { compiler with error := 5 }, h))
      ∧ (check_sljit_get_local_base cfg compiler dst dstw offset ≠ 0 →
          sljit_get_local_base cfg E compiler dst dstw offset h
            = (5, { compiler with error := 5 }, h)) := by
  refine ⟨fun hc => ?_, fun hc => ?_, fun hc => ?_⟩
  · simp [sljit_emit_cmp, herr, hchecks, hc, SLJIT_ERR_BAD_ARGUMENT]
  · simp [sljit_emit_fcmp, herr, hchecks, hc, SLJIT_ERR_BAD_ARGUMENT]
  · simp [sljit_get_local_base, herr, hchecks, hc, SLJIT_ERR_BAD_ARGUMENT]


/-- Rejected arguments on a compiler without a context: a type with every bit
set, and any destination. -/
theorem bad_argument_latched_witness :
    sample_config.argument_checks = true ∧ sample_compiler.error = 0
      ∧ check_sljit_emit_cmp sample_config sample_compiler (-1) 1 0 2 0 ≠ 0
      ∧ check_sljit_emit_fcmp sample_config sample_emitter.sljit_is_fpu_available
          sample_compiler (-1) 1 0 2 0 ≠ 0
      ∧ check_sljit_get_local_base sample_config sample_compiler 1 0 8 ≠ 0
      ∧ sljit_emit_cmp sample_config sample_emitter sample_compiler (-1) 1 0 2 0 sample_heap
          = (none, { sample_compiler with error := 5 }, sample_heap)
      ∧ sljit_emit_fcmp sample_config sample_emitter sample_compiler (-1) 1 0 2 0 sample_heap
          = (none, { sample_compiler with error := 5 }, sample_heap)
      ∧ sljit_get_local_base sample_config sample_emitter sample_compiler 1 0 8 sample_heap
          = (5, { sample_compiler with error := 5 }, sample_heap) :=
  ⟨rfl, rfl, by decide, by decide, by decide,
   (bad_argument_latched sample_config sample_emitter sample_compiler sample_heap
      (-1) 1 0 2 0 1 0 8 rfl rfl).1 (by decide),
   (bad_argument_latched sample_config sample_emitter sample_compiler sample_heap
      (-1) 1 0 2 0 1 0 8 rfl rfl).2.1 (by decide),
   (bad_argument_latched sample_config sample_emitter sample_compiler sample_heap
      (-1) 1 0 2 0 1 0 8 rfl rfl).2.2 (by decide)⟩

/-! ## Compare and branch -/

theorem cmp_flags_swapped_eq (c : Int) : cmp_flags (swapped_condition c) = cmp_flags c := by
  unfold swapped_condition
  split_ifs <;> simp_all [cmp_flags, SLJIT_LESS, SLJIT_GREATER, SLJIT_GREATER_EQUAL,
    SLJIT_LESS_EQUAL, SLJIT_SIG_LESS, SLJIT_SIG_GREATER, SLJIT_SIG_GREATER_EQUAL,
    SLJIT_SIG_LESS_EQUAL, SLJIT_NOT_ZERO]

theorem swapped_condition_bits (t : Int) :
    Int.land (swapped_condition (Int.land t 0xff)) SLJIT_INT_OP = 0
      ∧ Int.land (swapped_condition (Int.land t 0xff)) SLJIT_REWRITABLE_JUMP = 0 := by
  have h1 : Int.land (Int.land t 0xff) SLJIT_INT_OP = 0 := by
    rw [land_land]
    have : Int.land 0xff SLJIT_INT_OP = 0 := by decide
    rw [this, land_zero]
  have h2 : Int.land (Int.land t 0xff) SLJIT_REWRITABLE_JUMP = 0 := by
    rw [land_land]
    have : Int.land 0xff SLJIT_REWRITABLE_JUMP = 0 := by decide
    rw [this, land_zero]
  unfold swapped_condition
  split_ifs <;> first | exact ⟨h1, h2⟩ | decide

theorem swapped_type_bits (c t : Int) (hi : Int.land c SLJIT_INT_OP = 0)
    (hr : Int.land c SLJIT_REWRITABLE_JUMP = 0) :
    Int.land (Int.lor c (Int.land t (Int.lor SLJIT_INT_OP SLJIT_REWRITABLE_JUMP))) SLJIT_INT_OP
        = Int.land t SLJIT_INT_OP
      ∧ Int.land (Int.lor c (Int.land t (Int.lor SLJIT_INT_OP SLJIT_REWRITABLE_JUMP)))
          SLJIT_REWRITABLE_JUMP = Int.land t SLJIT_REWRITABLE_JUMP := by
  have h1 : Int.land (Int.lor SLJIT_INT_OP SLJIT_REWRITABLE_JUMP) SLJIT_INT_OP
      = SLJIT_INT_OP := by decide
  have h2 : Int.land (Int.lor SLJIT_INT_OP SLJIT_REWRITABLE_JUMP) SLJIT_REWRITABLE_JUMP
      = SLJIT_REWRITABLE_JUMP := by decide
  constructor
  · rw [land_lor_distrib, land_land, hi, h1, zero_lor]
  · rw [land_lor_distrib, land_land, hr, h2, zero_lor]

/-- The default path of `sljit_emit_cmp` when the operands are exchanged and
when they are not. -/
theorem emit_cmp_default_cases (cfg : Config) (E : Emitter) (compiler : sljit_compiler)
    (type src1 src1w src2 src2w : Int) (h : Heap) :
    (Int.land src1 SLJIT_IMM ≠ 0 ∧ Int.land src2 SLJIT_IMM = 0 →
        emit_cmp_default cfg E compiler (cmp_entry type src1 src1w src2 src2w) h
          = sub_then_jump cfg E compiler
              (Int.lor (Int.lor SLJIT_SUB (cmp_flags (Int.land type 0xff)))
                (Int.land type SLJIT_INT_OP))
              src2 src2w src1 src1w
              (Int.lor (swapped_condition (Int.land type 0xff))
                (Int.land type SLJIT_REWRITABLE_JUMP)) h)
      ∧ (¬(Int.land src1 SLJIT_IMM ≠ 0 ∧ Int.land src2 SLJIT_IMM = 0) →
        emit_cmp_default cfg E compiler (cmp_entry type src1 src1w src2 src2w) h
          = sub_then_jump cfg E compiler
              (Int.lor (Int.lor SLJIT_SUB (cmp_flags (Int.land type 0xff)))
                (Int.land type SLJIT_INT_OP))
              src1 src1w src2 src2w
              (Int.lor (Int.land type 0xff) (Int.land type SLJIT_REWRITABLE_JUMP)) h) := by
  obtain ⟨hi, hr⟩ := swapped_condition_bits type
  obtain ⟨hb1, hb2⟩ := swapped_type_bits _ type hi hr
  constructor
  · intro hs
    unfold emit_cmp_default sub_then_jump cmp_imm_second cmp_entry
    simp only [hs, and_self, ne_eq, not_false_eq_true, if_true, hb1, hb2, cmp_flags_swapped_eq]
  · intro hs
    unfold emit_cmp_default sub_then_jump cmp_imm_second cmp_entry
    simp only [hs, if_false]

/-- When `sljit_emit_cmp` passes the error test and the argument check and
does not leave through `emit_cmp_to0`, it is its default path on the
arguments it was called with. -/
theorem emit_cmp_is_default (cfg : Config) (E : Emitter)
    (compiler : sljit_compiler) (type src1 src1w src2 src2w : Int) (h : Heap)
    (herr : compiler.error = 0)
    (hcheck : check_sljit_emit_cmp cfg compiler type src1 src1w src2 src2w = 0)
    (hpath : ¬ cmp_to0_path cfg (cmp_entry type src1 src1w src2 src2w)) :
    sljit_emit_cmp cfg E compiler type src1 src1w src2 src2w h
      = emit_cmp_default cfg E compiler (cmp_entry type src1 src1w src2 src2w) h := by
  have hc : ¬(cfg.argument_checks = true
      ∧ check_sljit_emit_cmp cfg compiler type src1 src1w src2 src2w ≠ 0) := by
    simp [hcheck]
  unfold sljit_emit_cmp
  rw [if_neg (by simp [herr]), if_neg hc]
  by_cases harm : cfg.arch = Arch.ARM_64 ∧
      ((cmp_entry type src1 src1w src2 src2w).condition = SLJIT_EQUAL
        ∨ (cmp_entry type src1 src1w src2 src2w).condition = SLJIT_NOT_EQUAL)
  · have h2 : ¬(Int.land (cmp_zero_second (cmp_entry type src1 src1w src2 src2w)).src2
        SLJIT_IMM ≠ 0 ∧ (cmp_zero_second (cmp_entry type src1 src1w src2 src2w)).src2w = 0) :=
      fun hh => hpath ⟨harm.1, harm.2, hh.1, hh.2⟩
    have h3 : cmp_zero_second (cmp_entry type src1 src1w src2 src2w)
        = cmp_entry type src1 src1w src2 src2w := by
      by_cases h1 : Int.land (cmp_entry type src1 src1w src2 src2w).src1 SLJIT_IMM ≠ 0
          ∧ (cmp_entry type src1 src1w src2 src2w).src1w = 0
      · exfalso
        apply h2
        unfold cmp_zero_second
        rw [if_pos h1]
        exact ⟨(by decide : Int.land SLJIT_IMM SLJIT_IMM ≠ 0), rfl⟩
      · unfold cmp_zero_second
        rw [if_neg h1]
    simp only [harm, and_self, if_true, h3] at h2 ⊢
    rw [if_neg h2]
  · simp only [harm, if_false]

theorem cmp_flags_eq_spec (c : Int) (h : SLJIT_EQUAL ≤ c ∧ c ≤ SLJIT_SIG_LESS_EQUAL) :
    cmp_flags c = cmp_flag_spec c := by
  have hc : c = 0 ∨ c = 1 ∨ c = 2 ∨ c = 3 ∨ c = 4 ∨ c = 5 ∨ c = 6 ∨ c = 7 ∨ c = 8 ∨ c = 9 := by
    simp only [SLJIT_EQUAL, SLJIT_SIG_LESS_EQUAL] at h
    omega
  rcases hc with h | h | h | h | h | h | h | h | h | h <;> subst h <;> decide

/-- C7. On the default path (no error, arguments accepted, not the ARM64
comparison with zero) `sljit_emit_cmp` with an accepted type is exactly
`sljit_emit_op2(SLJIT_SUB | f | (type & SLJIT_INT_OP), SLJIT_UNUSED, 0, ...)`
on the two sources in one of the two orders, followed by
`sljit_emit_jump(c | (type & SLJIT_REWRITABLE_JUMP))`, where `c` is the
condition or its mirror image and `f` is `SLJIT_SET_E` for `EQUAL` and
`NOT_EQUAL`, `SLJIT_SET_U` for `LESS` to `LESS_EQUAL` and `SLJIT_SET_S` for
`SIG_LESS` to `SIG_LESS_EQUAL`; when the subtraction returns an error the
result is `NULL`, in the state the subtraction left, and no jump is
emitted. -/
theorem emit_cmp_lowers_to_sub_and_jump (cfg : Config) (E : Emitter)
    (compiler : sljit_compiler) (type src1 src1w src2 src2w : Int) (h : Heap)
    (herr : compiler.error = 0)
    (hcheck : check_sljit_emit_cmp cfg compiler type src1 src1w src2 src2w = 0)
    (htype : SLJIT_EQUAL ≤ Int.land type 0xff ∧ Int.land type 0xff ≤ SLJIT_SIG_LESS_EQUAL)
    (hpath : ¬ cmp_to0_path cfg (cmp_entry type src1 src1w src2 src2w)) :
    ∃ c s1 s1w s2 s2w,
      (c = Int.land type 0xff ∨ c = swapped_condition (Int.land type 0xff))
      ∧ ((s1, s1w, s2, s2w) = (src1, src1w, src2, src2w)
          ∨ (s1, s1w, s2, s2w) = (src2, src2w, src1, src1w))
      ∧ sljit_emit_cmp cfg E compiler type src1 src1w src2 src2w h
          = sub_then_jump cfg E compiler
              (Int.lor (Int.lor SLJIT_SUB (cmp_flag_spec (Int.land type 0xff)))
                (Int.land type SLJIT_INT_OP))
              s1 s1w s2 s2w (Int.lor c (Int.land type SLJIT_REWRITABLE_JUMP)) h
      ∧ ∀ r c1 h1,
          E.sljit_emit_op2 (set_skip_checks cfg compiler)
              (Int.lor (Int.lor SLJIT_SUB (cmp_flag_spec (Int.land type 0xff)))
                (Int.land type SLJIT_INT_OP))
              SLJIT_UNUSED 0 s1 s1w s2 s2w h = (r, c1, h1) →
            r ≠ 0 →
            sljit_emit_cmp cfg E compiler type src1 src1w src2 src2w h = (none, c1, h1) := by
  rw [emit_cmp_is_default cfg E compiler type src1 src1w src2 src2w h herr hcheck hpath]
  obtain ⟨hA, hB⟩ := emit_cmp_default_cases cfg E compiler type src1 src1w src2 src2w h
  rw [cmp_flags_eq_spec _ htype] at hA hB
  by_cases hs : Int.land src1 SLJIT_IMM ≠ 0 ∧ Int.land src2 SLJIT_IMM = 0
  · refine ⟨swapped_condition (Int.land type 0xff), src2, src2w, src1, src1w,
      Or.inr rfl, Or.inr rfl, hA hs, ?_⟩
    intro r c1 h1 hop hr
    rw [hA hs]
    unfold sub_then_jump
    rw [hop]
    simp [hr]
  · refine ⟨Int.land type 0xff, src1, src1w, src2, src2w, Or.inl rfl, Or.inl rfl, hB hs, ?_⟩
    intro r c1 h1 hop hr
    rw [hB hs]
    unfold sub_then_jump
    rw [hop]
    simp [hr]


/-- The comparison `10 < R0`, given as `LESS` with the immediate first. -/
theorem emit_cmp_lowers_to_sub_and_jump_witness :
    ∃ c s1 s1w s2 s2w,
      (c = Int.land SLJIT_LESS 0xff ∨ c = swapped_condition (Int.land SLJIT_LESS 0xff))
      ∧ ((s1, s1w, s2, s2w) = (SLJIT_IMM, 10, SLJIT_R0, 0)
          ∨ (s1, s1w, s2, s2w) = (SLJIT_R0, 0, SLJIT_IMM, 10))
      ∧ sljit_emit_cmp sample_config_unchecked sample_emitter sample_entered_compiler
            SLJIT_LESS SLJIT_IMM 10 SLJIT_R0 0 sample_heap
          = sub_then_jump sample_config_unchecked sample_emitter sample_entered_compiler
              (Int.lor (Int.lor SLJIT_SUB (cmp_flag_spec (Int.land SLJIT_LESS 0xff)))
                (Int.land SLJIT_LESS SLJIT_INT_OP))
              s1 s1w s2 s2w (Int.lor c (Int.land SLJIT_LESS SLJIT_REWRITABLE_JUMP))
              sample_heap
      ∧ ∀ r c1 h1,
          sample_emitter.sljit_emit_op2
              (set_skip_checks sample_config_unchecked sample_entered_compiler)
              (Int.lor (Int.lor SLJIT_SUB (cmp_flag_spec (Int.land SLJIT_LESS 0xff)))
                (Int.land SLJIT_LESS SLJIT_INT_OP))
              SLJIT_UNUSED 0 s1 s1w s2 s2w sample_heap = (r, c1, h1) →
            r ≠ 0 →
            sljit_emit_cmp sample_config_unchecked sample_emitter sample_entered_compiler
              SLJIT_LESS SLJIT_IMM 10 SLJIT_R0 0 sample_heap = (none, c1, h1) :=
  emit_cmp_lowers_to_sub_and_jump sample_config_unchecked sample_emitter
    sample_entered_compiler SLJIT_LESS SLJIT_IMM 10 SLJIT_R0 0 sample_heap
    rfl rfl (by decide) (by decide)

/-- C8. On the default path of `sljit_emit_cmp` the operands and their
companion words are exchanged, and the condition mirrored, exactly when the
first source is an immediate and the second is not, so an only immediate is
the second source of the subtraction; otherwise (both or neither an
immediate, or only the second) operands and condition are passed on
unchanged. -/
theorem emit_cmp_immediate_second (cfg : Config) (E : Emitter)
    (compiler : sljit_compiler) (type src1 src1w src2 src2w : Int) (h : Heap)
    (herr : compiler.error = 0)
    (hcheck : check_sljit_emit_cmp cfg compiler type src1 src1w src2 src2w = 0)
    (hpath : ¬ cmp_to0_path cfg (cmp_entry type src1 src1w src2 src2w)) :
    (Int.land src1 SLJIT_IMM ≠ 0 ∧ Int.land src2 SLJIT_IMM = 0 →
        sljit_emit_cmp cfg E compiler type src1 src1w src2 src2w h
          = sub_then_jump cfg E compiler
              (Int.lor (Int.lor SLJIT_SUB (cmp_flags (Int.land type 0xff)))
                (Int.land type SLJIT_INT_OP))
              src2 src2w src1 src1w
              (Int.lor (swapped_condition (Int.land type 0xff))
                (Int.land type SLJIT_REWRITABLE_JUMP)) h)
      ∧ (¬(Int.land src1 SLJIT_IMM ≠ 0 ∧ Int.land src2 SLJIT_IMM = 0) →
        sljit_emit_cmp cfg E compiler type src1 src1w src2 src2w h
          = sub_then_jump cfg E compiler
              (Int.lor (Int.lor SLJIT_SUB (cmp_flags (Int.land type 0xff)))
                (Int.land type SLJIT_INT_OP))
              src1 src1w src2 src2w
              (Int.lor (Int.land type 0xff) (Int.land type SLJIT_REWRITABLE_JUMP)) h) := by
  rw [emit_cmp_is_default cfg E compiler type src1 src1w src2 src2w h herr hcheck hpath]
  exact emit_cmp_default_cases cfg E compiler type src1 src1w src2 src2w h


/-- The comparison `10 < R0` becomes the subtraction `R0 - 10` and the jump
on `GREATER`. -/
theorem emit_cmp_immediate_second_witness :
    (Int.land SLJIT_IMM SLJIT_IMM ≠ 0 ∧ Int.land SLJIT_R0 SLJIT_IMM = 0)
      ∧ sljit_emit_cmp sample_config_unchecked sample_emitter sample_entered_compiler
            SLJIT_LESS SLJIT_IMM 10 SLJIT_R0 0 sample_heap
          = sub_then_jump sample_config_unchecked sample_emitter sample_entered_compiler
              (Int.lor (Int.lor SLJIT_SUB (cmp_flags (Int.land SLJIT_LESS 0xff)))
                (Int.land SLJIT_LESS SLJIT_INT_OP))
              SLJIT_R0 0 SLJIT_IMM 10
              (Int.lor (swapped_condition (Int.land SLJIT_LESS 0xff))
                (Int.land SLJIT_LESS SLJIT_REWRITABLE_JUMP)) sample_heap
      ∧ swapped_condition (Int.land SLJIT_LESS 0xff) = SLJIT_GREATER :=
  ⟨by decide,
   (emit_cmp_immediate_second sample_config_unchecked sample_emitter
      sample_entered_compiler SLJIT_LESS SLJIT_IMM 10 SLJIT_R0 0 sample_heap
      rfl rfl (by decide)).1 (by decide),
   by decide⟩

/-- C9. With no error and accepted arguments `sljit_emit_fcmp` is exactly
`sljit_emit_fop1(SLJIT_DCMP | f | (type & SLJIT_SINGLE_OP), src1, src2)`
followed by `sljit_emit_jump((type & 0xff) | (type & SLJIT_REWRITABLE_JUMP))`,
where `f` is `SLJIT_SET_E` for `D_EQUAL` and `D_NOT_EQUAL` and `SLJIT_SET_S`
for `D_LESS` to `D_ORDERED`; of the two bits `SLJIT_SET_E` and
`SLJIT_SET_S` the operation carries exactly `f`. -/
theorem emit_fcmp_lowers_to_dcmp_and_jump (cfg : Config) (E : Emitter)
    (compiler : sljit_compiler) (type src1 src1w src2 src2w : Int) (h : Heap)
    (herr : compiler.error = 0)
    (hcheck : check_sljit_emit_fcmp cfg E.sljit_is_fpu_available compiler
      type src1 src1w src2 src2w = 0)
    (htype : SLJIT_D_EQUAL ≤ Int.land type 0xff ∧ Int.land type 0xff ≤ SLJIT_D_ORDERED) :
    sljit_emit_fcmp cfg E compiler type src1 src1w src2 src2w h
        = fcmp_then_jump cfg E compiler
            (Int.lor (Int.lor SLJIT_DCMP (fcmp_flag_spec (Int.land type 0xff)))
              (Int.land type SLJIT_SINGLE_OP))
            src1 src1w src2 src2w
            (Int.lor (Int.land type 0xff) (Int.land type SLJIT_REWRITABLE_JUMP)) h
      ∧ (fcmp_flag_spec (Int.land type 0xff) = SLJIT_SET_E
          ∨ fcmp_flag_spec (Int.land type 0xff) = SLJIT_SET_S)
      ∧ Int.land (Int.lor (Int.lor SLJIT_DCMP (fcmp_flag_spec (Int.land type 0xff)))
            (Int.land type SLJIT_SINGLE_OP)) (Int.lor SLJIT_SET_E SLJIT_SET_S)
          = fcmp_flag_spec (Int.land type 0xff) := by
  have hc : ¬(cfg.argument_checks = true
      ∧ check_sljit_emit_fcmp cfg E.sljit_is_fpu_available compiler
          type src1 src1w src2 src2w ≠ 0) := by
    simp [hcheck]
  have hcases : Int.land type 0xff = 14 ∨ Int.land type 0xff = 15 ∨ Int.land type 0xff = 16
      ∨ Int.land type 0xff = 17 ∨ Int.land type 0xff = 18 ∨ Int.land type 0xff = 19
      ∨ Int.land type 0xff = 20 ∨ Int.land type 0xff = 21 := by
    simp only [SLJIT_D_EQUAL, SLJIT_D_ORDERED] at htype
    omega
  have hflag : (if Int.land type 0xff ≤ SLJIT_D_NOT_EQUAL then SLJIT_SET_E else SLJIT_SET_S)
      = fcmp_flag_spec (Int.land type 0xff) := by
    rcases hcases with h | h | h | h | h | h | h | h <;> rw [h] <;> decide
  have hES : fcmp_flag_spec (Int.land type 0xff) = SLJIT_SET_E
      ∨ fcmp_flag_spec (Int.land type 0xff) = SLJIT_SET_S := by
    rcases hcases with h | h | h | h | h | h | h | h <;> rw [h] <;> decide
  refine ⟨?_, hES, ?_⟩
  · unfold sljit_emit_fcmp fcmp_then_jump
    rw [if_neg (by simp [herr]), if_neg hc]
    simp only [hflag]
    rcases land_bit8 type with hb | hb
    · have hb' : Int.land type SLJIT_SINGLE_OP = 0 := hb
      simp only [hb', ne_eq, not_true_eq_false, if_false, lor_zero]
    · have hb' : Int.land type SLJIT_SINGLE_OP = SLJIT_SINGLE_OP := hb
      have hne : SLJIT_SINGLE_OP ≠ 0 := by decide
      simp only [hb', ne_eq, hne, not_false_eq_true, if_true, lor_lor]
  · rw [land_lor_distrib, land_lor_distrib, land_land]
    have h1 : Int.land SLJIT_DCMP (Int.lor SLJIT_SET_E SLJIT_SET_S) = 0 := by decide
    have h2 : Int.land SLJIT_SINGLE_OP (Int.lor SLJIT_SET_E SLJIT_SET_S) = 0 := by decide
    rw [h1, h2, land_zero, lor_zero, zero_lor]
    rcases hES with h | h <;> rw [h] <;> decide


/-- The comparison `D_EQUAL` of two float registers. -/
theorem emit_fcmp_lowers_to_dcmp_and_jump_witness :
    sljit_emit_fcmp sample_config_unchecked sample_emitter sample_entered_compiler
          SLJIT_D_EQUAL 1 0 2 0 sample_heap
        = fcmp_then_jump sample_config_unchecked sample_emitter sample_entered_compiler
            (Int.lor (Int.lor SLJIT_DCMP (fcmp_flag_spec (Int.land SLJIT_D_EQUAL 0xff)))
              (Int.land SLJIT_D_EQUAL SLJIT_SINGLE_OP))
            1 0 2 0
            (Int.lor (Int.land SLJIT_D_EQUAL 0xff)
              (Int.land SLJIT_D_EQUAL SLJIT_REWRITABLE_JUMP)) sample_heap
      ∧ (fcmp_flag_spec (Int.land SLJIT_D_EQUAL 0xff) = SLJIT_SET_E
          ∨ fcmp_flag_spec (Int.land SLJIT_D_EQUAL 0xff) = SLJIT_SET_S)
      ∧ Int.land (Int.lor (Int.lor SLJIT_DCMP (fcmp_flag_spec (Int.land SLJIT_D_EQUAL 0xff)))
            (Int.land SLJIT_D_EQUAL SLJIT_SINGLE_OP)) (Int.lor SLJIT_SET_E SLJIT_SET_S)
          = fcmp_flag_spec (Int.land SLJIT_D_EQUAL 0xff) :=
  emit_fcmp_lowers_to_dcmp_and_jump sample_config_unchecked sample_emitter
    sample_entered_compiler SLJIT_D_EQUAL 1 0 2 0 sample_heap rfl rfl (by decide)

/-! ## Jump targets -/

/-- A sequence of calls on a jump record leaves a record, with the same
`next` and `addr` and the same flag bits other than the two target bits. -/
theorem target_calls_frame (calls : List target_call) (j : sljit_jump) :
    ∃ j', target_calls (some j) calls = some j' ∧ j'.next = j.next ∧ j'.addr = j.addr
      ∧ Int.land j'.flags (Int.lnot (Int.lor JUMP_LABEL JUMP_ADDR))
          = Int.land j.flags (Int.lnot (Int.lor JUMP_LABEL JUMP_ADDR)) := by
  induction calls generalizing j with
  | nil => exact ⟨j, rfl, rfl, rfl, rfl⟩
  | cons call rest ih =>
    have hstep : ∃ j1, target_call.run (some j) call = some j1 ∧ j1.next = j.next
        ∧ j1.addr = j.addr
        ∧ Int.land j1.flags (Int.lnot (Int.lor JUMP_LABEL JUMP_ADDR))
            = Int.land j.flags (Int.lnot (Int.lor JUMP_LABEL JUMP_ADDR)) := by
      cases call with
      | set_label label =>
        cases label with
        | none => exact ⟨j, rfl, rfl, rfl, rfl⟩
        | some l => exact ⟨_, rfl, rfl, rfl, (set_flag_other_bits j.flags).1⟩
      | set_target target => exact ⟨_, rfl, rfl, rfl, (set_flag_other_bits j.flags).2⟩
    obtain ⟨j1, h1, hn1, ha1, hf1⟩ := hstep
    obtain ⟨j2, h2, hn2, ha2, hf2⟩ := ih j1
    refine ⟨j2, ?_, hn2.trans hn1, ha2.trans ha1, hf2.trans hf1⟩
    show target_calls (target_call.run (some j) call) rest = some j2
    rw [h1, h2]

/-- C10. After any sequence of `sljit_set_label` and `sljit_set_target`
calls on a jump record, a final `sljit_set_label` with a label leaves
`JUMP_LABEL` set, `JUMP_ADDR` clear and `u.label` the label; a final
`sljit_set_target` leaves `JUMP_ADDR` set, `JUMP_LABEL` clear and
`u.target` the target; every other flag bit is as before the sequence. A
call on a `NULL` jump, and `sljit_set_label` with a `NULL` label, change
nothing. -/
theorem jump_target_flags (j : sljit_jump) (calls : List target_call) :
    (∀ label : Ptr, ∃ j',
        target_calls (some j) (calls ++ [target_call.set_label (some label)]) = some j'
        ∧ Int.land j'.flags JUMP_LABEL = JUMP_LABEL ∧ Int.land j'.flags JUMP_ADDR = 0
        ∧ j'.u = jump_u.label label
        ∧ Int.land j'.flags (Int.lnot (Int.lor JUMP_LABEL JUMP_ADDR))
            = Int.land j.flags (Int.lnot (Int.lor JUMP_LABEL JUMP_ADDR)))
    ∧ (∀ target : Nat, ∃ j',
        target_calls (some j) (calls ++ [target_call.set_target target]) = some j'
        ∧ Int.land j'.flags JUMP_ADDR = JUMP_ADDR ∧ Int.land j'.flags JUMP_LABEL = 0
        ∧ j'.u = jump_u.target target
        ∧ Int.land j'.flags (Int.lnot (Int.lor JUMP_LABEL JUMP_ADDR))
            = Int.land j.flags (Int.lnot (Int.lor JUMP_LABEL JUMP_ADDR)))
    ∧ (∀ label : Option Ptr, sljit_set_label none label = none)
    ∧ (∀ target : Nat, sljit_set_target none target = none)
    ∧ sljit_set_label (some j) none = some j := by
  obtain ⟨j1, h1, -, -, hf1⟩ := target_calls_frame calls j
  refine ⟨fun label => ?_, fun target => ?_, fun label => ?_, fun _ => rfl, rfl⟩
  · refine ⟨{ j1 with flags := Int.lor (Int.land j1.flags (Int.lnot JUMP_ADDR)) JUMP_LABEL,
                       u := jump_u.label label },
      ?_, (set_flag_own_bits j1.flags).1, (set_flag_own_bits j1.flags).2.1, rfl,
      ((set_flag_other_bits j1.flags).1).trans hf1⟩
    unfold target_calls at h1 ⊢
    rw [List.foldl_append, h1]
    rfl
  · refine ⟨{ j1 with flags := Int.lor (Int.land j1.flags (Int.lnot JUMP_LABEL)) JUMP_ADDR,
                       u := jump_u.target target },
      ?_, (set_flag_own_bits j1.flags).2.2.1, (set_flag_own_bits j1.flags).2.2.2, rfl,
      ((set_flag_other_bits j1.flags).2).trans hf1⟩
    unfold target_calls at h1 ⊢
    rw [List.foldl_append, h1]
    rfl
  · cases label <;> rfl

/-! ## The fragment buffers -/

/-- The sizes of a valid configuration. -/
theorem capacity_facts (cfg : Config) (hv : cfg.valid) :
    BUF_CAPACITY cfg = BUF_SIZE - OFFSETOF_memory cfg
      ∧ ABUF_CAPACITY cfg = ABUF_SIZE cfg - OFFSETOF_memory cfg
      ∧ 256 ≤ BUF_CAPACITY cfg ∧ 256 ≤ ABUF_CAPACITY cfg
      ∧ BUF_CAPACITY cfg + 256 < ULONG_MOD cfg ∧ ABUF_CAPACITY cfg + 256 < ULONG_MOD cfg := by
  unfold Config.valid at hv
  unfold BUF_CAPACITY ABUF_CAPACITY ULONG_MOD OFFSETOF_memory BUF_SIZE ABUF_SIZE
  rcases hv with hv | hv <;> rw [hv] <;> cases cfg.is64 <;> simp

theorem fresh_bytes_length (g : List Nat) (n : Nat) : (fresh_bytes g n).length = n := by
  simp [fresh_bytes]

theorem fragment_memory_length (cfg : Config) (g : List Nat) (n : Nat) :
    (fragment_memory cfg (fresh_bytes g n)).length = n - OFFSETOF_memory cfg := by
  simp [fragment_memory, fresh_bytes_length]

/-- What a `malloc` call returns. -/
theorem malloc_cases (h : Heap) (n : Nat) :
    ((malloc h n).1 = none ∧ (malloc h n).2.next_block = h.next_block
        ∧ (malloc h n).2.malloc_calls = h.malloc_calls + 1)
      ∨ (∃ g, (malloc h n).1 = some (h.next_block, fresh_bytes g n)
        ∧ (malloc h n).2.next_block = h.next_block + 1
        ∧ (malloc h n).2.malloc_calls = h.malloc_calls + 1) := by
  unfold malloc
  rcases ho : h.outcomes with _ | ⟨o, rest⟩
  · left; simp
  · cases o with
    | none => left; simp
    | some g => right; exact ⟨g, by simp⟩

/-- The three ways `ensure_buf` ends, for a request within the documented 256
bytes on a head fragment within its capacity. -/
theorem ensure_buf_cases (cfg : Config) (c : sljit_compiler) (size : Nat) (h : Heap)
    (hv : cfg.valid) (hsize : size ≤ 256) (hu : c.buf.head.used_size ≤ BUF_CAPACITY cfg) :
    (c.buf.head.used_size + size ≤ BUF_CAPACITY cfg
        ∧ ensure_buf cfg c size h
          = (some { block := c.buf.head.block, off := c.buf.head.used_size },
             { c with buf :=
                 ⟨⟨c.buf.head.block, c.buf.head.used_size + size, c.buf.head.memory⟩,
                  c.buf.next⟩ }, h))
      ∨ (BUF_CAPACITY cfg < c.buf.head.used_size + size
        ∧ (malloc h BUF_SIZE).1 = none
        ∧ (malloc h BUF_SIZE).2.next_block = h.next_block
        ∧ ensure_buf cfg c size h
          = (none, { c with error := SLJIT_ERR_ALLOC_FAILED }, (malloc h BUF_SIZE).2))
      ∨ (BUF_CAPACITY cfg < c.buf.head.used_size + size
        ∧ (malloc h BUF_SIZE).2.next_block = h.next_block + 1
        ∧ ∃ g, ensure_buf cfg c size h
          = (some { block := h.next_block, off := 0 },
             { c with buf :=
                 ⟨⟨h.next_block, size, fragment_memory cfg (fresh_bytes g BUF_SIZE)⟩,
                  c.buf.toList⟩ }, (malloc h BUF_SIZE).2)) := by
  obtain ⟨-, -, -, -, hb, -⟩ := capacity_facts cfg hv
  have hmod : (c.buf.head.used_size + size) % ULONG_MOD cfg = c.buf.head.used_size + size :=
    Nat.mod_eq_of_lt (by omega)
  unfold ensure_buf
  rw [hmod]
  by_cases hroom : c.buf.head.used_size + size ≤ BUF_CAPACITY cfg
  · left
    exact ⟨hroom, by rw [if_pos hroom]⟩
  · right
    rw [if_neg hroom]
    rcases malloc_cases h BUF_SIZE with ⟨hn, hb1, -⟩ | ⟨g, hs, hb1, -⟩
    · left
      refine ⟨by omega, hn, hb1, ?_⟩
      rcases hm : malloc h BUF_SIZE with ⟨r, h1⟩
      rw [hm] at hn
      simp only at hn
      subst hn
      rfl
    · right
      refine ⟨by omega, hb1, g, ?_⟩
      rcases hm : malloc h BUF_SIZE with ⟨r, h1⟩
      rw [hm] at hs
      simp only at hs
      subst hs
      rfl

/-- The three ways `ensure_abuf` ends, for a request within the documented
256 bytes on a head fragment within its capacity. -/
theorem ensure_abuf_cases (cfg : Config) (c : sljit_compiler) (size : Nat) (h : Heap)
    (hv : cfg.valid) (hsize : size ≤ 256) (hu : c.abuf.head.used_size ≤ ABUF_CAPACITY cfg) :
    (c.abuf.head.used_size + size ≤ ABUF_CAPACITY cfg
        ∧ ensure_abuf cfg c size h
          = (some { block := c.abuf.head.block, off := c.abuf.head.used_size },
             { c with abuf :=
                 ⟨⟨c.abuf.head.block, c.abuf.head.used_size + size, c.abuf.head.memory⟩,
                  c.abuf.next⟩ }, h))
      ∨ (ABUF_CAPACITY cfg < c.abuf.head.used_size + size
        ∧ (malloc h (ABUF_SIZE cfg)).1 = none
        ∧ (malloc h (ABUF_SIZE cfg)).2.next_block = h.next_block
        ∧ ensure_abuf cfg c size h
          = (none, { c with error := SLJIT_ERR_ALLOC_FAILED }, (malloc h (ABUF_SIZE cfg)).2))
      ∨ (ABUF_CAPACITY cfg < c.abuf.head.used_size + size
        ∧ (malloc h (ABUF_SIZE cfg)).2.next_block = h.next_block + 1
        ∧ ∃ g, ensure_abuf cfg c size h
          = (some { block := h.next_block, off := 0 },
             { c with abuf :=
                 ⟨⟨h.next_block, size, fragment_memory cfg (fresh_bytes g (ABUF_SIZE cfg))⟩,
                  c.abuf.toList⟩ }, (malloc h (ABUF_SIZE cfg)).2)) := by
  obtain ⟨-, -, -, -, -, hb⟩ := capacity_facts cfg hv
  have hmod : (c.abuf.head.used_size + size) % ULONG_MOD cfg = c.abuf.head.used_size + size :=
    Nat.mod_eq_of_lt (by omega)
  unfold ensure_abuf
  rw [hmod]
  by_cases hroom : c.abuf.head.used_size + size ≤ ABUF_CAPACITY cfg
  · left
    exact ⟨hroom, by rw [if_pos hroom]⟩
  · right
    rw [if_neg hroom]
    rcases malloc_cases h (ABUF_SIZE cfg) with ⟨hn, hb1, -⟩ | ⟨g, hs, hb1, -⟩
    · left
      refine ⟨by omega, hn, hb1, ?_⟩
      rcases hm : malloc h (ABUF_SIZE cfg) with ⟨r, h1⟩
      rw [hm] at hn
      simp only at hn
      subst hn
      rfl
    · right
      refine ⟨by omega, hb1, g, ?_⟩
      rcases hm : malloc h (ABUF_SIZE cfg) with ⟨r, h1⟩
      rw [hm] at hs
      simp only at hs
      subst hs
      rfl

/-- C6. When `ensure_buf` or `ensure_abuf` needs a fresh fragment and the
allocation fails, it returns `NULL`, sets the error code to
`SLJIT_ERR_ALLOC_FAILED` (2) and leaves both fragment lists as they were,
after one `malloc` call; when the head fragment has room it returns a
pointer into that fragment, makes no `malloc` call and leaves the error code
and the allocator as they were. -/
theorem ensure_allocation_failure (cfg : Config) (compiler : sljit_compiler) (size : Nat)
    (h : Heap) :
    (¬ buf_has_room cfg compiler size → (malloc h BUF_SIZE).1 = none →
        ensure_buf cfg compiler size h
          = (none, { compiler with error := 2 }, (malloc h BUF_SIZE).2)
        ∧ (ensure_buf cfg compiler size h).2.1.buf = compiler.buf
        ∧ (ensure_buf cfg compiler size h).2.1.abuf = compiler.abuf
        ∧ (malloc h BUF_SIZE).2.malloc_calls = h.malloc_calls + 1)
      ∧ (buf_has_room cfg compiler size →
        (ensure_buf cfg compiler size h).1
            = some { block := compiler.buf.head.block, off := compiler.buf.head.used_size }
          ∧ (ensure_buf cfg compiler size h).2.1.error = compiler.error
          ∧ (ensure_buf cfg compiler size h).2.2 = h)
      ∧ (¬ abuf_has_room cfg compiler size → (malloc h (ABUF_SIZE cfg)).1 = none →
        ensure_abuf cfg compiler size h
          = (none, { compiler with error := 2 }, (malloc h (ABUF_SIZE cfg)).2)
        ∧ (ensure_abuf cfg compiler size h).2.1.buf = compiler.buf
        ∧ (ensure_abuf cfg compiler size h).2.1.abuf = compiler.abuf
        ∧ (malloc h (ABUF_SIZE cfg)).2.malloc_calls = h.malloc_calls + 1)
      ∧ (abuf_has_room cfg compiler size →
        (ensure_abuf cfg compiler size h).1
            = some { block := compiler.abuf.head.block, off := compiler.abuf.head.used_size }
          ∧ (ensure_abuf cfg compiler size h).2.1.error = compiler.error
          ∧ (ensure_abuf cfg compiler size h).2.2 = h) := by
  have hcalls : ∀ n, (malloc h n).2.malloc_calls = h.malloc_calls + 1 := by
    intro n
    unfold malloc
    rcases h.outcomes with _ | ⟨o, rest⟩
    · rfl
    · cases o <;> rfl
  refine ⟨?_, ?_, ?_, ?_⟩
  · intro hroom hfail
    have hres : ensure_buf cfg compiler size h
        = (none, { compiler with error := 2 }, (malloc h BUF_SIZE).2) := by
      unfold ensure_buf
      unfold buf_has_room at hroom
      rw [if_neg hroom]
      rcases hm : malloc h BUF_SIZE with ⟨r, h1⟩
      rw [hm] at hfail
      simp only at hfail
      subst hfail
      rfl
    refine ⟨hres, ?_, ?_, hcalls _⟩ <;> rw [hres]
  · intro hroom
    unfold buf_has_room at hroom
    unfold ensure_buf
    rw [if_pos hroom]
    exact ⟨rfl, rfl, rfl⟩
  · intro hroom hfail
    have hres : ensure_abuf cfg compiler size h
        = (none, { compiler with error := 2 }, (malloc h (ABUF_SIZE cfg)).2) := by
      unfold ensure_abuf
      unfold abuf_has_room at hroom
      rw [if_neg hroom]
      rcases hm : malloc h (ABUF_SIZE cfg) with ⟨r, h1⟩
      rw [hm] at hfail
      simp only at hfail
      subst hfail
      rfl
    refine ⟨hres, ?_, ?_, hcalls _⟩ <;> rw [hres]
  · intro hroom
    unfold abuf_has_room at hroom
    unfold ensure_abuf
    rw [if_pos hroom]
    exact ⟨rfl, rfl, rfl⟩

theorem malloc_some (h h1 : Heap) (n b : Nat) (bytes : List Nat)
    (hm : malloc h n = (some (b, bytes), h1)) :
    b = h.next_block ∧ h1.next_block = h.next_block + 1 ∧ bytes.length = n := by
  rcases malloc_cases h n with ⟨hn, -, -⟩ | ⟨g, hs, hb, -⟩
  · rw [hm] at hn
    simp at hn
  · rw [hm] at hs hb
    simp only [Option.some.injEq, Prod.mk.injEq] at hs
    exact ⟨hs.1, hb, by rw [hs.2, fresh_bytes_length]⟩

theorem malloc_none (h h1 : Heap) (n : Nat) (hm : malloc h n = (none, h1)) :
    h1.next_block = h.next_block := by
  rcases malloc_cases h n with ⟨-, hb, -⟩ | ⟨g, hs, -, -⟩
  · rw [hm] at hb
    exact hb
  · rw [hm] at hs
    simp at hs

/-- Well-formedness only looks at the two buffers and at the next block of
the allocator. -/
theorem buffers_ok_congr (cfg : Config) (c c1 : sljit_compiler) (h h1 : Heap)
    (hb : c1.buf = c.buf) (ha : c1.abuf = c.abuf) (hn : h.next_block ≤ h1.next_block)
    (hok : buffers_ok cfg c h) : buffers_ok cfg c1 h1 := by
  have hf : c1.fragments = c.fragments := by
    unfold sljit_compiler.fragments
    rw [hb, ha]
  exact
    { buf_size := by rw [hb]; exact hok.buf_size
      buf_memory := by rw [hb]; exact hok.buf_memory
      abuf_size := by rw [ha]; exact hok.abuf_size
      abuf_memory := by rw [ha]; exact hok.abuf_memory
      below := by
        rw [hf]
        intro f hfm
        exact lt_of_lt_of_le (hok.below f hfm) hn
      nodup := by rw [hf]; exact hok.nodup }

/-- The compiler that `sljit_create_compiler` returns has two empty buffers
of one fragment each, no error, and is well formed. -/
theorem create_compiler_ok (cfg : Config) (h0 h1 : Heap) (c0 : sljit_compiler)
    (hv : cfg.valid) (hc : sljit_create_compiler cfg h0 = (some c0, h1)) :
    buffers_ok cfg c0 h1 ∧ c0.buf.next = [] ∧ c0.abuf.next = []
      ∧ c0.buf.head.used_size = 0 ∧ c0.abuf.head.used_size = 0 ∧ c0.error = 0 := by
  obtain ⟨hcb, hca, -, -, -, -⟩ := capacity_facts cfg hv
  unfold sljit_create_compiler at hc
  rcases hm1 : malloc h0 cfg.compiler_size with ⟨_ | ⟨cb, cbytes⟩, g1⟩
  · rw [hm1] at hc; simp at hc
  rw [hm1] at hc
  simp only at hc
  rcases hm2 : malloc g1 BUF_SIZE with ⟨_ | ⟨bb, bbytes⟩, g2⟩
  · rw [hm2] at hc
    simp only at hc
    rcases hm3 : malloc g2 (ABUF_SIZE cfg) with ⟨_ | ⟨ab, abytes⟩, g3⟩ <;>
      rw [hm3] at hc <;> simp at hc
  rw [hm2] at hc
  simp only at hc
  rcases hm3 : malloc g2 (ABUF_SIZE cfg) with ⟨_ | ⟨ab, abytes⟩, g3⟩
  · rw [hm3] at hc; simp at hc
  rw [hm3] at hc
  simp only at hc
  obtain ⟨hbb, hg2, hbl⟩ := malloc_some _ _ _ _ _ hm2
  obtain ⟨hab, hg3, hal⟩ := malloc_some _ _ _ _ _ hm3
  have hbase : ∀ (c : sljit_compiler) (h : Heap),
      c.buf = ⟨⟨bb, 0, fragment_memory cfg bbytes⟩, []⟩ →
      c.abuf = ⟨⟨ab, 0, fragment_memory cfg abytes⟩, []⟩ →
      c.error = 0 → g3.next_block ≤ h.next_block →
      buffers_ok cfg c h ∧ c.buf.next = [] ∧ c.abuf.next = []
        ∧ c.buf.head.used_size = 0 ∧ c.abuf.head.used_size = 0 ∧ c.error = 0 := by
    intro c h hb ha he hn
    refine ⟨?_, by rw [hb], by rw [ha], by rw [hb], by rw [ha], he⟩
    exact
      { buf_size := by
          rw [hb]; intro f hf
          simp only [fragment_list.toList, List.mem_singleton] at hf
          subst hf; exact Nat.zero_le _
        buf_memory := by
          rw [hb]; intro f hf
          simp only [fragment_list.toList, List.mem_singleton] at hf
          subst hf
          simp only [fragment_memory, List.length_drop, hbl, hcb]
        abuf_size := by
          rw [ha]; intro f hf
          simp only [fragment_list.toList, List.mem_singleton] at hf
          subst hf; exact Nat.zero_le _
        abuf_memory := by
          rw [ha]; intro f hf
          simp only [fragment_list.toList, List.mem_singleton] at hf
          subst hf
          simp only [fragment_memory, List.length_drop, hal, hca]
        below := by
          unfold sljit_compiler.fragments
          rw [hb, ha]; intro f hf
          simp only [fragment_list.toList, List.singleton_append, List.mem_cons,
            List.mem_singleton, List.not_mem_nil, or_false] at hf
          rcases hf with hf | hf <;> subst hf <;> simp only <;> omega
        nodup := by
          unfold sljit_compiler.fragments
          rw [hb, ha]
          simp only [fragment_list.toList, List.singleton_append, List.map_cons, List.map_nil,
            List.nodup_cons, List.mem_singleton, List.not_mem_nil, not_false_eq_true,
            List.nodup_nil, and_true]
          omega }
  by_cases harm : cfg.arch = Arch.ARM_V5
  · rw [if_pos harm] at hc
    rcases hm4 : malloc g3 (CPOOL_SIZE * cfg.long_size + CPOOL_SIZE * 1) with
      ⟨_ | ⟨pb, pbytes⟩, g4⟩
    · rw [hm4] at hc; simp at hc
    rw [hm4] at hc
    simp only [Prod.mk.injEq, Option.some.injEq] at hc
    obtain ⟨hc1, hc2⟩ := hc
    obtain ⟨-, hg4, -⟩ := malloc_some _ _ _ _ _ hm4
    subst hc1 hc2
    apply hbase
    · split_ifs <;> rfl
    · split_ifs <;> rfl
    · split_ifs <;> rfl
    · omega
  · rw [if_neg harm] at hc
    simp only [Prod.mk.injEq, Option.some.injEq] at hc
    obtain ⟨hc1, hc2⟩ := hc
    subst hc1 hc2
    apply hbase
    · split_ifs <;> rfl
    · split_ifs <;> rfl
    · split_ifs <;> rfl
    · exact le_refl _

/-- Bounds and distinctness of blocks carry over to a list with the same
blocks. -/
theorem same_blocks_ok (l l1 : List sljit_memory_fragment) (nb : Nat)
    (heq : l1.map sljit_memory_fragment.block = l.map sljit_memory_fragment.block)
    (hbelow : ∀ f ∈ l, f.block < nb) (hnd : (l.map sljit_memory_fragment.block).Nodup) :
    (∀ f ∈ l1, f.block < nb) ∧ (l1.map sljit_memory_fragment.block).Nodup := by
  refine ⟨?_, by rw [heq]; exact hnd⟩
  intro f hf
  have hb : f.block ∈ l.map sljit_memory_fragment.block := by
    rw [← heq]; exact List.mem_map_of_mem _ hf
  obtain ⟨f0, hf0, hfb⟩ := List.mem_map.mp hb
  rw [← hfb]; exact hbelow f0 hf0

/-- Bounds and distinctness of blocks carry over to a list with one more
fragment, in the block the allocator hands out next. -/
theorem fresh_block_ok (l l1 : List sljit_memory_fragment) (nb : Nat)
    (hperm : (l1.map sljit_memory_fragment.block).Perm
      (nb :: l.map sljit_memory_fragment.block))
    (hbelow : ∀ f ∈ l, f.block < nb) (hnd : (l.map sljit_memory_fragment.block).Nodup) :
    (∀ f ∈ l1, f.block < nb + 1) ∧ (l1.map sljit_memory_fragment.block).Nodup := by
  constructor
  · intro f hf
    have hb : f.block ∈ nb :: l.map sljit_memory_fragment.block :=
      hperm.subset (List.mem_map_of_mem _ hf)
    rcases List.mem_cons.mp hb with hb | hb
    · omega
    · obtain ⟨f0, hf0, hfb⟩ := List.mem_map.mp hb
      have := hbelow f0 hf0
      omega
  · rw [hperm.nodup_iff, List.nodup_cons]
    refine ⟨?_, hnd⟩
    intro hmem
    obtain ⟨f0, hf0, hfb⟩ := List.mem_map.mp hmem
    have := hbelow f0 hf0
    omega

theorem chain_extends_refl (l : fragment_list) : chain_extends l l :=
  fun f hf => ⟨f, hf, rfl, rfl, le_refl _⟩

theorem chain_extends_trans (l l1 l2 : fragment_list) (h1 : chain_extends l l1)
    (h2 : chain_extends l1 l2) : chain_extends l l2 := by
  intro f hf
  obtain ⟨f1, hf1, hb1, hm1, hu1⟩ := h1 f hf
  obtain ⟨f2, hf2, hb2, hm2, hu2⟩ := h2 f1 hf1
  exact ⟨f2, hf2, hb2.trans hb1, hm2.trans hm1, le_trans hu1 hu2⟩

/-- A chain whose head fragment has grown keeps its fragments. -/
theorem chain_extends_carve (l : fragment_list) (n : Nat) :
    chain_extends l ⟨⟨l.head.block, l.head.used_size + n, l.head.memory⟩, l.next⟩ := by
  intro f hf
  simp only [fragment_list.toList, List.mem_cons] at hf
  rcases hf with hf | hf
  · subst hf
    exact ⟨_, List.mem_cons_self _ _, rfl, rfl, Nat.le_add_right _ _⟩
  · exact ⟨f, List.mem_cons_of_mem _ hf, rfl, rfl, le_refl _⟩

/-- A chain with a new head fragment keeps its fragments. -/
theorem chain_extends_push (l : fragment_list) (f0 : sljit_memory_fragment) :
    chain_extends l ⟨f0, l.toList⟩ :=
  fun f hf => ⟨f, List.mem_cons_of_mem _ hf, rfl, rfl, le_refl _⟩

/-- One `ensure_buf` call for at most 256 bytes on a well-formed compiler:
the compiler stays well formed, both chains keep their fragments, and a
returned region lies in the used part of a fragment of the chain, which is
a fresh block or the head fragment from its former `used_size` on. -/
theorem ensure_buf_step (cfg : Config) (c : sljit_compiler) (size : Nat) (h : Heap)
    (hv : cfg.valid) (hsize : size ≤ 256) (hok : buffers_ok cfg c h) :
    buffers_ok cfg (ensure_buf cfg c size h).2.1 (ensure_buf cfg c size h).2.2
      ∧ chain_extends c.buf (ensure_buf cfg c size h).2.1.buf
      ∧ chain_extends c.abuf (ensure_buf cfg c size h).2.1.abuf
      ∧ h.next_block ≤ (ensure_buf cfg c size h).2.2.next_block
      ∧ ∀ p, (ensure_buf cfg c size h).1 = some p →
          (∃ f1 ∈ (ensure_buf cfg c size h).2.1.buf.toList,
              f1.block = p.block ∧ p.off + size ≤ f1.used_size)
            ∧ (p.block = h.next_block
                ∨ ∃ f ∈ c.buf.toList, f.block = p.block ∧ f.used_size = p.off) := by
  obtain ⟨hcap, -, hc1, -, -, -⟩ := capacity_facts cfg hv
  have hhead : c.buf.head ∈ c.buf.toList := List.mem_cons_self _ _
  rcases ensure_buf_cases cfg c size h hv hsize (hok.buf_size _ hhead) with
    ⟨hroom, hres⟩ | ⟨-, -, hnb, hres⟩ | ⟨-, hnb, g, hres⟩
  · rw [hres]
    dsimp only
    obtain ⟨hb, hn⟩ := same_blocks_ok c.fragments
      ((⟨c.buf.head.block, c.buf.head.used_size + size, c.buf.head.memory⟩ :: c.buf.next)
        ++ c.abuf.toList) h.next_block
      (by simp [sljit_compiler.fragments, fragment_list.toList]) hok.below hok.nodup
    refine ⟨?_, chain_extends_carve _ _, chain_extends_refl _, le_refl _, ?_⟩
    · exact
        { buf_size := by
            intro f hf
            rcases List.mem_cons.mp hf with hf | hf
            · subst hf; exact hroom
            · exact hok.buf_size f (List.mem_cons_of_mem _ hf)
          buf_memory := by
            intro f hf
            rcases List.mem_cons.mp hf with hf | hf
            · subst hf; exact hok.buf_memory c.buf.head hhead
            · exact hok.buf_memory f (List.mem_cons_of_mem _ hf)
          abuf_size := hok.abuf_size
          abuf_memory := hok.abuf_memory
          below := by
            intro f hf
            apply hb
            simpa [sljit_compiler.fragments, fragment_list.toList] using hf
          nodup := by
            simpa [sljit_compiler.fragments, fragment_list.toList] using hn }
    · intro p hp
      simp only [Option.some.injEq] at hp
      subst hp
      exact ⟨⟨_, List.mem_cons_self _ _, rfl, le_refl _⟩, Or.inr ⟨_, hhead, rfl, rfl⟩⟩
  · rw [hres]
    dsimp only
    refine ⟨buffers_ok_congr cfg c _ h _ rfl rfl (le_of_eq hnb.symm) hok,
      chain_extends_refl _, chain_extends_refl _, le_of_eq hnb.symm, ?_⟩
    intro p hp
    simp at hp
  · rw [hres]
    dsimp only
    have hlen : (fragment_memory cfg (fresh_bytes g BUF_SIZE)).length = BUF_CAPACITY cfg := by
      rw [fragment_memory_length]
      exact hcap.symm
    obtain ⟨hb, hn⟩ := fresh_block_ok c.fragments
      ((⟨h.next_block, size, fragment_memory cfg (fresh_bytes g BUF_SIZE)⟩ :: c.buf.toList)
        ++ c.abuf.toList) h.next_block
      (by simp [sljit_compiler.fragments]) hok.below hok.nodup
    refine ⟨?_, chain_extends_push _ _, chain_extends_refl _, by omega, ?_⟩
    · exact
        { buf_size := by
            intro f hf
            rcases List.mem_cons.mp hf with hf | hf
            · subst hf; show size ≤ BUF_CAPACITY cfg; omega
            · exact hok.buf_size f hf
          buf_memory := by
            intro f hf
            rcases List.mem_cons.mp hf with hf | hf
            · subst hf; exact hlen
            · exact hok.buf_memory f hf
          abuf_size := hok.abuf_size
          abuf_memory := hok.abuf_memory
          below := by
            intro f hf
            rw [hnb]
            exact hb f hf
          nodup := hn }
    · intro p hp
      simp only [Option.some.injEq] at hp
      subst hp
      exact ⟨⟨_, List.mem_cons_self _ _, rfl, by simp⟩, Or.inl rfl⟩

/-- One `ensure_abuf` call for at most 256 bytes on a well-formed compiler:
the compiler stays well formed, both chains keep their fragments, and a
returned region lies in the used part of a fragment of the chain, which is
a fresh block or the head fragment from its former `used_size` on. -/
theorem ensure_abuf_step (cfg : Config) (c : sljit_compiler) (size : Nat) (h : Heap)
    (hv : cfg.valid) (hsize : size ≤ 256) (hok : buffers_ok cfg c h) :
    buffers_ok cfg (ensure_abuf cfg c size h).2.1 (ensure_abuf cfg c size h).2.2
      ∧ chain_extends c.buf (ensure_abuf cfg c size h).2.1.buf
      ∧ chain_extends c.abuf (ensure_abuf cfg c size h).2.1.abuf
      ∧ h.next_block ≤ (ensure_abuf cfg c size h).2.2.next_block
      ∧ ∀ p, (ensure_abuf cfg c size h).1 = some p →
          (∃ f1 ∈ (ensure_abuf cfg c size h).2.1.abuf.toList,
              f1.block = p.block ∧ p.off + size ≤ f1.used_size)
            ∧ (p.block = h.next_block
                ∨ ∃ f ∈ c.abuf.toList, f.block = p.block ∧ f.used_size = p.off) := by
  obtain ⟨-, hcap, -, hc1, -, -⟩ := capacity_facts cfg hv
  have hhead : c.abuf.head ∈ c.abuf.toList := List.mem_cons_self _ _
  rcases ensure_abuf_cases cfg c size h hv hsize (hok.abuf_size _ hhead) with
    ⟨hroom, hres⟩ | ⟨-, -, hnb, hres⟩ | ⟨-, hnb, g, hres⟩
  · rw [hres]
    dsimp only
    obtain ⟨hb, hn⟩ := same_blocks_ok c.fragments
      (c.buf.toList ++ (⟨c.abuf.head.block, c.abuf.head.used_size + size,
        c.abuf.head.memory⟩ :: c.abuf.next)) h.next_block
      (by simp [sljit_compiler.fragments, fragment_list.toList]) hok.below hok.nodup
    refine ⟨?_, chain_extends_refl _, chain_extends_carve _ _, le_refl _, ?_⟩
    · exact
        { abuf_size := by
            intro f hf
            rcases List.mem_cons.mp hf with hf | hf
            · subst hf; exact hroom
            · exact hok.abuf_size f (List.mem_cons_of_mem _ hf)
          abuf_memory := by
            intro f hf
            rcases List.mem_cons.mp hf with hf | hf
            · subst hf; exact hok.abuf_memory c.abuf.head hhead
            · exact hok.abuf_memory f (List.mem_cons_of_mem _ hf)
          buf_size := hok.buf_size
          buf_memory := hok.buf_memory
          below := by
            intro f hf
            apply hb
            simpa [sljit_compiler.fragments, fragment_list.toList] using hf
          nodup := by
            simpa [sljit_compiler.fragments, fragment_list.toList] using hn }
    · intro p hp
      simp only [Option.some.injEq] at hp
      subst hp
      exact ⟨⟨_, List.mem_cons_self _ _, rfl, le_refl _⟩, Or.inr ⟨_, hhead, rfl, rfl⟩⟩
  · rw [hres]
    dsimp only
    refine ⟨buffers_ok_congr cfg c _ h _ rfl rfl (le_of_eq hnb.symm) hok,
      chain_extends_refl _, chain_extends_refl _, le_of_eq hnb.symm, ?_⟩
    intro p hp
    simp at hp
  · rw [hres]
    dsimp only
    have hlen : (fragment_memory cfg (fresh_bytes g (ABUF_SIZE cfg))).length = ABUF_CAPACITY cfg := by
      rw [fragment_memory_length]
      exact hcap.symm
    obtain ⟨hb, hn⟩ := fresh_block_ok c.fragments
      (c.buf.toList ++ (⟨h.next_block, size,
        fragment_memory cfg (fresh_bytes g (ABUF_SIZE cfg))⟩ :: c.abuf.toList)) h.next_block
      (by
        simp only [sljit_compiler.fragments, List.map_append, List.map_cons]
        exact List.perm_middle) hok.below hok.nodup
    refine ⟨?_, chain_extends_refl _, chain_extends_push _ _, by omega, ?_⟩
    · exact
        { abuf_size := by
            intro f hf
            rcases List.mem_cons.mp hf with hf | hf
            · subst hf; show size ≤ ABUF_CAPACITY cfg; omega
            · exact hok.abuf_size f hf
          abuf_memory := by
            intro f hf
            rcases List.mem_cons.mp hf with hf | hf
            · subst hf; exact hlen
            · exact hok.abuf_memory f hf
          buf_size := hok.buf_size
          buf_memory := hok.buf_memory
          below := by
            intro f hf
            rw [hnb]
            exact hb f hf
          nodup := hn }
    · intro p hp
      simp only [Option.some.injEq] at hp
      subst hp
      exact ⟨⟨_, List.mem_cons_self _ _, rfl, by simp⟩, Or.inl rfl⟩

/-- One `ensure` call of either kind, for at most 256 bytes, on a well-formed
compiler. -/
theorem ensure_call_step (cfg : Config) (c : sljit_compiler) (call : ensure_call) (h : Heap)
    (hv : cfg.valid) (hsize : call.size ≤ 256) (hok : buffers_ok cfg c h) :
    buffers_ok cfg (call.run cfg c h).2.1 (call.run cfg c h).2.2
      ∧ chain_extends c.buf (call.run cfg c h).2.1.buf
      ∧ chain_extends c.abuf (call.run cfg c h).2.1.abuf
      ∧ h.next_block ≤ (call.run cfg c h).2.2.next_block
      ∧ ∀ p, (call.run cfg c h).1 = some p →
          (∃ f1 ∈ (call.chain (call.run cfg c h).2.1).toList,
              f1.block = p.block ∧ p.off + call.size ≤ f1.used_size)
            ∧ (p.block = h.next_block
                ∨ ∃ f ∈ (call.chain c).toList, f.block = p.block ∧ f.used_size = p.off) := by
  cases call with
  | buf n => exact ensure_buf_step cfg c n h hv hsize hok
  | abuf n => exact ensure_abuf_step cfg c n h hv hsize hok

/-- A sequence of `ensure` calls, each for at most 256 bytes, on a
well-formed compiler. -/
theorem ensure_calls_ok (cfg : Config) (hv : cfg.valid) (calls : List ensure_call) :
    ∀ (c : sljit_compiler) (h : Heap), buffers_ok cfg c h →
      (∀ call ∈ calls, call.size ≤ 256) →
      buffers_ok cfg (ensure_calls cfg c calls h).2.1 (ensure_calls cfg c calls h).2.2
        ∧ chain_extends c.buf (ensure_calls cfg c calls h).2.1.buf
        ∧ chain_extends c.abuf (ensure_calls cfg c calls h).2.1.abuf := by
  induction calls with
  | nil =>
    intro c h hok _
    exact ⟨hok, chain_extends_refl _, chain_extends_refl _⟩
  | cons call rest ih =>
    intro c h hok hsizes
    obtain ⟨hok1, hb1, ha1, -, -⟩ :=
      ensure_call_step cfg c call h hv (hsizes call (List.mem_cons_self _ _)) hok
    obtain ⟨hok2, hb2, ha2⟩ := ih _ _ hok1 (fun k hk => hsizes k (List.mem_cons_of_mem _ hk))
    have hunf : ensure_calls cfg c (call :: rest) h
        = ((call.run cfg c h).1 ::
            (ensure_calls cfg (call.run cfg c h).2.1 rest (call.run cfg c h).2.2).1,
           (ensure_calls cfg (call.run cfg c h).2.1 rest (call.run cfg c h).2.2).2.1,
           (ensure_calls cfg (call.run cfg c h).2.1 rest (call.run cfg c h).2.2).2.2) := rfl
    rw [hunf]
    exact ⟨hok2, chain_extends_trans _ _ _ hb1 hb2, chain_extends_trans _ _ _ ha1 ha2⟩

/-- C5. Starting from a freshly created compiler, after any sequence of
`ensure_buf` and `ensure_abuf` calls with sizes of at most 256, every
fragment of the instruction buffer has
`used_size <= BUF_SIZE - offsetof(memory)` and every fragment of the
auxiliary buffer has `used_size <= ABUF_SIZE - offsetof(memory)`. -/
theorem fragment_capacity_invariant (cfg : Config) (h0 h1 : Heap) (c0 : sljit_compiler)
    (calls : List ensure_call) (hv : cfg.valid)
    (hcreate : sljit_create_compiler cfg h0 = (some c0, h1))
    (hsizes : ∀ call ∈ calls, call.size ≤ 256) :
    (∀ f ∈ (ensure_calls cfg c0 calls h1).2.1.buf.toList,
        f.used_size ≤ BUF_SIZE - OFFSETOF_memory cfg)
      ∧ (∀ f ∈ (ensure_calls cfg c0 calls h1).2.1.abuf.toList,
        f.used_size ≤ ABUF_SIZE cfg - OFFSETOF_memory cfg) := by
  obtain ⟨hcb, hca, -, -, -, -⟩ := capacity_facts cfg hv
  obtain ⟨hok0, -⟩ := create_compiler_ok cfg h0 h1 c0 hv hcreate
  obtain ⟨hok, -, -⟩ := ensure_calls_ok cfg hv calls c0 h1 hok0 hsizes
  rw [← hcb, ← hca]
  exact ⟨hok.buf_size, hok.abuf_size⟩

/-- Two requests on the compiler created from the sample allocator. -/
theorem fragment_capacity_invariant_witness :
    ∃ c0 h1, sljit_create_compiler sample_config sample_heap = (some c0, h1)
      ∧ (∀ f ∈ (ensure_calls sample_config c0
            [ensure_call.buf 200, ensure_call.abuf 16] h1).2.1.buf.toList,
          f.used_size ≤ BUF_SIZE - OFFSETOF_memory sample_config)
      ∧ (∀ f ∈ (ensure_calls sample_config c0
            [ensure_call.buf 200, ensure_call.abuf 16] h1).2.1.abuf.toList,
          f.used_size ≤ ABUF_SIZE sample_config - OFFSETOF_memory sample_config) :=
  ⟨_, _, rfl,
   fragment_capacity_invariant sample_config sample_heap _ _
     [ensure_call.buf 200, ensure_call.abuf 16] (by decide) rfl (by decide)⟩

/-- A fragment of the chain a call works on is a fragment of the compiler. -/
theorem chain_mem_fragments (call : ensure_call) (c : sljit_compiler)
    (f : sljit_memory_fragment) (hf : f ∈ (call.chain c).toList) : f ∈ c.fragments := by
  unfold sljit_compiler.fragments
  cases call with
  | buf n => exact List.mem_append_left _ hf
  | abuf n => exact List.mem_append_right _ hf

/-- The chain a call works on keeps its fragments through a sequence of
calls. -/
theorem chain_extends_calls (cfg : Config) (hv : cfg.valid) (call : ensure_call)
    (calls : List ensure_call) (c : sljit_compiler) (h : Heap) (hok : buffers_ok cfg c h)
    (hsizes : ∀ k ∈ calls, k.size ≤ 256) :
    chain_extends (call.chain c) (call.chain (ensure_calls cfg c calls h).2.1) := by
  obtain ⟨-, hb, ha⟩ := ensure_calls_ok cfg hv calls c h hok hsizes
  cases call with
  | buf n => exact hb
  | abuf n => exact ha

/-- A region that lies in the used part of a fragment is disjoint from every
region that later calls return. -/
theorem later_regions_disjoint (cfg : Config) (hv : cfg.valid) (call : ensure_call)
    (p : Ptr) (post : List ensure_call) :
    ∀ (c : sljit_compiler) (h : Heap), buffers_ok cfg c h →
      (∀ k ∈ post, k.size ≤ 256) →
      (∃ f ∈ (call.chain c).toList, f.block = p.block ∧ p.off + call.size ≤ f.used_size) →
      ∀ k q, (k, some q) ∈ post.zip (ensure_calls cfg c post h).1 →
        regions_disjoint p call.size q k.size := by
  induction post with
  | nil =>
    intro c h _ _ _ k q hmem
    simp [ensure_calls] at hmem
  | cons k0 rest ih =>
    intro c h hok hsizes hfrag k q hmem
    obtain ⟨f, hf, hfb, hfu⟩ := hfrag
    obtain ⟨hok1, hb1, ha1, -, hret⟩ :=
      ensure_call_step cfg c k0 h hv (hsizes k0 (List.mem_cons_self _ _)) hok
    have hunf : (ensure_calls cfg c (k0 :: rest) h).1
        = (k0.run cfg c h).1 ::
            (ensure_calls cfg (k0.run cfg c h).2.1 rest (k0.run cfg c h).2.2).1 := rfl
    rw [hunf, List.zip_cons_cons, List.mem_cons] at hmem
    rcases hmem with hmem | hmem
    · simp only [Prod.mk.injEq] at hmem
      obtain ⟨hk, hq⟩ := hmem
      subst hk
      obtain ⟨-, hwhere⟩ := hret q hq.symm
      unfold regions_disjoint
      rcases hwhere with hfresh | ⟨f2, hf2, hf2b, hf2u⟩
      · left
        have := hok.below f (chain_mem_fragments call c f hf)
        omega
      · by_cases hbl : p.block = q.block
        · right; left
          have heq : f2 = f :=
            List.inj_on_of_nodup_map hok.nodup (chain_mem_fragments k c f2 hf2)
              (chain_mem_fragments call c f hf) (by rw [hf2b, hfb, hbl])
          subst heq
          omega
        · left; exact hbl
    · have hext : chain_extends (call.chain c) (call.chain (k0.run cfg c h).2.1) := by
        cases call with
        | buf n => exact hb1
        | abuf n => exact ha1
      obtain ⟨f1, hf1, hf1b, -, hf1u⟩ := hext f hf
      exact ih _ _ hok1 (fun k hk => hsizes k (List.mem_cons_of_mem _ hk))
        ⟨f1, hf1, hf1b.trans hfb, le_trans hfu hf1u⟩ k q hmem

/-- C4. A region returned by `ensure_buf` or `ensure_abuf` stays valid
through every later `ensure` call (all sizes within the documented 256
bytes, from a freshly created compiler): the fragment that holds it stays
in its chain, in the same block, with the same `memory` content and a
`used_size` that does not shrink and covers the region; the fragments stay
in distinct blocks; and every region returned later is disjoint from it. -/
theorem ensure_regions_stable (cfg : Config) (h0 h1 : Heap) (c0 : sljit_compiler)
    (pre post : List ensure_call) (call : ensure_call) (p : Ptr)
    (rs1 rs3 : List (Option Ptr)) (c1 c2 c3 : sljit_compiler) (g1 g2 g3 : Heap)
    (hv : cfg.valid)
    (hcreate : sljit_create_compiler cfg h0 = (some c0, h1))
    (hpre : ∀ k ∈ pre, k.size ≤ 256) (hcall : call.size ≤ 256)
    (hpost : ∀ k ∈ post, k.size ≤ 256)
    (hrun1 : ensure_calls cfg c0 pre h1 = (rs1, c1, g1))
    (hrun2 : call.run cfg c1 g1 = (some p, c2, g2))
    (hrun3 : ensure_calls cfg c2 post g2 = (rs3, c3, g3)) :
    (∃ f ∈ (call.chain c2).toList, f.block = p.block ∧ p.off + call.size ≤ f.used_size
        ∧ f.used_size ≤ f.memory.length
        ∧ ∃ f1 ∈ (call.chain c3).toList,
            f1.block = p.block ∧ f1.memory = f.memory ∧ f.used_size ≤ f1.used_size)
      ∧ (c3.fragments.map sljit_memory_fragment.block).Nodup
      ∧ ∀ k q, (k, some q) ∈ post.zip rs3 → regions_disjoint p call.size q k.size := by
  obtain ⟨hok0, -⟩ := create_compiler_ok cfg h0 h1 c0 hv hcreate
  obtain ⟨hok1, -, -⟩ := ensure_calls_ok cfg hv pre c0 h1 hok0 hpre
  rw [hrun1] at hok1
  obtain ⟨hok2, -, -, -, hret⟩ := ensure_call_step cfg c1 call g1 hv hcall hok1
  rw [hrun2] at hok2 hret
  obtain ⟨⟨f, hf, hfb, hfu⟩, -⟩ := hret p rfl
  obtain ⟨hok3, -, -⟩ := ensure_calls_ok cfg hv post c2 g2 hok2 hpost
  have hext := chain_extends_calls cfg hv call post c2 g2 hok2 hpost
  have hdis := later_regions_disjoint cfg hv call p post c2 g2 hok2 hpost ⟨f, hf, hfb, hfu⟩
  rw [hrun3] at hok3 hext hdis
  obtain ⟨f1, hf1, hf1b, hf1m, hf1u⟩ := hext f hf
  have hlen : f.used_size ≤ f.memory.length := by
    cases call with
    | buf n => rw [hok2.buf_memory f hf]; exact hok2.buf_size f hf
    | abuf n => rw [hok2.abuf_memory f hf]; exact hok2.abuf_size f hf
  exact ⟨⟨f, hf, hfb, hfu, hlen, f1, hf1, hf1b.trans hfb, hf1m, hf1u⟩, hok3.nodup, hdis⟩

/-- A 16-byte record in the auxiliary buffer, after an 8-byte instruction and
before another record and another instruction. -/
theorem ensure_regions_stable_witness :
    ∃ c0 h1 rs1 c1 g1 p c2 g2 rs3 c3 g3,
      sljit_create_compiler sample_config sample_heap = (some c0, h1)
      ∧ ensure_calls sample_config c0 [ensure_call.buf 8] h1 = (rs1, c1, g1)
      ∧ (ensure_call.abuf 16).run sample_config c1 g1 = (some p, c2, g2)
      ∧ ensure_calls sample_config c2 [ensure_call.abuf 16, ensure_call.buf 8] g2
          = (rs3, c3, g3)
      ∧ (∃ f ∈ ((ensure_call.abuf 16).chain c2).toList,
          f.block = p.block ∧ p.off + (ensure_call.abuf 16).size ≤ f.used_size
          ∧ f.used_size ≤ f.memory.length
          ∧ ∃ f1 ∈ ((ensure_call.abuf 16).chain c3).toList,
              f1.block = p.block ∧ f1.memory = f.memory ∧ f.used_size ≤ f1.used_size)
      ∧ (c3.fragments.map sljit_memory_fragment.block).Nodup
      ∧ ∀ k q, (k, some q) ∈ [ensure_call.abuf 16, ensure_call.buf 8].zip rs3 →
          regions_disjoint p (ensure_call.abuf 16).size q k.size :=
  ⟨_, _, _, _, _, _, _, _, _, _, _, rfl, rfl, rfl, rfl,
   ensure_regions_stable sample_config sample_heap _ _
     [ensure_call.buf 8] [ensure_call.abuf 16, ensure_call.buf 8] (ensure_call.abuf 16)
     _ _ _ _ _ _ _ _ _ (by decide) rfl (by decide) (by decide) (by decide) rfl rfl rfl⟩

/-! ## Emission order -/

theorem reverse_buf_loop_toList (tmp : List sljit_memory_fragment) :
    ∀ (buf : sljit_memory_fragment) (prev : List sljit_memory_fragment),
      (reverse_buf_loop buf tmp prev).toList = (buf :: tmp).reverse ++ prev := by
  induction tmp with
  | nil =>
    intro buf prev
    simp [reverse_buf_loop, fragment_list.toList]
  | cons t rest ih =>
    intro buf prev
    rw [reverse_buf_loop, ih]
    simp

/-- The function `reverse_buf` reverses the chain of the instruction buffer. -/
theorem reverse_buf_toList (c : sljit_compiler) :
    (reverse_buf c).buf.toList = c.buf.toList.reverse := by
  show (reverse_buf_loop c.buf.head c.buf.next []).toList = (c.buf.head :: c.buf.next).reverse
  rw [reverse_buf_loop_toList, List.append_nil]

theorem write_at_length (mem : List Nat) (off : Nat) (bytes : List Nat) :
    (write_at mem off bytes).length = mem.length := by
  unfold write_at
  split_ifs with hfit
  · simp only [List.length_append, List.length_take, List.length_drop]
    omega
  · rfl

theorem write_at_take (mem : List Nat) (off : Nat) (bytes : List Nat)
    (hfit : off + bytes.length ≤ mem.length) :
    (write_at mem off bytes).take (off + bytes.length) = mem.take off ++ bytes := by
  unfold write_at
  rw [if_pos hfit]
  have hlen : (mem.take off ++ bytes).length = off + bytes.length := by
    simp only [List.length_append, List.length_take]
    omega
  rw [← hlen, List.take_left]

/-- A store leaves the block and the `used_size` of a fragment and the length
of its `memory`. -/
theorem store_fields (f : sljit_memory_fragment) (p : Ptr) (bytes : List Nat) :
    (f.store p bytes).block = f.block ∧ (f.store p bytes).used_size = f.used_size
      ∧ (f.store p bytes).memory.length = f.memory.length := by
  unfold sljit_memory_fragment.store
  split_ifs
  · exact ⟨rfl, rfl, write_at_length _ _ _⟩
  · exact ⟨rfl, rfl, rfl⟩

theorem store_other (f : sljit_memory_fragment) (p : Ptr) (bytes : List Nat)
    (hne : f.block ≠ p.block) : f.store p bytes = f := by
  unfold sljit_memory_fragment.store
  rw [if_neg hne]

theorem store_others (l : List sljit_memory_fragment) (p : Ptr) (bytes : List Nat)
    (hne : ∀ f ∈ l, f.block ≠ p.block) : l.map (fun f => f.store p bytes) = l := by
  induction l with
  | nil => rfl
  | cons f rest ih =>
    rw [List.map_cons, store_other f p bytes (hne f (List.mem_cons_self _ _)),
      ih (fun f1 hf1 => hne f1 (List.mem_cons_of_mem _ hf1))]

theorem store_toList (l : fragment_list) (p : Ptr) (bytes : List Nat) :
    (l.store p bytes).toList = l.toList.map (fun f => f.store p bytes) := rfl

theorem store_blocks (l : List sljit_memory_fragment) (p : Ptr) (bytes : List Nat) :
    (l.map (fun f => f.store p bytes)).map sljit_memory_fragment.block
      = l.map sljit_memory_fragment.block := by
  rw [List.map_map]
  exact List.map_congr_left (fun f _ => (store_fields f p bytes).1)

theorem store_sizes (l : List sljit_memory_fragment) (p : Ptr) (bytes : List Nat) :
    (l.map (fun f => f.store p bytes)).map sljit_memory_fragment.used_size
      = l.map sljit_memory_fragment.used_size := by
  rw [List.map_map]
  exact List.map_congr_left (fun f _ => (store_fields f p bytes).2.1)

/-- A store into the instruction buffer keeps the compiler well formed. -/
theorem store_ok (cfg : Config) (c : sljit_compiler) (h : Heap) (p : Ptr) (bytes : List Nat)
    (hok : buffers_ok cfg c h) : buffers_ok cfg { c with buf := c.buf.store p bytes } h := by
  obtain ⟨hb, hn⟩ := same_blocks_ok c.fragments
    ((c.buf.store p bytes).toList ++ c.abuf.toList) h.next_block
    (by
      unfold sljit_compiler.fragments
      rw [store_toList, List.map_append, List.map_append, store_blocks])
    hok.below hok.nodup
  exact
    { buf_size := by
        intro f hf
        obtain ⟨f0, hf0, hf1⟩ := List.mem_map.mp
          (show f ∈ c.buf.toList.map (fun f => f.store p bytes) from hf)
        rw [← hf1, (store_fields _ _ _).2.1]
        exact hok.buf_size f0 hf0
      buf_memory := by
        intro f hf
        obtain ⟨f0, hf0, hf1⟩ := List.mem_map.mp
          (show f ∈ c.buf.toList.map (fun f => f.store p bytes) from hf)
        rw [← hf1, (store_fields _ _ _).2.2]
        exact hok.buf_memory f0 hf0
      abuf_size := hok.abuf_size
      abuf_memory := hok.abuf_memory
      below := hb
      nodup := hn }

/-- One emission of at most 256 bytes on a well-formed compiler: the bytes
of the instruction buffer in the order of emission (the used bytes of the
fragments, last fragment of the chain first) grow by the payload, and the
total size by its length. -/
theorem emit_payload_step (cfg : Config) (hv : cfg.valid) (c c1 : sljit_compiler)
    (payload : List Nat) (h h1 : Heap) (p : Ptr) (hok : buffers_ok cfg c h)
    (hsize : payload.length ≤ 256)
    (hrun : emit_payload cfg c payload h = some (p, c1, h1)) :
    buffers_ok cfg c1 h1
      ∧ (c1.buf.toList.reverse.map sljit_memory_fragment.used).flatten
          = (c.buf.toList.reverse.map sljit_memory_fragment.used).flatten ++ payload
      ∧ c1.buf.total_size = c.buf.total_size + payload.length := by
  obtain ⟨hcap, -, hc1, -, -, -⟩ := capacity_facts cfg hv
  have hhead : c.buf.head ∈ c.buf.toList := List.mem_cons_self _ _
  have hstep := (ensure_buf_step cfg c payload.length h hv hsize hok).1
  unfold emit_payload at hrun
  rcases ensure_buf_cases cfg c payload.length h hv hsize (hok.buf_size _ hhead) with
    ⟨hroom, hres⟩ | ⟨-, -, -, hres⟩ | ⟨-, hnb, g, hres⟩
  · rw [hres] at hrun hstep
    simp only [Option.some.injEq, Prod.mk.injEq] at hrun
    obtain ⟨hp, hc, hh⟩ := hrun
    subst hp hc hh
    refine ⟨store_ok cfg _ _ _ _ hstep, ?_, ?_⟩
    · have hnd : ∀ f ∈ c.buf.next, f.block ≠ c.buf.head.block := by
        have hn := hok.nodup
        simp only [sljit_compiler.fragments, fragment_list.toList, List.cons_append,
          List.map_cons, List.nodup_cons, List.map_append, List.mem_append, List.mem_map,
          not_or, not_exists, not_and] at hn
        exact fun f hf => hn.1.1 f hf
      have hmem : c.buf.head.memory.length = BUF_CAPACITY cfg := hok.buf_memory _ hhead
      have hused : (sljit_memory_fragment.store
            ⟨c.buf.head.block, c.buf.head.used_size + payload.length, c.buf.head.memory⟩
            ⟨c.buf.head.block, c.buf.head.used_size⟩ payload).used
          = c.buf.head.used ++ payload := by
        unfold sljit_memory_fragment.store sljit_memory_fragment.used
        rw [if_pos rfl]
        exact write_at_take _ _ _ (by rw [hmem]; exact hroom)
      have hlist : (fragment_list.store
            ⟨⟨c.buf.head.block, c.buf.head.used_size + payload.length, c.buf.head.memory⟩,
              c.buf.next⟩ ⟨c.buf.head.block, c.buf.head.used_size⟩ payload).toList
          = sljit_memory_fragment.store
              ⟨c.buf.head.block, c.buf.head.used_size + payload.length, c.buf.head.memory⟩
              ⟨c.buf.head.block, c.buf.head.used_size⟩ payload :: c.buf.next := by
        rw [store_toList]
        show _ :: c.buf.next.map _ = _
        rw [store_others _ _ _ hnd]
      show ((fragment_list.store _ _ _).toList.reverse.map _).flatten = _
      rw [hlist]
      simp only [fragment_list.toList, List.reverse_cons, List.map_append, List.map_cons,
        List.map_nil, List.flatten_append, List.flatten_cons, List.flatten_nil,
        List.append_nil, hused, List.append_assoc]
    · show ((fragment_list.store _ _ _).toList.map _).sum = _
      rw [store_toList, store_sizes]
      simp only [fragment_list.total_size, fragment_list.toList, List.map_cons, List.sum_cons]
      omega
  · rw [hres] at hrun
    simp at hrun
  · rw [hres] at hrun hstep
    simp only [Option.some.injEq, Prod.mk.injEq] at hrun
    obtain ⟨hp, hc, hh⟩ := hrun
    subst hp hc hh
    refine ⟨store_ok cfg _ _ _ _ hstep, ?_, ?_⟩
    · have hnd : ∀ f ∈ c.buf.toList, f.block ≠ h.next_block := by
        intro f hf hb
        have := hok.below f (List.mem_append_left _ hf)
        omega
      have hlen : (fragment_memory cfg (fresh_bytes g BUF_SIZE)).length
          = BUF_CAPACITY cfg := by
        rw [fragment_memory_length]
        exact hcap.symm
      have hused : (sljit_memory_fragment.store
            ⟨h.next_block, payload.length, fragment_memory cfg (fresh_bytes g BUF_SIZE)⟩
            ⟨h.next_block, 0⟩ payload).used = payload := by
        unfold sljit_memory_fragment.store sljit_memory_fragment.used
        rw [if_pos rfl]
        have := write_at_take (fragment_memory cfg (fresh_bytes g BUF_SIZE)) 0 payload
          (by rw [hlen]; omega)
        simpa using this
      have hlist : (fragment_list.store
            ⟨⟨h.next_block, payload.length, fragment_memory cfg (fresh_bytes g BUF_SIZE)⟩,
              c.buf.toList⟩ ⟨h.next_block, 0⟩ payload).toList
          = sljit_memory_fragment.store
              ⟨h.next_block, payload.length, fragment_memory cfg (fresh_bytes g BUF_SIZE)⟩
              ⟨h.next_block, 0⟩ payload :: c.buf.toList := by
        rw [store_toList]
        show _ :: c.buf.toList.map _ = _
        rw [store_others _ _ _ hnd]
      show ((fragment_list.store _ _ _).toList.reverse.map _).flatten = _
      rw [hlist]
      simp only [List.reverse_cons, List.map_append, List.map_cons, List.map_nil,
        List.flatten_append, List.flatten_cons, List.flatten_nil, List.append_nil, hused]
    · show ((fragment_list.store _ _ _).toList.map _).sum = _
      rw [store_toList, store_sizes]
      simp only [fragment_list.total_size, fragment_list.toList, List.map_cons, List.sum_cons]
      omega

/-- A sequence of emissions, each of at most 256 bytes, on a well-formed
compiler. -/
theorem emit_payloads_order (cfg : Config) (hv : cfg.valid) (payloads : List (List Nat)) :
    ∀ (c c1 : sljit_compiler) (h h1 : Heap), buffers_ok cfg c h →
      (∀ p ∈ payloads, p.length ≤ 256) →
      emit_payloads cfg c payloads h = some (c1, h1) →
      (c1.buf.toList.reverse.map sljit_memory_fragment.used).flatten
          = (c.buf.toList.reverse.map sljit_memory_fragment.used).flatten ++ payloads.flatten
        ∧ c1.buf.total_size = c.buf.total_size + (payloads.map List.length).sum := by
  induction payloads with
  | nil =>
    intro c c1 h h1 _ _ hrun
    simp only [emit_payloads, Option.some.injEq, Prod.mk.injEq] at hrun
    obtain ⟨hc, -⟩ := hrun
    subst hc
    simp
  | cons p rest ih =>
    intro c c1 h h1 hok hsizes hrun
    unfold emit_payloads at hrun
    rcases hstep : emit_payload cfg c p h with _ | ⟨q, c2, h2⟩
    · rw [hstep] at hrun
      simp at hrun
    · rw [hstep] at hrun
      simp only at hrun
      obtain ⟨hok2, hord2, htot2⟩ :=
        emit_payload_step cfg hv c c2 p h h2 q hok (hsizes p (List.mem_cons_self _ _)) hstep
      obtain ⟨hord, htot⟩ :=
        ih c2 c1 h2 h1 hok2 (fun x hx => hsizes x (List.mem_cons_of_mem _ hx)) hrun
      refine ⟨?_, ?_⟩
      · rw [hord, hord2, List.flatten_cons, List.append_assoc]
      · rw [htot, htot2, List.map_cons, List.sum_cons]
        omega

/-- C3. For every sequence of successful `ensure_buf` calls, each for at
most 256 bytes, on a freshly created compiler, whose returned regions are
filled with the payload bytes: after `reverse_buf` the first `used_size`
bytes of the fragments, concatenated in list order, are the payloads
concatenated in call order, and the sum of `used_size` over the fragments
is the sum of the requested sizes. -/
theorem reversed_buffer_is_emission_order (cfg : Config) (h0 h1 h : Heap)
    (c0 c : sljit_compiler) (payloads : List (List Nat)) (hv : cfg.valid)
    (hcreate : sljit_create_compiler cfg h0 = (some c0, h1))
    (hsizes : ∀ p ∈ payloads, p.length ≤ 256)
    (hrun : emit_payloads cfg c0 payloads h1 = some (c, h)) :
    (reverse_buf c).buf.used = payloads.flatten
      ∧ (reverse_buf c).buf.total_size = (payloads.map List.length).sum
      ∧ c.buf.total_size = (payloads.map List.length).sum := by
  obtain ⟨hok0, hn0, -, hu0, -, -⟩ := create_compiler_ok cfg h0 h1 c0 hv hcreate
  obtain ⟨hord, htot⟩ := emit_payloads_order cfg hv payloads c0 c h1 h hok0 hsizes hrun
  have hempty : (c0.buf.toList.reverse.map sljit_memory_fragment.used).flatten = [] := by
    simp [fragment_list.toList, hn0, sljit_memory_fragment.used, hu0]
  have hzero : c0.buf.total_size = 0 := by
    simp [fragment_list.total_size, fragment_list.toList, hn0, hu0]
  refine ⟨?_, ?_, ?_⟩
  · unfold fragment_list.used
    rw [reverse_buf_toList, hord, hempty, List.nil_append]
  · unfold fragment_list.total_size
    rw [reverse_buf_toList, List.map_reverse, List.sum_reverse]
    rw [← fragment_list.total_size, htot, hzero, Nat.zero_add]
  · rw [htot, hzero, Nat.zero_add]

/-- Two instructions of two and one bytes emitted into the compiler created
from the sample allocator. -/
theorem reversed_buffer_is_emission_order_witness :
    ∃ c0 h1 c h, sljit_create_compiler sample_config sample_heap = (some c0, h1)
      ∧ emit_payloads sample_config c0 [[1, 2], [3]] h1 = some (c, h)
      ∧ (reverse_buf c).buf.used = [1, 2, 3]
      ∧ (reverse_buf c).buf.total_size = 3
      ∧ c.buf.total_size = 3 :=
  ⟨_, _, _, _, rfl, rfl,
   reversed_buffer_is_emission_order sample_config sample_heap _ _ _ _ [[1, 2], [3]]
     (by decide) rfl (by decide) rfl⟩

/-! ## Masks and modifier bits -/

theorem int_eq_zero_iff_testBit (a : Int) : a = 0 ↔ ∀ k, a.testBit k = false := by
  constructor
  · intro h k
    rw [h, testBit_zero_int]
  · intro h
    apply int_eq_of_testBit_eq
    intro k
    rw [h k, testBit_zero_int]

/-- No bit of `a | b` is set in `x` exactly when none of `a` and none of `b` is. -/
theorem land_lor_eq_zero (x a b : Int) :
    Int.land x (Int.lor a b) = 0 ↔ Int.land x a = 0 ∧ Int.land x b = 0 := by
  simp only [int_eq_zero_iff_testBit, Int.testBit_land, Int.testBit_lor]
  constructor
  · intro h
    constructor
    · intro k
      have := h k
      cases hx : x.testBit k <;> cases ha : a.testBit k <;> simp_all
    · intro k
      have := h k
      cases hx : x.testBit k <;> cases hb : b.testBit k <;> simp_all
  · rintro ⟨h1, h2⟩ k
    have := h1 k
    have := h2 k
    cases hx : x.testBit k <;> cases ha : a.testBit k <;> cases hb : b.testBit k <;> simp_all

/-- The C test `!(a & ~m)`: `a` has no bit outside `m`. -/
theorem land_lnot_eq_zero (a m : Int) : Int.land a (Int.lnot m) = 0 ↔ Int.land a m = a := by
  constructor
  · intro h
    rw [int_eq_zero_iff_testBit] at h
    apply int_eq_of_testBit_eq
    intro k
    have := h k
    simp only [Int.testBit_land, Int.testBit_lnot] at this ⊢
    cases ha : a.testBit k <;> cases hm : m.testBit k <;> simp_all
  · intro h
    rw [int_eq_zero_iff_testBit]
    intro k
    have := congrArg (fun z => Int.testBit z k) h
    simp only [Int.testBit_land, Int.testBit_lnot] at this ⊢
    cases ha : a.testBit k <;> cases hm : m.testBit k <;> simp_all

/-- Clearing the bits `m` of `a | f`, where `a` has no bit of `m` and `f` has
only bits of `m`, gives `a`. -/
theorem land_lnot_lor (a f m : Int) (ha : Int.land a m = 0) (hf : Int.land f m = f) :
    Int.land (Int.lor a f) (Int.lnot m) = a := by
  rw [int_eq_zero_iff_testBit] at ha
  apply int_eq_of_testBit_eq
  intro k
  have h1 := ha k
  have h2 := congrArg (fun z => Int.testBit z k) hf
  simp only [Int.testBit_land, Int.testBit_lor, Int.testBit_lnot] at h1 h2 ⊢
  cases hak : a.testBit k <;> cases hfk : f.testBit k <;> cases hm : m.testBit k <;> simp_all

/-- Testing the bits `b` of `a | f`, where `f` has no bit of `b`. -/
theorem land_lor_left (a f b : Int) (hf : Int.land f b = 0) :
    Int.land (Int.lor a f) b = Int.land a b := by
  rw [land_lor_distrib, hf, lor_zero]

/-- Testing the bits `b` of `a | f`, where `a` has no bit of `b`. -/
theorem land_lor_right (a f b : Int) (ha : Int.land a b = 0) :
    Int.land (Int.lor a f) b = Int.land f b := by
  rw [land_lor_distrib, ha, zero_lor]

theorem flags_legal_iff (legal : List Int) (op : Int) :
    flags_legal legal op ↔
      (Int.land op SLJIT_KEEP_FLAGS = 0
          ∨ (Int.land op SLJIT_SET_E = 0 ∧ Int.land op SLJIT_SET_U = 0
              ∧ Int.land op SLJIT_SET_S = 0 ∧ Int.land op SLJIT_SET_O = 0
              ∧ Int.land op SLJIT_SET_C = 0))
        ∧ (Int.land op SLJIT_SET_E ≠ 0 → SLJIT_SET_E ∈ legal)
        ∧ (Int.land op SLJIT_SET_U ≠ 0 → SLJIT_SET_U ∈ legal)
        ∧ (Int.land op SLJIT_SET_S ≠ 0 → SLJIT_SET_S ∈ legal)
        ∧ (Int.land op SLJIT_SET_O ≠ 0 → SLJIT_SET_O ∈ legal)
        ∧ (Int.land op SLJIT_SET_C ≠ 0 → SLJIT_SET_C ∈ legal) := by
  simp only [flags_legal, SET_FLAGS, List.forall_mem_cons, List.not_mem_nil, false_imp_iff,
    implies_true, and_true, forall_const, ne_eq]
  
theorem get_flags_eq_zero (op : Int) :
    GET_FLAGS op = 0 ↔
      Int.land op SLJIT_SET_E = 0 ∧ Int.land op SLJIT_SET_U = 0
        ∧ Int.land op SLJIT_SET_S = 0 ∧ Int.land op SLJIT_SET_O = 0
        ∧ Int.land op SLJIT_SET_C = 0 := by
  simp only [GET_FLAGS, land_lor_eq_zero, and_assoc]

theorem function_check_op_op2 (op : Int)
    (hop : SLJIT_ADD ≤ GET_OPCODE op ∧ GET_OPCODE op ≤ SLJIT_ASHR) :
    FUNCTION_CHECK_OP op = true ↔ flags_legal (op2_legal_flags (GET_OPCODE op)) op := by
  rw [flags_legal_iff]
  unfold FUNCTION_CHECK_OP
  simp only [Bool.and_eq_true, Bool.or_eq_true, decide_eq_true_eq, get_flags_eq_zero]
  generalize GET_OPCODE op = g at hop ⊢
  obtain ⟨h1, h2⟩ := hop
  simp only [SLJIT_ADD, SLJIT_ASHR, SLJIT_OP2_BASE] at h1 h2
  have hg : g = 96 ∨ g = 97 ∨ g = 98 ∨ g = 99 ∨ g = 100 ∨ g = 101 ∨ g = 102 ∨ g = 103
      ∨ g = 104 ∨ g = 105 ∨ g = 106 := by omega
  rcases hg with h | h | h | h | h | h | h | h | h | h | h <;> subst h <;>
    simp [op2_legal_flags, SLJIT_NOT, SLJIT_CLZ, SLJIT_AND, SLJIT_OR, SLJIT_XOR, SLJIT_SHL,
      SLJIT_LSHR, SLJIT_ASHR, SLJIT_NEG, SLJIT_MUL, SLJIT_ADD, SLJIT_SUB, SLJIT_ADDC,
      SLJIT_SUBC, SLJIT_OP1_BASE, SLJIT_OP2_BASE, land_lor_eq_zero,
      SLJIT_SET_E, SLJIT_SET_U, SLJIT_SET_S, SLJIT_SET_O, SLJIT_SET_C] <;>
    tauto

/-- The opcode of `opcode | f`, where `opcode` has no modifier bit and `f` has
only modifier bits. -/
theorem get_opcode_lor (opcode f : Int)
    (ho : Int.land opcode (Int.lor (Int.lor (Int.lor (Int.lor (Int.lor (Int.lor
      SLJIT_INT_OP SLJIT_SET_E) SLJIT_SET_U) SLJIT_SET_S) SLJIT_SET_O) SLJIT_SET_C)
      SLJIT_KEEP_FLAGS) = 0)
    (hf : Int.land f (Int.lor (Int.lor (Int.lor (Int.lor (Int.lor (Int.lor
      SLJIT_INT_OP SLJIT_SET_E) SLJIT_SET_U) SLJIT_SET_S) SLJIT_SET_O) SLJIT_SET_C)
      SLJIT_KEEP_FLAGS) = f) :
    GET_OPCODE (Int.lor opcode f) = opcode :=
  land_lnot_lor opcode f _ ho hf

/-- Adding `SLJIT_INT_OP` to `op` leaves its opcode. -/
theorem get_opcode_lor_int_op (op : Int) : GET_OPCODE (Int.lor op SLJIT_INT_OP) = GET_OPCODE op := by
  unfold GET_OPCODE
  rw [land_lor_distrib]
  have h : Int.land SLJIT_INT_OP (Int.lnot (Int.lor (Int.lor (Int.lor (Int.lor (Int.lor
      (Int.lor SLJIT_INT_OP SLJIT_SET_E) SLJIT_SET_U) SLJIT_SET_S) SLJIT_SET_O) SLJIT_SET_C)
      SLJIT_KEEP_FLAGS)) = 0 := by
    rw [land_lnot_eq_zero]
    decide
  rw [h, lor_zero]

/-- Adding `SLJIT_INT_OP` to `op` leaves its flag bits. -/
theorem flags_legal_lor_int_op (legal : List Int) (op : Int) :
    flags_legal legal (Int.lor op SLJIT_INT_OP) ↔ flags_legal legal op := by
  rw [flags_legal_iff, flags_legal_iff]
  rw [land_lor_left op SLJIT_INT_OP SLJIT_KEEP_FLAGS (by decide),
    land_lor_left op SLJIT_INT_OP SLJIT_SET_E (by decide),
    land_lor_left op SLJIT_INT_OP SLJIT_SET_U (by decide),
    land_lor_left op SLJIT_INT_OP SLJIT_SET_S (by decide),
    land_lor_left op SLJIT_INT_OP SLJIT_SET_O (by decide),
    land_lor_left op SLJIT_INT_OP SLJIT_SET_C (by decide)]

/-- The result of `check_sljit_emit_op2` when the checks are compiled,
`skip_checks` is clear and the operands pass. -/
theorem check_op2_accepts (cfg : Config) (compiler : sljit_compiler)
    (op dst dstw src1 src1w src2 src2w : Int)
    (hchecks : cfg.argument_checks = true) (hskip : compiler.skip_checks = 0)
    (hop : SLJIT_ADD ≤ GET_OPCODE op ∧ GET_OPCODE op ≤ SLJIT_ASHR)
    (hsrc1 : FUNCTION_CHECK_SRC cfg compiler src1 src1w = true)
    (hsrc2 : FUNCTION_CHECK_SRC cfg compiler src2 src2w = true)
    (hdst : FUNCTION_CHECK_DST cfg compiler dst dstw = true) :
    (check_sljit_emit_op2 cfg compiler op dst dstw src1 src1w src2 src2w).1 = 0
      ↔ FUNCTION_CHECK_OP op = true := by
  unfold check_sljit_emit_op2
  simp only [hskip, hchecks, hsrc1, hsrc2, hdst, ne_eq, not_true_eq_false, if_false,
    if_true, Bool.and_true, ge_iff_le, hop.1, hop.2, decide_True, Bool.true_and]
  cases FUNCTION_CHECK_OP op <;> simp

/-- C12. With the checks compiled, `skip_checks` clear and operands that pass,
`check_sljit_emit_op2` accepts an `op` whose opcode is one of `SLJIT_ADD` ..
`SLJIT_ASHR` exactly when `SLJIT_KEEP_FLAGS` is not combined with a
`SLJIT_SET_*` bit and every `SLJIT_SET_*` bit of `op` is legal for the opcode
(ADD: E, O, C; ADDC, SUBC: C; SUB: E, U, S, O, C; MUL: O; AND, OR, XOR, SHL,
LSHR, ASHR: E); adding `SLJIT_INT_OP` never changes the result. -/
theorem op2_flag_legality (cfg : Config) (compiler : sljit_compiler)
    (op dst dstw src1 src1w src2 src2w : Int)
    (hchecks : cfg.argument_checks = true) (hskip : compiler.skip_checks = 0)
    (hop : SLJIT_ADD ≤ GET_OPCODE op ∧ GET_OPCODE op ≤ SLJIT_ASHR)
    (hsrc1 : FUNCTION_CHECK_SRC cfg compiler src1 src1w = true)
    (hsrc2 : FUNCTION_CHECK_SRC cfg compiler src2 src2w = true)
    (hdst : FUNCTION_CHECK_DST cfg compiler dst dstw = true) :
    ((check_sljit_emit_op2 cfg compiler op dst dstw src1 src1w src2 src2w).1 = 0
        ↔ flags_legal (op2_legal_flags (GET_OPCODE op)) op)
      ∧ ((check_sljit_emit_op2 cfg compiler (Int.lor op SLJIT_INT_OP)
            dst dstw src1 src1w src2 src2w).1 = 0
          ↔ (check_sljit_emit_op2 cfg compiler op dst dstw src1 src1w src2 src2w).1 = 0) := by
  have hop1 : SLJIT_ADD ≤ GET_OPCODE (Int.lor op SLJIT_INT_OP)
      ∧ GET_OPCODE (Int.lor op SLJIT_INT_OP) ≤ SLJIT_ASHR := by
    rw [get_opcode_lor_int_op]
    exact hop
  have h0 := check_op2_accepts cfg compiler op dst dstw src1 src1w src2 src2w hchecks hskip
    hop hsrc1 hsrc2 hdst
  have h1 := check_op2_accepts cfg compiler (Int.lor op SLJIT_INT_OP) dst dstw src1 src1w
    src2 src2w hchecks hskip hop1 hsrc1 hsrc2 hdst
  refine ⟨h0.trans (function_check_op_op2 op hop), ?_⟩
  rw [h1, h0, function_check_op_op2 _ hop1, function_check_op_op2 _ hop,
    get_opcode_lor_int_op, flags_legal_lor_int_op]

theorem op2_flag_legality_witness :
    ((check_sljit_emit_op2 sample_config sample_entered_compiler
          (Int.lor SLJIT_ADD SLJIT_SET_E) SLJIT_R0 0 SLJIT_R0 0 SLJIT_IMM 5).1 = 0
        ↔ flags_legal (op2_legal_flags (GET_OPCODE (Int.lor SLJIT_ADD SLJIT_SET_E)))
            (Int.lor SLJIT_ADD SLJIT_SET_E))
      ∧ ((check_sljit_emit_op2 sample_config sample_entered_compiler
            (Int.lor (Int.lor SLJIT_ADD SLJIT_SET_E) SLJIT_INT_OP)
            SLJIT_R0 0 SLJIT_R0 0 SLJIT_IMM 5).1 = 0
          ↔ (check_sljit_emit_op2 sample_config sample_entered_compiler
              (Int.lor SLJIT_ADD SLJIT_SET_E) SLJIT_R0 0 SLJIT_R0 0 SLJIT_IMM 5).1 = 0) :=
  op2_flag_legality sample_config sample_entered_compiler (Int.lor SLJIT_ADD SLJIT_SET_E)
    SLJIT_R0 0 SLJIT_R0 0 SLJIT_IMM 5 rfl rfl
    (by rw [get_opcode_lor SLJIT_ADD SLJIT_SET_E (by decide) (by decide)]; decide)
    (by decide) (by decide) (by decide)

theorem function_check_op_op1 (op : Int)
    (hop : SLJIT_MOV ≤ GET_OPCODE op ∧ GET_OPCODE op ≤ SLJIT_CLZ) :
    FUNCTION_CHECK_OP op = true ↔
      flags_legal (op1_legal_flags (GET_OPCODE op)) op
        ∧ (GET_OPCODE op ≤ SLJIT_MOVU_P →
            Int.land op SLJIT_KEEP_FLAGS = 0
              ∧ (Int.land op SLJIT_INT_OP = 0 ∨ GET_OPCODE op ∈ int_op_moves)) := by
  rw [flags_legal_iff]
  unfold FUNCTION_CHECK_OP
  simp only [Bool.and_eq_true, Bool.or_eq_true, decide_eq_true_eq, get_flags_eq_zero]
  generalize GET_OPCODE op = g at hop ⊢
  obtain ⟨h1, h2⟩ := hop
  simp only [SLJIT_MOV, SLJIT_CLZ, SLJIT_OP1_BASE] at h1 h2
  have hg : g = 32 ∨ g = 33 ∨ g = 34 ∨ g = 35 ∨ g = 36 ∨ g = 37 ∨ g = 38 ∨ g = 39
      ∨ g = 40 ∨ g = 41 ∨ g = 42 ∨ g = 43 ∨ g = 44 ∨ g = 45 ∨ g = 46 ∨ g = 47
      ∨ g = 48 ∨ g = 49 ∨ g = 50 := by omega
  rcases hg with h | h | h | h | h | h | h | h | h | h | h | h | h | h | h | h | h | h | h <;>
    subst h <;>
    simp [op1_legal_flags, int_op_moves, SLJIT_NOT, SLJIT_CLZ, SLJIT_AND, SLJIT_OR,
      SLJIT_XOR, SLJIT_SHL, SLJIT_LSHR, SLJIT_ASHR, SLJIT_NEG, SLJIT_MUL, SLJIT_ADD,
      SLJIT_SUB, SLJIT_ADDC, SLJIT_SUBC, SLJIT_OP0_BASE, SLJIT_OP1_BASE, SLJIT_OP2_BASE,
      SLJIT_BREAKPOINT, SLJIT_NOP, SLJIT_LUMUL, SLJIT_LSMUL, SLJIT_MOV, SLJIT_MOV_UB,
      SLJIT_MOV_SB, SLJIT_MOV_UH, SLJIT_MOV_SH, SLJIT_MOV_UI, SLJIT_MOV_SI, SLJIT_MOV_P,
      SLJIT_MOVU, SLJIT_MOVU_UB, SLJIT_MOVU_SB, SLJIT_MOVU_UH, SLJIT_MOVU_SH, SLJIT_MOVU_UI,
      SLJIT_MOVU_SI, SLJIT_MOVU_P, land_lor_eq_zero,
      SLJIT_SET_E, SLJIT_SET_U, SLJIT_SET_S, SLJIT_SET_O, SLJIT_SET_C, SLJIT_INT_OP,
      SLJIT_KEEP_FLAGS] <;>
    tauto

/-- The result of `check_sljit_emit_op1` when the checks are compiled,
`skip_checks` is clear and the operands pass. -/
theorem check_op1_accepts (cfg : Config) (compiler : sljit_compiler)
    (op dst dstw src srcw : Int)
    (hchecks : cfg.argument_checks = true) (hskip : compiler.skip_checks = 0)
    (hop : SLJIT_MOV ≤ GET_OPCODE op ∧ GET_OPCODE op ≤ SLJIT_CLZ)
    (hsrc : FUNCTION_CHECK_SRC cfg compiler src srcw = true)
    (hdst : FUNCTION_CHECK_DST cfg compiler dst dstw = true)
    (hmovu : FUNCTION_CHECK_OP1 cfg op dst src = true) :
    (check_sljit_emit_op1 cfg compiler op dst dstw src srcw).1 = 0
      ↔ FUNCTION_CHECK_OP op = true := by
  unfold check_sljit_emit_op1
  simp only [hskip, hchecks, hsrc, hdst, hmovu, ne_eq, not_true_eq_false, if_false,
    if_true, Bool.and_true, ge_iff_le, hop.1, hop.2, decide_True, Bool.true_and]
  cases FUNCTION_CHECK_OP op <;> simp

/-- C13. With the checks compiled, `skip_checks` clear and operands that pass,
`check_sljit_emit_op1` accepts an `op` whose opcode is one of `SLJIT_MOV` ..
`SLJIT_CLZ` exactly when `SLJIT_KEEP_FLAGS` is not combined with a
`SLJIT_SET_*` bit, every `SLJIT_SET_*` bit of `op` is legal for the opcode
(NOT, CLZ: E; NEG: E, O; a move: none) and, for a move, `SLJIT_KEEP_FLAGS` is
clear and `SLJIT_INT_OP` is clear or the move has an `SLJIT_INT_OP` form; so
an accepted move has no `SLJIT_SET_*` bit and no `SLJIT_KEEP_FLAGS`. -/
theorem op1_flag_legality (cfg : Config) (compiler : sljit_compiler)
    (op dst dstw src srcw : Int)
    (hchecks : cfg.argument_checks = true) (hskip : compiler.skip_checks = 0)
    (hop : SLJIT_MOV ≤ GET_OPCODE op ∧ GET_OPCODE op ≤ SLJIT_CLZ)
    (hsrc : FUNCTION_CHECK_SRC cfg compiler src srcw = true)
    (hdst : FUNCTION_CHECK_DST cfg compiler dst dstw = true)
    (hmovu : FUNCTION_CHECK_OP1 cfg op dst src = true) :
    ((check_sljit_emit_op1 cfg compiler op dst dstw src srcw).1 = 0
        ↔ flags_legal (op1_legal_flags (GET_OPCODE op)) op
            ∧ (GET_OPCODE op ≤ SLJIT_MOVU_P →
                Int.land op SLJIT_KEEP_FLAGS = 0
                  ∧ (Int.land op SLJIT_INT_OP = 0 ∨ GET_OPCODE op ∈ int_op_moves)))
      ∧ (GET_OPCODE op ≤ SLJIT_MOVU_P →
          (check_sljit_emit_op1 cfg compiler op dst dstw src srcw).1 = 0 →
          (∀ f ∈ SET_FLAGS, Int.land op f = 0) ∧ Int.land op SLJIT_KEEP_FLAGS = 0) := by
  have h0 := (check_op1_accepts cfg compiler op dst dstw src srcw hchecks hskip hop hsrc
    hdst hmovu).trans (function_check_op_op1 op hop)
  refine ⟨h0, ?_⟩
  intro hmove hacc
  obtain ⟨hlegal, hrest⟩ := h0.1 hacc
  refine ⟨?_, (hrest hmove).1⟩
  intro f hf
  by_contra hne
  have hmem := hlegal.2 f hf hne
  have hnil : op1_legal_flags (GET_OPCODE op) = [] := by
    unfold op1_legal_flags
    have h1 : GET_OPCODE op ≠ SLJIT_NOT := by
      intro h; rw [h] at hmove; revert hmove; decide
    have h2 : GET_OPCODE op ≠ SLJIT_CLZ := by
      intro h; rw [h] at hmove; revert hmove; decide
    have h3 : GET_OPCODE op ≠ SLJIT_NEG := by
      intro h; rw [h] at hmove; revert hmove; decide
    simp [h1, h2, h3]
  rw [hnil] at hmem
  exact List.not_mem_nil _ hmem

theorem op1_flag_legality_witness :
    ((check_sljit_emit_op1 sample_config sample_entered_compiler
          (Int.lor SLJIT_NOT SLJIT_SET_E) SLJIT_R0 0 SLJIT_R0 0).1 = 0
        ↔ flags_legal (op1_legal_flags (GET_OPCODE (Int.lor SLJIT_NOT SLJIT_SET_E)))
              (Int.lor SLJIT_NOT SLJIT_SET_E)
            ∧ (GET_OPCODE (Int.lor SLJIT_NOT SLJIT_SET_E) ≤ SLJIT_MOVU_P →
                Int.land (Int.lor SLJIT_NOT SLJIT_SET_E) SLJIT_KEEP_FLAGS = 0
                  ∧ (Int.land (Int.lor SLJIT_NOT SLJIT_SET_E) SLJIT_INT_OP = 0
                      ∨ GET_OPCODE (Int.lor SLJIT_NOT SLJIT_SET_E) ∈ int_op_moves)))
      ∧ (GET_OPCODE (Int.lor SLJIT_NOT SLJIT_SET_E) ≤ SLJIT_MOVU_P →
          (check_sljit_emit_op1 sample_config sample_entered_compiler
            (Int.lor SLJIT_NOT SLJIT_SET_E) SLJIT_R0 0 SLJIT_R0 0).1 = 0 →
          (∀ f ∈ SET_FLAGS, Int.land (Int.lor SLJIT_NOT SLJIT_SET_E) f = 0)
            ∧ Int.land (Int.lor SLJIT_NOT SLJIT_SET_E) SLJIT_KEEP_FLAGS = 0) :=
  op1_flag_legality sample_config sample_entered_compiler (Int.lor SLJIT_NOT SLJIT_SET_E)
    SLJIT_R0 0 SLJIT_R0 0 rfl rfl
    (by rw [get_opcode_lor SLJIT_NOT SLJIT_SET_E (by decide) (by decide)]; decide)
    (by decide) (by decide)
    (by unfold FUNCTION_CHECK_OP1
        rw [get_opcode_lor SLJIT_NOT SLJIT_SET_E (by decide) (by decide)]; decide)

/-- The result of `check_sljit_emit_op1` is 1 when the checks are compiled,
`skip_checks` is clear and the flag check fails. -/
theorem check_op1_rejects (cfg : Config) (compiler : sljit_compiler)
    (op dst dstw src srcw : Int)
    (hchecks : cfg.argument_checks = true) (hskip : compiler.skip_checks = 0)
    (hflags : FUNCTION_CHECK_OP op = false) :
    (check_sljit_emit_op1 cfg compiler op dst dstw src srcw).1 = 1 := by
  unfold check_sljit_emit_op1
  simp [hskip, hchecks, hflags]

/-- A move opcode has no modifier bit. -/
theorem move_opcode_bits (m : Int) (hm : SLJIT_MOV ≤ m ∧ m ≤ SLJIT_MOVU_P) :
    Int.land m (Int.lor (Int.lor (Int.lor (Int.lor (Int.lor (Int.lor
      SLJIT_INT_OP SLJIT_SET_E) SLJIT_SET_U) SLJIT_SET_S) SLJIT_SET_O) SLJIT_SET_C)
      SLJIT_KEEP_FLAGS) = 0 := by
  obtain ⟨h1, h2⟩ := hm
  simp only [SLJIT_MOV, SLJIT_MOVU_P, SLJIT_OP1_BASE] at h1 h2
  have hg : m = 32 ∨ m = 33 ∨ m = 34 ∨ m = 35 ∨ m = 36 ∨ m = 37 ∨ m = 38 ∨ m = 39
      ∨ m = 40 ∨ m = 41 ∨ m = 42 ∨ m = 43 ∨ m = 44 ∨ m = 45 ∨ m = 46 ∨ m = 47 := by omega
  rcases hg with h | h | h | h | h | h | h | h | h | h | h | h | h | h | h | h <;>
    subst h <;> decide

/-- The flag rule of `FUNCTION_CHECK_OP` on a move with `SLJIT_INT_OP` and no
other modifier bit. -/
theorem move_int_op_rule (m : Int) (hm : SLJIT_MOV ≤ m ∧ m ≤ SLJIT_MOVU_P) :
    (flags_legal (op1_legal_flags m) (Int.lor m SLJIT_INT_OP)
        ∧ (m ≤ SLJIT_MOVU_P →
            Int.land (Int.lor m SLJIT_INT_OP) SLJIT_KEEP_FLAGS = 0
              ∧ (Int.land (Int.lor m SLJIT_INT_OP) SLJIT_INT_OP = 0 ∨ m ∈ int_op_moves)))
      ↔ m ∈ int_op_moves := by
  obtain ⟨h1, h2⟩ := hm
  simp only [SLJIT_MOV, SLJIT_MOVU_P, SLJIT_OP1_BASE] at h1 h2
  have hg : m = 32 ∨ m = 33 ∨ m = 34 ∨ m = 35 ∨ m = 36 ∨ m = 37 ∨ m = 38 ∨ m = 39
      ∨ m = 40 ∨ m = 41 ∨ m = 42 ∨ m = 43 ∨ m = 44 ∨ m = 45 ∨ m = 46 ∨ m = 47 := by omega
  rcases hg with h | h | h | h | h | h | h | h | h | h | h | h | h | h | h | h <;>
    subst h <;> decide

/-- C14. With the checks compiled, `skip_checks` clear and operands that pass,
`check_sljit_emit_op1` accepts a move with `SLJIT_INT_OP` exactly for MOV_UB,
MOV_SB, MOV_UH, MOV_SH, MOV_SI and their MOVU counterparts: MOV, MOV_UI,
MOV_P, MOVU, MOVU_UI and MOVU_P have no `SLJIT_INT_OP` form. -/
theorem move_int_op_forms (cfg : Config) (compiler : sljit_compiler)
    (m dst dstw src srcw : Int)
    (hchecks : cfg.argument_checks = true) (hskip : compiler.skip_checks = 0)
    (hm : SLJIT_MOV ≤ m ∧ m ≤ SLJIT_MOVU_P)
    (hsrc : FUNCTION_CHECK_SRC cfg compiler src srcw = true)
    (hdst : FUNCTION_CHECK_DST cfg compiler dst dstw = true)
    (hmovu : FUNCTION_CHECK_OP1 cfg m dst src = true) :
    (check_sljit_emit_op1 cfg compiler (Int.lor m SLJIT_INT_OP) dst dstw src srcw).1 = 0
      ↔ m ∈ int_op_moves := by
  have hbits := move_opcode_bits m hm
  have hg : GET_OPCODE (Int.lor m SLJIT_INT_OP) = m :=
    get_opcode_lor m SLJIT_INT_OP hbits (by decide)
  have hg0 : GET_OPCODE m = m := by
    have h := get_opcode_lor m 0 hbits (by decide)
    rwa [lor_zero] at h
  have hop : SLJIT_MOV ≤ GET_OPCODE (Int.lor m SLJIT_INT_OP)
      ∧ GET_OPCODE (Int.lor m SLJIT_INT_OP) ≤ SLJIT_CLZ := by
    rw [hg]
    refine ⟨hm.1, le_trans hm.2 (by decide)⟩
  have hmovu1 : FUNCTION_CHECK_OP1 cfg (Int.lor m SLJIT_INT_OP) dst src = true := by
    unfold FUNCTION_CHECK_OP1 at hmovu ⊢
    rw [hg]
    rwa [hg0] at hmovu
  rw [check_op1_accepts cfg compiler _ dst dstw src srcw hchecks hskip hop hsrc hdst hmovu1,
    function_check_op_op1 _ hop, hg]
  exact move_int_op_rule m hm

theorem move_int_op_forms_witness :
    (check_sljit_emit_op1 sample_config sample_entered_compiler
        (Int.lor SLJIT_MOV_UB SLJIT_INT_OP) SLJIT_R0 0 SLJIT_R0 0).1 = 0
      ↔ SLJIT_MOV_UB ∈ int_op_moves :=
  move_int_op_forms sample_config sample_entered_compiler SLJIT_MOV_UB SLJIT_R0 0 SLJIT_R0 0
    rfl rfl (by decide) (by decide) (by decide)
    (by unfold FUNCTION_CHECK_OP1
        rw [show GET_OPCODE SLJIT_MOV_UB = SLJIT_MOV_UB from by
          have h := get_opcode_lor SLJIT_MOV_UB 0 (by decide) (by decide)
          rwa [lor_zero] at h]
        decide)

/-- The move `SLJIT_MOV_UI`, whose header comment reads `Flags: I`, is accepted
without `SLJIT_INT_OP` and rejected with it. -/
theorem mov_ui_int_op_rejected :
    SLJIT_MOV_UI ∈ flag_I_moves
      ∧ (check_sljit_emit_op1 sample_config sample_entered_compiler
          SLJIT_MOV_UI SLJIT_R0 0 SLJIT_R0 0).1 = 0
      ∧ (check_sljit_emit_op1 sample_config sample_entered_compiler
          (Int.lor SLJIT_MOV_UI SLJIT_INT_OP) SLJIT_R0 0 SLJIT_R0 0).1 = 1 := by
  have hg : GET_OPCODE (Int.lor SLJIT_MOV_UI SLJIT_INT_OP) = SLJIT_MOV_UI :=
    get_opcode_lor SLJIT_MOV_UI SLJIT_INT_OP (by decide) (by decide)
  have hg0 : GET_OPCODE SLJIT_MOV_UI = SLJIT_MOV_UI := by
    have h := get_opcode_lor SLJIT_MOV_UI 0 (by decide) (by decide)
    rwa [lor_zero] at h
  refine ⟨by decide, ?_, ?_⟩
  · have hop : SLJIT_MOV ≤ GET_OPCODE SLJIT_MOV_UI ∧ GET_OPCODE SLJIT_MOV_UI ≤ SLJIT_CLZ := by
      rw [hg0]; decide
    rw [check_op1_accepts sample_config sample_entered_compiler _ _ _ _ _ rfl rfl hop
      (by decide) (by decide)
      (by unfold FUNCTION_CHECK_OP1; rw [hg0]; decide),
      function_check_op_op1 _ hop, hg0]
    decide
  · apply check_op1_rejects _ _ _ _ _ _ _ rfl rfl
    have hop : SLJIT_MOV ≤ GET_OPCODE (Int.lor SLJIT_MOV_UI SLJIT_INT_OP)
        ∧ GET_OPCODE (Int.lor SLJIT_MOV_UI SLJIT_INT_OP) ≤ SLJIT_CLZ := by
      rw [hg]; decide
    rw [← Bool.not_eq_true, function_check_op_op1 _ hop, hg]
    decide

/-- The loop of `check_sljit_generate_code` passes when every jump record has
a target flag. -/
theorem generate_code_loop_iff (jumps : List sljit_jump) :
    check_sljit_generate_code_loop jumps = true ↔
      ∀ jump ∈ jumps,
        Int.land jump.flags JUMP_LABEL ≠ 0 ∨ Int.land jump.flags JUMP_ADDR ≠ 0 := by
  induction jumps with
  | nil => simp [check_sljit_generate_code_loop]
  | cons jump rest ih =>
    simp only [check_sljit_generate_code_loop, Bool.and_eq_true, decide_eq_true_eq, ih,
      List.forall_mem_cons, ne_eq, land_lor_eq_zero, not_and_or]

/-- C11. With the checks compiled, `check_sljit_generate_code` accepts a
compiler exactly when its code size is not zero and every jump of its jump
list has at least one of `JUMP_LABEL` and `JUMP_ADDR` set; it returns 1
otherwise, so for a jump with neither flag. -/
theorem generate_code_check (cfg : Config) (compiler : sljit_compiler)
    (jumps : List sljit_jump) (hchecks : cfg.argument_checks = true) :
    (check_sljit_generate_code cfg compiler jumps = 0 ↔
        0 < compiler.size
          ∧ ∀ jump ∈ jumps,
              Int.land jump.flags JUMP_LABEL ≠ 0 ∨ Int.land jump.flags JUMP_ADDR ≠ 0)
      ∧ (check_sljit_generate_code cfg compiler jumps ≠ 0 →
          check_sljit_generate_code cfg compiler jumps = 1) := by
  unfold check_sljit_generate_code
  rw [← generate_code_loop_iff]
  simp only [hchecks, if_true]
  by_cases hsize : 0 < compiler.size <;>
    cases hloop : check_sljit_generate_code_loop jumps <;> simp [hsize]

theorem generate_code_check_witness :
    (check_sljit_generate_code sample_config sample_sized_compiler [sample_label_jump] = 0 ↔
        0 < sample_sized_compiler.size
          ∧ ∀ jump ∈ [sample_label_jump],
              Int.land jump.flags JUMP_LABEL ≠ 0 ∨ Int.land jump.flags JUMP_ADDR ≠ 0)
      ∧ (check_sljit_generate_code sample_config sample_sized_compiler [sample_label_jump] ≠ 0 →
          check_sljit_generate_code sample_config sample_sized_compiler [sample_label_jump]
            = 1) :=
  generate_code_check sample_config sample_sized_compiler [sample_label_jump] rfl

/-- A jump with both `JUMP_LABEL` and `JUMP_ADDR` set is accepted, and a
compiler without code is rejected although it has no jump. -/
theorem generate_code_check_not_exactly_one :
    (check_sljit_generate_code sample_config sample_sized_compiler [sample_both_jump] = 0
        ∧ ¬ exactly_one_target sample_both_jump)
      ∧ (check_sljit_generate_code sample_config sample_compiler [] = 1
          ∧ ∀ jump ∈ ([] : List sljit_jump), exactly_one_target jump) := by
  refine ⟨⟨by decide, by decide⟩, by decide, ?_⟩
  intro jump hjump
  exact absurd hjump (List.not_mem_nil _)

/-- The memory branch of the operand checks passes for
`SLJIT_MEM | SLJIT_IMM | SLJIT_R0`. -/
theorem mem_imm_check_mem (fcheck : Bool) (w : Int) :
    FUNCTION_CHECK_MEM sample_config sample_entered_compiler fcheck
      (Int.lor (Int.lor SLJIT_MEM SLJIT_IMM) SLJIT_R0) w = true := by
  unfold FUNCTION_CHECK_MEM
  have h1 : Int.land (Int.lor (Int.lor SLJIT_MEM SLJIT_IMM) SLJIT_R0) SLJIT_MEM ≠ 0 := by
    decide
  have h2 : FUNCTION_CHECK_IS_REG_OR_UNUSED sample_config sample_entered_compiler
      (Int.land (Int.lor (Int.lor SLJIT_MEM SLJIT_IMM) SLJIT_R0) REG_MASK) = true := by decide
  have h3 : CHECK_NOT_VIRTUAL_REG sample_config
      (Int.land (Int.lor (Int.lor SLJIT_MEM SLJIT_IMM) SLJIT_R0) REG_MASK) = true := by decide
  have h4 : Int.land (Int.lor (Int.lor SLJIT_MEM SLJIT_IMM) SLJIT_R0) OFFS_REG_MASK = 0 := by
    decide
  have h5 : Int.land (Int.lor (Int.lor SLJIT_MEM SLJIT_IMM) SLJIT_R0)
      (Int.lnot (Int.lor (Int.lor (Int.lor SLJIT_MEM SLJIT_IMM) REG_MASK) OFFS_REG_MASK))
      = 0 := by
    rw [land_lnot_eq_zero]
    decide
  simp [h1, h2, h3, h4, h5]

/-- C15. The operand `SLJIT_MEM | SLJIT_IMM | SLJIT_R0` has both the memory
bit and the immediate bit, and `FUNCTION_CHECK_SRC`, `FUNCTION_CHECK_DST` and
`FUNCTION_FCHECK` accept it with every companion word. -/
theorem mem_imm_operand_accepted (w : Int) :
    Int.land (Int.lor (Int.lor SLJIT_MEM SLJIT_IMM) SLJIT_R0) SLJIT_MEM ≠ 0
      ∧ Int.land (Int.lor (Int.lor SLJIT_MEM SLJIT_IMM) SLJIT_R0) SLJIT_IMM ≠ 0
      ∧ FUNCTION_CHECK_SRC sample_config sample_entered_compiler
          (Int.lor (Int.lor SLJIT_MEM SLJIT_IMM) SLJIT_R0) w = true
      ∧ FUNCTION_CHECK_DST sample_config sample_entered_compiler
          (Int.lor (Int.lor SLJIT_MEM SLJIT_IMM) SLJIT_R0) w = true
      ∧ FUNCTION_FCHECK sample_config sample_entered_compiler
          (Int.lor (Int.lor SLJIT_MEM SLJIT_IMM) SLJIT_R0) w = true := by
  refine ⟨by decide, by decide, ?_, ?_, ?_⟩
  · unfold FUNCTION_CHECK_SRC
    have h1 : FUNCTION_CHECK_IS_REG sample_config sample_entered_compiler
        (Int.lor (Int.lor SLJIT_MEM SLJIT_IMM) SLJIT_R0) = false := by decide
    have h2 : Int.lor (Int.lor SLJIT_MEM SLJIT_IMM) SLJIT_R0 ≠ SLJIT_IMM := by decide
    have h3 : Int.lor (Int.lor SLJIT_MEM SLJIT_IMM) SLJIT_R0
        ≠ SLJIT_MEM1 (SLJIT_SP sample_config) := by decide
    have h4 : sample_entered_compiler.scratches ≠ -1 := by decide
    have h5 : sample_entered_compiler.saveds ≠ -1 := by decide
    simp [h1, h2, h3, h4, h5, mem_imm_check_mem]
  · unfold FUNCTION_CHECK_DST
    have h1 : FUNCTION_CHECK_IS_REG_OR_UNUSED sample_config sample_entered_compiler
        (Int.lor (Int.lor SLJIT_MEM SLJIT_IMM) SLJIT_R0) = false := by decide
    have h3 : Int.lor (Int.lor SLJIT_MEM SLJIT_IMM) SLJIT_R0
        ≠ SLJIT_MEM1 (SLJIT_SP sample_config) := by decide
    have h4 : sample_entered_compiler.scratches ≠ -1 := by decide
    have h5 : sample_entered_compiler.saveds ≠ -1 := by decide
    simp [h1, h3, h4, h5, mem_imm_check_mem]
  · unfold FUNCTION_FCHECK
    have h1 : ((decide (Int.lor (Int.lor SLJIT_MEM SLJIT_IMM) SLJIT_R0 ≥ SLJIT_FR0)
          && decide (Int.lor (Int.lor SLJIT_MEM SLJIT_IMM) SLJIT_R0
              < SLJIT_FR0 + sample_entered_compiler.fscratches))
        || (decide (Int.lor (Int.lor SLJIT_MEM SLJIT_IMM) SLJIT_R0
              > SLJIT_FS0 - sample_entered_compiler.fsaveds)
          && decide (Int.lor (Int.lor SLJIT_MEM SLJIT_IMM) SLJIT_R0 ≤ SLJIT_FS0))) = false := by
      decide
    have h3 : Int.lor (Int.lor SLJIT_MEM SLJIT_IMM) SLJIT_R0
        ≠ SLJIT_MEM1 (SLJIT_SP sample_config) := by decide
    have h4 : sample_entered_compiler.fscratches ≠ -1 := by decide
    have h5 : sample_entered_compiler.fsaveds ≠ -1 := by decide
    rw [h1]
    simp [h3, h4, h5, mem_imm_check_mem]

/-! ## Operand checks -/

theorem num_regs_cases (cfg : Config) :
    SLJIT_NUM_REGS cfg = 10 ∨ SLJIT_NUM_REGS cfg = 11 ∨ SLJIT_NUM_REGS cfg = 12
      ∨ SLJIT_NUM_REGS cfg = 17 ∨ SLJIT_NUM_REGS cfg = 18 ∨ SLJIT_NUM_REGS cfg = 22
      ∨ SLJIT_NUM_REGS cfg = 25 := by
  unfold SLJIT_NUM_REGS
  cases cfg.arch <;> simp

theorem num_regs_bounds (cfg : Config) : 10 ≤ SLJIT_NUM_REGS cfg ∧ SLJIT_NUM_REGS cfg ≤ 25 := by
  rcases num_regs_cases cfg with h | h | h | h | h | h | h <;> rw [h] <;> decide

/-- The value of `SLJIT_MEM1(SLJIT_SP)`. -/
theorem mem1_sp_value (cfg : Config) :
    SLJIT_MEM1 (SLJIT_SP cfg) = 128 + (SLJIT_NUM_REGS cfg + 1) := by
  unfold SLJIT_MEM1 SLJIT_SP
  rcases num_regs_cases cfg with h | h | h | h | h | h | h <;> rw [h] <;> decide

theorem is_reg_iff (cfg : Config) (compiler : sljit_compiler) (r : Int) :
    FUNCTION_CHECK_IS_REG cfg compiler r = true ↔
      (1 ≤ r ∧ r ≤ compiler.scratches)
        ∨ (SLJIT_NUM_REGS cfg - compiler.saveds < r ∧ r ≤ SLJIT_NUM_REGS cfg) := by
  unfold FUNCTION_CHECK_IS_REG
  simp only [Bool.or_eq_true, Bool.and_eq_true, decide_eq_true_eq, SLJIT_R0, SLJIT_S0]
  constructor <;> intro h <;> omega

theorem is_reg_or_unused_iff (cfg : Config) (compiler : sljit_compiler) (r : Int) :
    FUNCTION_CHECK_IS_REG_OR_UNUSED cfg compiler r = true ↔
      r = 0 ∨ FUNCTION_CHECK_IS_REG cfg compiler r = true := by
  rw [is_reg_iff]
  unfold FUNCTION_CHECK_IS_REG_OR_UNUSED
  simp only [Bool.or_eq_true, Bool.and_eq_true, decide_eq_true_eq, SLJIT_R0, SLJIT_S0,
    SLJIT_UNUSED]
  constructor <;> intro h <;> omega

/-- A register of a set context is one of `SLJIT_R0` .. `SLJIT_S0`. -/
theorem is_reg_range (cfg : Config) (compiler : sljit_compiler) (r : Int)
    (hctx : context_set cfg compiler) (h : FUNCTION_CHECK_IS_REG cfg compiler r = true) :
    1 ≤ r ∧ r ≤ SLJIT_NUM_REGS cfg := by
  rw [is_reg_iff] at h
  obtain ⟨h1, h2, h3, -⟩ := hctx
  omega

/-- The memory branch rejects an operand without the `SLJIT_MEM` bit. -/
theorem check_mem_needs_mem (cfg : Config) (compiler : sljit_compiler) (fcheck : Bool)
    (p i : Int) (h : Int.land p SLJIT_MEM = 0) :
    FUNCTION_CHECK_MEM cfg compiler fcheck p i = false := by
  unfold FUNCTION_CHECK_MEM
  simp [h]

/-- C16. On a compiler with a set context, `FUNCTION_CHECK_SRC` and
`FUNCTION_CHECK_DST` give the same answer for every operand other than
`SLJIT_UNUSED` and `SLJIT_IMM`; `SLJIT_UNUSED` is rejected as a source and
accepted as a destination exactly with the companion word 0; `SLJIT_IMM` is
accepted as a source and rejected as a destination with every word. -/
theorem src_dst_checks_agree (cfg : Config) (compiler : sljit_compiler) (p w : Int)
    (hctx : context_set cfg compiler) :
    (p ≠ SLJIT_UNUSED → p ≠ SLJIT_IMM →
        FUNCTION_CHECK_SRC cfg compiler p w = FUNCTION_CHECK_DST cfg compiler p w)
      ∧ (FUNCTION_CHECK_SRC cfg compiler SLJIT_UNUSED w = false
          ∧ FUNCTION_CHECK_DST cfg compiler SLJIT_UNUSED w = decide (w = 0))
      ∧ (FUNCTION_CHECK_SRC cfg compiler SLJIT_IMM w = true
          ∧ FUNCTION_CHECK_DST cfg compiler SLJIT_IMM w = false) := by
  have hb := num_regs_bounds cfg
  have hsp := mem1_sp_value cfg
  have hctx1 := hctx
  obtain ⟨h1, h2, h3, -⟩ := hctx1
  have hs : compiler.scratches ≠ -1 := by omega
  have hv : compiler.saveds ≠ -1 := by omega
  have hreg0 : FUNCTION_CHECK_IS_REG cfg compiler SLJIT_UNUSED = false := by
    rw [← Bool.not_eq_true, is_reg_iff, SLJIT_UNUSED]; omega
  have hregi : FUNCTION_CHECK_IS_REG cfg compiler SLJIT_IMM = false := by
    rw [← Bool.not_eq_true, is_reg_iff, SLJIT_IMM]; omega
  have hru0 : FUNCTION_CHECK_IS_REG_OR_UNUSED cfg compiler SLJIT_UNUSED = true := by
    rw [is_reg_or_unused_iff]; left; rfl
  have hrui : FUNCTION_CHECK_IS_REG_OR_UNUSED cfg compiler SLJIT_IMM = false := by
    rw [← Bool.not_eq_true, is_reg_or_unused_iff, hregi, SLJIT_IMM]; simp
  have hsp0 : SLJIT_UNUSED ≠ SLJIT_MEM1 (SLJIT_SP cfg) := by
    rw [hsp, SLJIT_UNUSED]; omega
  have hspi : SLJIT_IMM ≠ SLJIT_MEM1 (SLJIT_SP cfg) := by
    rw [hsp, SLJIT_IMM]; omega
  refine ⟨?_, ⟨?_, ?_⟩, ⟨?_, ?_⟩⟩
  · intro hp0 hpi
    have hru : FUNCTION_CHECK_IS_REG_OR_UNUSED cfg compiler p
        = FUNCTION_CHECK_IS_REG cfg compiler p := by
      rw [Bool.eq_iff_iff, is_reg_or_unused_iff]
      simp only [SLJIT_UNUSED] at hp0
      simp [hp0]
    unfold FUNCTION_CHECK_SRC FUNCTION_CHECK_DST
    rw [hru]
    simp only [hpi, if_false]
  · unfold FUNCTION_CHECK_SRC
    rw [hreg0]
    simp [hsp0, check_mem_needs_mem cfg compiler false SLJIT_UNUSED w (by decide),
      show SLJIT_UNUSED ≠ SLJIT_IMM from by decide]
  · unfold FUNCTION_CHECK_DST
    rw [hru0]
    simp [hs, hv]
  · unfold FUNCTION_CHECK_SRC
    rw [hregi]
    simp [hs, hv]
  · unfold FUNCTION_CHECK_DST
    rw [hrui]
    simp [hspi, check_mem_needs_mem cfg compiler false SLJIT_IMM w (by decide)]

theorem src_dst_checks_agree_witness :
    (SLJIT_MEM1 SLJIT_R0 ≠ SLJIT_UNUSED → SLJIT_MEM1 SLJIT_R0 ≠ SLJIT_IMM →
        FUNCTION_CHECK_SRC sample_config sample_entered_compiler (SLJIT_MEM1 SLJIT_R0) 8
          = FUNCTION_CHECK_DST sample_config sample_entered_compiler (SLJIT_MEM1 SLJIT_R0) 8)
      ∧ (FUNCTION_CHECK_SRC sample_config sample_entered_compiler SLJIT_UNUSED 8 = false
          ∧ FUNCTION_CHECK_DST sample_config sample_entered_compiler SLJIT_UNUSED 8
              = decide ((8 : Int) = 0))
      ∧ (FUNCTION_CHECK_SRC sample_config sample_entered_compiler SLJIT_IMM 8 = true
          ∧ FUNCTION_CHECK_DST sample_config sample_entered_compiler SLJIT_IMM 8 = false) :=
  src_dst_checks_agree sample_config sample_entered_compiler (SLJIT_MEM1 SLJIT_R0) 8
    (by decide)

/-- A value below `SLJIT_MEM` has no `SLJIT_MEM` bit. -/
theorem small_no_mem_bit (r : Int) (h0 : 0 ≤ r) (h1 : r < 128) : Int.land r SLJIT_MEM = 0 := by
  obtain ⟨n, rfl⟩ := Int.eq_ofNat_of_zero_le h0
  have hn : n < 128 := by omega
  show ((n &&& 128 : Nat) : Int) = 0
  have : n &&& 128 = 0 := by
    have h := Nat.and_two_pow n 7
    have hb : n.testBit 7 = false := Nat.testBit_lt_two_pow (by norm_num; omega)
    rw [hb] at h
    simpa using h
  rw [this]
  rfl

/-- A name of the register field that is not a register of the context is
rejected by the source check. -/
theorem src_small_iff (cfg : Config) (compiler : sljit_compiler) (r w : Int)
    (hctx : context_set cfg compiler) (h0 : 0 ≤ r) (h1 : r < 64) :
    FUNCTION_CHECK_SRC cfg compiler r w = true ↔
      w = 0 ∧ FUNCTION_CHECK_IS_REG cfg compiler r = true := by
  have hb := num_regs_bounds cfg
  have hsp := mem1_sp_value cfg
  have hctx1 := hctx
  obtain ⟨h2, h3, h4, -⟩ := hctx1
  have hs : compiler.scratches ≠ -1 := by omega
  have hv : compiler.saveds ≠ -1 := by omega
  unfold FUNCTION_CHECK_SRC
  cases hreg : FUNCTION_CHECK_IS_REG cfg compiler r with
  | true => simp [hs, hv]
  | false =>
    have hi : r ≠ SLJIT_IMM := by rw [SLJIT_IMM]; omega
    have hm : r ≠ SLJIT_MEM1 (SLJIT_SP cfg) := by rw [hsp]; omega
    simp [hi, hm, check_mem_needs_mem cfg compiler false r w
      (small_no_mem_bit r h0 (by omega))]

/-- C17. On a compiler whose context has `s` scratch and `v` saved registers
with `s + v <= SLJIT_NUM_REGS`, the source check accepts a value `r` of the
register field with the companion word `w` exactly when `w = 0` and
`1 <= r <= s` or `SLJIT_NUM_REGS - v < r <= SLJIT_NUM_REGS`; the two ranges
are disjoint. The register test is `IS_REG_IN` at the register count of the
target, and with 3 scratch and 1 saved register on a target of 5 registers it
holds exactly for `SLJIT_R0`, `SLJIT_R1`, `SLJIT_R2` and 5, the `SLJIT_S0` of
that target, and fails for `SLJIT_R3`, which is 5 - 1, its `SLJIT_S1`. -/
theorem register_operand_accepted (cfg : Config) (compiler : sljit_compiler)
    (s v r w : Int) (hctx : context_set cfg compiler)
    (hs : compiler.scratches = s) (hv : compiler.saveds = v)
    (h0 : 0 ≤ r) (h1 : r < 64) :
    (FUNCTION_CHECK_SRC cfg compiler r w = true ↔
        w = 0 ∧ ((1 ≤ r ∧ r ≤ s) ∨ (SLJIT_NUM_REGS cfg - v < r ∧ r ≤ SLJIT_NUM_REGS cfg)))
      ∧ ¬ ((1 ≤ r ∧ r ≤ s) ∧ (SLJIT_NUM_REGS cfg - v < r ∧ r ≤ SLJIT_NUM_REGS cfg))
      ∧ FUNCTION_CHECK_IS_REG cfg compiler r = IS_REG_IN (SLJIT_NUM_REGS cfg) s v r
      ∧ (∀ x : Int, IS_REG_IN 5 3 1 x = true ↔
          x = SLJIT_R0 ∨ x = SLJIT_R1 ∨ x = SLJIT_R2 ∨ x = 5)
      ∧ SLJIT_R3 = 5 - 1 ∧ IS_REG_IN 5 3 1 SLJIT_R3 = false := by
  refine ⟨?_, ?_, ?_, ?_, by decide, by decide⟩
  · rw [src_small_iff cfg compiler r w hctx h0 h1, is_reg_iff, hs, hv]
  · obtain ⟨h2, h3, h4, -⟩ := hctx
    rw [hs, hv] at h4
    omega
  · subst hs hv
    rfl
  · intro x
    unfold IS_REG_IN
    simp only [Bool.or_eq_true, Bool.and_eq_true, decide_eq_true_eq, SLJIT_R0, SLJIT_R1,
      SLJIT_R2]
    constructor <;> intro h <;> omega

theorem register_operand_accepted_witness :
    (FUNCTION_CHECK_SRC sample_config sample_entered_compiler SLJIT_R1 0 = true ↔
        (0 : Int) = 0 ∧ ((1 ≤ SLJIT_R1 ∧ SLJIT_R1 ≤ 2)
          ∨ (SLJIT_NUM_REGS sample_config - 1 < SLJIT_R1
              ∧ SLJIT_R1 ≤ SLJIT_NUM_REGS sample_config)))
      ∧ ¬ ((1 ≤ SLJIT_R1 ∧ SLJIT_R1 ≤ 2)
          ∧ (SLJIT_NUM_REGS sample_config - 1 < SLJIT_R1
              ∧ SLJIT_R1 ≤ SLJIT_NUM_REGS sample_config))
      ∧ FUNCTION_CHECK_IS_REG sample_config sample_entered_compiler SLJIT_R1
          = IS_REG_IN (SLJIT_NUM_REGS sample_config) 2 1 SLJIT_R1
      ∧ (∀ x : Int, IS_REG_IN 5 3 1 x = true ↔
          x = SLJIT_R0 ∨ x = SLJIT_R1 ∨ x = SLJIT_R2 ∨ x = 5)
      ∧ SLJIT_R3 = 5 - 1 ∧ IS_REG_IN 5 3 1 SLJIT_R3 = false :=
  register_operand_accepted sample_config sample_entered_compiler 2 1 SLJIT_R1 0
    (by decide) rfl rfl (by decide) (by decide)

/-! ## The fields of an operand -/

/-- The register field of a non-negative operand. -/
theorem reg_field_nat (n : Nat) : Int.land (n : Int) REG_MASK = ((n % 64 : Nat) : Int) := by
  show ((n &&& 63 : Nat) : Int) = _
  have h := Nat.and_pow_two_sub_one_eq_mod n 6
  norm_num at h
  rw [h]

/-- The index field of a non-negative operand. -/
theorem offs_reg_nat (n : Nat) : OFFS_REG (n : Int) = ((n / 256 % 64 : Nat) : Int) := by
  unfold OFFS_REG
  have hs : ((n : Int) >>> (8 : Int)) = ((n >>> 8 : Nat) : Int) :=
    Int.shiftRight_coe_nat n 8
  rw [hs, reg_field_nat, Nat.shiftRight_eq_div_pow]

/-- The `SLJIT_MEM` bit of a non-negative operand. -/
theorem mem_bit_nat (n : Nat) : Int.land (n : Int) SLJIT_MEM = 0 ↔ n / 128 % 2 = 0 := by
  show ((n &&& 128 : Nat) : Int) = 0 ↔ _
  have h := Nat.and_two_pow n 7
  have hb := @Nat.testBit_to_div_mod 7 n
  norm_num at h hb
  rw [h]
  cases hbit : n.testBit 7 with
  | true =>
    rw [hbit] at hb
    simp only [Bool.toNat_true]
    have := of_decide_eq_true hb.symm
    omega
  | false =>
    rw [hbit] at hb
    simp only [Bool.toNat_false]
    have := of_decide_eq_false hb.symm
    omega

/-- The bits of the index field of a non-negative operand. -/
theorem offs_mask_nat (n : Nat) :
    Int.land (n : Int) OFFS_REG_MASK = ((n / 256 % 64 * 256 : Nat) : Int) := by
  have hm : OFFS_REG_MASK = ((63 <<< 8 : Nat) : Int) := by decide
  rw [hm]
  show ((n &&& (63 <<< 8) : Nat) : Int) = _
  congr 1
  have h63 : ∀ j, Nat.testBit 63 j = decide (j < 6) := by
    intro j
    exact Nat.testBit_two_pow_sub_one 6 j
  have hmod : n / 256 % 64 = (n >>> 8) &&& 63 := by
    have h := Nat.and_pow_two_sub_one_eq_mod (n >>> 8) 6
    norm_num at h
    rw [h, Nat.shiftRight_eq_div_pow]
  have hmul : n / 256 % 64 * 256 = ((n >>> 8) &&& 63) <<< 8 := by
    rw [hmod, Nat.shiftLeft_eq]
  rw [hmul]
  apply Nat.eq_of_testBit_eq
  intro i
  simp only [Nat.testBit_and, Nat.testBit_shiftLeft, Nat.testBit_shiftRight, h63]
  by_cases hi : 8 ≤ i
  · have : 8 + (i - 8) = i := by omega
    simp [hi, this]
  · simp [hi]

/-- The test for bits outside the fields of an operand. -/
theorem stray_bits_iff (p : Int) :
    Int.land p (Int.lnot (Int.lor (Int.lor (Int.lor SLJIT_MEM SLJIT_IMM) REG_MASK)
        OFFS_REG_MASK)) = 0 ↔ 0 ≤ p ∧ p < 16384 := by
  rw [land_lnot_eq_zero]
  have hm : Int.lor (Int.lor (Int.lor SLJIT_MEM SLJIT_IMM) REG_MASK) OFFS_REG_MASK
      = ((16383 : Nat) : Int) := by decide
  rw [hm]
  cases p with
  | ofNat n =>
    show ((n &&& 16383 : Nat) : Int) = (n : Int) ↔ _
    have h := Nat.and_pow_two_sub_one_eq_mod n 14
    norm_num at h
    rw [h]
    have e : Int.ofNat n = (n : Int) := rfl
    rw [e]
    constructor
    · intro h1
      have : n % 16384 = n := by exact_mod_cast h1
      omega
    · rintro ⟨-, h2⟩
      have : n % 16384 = n := by omega
      exact_mod_cast this
  | negSucc n =>
    constructor
    · intro h1
      exfalso
      have : Int.land (Int.negSucc n) ((16383 : Nat) : Int) = ((Nat.ldiff 16383 n : Nat) : Int) :=
        rfl
      rw [this] at h1
      have h2 := Int.negSucc_lt_zero n
      rw [← h1] at h2
      omega
    · rintro ⟨h1, -⟩
      exact absurd h1 (by simp [Int.negSucc_lt_zero])

/-- The companion word of an indexed operand has no bit above the two lowest. -/
theorem scale_bits_iff (i : Int) : Int.land i (Int.lnot 0x3) = 0 ↔ 0 ≤ i ∧ i ≤ 3 := by
  rw [land_lnot_eq_zero]
  cases i with
  | ofNat n =>
    show ((n &&& 3 : Nat) : Int) = (n : Int) ↔ _
    have h := Nat.and_pow_two_sub_one_eq_mod n 2
    norm_num at h
    rw [h]
    have e : Int.ofNat n = (n : Int) := rfl
    rw [e]
    constructor
    · intro h1
      have : n % 4 = n := by exact_mod_cast h1
      omega
    · rintro ⟨-, h2⟩
      have : n % 4 = n := by omega
      exact_mod_cast this
  | negSucc n =>
    constructor
    · intro h1
      exfalso
      have : Int.land (Int.negSucc n) (0x3 : Int) = ((Nat.ldiff 3 n : Nat) : Int) := rfl
      rw [this] at h1
      have h2 := Int.negSucc_lt_zero n
      rw [← h1] at h2
      omega
    · rintro ⟨h1, -⟩
      exact absurd h1 (by simp [Int.negSucc_lt_zero])

/-- The value of `SLJIT_MEM2(b, x)` for two values of the register field. -/
theorem mem2_value (b x : Int) (hb0 : 0 ≤ b) (hb1 : b < 64) (hx0 : 0 ≤ x) :
    SLJIT_MEM2 b x = 128 + b + 256 * x := by
  obtain ⟨m, rfl⟩ := Int.eq_ofNat_of_zero_le hb0
  obtain ⟨k, rfl⟩ := Int.eq_ofNat_of_zero_le hx0
  unfold SLJIT_MEM2
  have hs : ((k : Int) <<< (8 : Int)) = ((k <<< 8 : Nat) : Int) := Int.shiftLeft_coe_nat k 8
  rw [hs]
  show (((128 ||| m) ||| (k <<< 8) : Nat) : Int) = _
  have hm : m < 64 := by omega
  have h1 : 128 ||| m = 128 + m := by
    have h := @Nat.mul_add_lt_is_or 7 m (by norm_num; omega) 1
    norm_num at h
    exact h.symm
  have h2 : (128 + m) ||| (k <<< 8) = 256 * k + (128 + m) := by
    have h := @Nat.mul_add_lt_is_or 8 (128 + m) (by norm_num; omega) k
    norm_num at h
    rw [h, Nat.or_comm, Nat.shiftLeft_eq]
    norm_num
    rw [Nat.mul_comm]
  rw [h1, h2]
  push_cast
  ring

/-- The memory branch of the operand checks, one test at a time. -/
theorem check_mem_iff (cfg : Config) (compiler : sljit_compiler) (fcheck : Bool)
    (p i : Int) :
    FUNCTION_CHECK_MEM cfg compiler fcheck p i = true ↔
      Int.land p SLJIT_MEM ≠ 0
        ∧ FUNCTION_CHECK_IS_REG_OR_UNUSED cfg compiler (Int.land p REG_MASK) = true
        ∧ CHECK_NOT_VIRTUAL_REG cfg (Int.land p REG_MASK) = true
        ∧ (Int.land p OFFS_REG_MASK ≠ 0 →
            Int.land p REG_MASK ≠ SLJIT_UNUSED
              ∧ FUNCTION_CHECK_IS_REG cfg compiler (OFFS_REG p) = true
              ∧ CHECK_NOT_VIRTUAL_REG cfg (OFFS_REG p) = true
              ∧ (fcheck = true → Int.land p OFFS_REG_MASK ≠ TO_OFFS_REG (SLJIT_SP cfg))
              ∧ (0 ≤ i ∧ i ≤ 3))
        ∧ (0 ≤ p ∧ p < 16384) := by
  unfold FUNCTION_CHECK_MEM
  rw [← stray_bits_iff p, ← scale_bits_iff i]
  by_cases hidx : Int.land p OFFS_REG_MASK = 0
  · simp [hidx, and_assoc]
  · cases fcheck <;> simp [hidx, and_assoc]

/-- A value below 256 has an empty index field. -/
theorem small_no_index (p : Int) (h0 : 0 ≤ p) (h1 : p < 256) :
    Int.land p OFFS_REG_MASK = 0 := by
  obtain ⟨n, rfl⟩ := Int.eq_ofNat_of_zero_le h0
  rw [offs_mask_nat]
  have : n / 256 % 64 * 256 = 0 := by omega
  rw [this]
  rfl

/-- An operand with an index field is no register, not `SLJIT_UNUSED`, not
`SLJIT_IMM` and not `SLJIT_MEM1(SLJIT_SP)`. -/
theorem indexed_not_special (cfg : Config) (compiler : sljit_compiler) (p : Int)
    (hctx : context_set cfg compiler) (hidx : Int.land p OFFS_REG_MASK ≠ 0) :
    FUNCTION_CHECK_IS_REG cfg compiler p = false
      ∧ FUNCTION_CHECK_IS_REG_OR_UNUSED cfg compiler p = false
      ∧ p ≠ SLJIT_IMM ∧ p ≠ SLJIT_MEM1 (SLJIT_SP cfg) := by
  have hb := num_regs_bounds cfg
  have hreg : FUNCTION_CHECK_IS_REG cfg compiler p = false := by
    rw [← Bool.not_eq_true]
    intro h
    have hr := is_reg_range cfg compiler p hctx h
    exact hidx (small_no_index p (by omega) (by omega))
  refine ⟨hreg, ?_, ?_, ?_⟩
  · rw [← Bool.not_eq_true, is_reg_or_unused_iff, hreg]
    intro h
    rcases h with h | h
    · exact hidx (small_no_index p (by omega) (by omega))
    · exact absurd h (by simp)
  · intro h
    exact hidx (small_no_index p (by rw [h]; decide) (by rw [h]; decide))
  · intro h
    rw [mem1_sp_value] at h
    exact hidx (small_no_index p (by omega) (by omega))

/-- The source and the destination check of an operand with an index field
are the memory branch. -/
theorem indexed_checks (cfg : Config) (compiler : sljit_compiler) (p w : Int)
    (hctx : context_set cfg compiler) (hidx : Int.land p OFFS_REG_MASK ≠ 0) :
    FUNCTION_CHECK_SRC cfg compiler p w = FUNCTION_CHECK_MEM cfg compiler false p w
      ∧ FUNCTION_CHECK_DST cfg compiler p w = FUNCTION_CHECK_MEM cfg compiler false p w := by
  obtain ⟨h1, h2, h3, h4⟩ := indexed_not_special cfg compiler p hctx hidx
  obtain ⟨hs0, hv0, -⟩ := hctx
  have hs : compiler.scratches ≠ -1 := by omega
  have hv : compiler.saveds ≠ -1 := by omega
  unfold FUNCTION_CHECK_SRC FUNCTION_CHECK_DST
  rw [h1, h2]
  simp [h3, h4, hs, hv]

/-- The test `CHECK_NOT_VIRTUAL_REG` on x86-32 and elsewhere. -/
theorem not_virtual_iff (cfg : Config) (r : Int) :
    CHECK_NOT_VIRTUAL_REG cfg r = true ↔
      (cfg.arch = Arch.X86_32 → r < SLJIT_R3 ∨ SLJIT_R6 < r) := by
  unfold CHECK_NOT_VIRTUAL_REG
  by_cases h : cfg.arch = Arch.X86_32 <;> simp [h]

/-- What the memory branch demands of an operand with an index field. -/
theorem indexed_mem_needs (cfg : Config) (compiler : sljit_compiler) (p w : Int)
    (hctx : context_set cfg compiler) (hidx : Int.land p OFFS_REG_MASK ≠ 0)
    (h : FUNCTION_CHECK_MEM cfg compiler false p w = true) :
    FUNCTION_CHECK_IS_REG cfg compiler (Int.land p REG_MASK) = true
      ∧ FUNCTION_CHECK_IS_REG cfg compiler (OFFS_REG p) = true
      ∧ Int.land p REG_MASK ≠ SLJIT_UNUSED ∧ Int.land p REG_MASK ≠ SLJIT_SP cfg
      ∧ OFFS_REG p ≠ SLJIT_UNUSED ∧ OFFS_REG p ≠ SLJIT_SP cfg
      ∧ (cfg.arch = Arch.X86_32 →
          (Int.land p REG_MASK < SLJIT_R3 ∨ SLJIT_R6 < Int.land p REG_MASK)
            ∧ (OFFS_REG p < SLJIT_R3 ∨ SLJIT_R6 < OFFS_REG p))
      ∧ 0 ≤ w ∧ w ≤ 3 := by
  rw [check_mem_iff] at h
  obtain ⟨-, hbase, hvb, hrest, -⟩ := h
  obtain ⟨hb0, hx, hvx, -, hw0, hw3⟩ := hrest hidx
  have hbreg : FUNCTION_CHECK_IS_REG cfg compiler (Int.land p REG_MASK) = true := by
    rw [is_reg_or_unused_iff] at hbase
    rcases hbase with h0 | h0
    · exact absurd h0 hb0
    · exact h0
  have hbr := is_reg_range cfg compiler _ hctx hbreg
  have hxr := is_reg_range cfg compiler _ hctx hx
  rw [not_virtual_iff] at hvb hvx
  refine ⟨hbreg, hx, hb0, ?_, ?_, ?_, fun ha => ⟨hvb ha, hvx ha⟩, hw0, hw3⟩
  · rw [SLJIT_SP]; omega
  · rw [SLJIT_UNUSED]; omega
  · rw [SLJIT_SP]; omega

/-- C18. On a compiler with a set context, an operand with a non-zero index
field that the source or the destination check accepts has a base and an
index that are registers of the context, so neither `SLJIT_UNUSED` nor
`SLJIT_SP`, on x86-32 neither of them is one of `SLJIT_R3` .. `SLJIT_R6`, and
its companion word is one of 0 .. 3. On a target other than x86-32,
`SLJIT_MEM2(b, x)` with registers `b` and `x` of the context and a word of
0 .. 3 has the base `b` and the index `x` and both checks accept it. -/
theorem indexed_operand_accepted (cfg : Config) (compiler : sljit_compiler)
    (p b x w : Int) (hctx : context_set cfg compiler) :
    (Int.land p OFFS_REG_MASK ≠ 0 →
        (FUNCTION_CHECK_SRC cfg compiler p w = true
          ∨ FUNCTION_CHECK_DST cfg compiler p w = true) →
        FUNCTION_CHECK_IS_REG cfg compiler (Int.land p REG_MASK) = true
          ∧ FUNCTION_CHECK_IS_REG cfg compiler (OFFS_REG p) = true
          ∧ Int.land p REG_MASK ≠ SLJIT_UNUSED ∧ Int.land p REG_MASK ≠ SLJIT_SP cfg
          ∧ OFFS_REG p ≠ SLJIT_UNUSED ∧ OFFS_REG p ≠ SLJIT_SP cfg
          ∧ (cfg.arch = Arch.X86_32 →
              (Int.land p REG_MASK < SLJIT_R3 ∨ SLJIT_R6 < Int.land p REG_MASK)
                ∧ (OFFS_REG p < SLJIT_R3 ∨ SLJIT_R6 < OFFS_REG p))
          ∧ 0 ≤ w ∧ w ≤ 3)
      ∧ (cfg.arch ≠ Arch.X86_32 →
          FUNCTION_CHECK_IS_REG cfg compiler b = true →
          FUNCTION_CHECK_IS_REG cfg compiler x = true →
          0 ≤ w → w ≤ 3 →
          Int.land (SLJIT_MEM2 b x) REG_MASK = b ∧ OFFS_REG (SLJIT_MEM2 b x) = x
            ∧ Int.land (SLJIT_MEM2 b x) OFFS_REG_MASK ≠ 0
            ∧ FUNCTION_CHECK_SRC cfg compiler (SLJIT_MEM2 b x) w = true
            ∧ FUNCTION_CHECK_DST cfg compiler (SLJIT_MEM2 b x) w = true) := by
  constructor
  · intro hidx hacc
    obtain ⟨hsrc, hdst⟩ := indexed_checks cfg compiler p w hctx hidx
    rw [hsrc, hdst, or_self] at hacc
    exact indexed_mem_needs cfg compiler p w hctx hidx hacc
  · intro harch hb hx hw0 hw3
    have hbr := is_reg_range cfg compiler b hctx hb
    have hxr := is_reg_range cfg compiler x hctx hx
    have hN := num_regs_bounds cfg
    have hval := mem2_value b x (by omega) (by omega) (by omega)
    have hp0 : 0 ≤ SLJIT_MEM2 b x := by rw [hval]; omega
    obtain ⟨n, hn⟩ := Int.eq_ofNat_of_zero_le hp0
    rw [hn] at hval ⊢
    have hbase : Int.land (n : Int) REG_MASK = b := by
      rw [reg_field_nat]; omega
    have hindex : OFFS_REG (n : Int) = x := by
      rw [offs_reg_nat]; omega
    have hmask : Int.land (n : Int) OFFS_REG_MASK ≠ 0 := by
      rw [offs_mask_nat]; omega
    have hmem : Int.land (n : Int) SLJIT_MEM ≠ 0 := by
      rw [Ne, mem_bit_nat]; omega
    have hnv : ∀ r, CHECK_NOT_VIRTUAL_REG cfg r = true := by
      intro r
      rw [not_virtual_iff]
      intro ha
      exact absurd ha harch
    have hcheck : FUNCTION_CHECK_MEM cfg compiler false (n : Int) w = true := by
      rw [check_mem_iff, hbase, hindex]
      refine ⟨hmem, ?_, hnv b, ?_, by omega, by omega⟩
      · rw [is_reg_or_unused_iff]; right; exact hb
      · intro _
        refine ⟨?_, hx, hnv x, ?_, hw0, hw3⟩
        · rw [SLJIT_UNUSED]; omega
        · intro hf; exact absurd hf (by decide)
    obtain ⟨hsrc, hdst⟩ := indexed_checks cfg compiler (n : Int) w hctx hmask
    exact ⟨hbase, hindex, hmask, by rw [hsrc, hcheck], by rw [hdst, hcheck]⟩

theorem indexed_operand_accepted_witness :
    (Int.land (SLJIT_MEM2 SLJIT_R0 SLJIT_R1) OFFS_REG_MASK ≠ 0 →
        (FUNCTION_CHECK_SRC sample_config sample_entered_compiler
            (SLJIT_MEM2 SLJIT_R0 SLJIT_R1) 2 = true
          ∨ FUNCTION_CHECK_DST sample_config sample_entered_compiler
              (SLJIT_MEM2 SLJIT_R0 SLJIT_R1) 2 = true) →
        FUNCTION_CHECK_IS_REG sample_config sample_entered_compiler
            (Int.land (SLJIT_MEM2 SLJIT_R0 SLJIT_R1) REG_MASK) = true
          ∧ FUNCTION_CHECK_IS_REG sample_config sample_entered_compiler
              (OFFS_REG (SLJIT_MEM2 SLJIT_R0 SLJIT_R1)) = true
          ∧ Int.land (SLJIT_MEM2 SLJIT_R0 SLJIT_R1) REG_MASK ≠ SLJIT_UNUSED
          ∧ Int.land (SLJIT_MEM2 SLJIT_R0 SLJIT_R1) REG_MASK ≠ SLJIT_SP sample_config
          ∧ OFFS_REG (SLJIT_MEM2 SLJIT_R0 SLJIT_R1) ≠ SLJIT_UNUSED
          ∧ OFFS_REG (SLJIT_MEM2 SLJIT_R0 SLJIT_R1) ≠ SLJIT_SP sample_config
          ∧ (sample_config.arch = Arch.X86_32 →
              (Int.land (SLJIT_MEM2 SLJIT_R0 SLJIT_R1) REG_MASK < SLJIT_R3
                  ∨ SLJIT_R6 < Int.land (SLJIT_MEM2 SLJIT_R0 SLJIT_R1) REG_MASK)
                ∧ (OFFS_REG (SLJIT_MEM2 SLJIT_R0 SLJIT_R1) < SLJIT_R3
                  ∨ SLJIT_R6 < OFFS_REG (SLJIT_MEM2 SLJIT_R0 SLJIT_R1)))
          ∧ 0 ≤ (2 : Int) ∧ (2 : Int) ≤ 3)
      ∧ (sample_config.arch ≠ Arch.X86_32 →
          FUNCTION_CHECK_IS_REG sample_config sample_entered_compiler SLJIT_R0 = true →
          FUNCTION_CHECK_IS_REG sample_config sample_entered_compiler SLJIT_R1 = true →
          0 ≤ (2 : Int) → (2 : Int) ≤ 3 →
          Int.land (SLJIT_MEM2 SLJIT_R0 SLJIT_R1) REG_MASK = SLJIT_R0
            ∧ OFFS_REG (SLJIT_MEM2 SLJIT_R0 SLJIT_R1) = SLJIT_R1
            ∧ Int.land (SLJIT_MEM2 SLJIT_R0 SLJIT_R1) OFFS_REG_MASK ≠ 0
            ∧ FUNCTION_CHECK_SRC sample_config sample_entered_compiler
                (SLJIT_MEM2 SLJIT_R0 SLJIT_R1) 2 = true
            ∧ FUNCTION_CHECK_DST sample_config sample_entered_compiler
                (SLJIT_MEM2 SLJIT_R0 SLJIT_R1) 2 = true) :=
  indexed_operand_accepted sample_config sample_entered_compiler
    (SLJIT_MEM2 SLJIT_R0 SLJIT_R1) SLJIT_R0 SLJIT_R1 2 (by decide)

/-- A value below 256 has the index 0. -/
theorem small_no_offs (p : Int) (h0 : 0 ≤ p) (h1 : p < 256) : OFFS_REG p = 0 := by
  obtain ⟨n, rfl⟩ := Int.eq_ofNat_of_zero_le h0
  rw [offs_reg_nat]
  have : n / 256 % 64 = 0 := by omega
  rw [this]
  rfl

/-- A value below 64 is its own register field. -/
theorem small_reg_field (p : Int) (h0 : 0 ≤ p) (h1 : p < 64) : Int.land p REG_MASK = p := by
  obtain ⟨n, rfl⟩ := Int.eq_ofNat_of_zero_le h0
  rw [reg_field_nat]
  have : n % 64 = n := by omega
  rw [this]

/-- The float check of an operand that is no float register name. -/
theorem fcheck_not_float (cfg : Config) (compiler : sljit_compiler) (p i : Int)
    (hctx : context_set cfg compiler) (hp : p < 1 ∨ 6 < p) :
    FUNCTION_FCHECK cfg compiler p i =
      (if p = SLJIT_MEM1 (SLJIT_SP cfg) then
          decide (i ≥ 0) && decide (i < compiler.logical_local_size)
        else FUNCTION_CHECK_MEM cfg compiler true p i) := by
  obtain ⟨-, -, -, h1, h2, h3⟩ := hctx
  have hs : compiler.fscratches ≠ -1 := by omega
  have hv : compiler.fsaveds ≠ -1 := by omega
  unfold FUNCTION_FCHECK
  have hfalse : ((decide (p ≥ SLJIT_FR0) && decide (p < SLJIT_FR0 + compiler.fscratches))
      || (decide (p > SLJIT_FS0 - compiler.fsaveds) && decide (p ≤ SLJIT_FS0))) = false := by
    rw [← Bool.not_eq_true]
    simp only [Bool.or_eq_true, Bool.and_eq_true, decide_eq_true_eq, SLJIT_FR0, SLJIT_FS0,
      SLJIT_NUM_FLOAT_REGS] at h3 ⊢
    omega
  rw [hfalse]
  simp [hs, hv]

/-- The source check of an operand that is no register and not `SLJIT_IMM`. -/
theorem src_not_reg (cfg : Config) (compiler : sljit_compiler) (p i : Int)
    (hctx : context_set cfg compiler)
    (hreg : FUNCTION_CHECK_IS_REG cfg compiler p = false) (himm : p ≠ SLJIT_IMM) :
    FUNCTION_CHECK_SRC cfg compiler p i =
      (if p = SLJIT_MEM1 (SLJIT_SP cfg) then
          decide (i ≥ 0) && decide (i < compiler.logical_local_size)
        else FUNCTION_CHECK_MEM cfg compiler false p i) := by
  obtain ⟨h1, h2, -⟩ := hctx
  have hs : compiler.scratches ≠ -1 := by omega
  have hv : compiler.saveds ≠ -1 := by omega
  unfold FUNCTION_CHECK_SRC
  rw [hreg]
  simp [hs, hv, himm]

/-- The destination check of an operand that is no register and not
`SLJIT_UNUSED`. -/
theorem dst_not_reg (cfg : Config) (compiler : sljit_compiler) (p i : Int)
    (hctx : context_set cfg compiler)
    (hreg : FUNCTION_CHECK_IS_REG cfg compiler p = false) (hp0 : p ≠ SLJIT_UNUSED) :
    FUNCTION_CHECK_DST cfg compiler p i =
      (if p = SLJIT_MEM1 (SLJIT_SP cfg) then
          decide (i ≥ 0) && decide (i < compiler.logical_local_size)
        else FUNCTION_CHECK_MEM cfg compiler false p i) := by
  obtain ⟨h1, h2, -⟩ := hctx
  have hs : compiler.scratches ≠ -1 := by omega
  have hv : compiler.saveds ≠ -1 := by omega
  have hru : FUNCTION_CHECK_IS_REG_OR_UNUSED cfg compiler p = false := by
    rw [← Bool.not_eq_true, is_reg_or_unused_iff, hreg]
    simp only [SLJIT_UNUSED] at hp0
    simp [hp0]
  unfold FUNCTION_CHECK_DST
  rw [hru]
  simp [hs, hv]

/-- `SLJIT_SP` is no register of a set context. -/
theorem sp_not_reg (cfg : Config) (compiler : sljit_compiler)
    (hctx : context_set cfg compiler) :
    FUNCTION_CHECK_IS_REG cfg compiler (SLJIT_SP cfg) = false
      ∧ FUNCTION_CHECK_IS_REG_OR_UNUSED cfg compiler (SLJIT_SP cfg) = false := by
  have hN := num_regs_bounds cfg
  have h1 : FUNCTION_CHECK_IS_REG cfg compiler (SLJIT_SP cfg) = false := by
    rw [← Bool.not_eq_true]
    intro h
    have := is_reg_range cfg compiler _ hctx h
    rw [SLJIT_SP] at this
    omega
  refine ⟨h1, ?_⟩
  rw [← Bool.not_eq_true, is_reg_or_unused_iff, h1, SLJIT_SP]
  simp
  omega

/-- The memory branch rejects an operand with the base `SLJIT_SP` or the index
`SLJIT_SP`. -/
theorem check_mem_rejects_sp (cfg : Config) (compiler : sljit_compiler) (fcheck : Bool)
    (p i : Int) (hctx : context_set cfg compiler)
    (h : Int.land p REG_MASK = SLJIT_SP cfg ∨ OFFS_REG p = SLJIT_SP cfg) :
    FUNCTION_CHECK_MEM cfg compiler fcheck p i = false := by
  have hN := num_regs_bounds cfg
  obtain ⟨hsp1, hsp2⟩ := sp_not_reg cfg compiler hctx
  rw [← Bool.not_eq_true, check_mem_iff]
  rintro ⟨-, hbase, -, hrest, hp0, hp1⟩
  rcases h with h | h
  · rw [h, hsp2] at hbase
    exact absurd hbase (by simp)
  · obtain ⟨n, rfl⟩ := Int.eq_ofNat_of_zero_le hp0
    have hidx : Int.land (n : Int) OFFS_REG_MASK ≠ 0 := by
      rw [offs_reg_nat, SLJIT_SP] at h
      rw [offs_mask_nat]
      omega
    obtain ⟨-, hx, -⟩ := hrest hidx
    rw [h, hsp1] at hx
    exact absurd hx (by simp)

/-- The three operand checks reject an operand other than
`SLJIT_MEM1(SLJIT_SP)` whose base or index is `SLJIT_SP`. -/
theorem sp_named_rejected (cfg : Config) (compiler : sljit_compiler) (p i : Int)
    (hctx : context_set cfg compiler) (hne : p ≠ SLJIT_MEM1 (SLJIT_SP cfg))
    (h : Int.land p REG_MASK = SLJIT_SP cfg ∨ OFFS_REG p = SLJIT_SP cfg) :
    FUNCTION_CHECK_SRC cfg compiler p i = false
      ∧ FUNCTION_CHECK_DST cfg compiler p i = false
      ∧ FUNCTION_FCHECK cfg compiler p i = false := by
  have hN := num_regs_bounds cfg
  have hcases : p < 0 ∨ 64 < p ∨ p = SLJIT_NUM_REGS cfg + 1 := by
    by_contra hc
    have h0 : 0 ≤ p := by omega
    have h1 : p ≤ 64 := by omega
    rcases h with h | h
    · rcases (by omega : p < 64 ∨ p = 64) with h2 | h2
      · rw [small_reg_field p h0 h2, SLJIT_SP] at h
        omega
      · rw [h2, SLJIT_SP] at h
        have : Int.land 64 REG_MASK = 0 := by decide
        rw [this] at h
        omega
    · rw [small_no_offs p h0 (by omega), SLJIT_SP] at h
      omega
  have hreg : FUNCTION_CHECK_IS_REG cfg compiler p = false := by
    rw [← Bool.not_eq_true]
    intro hr
    have := is_reg_range cfg compiler p hctx hr
    omega
  have himm : p ≠ SLJIT_IMM := by
    rw [SLJIT_IMM]
    omega
  have hp0 : p ≠ SLJIT_UNUSED := by
    rw [SLJIT_UNUSED]
    omega
  have hmem := fun f => check_mem_rejects_sp cfg compiler f p i hctx h
  refine ⟨?_, ?_, ?_⟩
  · rw [src_not_reg cfg compiler p i hctx hreg himm, if_neg hne, hmem]
  · rw [dst_not_reg cfg compiler p i hctx hreg hp0, if_neg hne, hmem]
  · rw [fcheck_not_float cfg compiler p i hctx (by omega), if_neg hne, hmem]

/-- C19. On a compiler with a set context, the source, the destination and the
float operand check accept `SLJIT_MEM1(SLJIT_SP)` with the offset `k` exactly
when `0 <= k` and `k` is below the local size of the context, which
`set_emit_enter` and `set_set_context` store when the checks are compiled;
they reject `SLJIT_SP` as a plain register, and every other operand whose base
or whose index is `SLJIT_SP`. -/
theorem sp_operand_accepted (cfg : Config) (compiler : sljit_compiler)
    (p k w options args scratches saveds fscratches fsaveds local_size : Int)
    (hctx : context_set cfg compiler) :
    ((FUNCTION_CHECK_SRC cfg compiler (SLJIT_MEM1 (SLJIT_SP cfg)) k = true
          ↔ 0 ≤ k ∧ k < compiler.logical_local_size)
        ∧ (FUNCTION_CHECK_DST cfg compiler (SLJIT_MEM1 (SLJIT_SP cfg)) k = true
          ↔ 0 ≤ k ∧ k < compiler.logical_local_size)
        ∧ (FUNCTION_FCHECK cfg compiler (SLJIT_MEM1 (SLJIT_SP cfg)) k = true
          ↔ 0 ≤ k ∧ k < compiler.logical_local_size))
      ∧ (cfg.argument_checks = true →
          (set_emit_enter cfg compiler options args scratches saveds fscratches fsaveds
              local_size).logical_local_size = local_size
            ∧ (set_set_context cfg compiler options args scratches saveds fscratches fsaveds
              local_size).logical_local_size = local_size)
      ∧ (FUNCTION_CHECK_SRC cfg compiler (SLJIT_SP cfg) w = false
          ∧ FUNCTION_CHECK_DST cfg compiler (SLJIT_SP cfg) w = false
          ∧ FUNCTION_FCHECK cfg compiler (SLJIT_SP cfg) w = false)
      ∧ (p ≠ SLJIT_MEM1 (SLJIT_SP cfg) →
          Int.land p REG_MASK = SLJIT_SP cfg ∨ OFFS_REG p = SLJIT_SP cfg →
          FUNCTION_CHECK_SRC cfg compiler p w = false
            ∧ FUNCTION_CHECK_DST cfg compiler p w = false
            ∧ FUNCTION_FCHECK cfg compiler p w = false) := by
  have hN := num_regs_bounds cfg
  have hsp := mem1_sp_value cfg
  refine ⟨⟨?_, ?_, ?_⟩, ?_, ?_, ?_⟩
  · have hreg : FUNCTION_CHECK_IS_REG cfg compiler (SLJIT_MEM1 (SLJIT_SP cfg)) = false := by
      rw [← Bool.not_eq_true]
      intro hr
      have := is_reg_range cfg compiler _ hctx hr
      omega
    rw [src_not_reg cfg compiler _ k hctx hreg (by rw [hsp, SLJIT_IMM]; omega)]
    simp
  · have hreg : FUNCTION_CHECK_IS_REG cfg compiler (SLJIT_MEM1 (SLJIT_SP cfg)) = false := by
      rw [← Bool.not_eq_true]
      intro hr
      have := is_reg_range cfg compiler _ hctx hr
      omega
    rw [dst_not_reg cfg compiler _ k hctx hreg (by rw [hsp, SLJIT_UNUSED]; omega)]
    simp
  · rw [fcheck_not_float cfg compiler _ k hctx (by omega)]
    simp
  · intro hchecks
    simp [set_emit_enter, set_set_context, hchecks]
  · apply sp_named_rejected cfg compiler (SLJIT_SP cfg) w hctx
    · rw [hsp, SLJIT_SP]; omega
    · left
      exact small_reg_field _ (by rw [SLJIT_SP]; omega) (by rw [SLJIT_SP]; omega)
  · intro hne h
    exact sp_named_rejected cfg compiler p w hctx hne h

theorem sp_operand_accepted_witness :
    ((FUNCTION_CHECK_SRC sample_config sample_entered_compiler
            (SLJIT_MEM1 (SLJIT_SP sample_config)) 8 = true
          ↔ 0 ≤ (8 : Int) ∧ (8 : Int) < sample_entered_compiler.logical_local_size)
        ∧ (FUNCTION_CHECK_DST sample_config sample_entered_compiler
            (SLJIT_MEM1 (SLJIT_SP sample_config)) 8 = true
          ↔ 0 ≤ (8 : Int) ∧ (8 : Int) < sample_entered_compiler.logical_local_size)
        ∧ (FUNCTION_FCHECK sample_config sample_entered_compiler
            (SLJIT_MEM1 (SLJIT_SP sample_config)) 8 = true
          ↔ 0 ≤ (8 : Int) ∧ (8 : Int) < sample_entered_compiler.logical_local_size))
      ∧ (sample_config.argument_checks = true →
          (set_emit_enter sample_config sample_entered_compiler 0 1 2 1 2 0
              16).logical_local_size = 16
            ∧ (set_set_context sample_config sample_entered_compiler 0 1 2 1 2 0
              16).logical_local_size = 16)
      ∧ (FUNCTION_CHECK_SRC sample_config sample_entered_compiler
            (SLJIT_SP sample_config) 0 = false
          ∧ FUNCTION_CHECK_DST sample_config sample_entered_compiler
            (SLJIT_SP sample_config) 0 = false
          ∧ FUNCTION_FCHECK sample_config sample_entered_compiler
            (SLJIT_SP sample_config) 0 = false)
      ∧ (SLJIT_MEM2 (SLJIT_SP sample_config) SLJIT_R0 ≠ SLJIT_MEM1 (SLJIT_SP sample_config) →
          Int.land (SLJIT_MEM2 (SLJIT_SP sample_config) SLJIT_R0) REG_MASK
              = SLJIT_SP sample_config
            ∨ OFFS_REG (SLJIT_MEM2 (SLJIT_SP sample_config) SLJIT_R0)
              = SLJIT_SP sample_config →
          FUNCTION_CHECK_SRC sample_config sample_entered_compiler
              (SLJIT_MEM2 (SLJIT_SP sample_config) SLJIT_R0) 0 = false
            ∧ FUNCTION_CHECK_DST sample_config sample_entered_compiler
              (SLJIT_MEM2 (SLJIT_SP sample_config) SLJIT_R0) 0 = false
            ∧ FUNCTION_FCHECK sample_config sample_entered_compiler
              (SLJIT_MEM2 (SLJIT_SP sample_config) SLJIT_R0) 0 = false) :=
  sp_operand_accepted sample_config sample_entered_compiler
    (SLJIT_MEM2 (SLJIT_SP sample_config) SLJIT_R0) 8 0 0 1 2 1 2 0 16 (by decide)

/-- The options without a bit other than `SLJIT_DOUBLE_ALIGNMENT`. -/
theorem options_bits_iff (options : Int) :
    Int.land options (Int.lnot SLJIT_DOUBLE_ALIGNMENT) = 0 ↔
      options = 0 ∨ options = SLJIT_DOUBLE_ALIGNMENT := by
  rw [land_lnot_eq_zero, SLJIT_DOUBLE_ALIGNMENT]
  cases options with
  | ofNat n =>
    show ((n &&& 1 : Nat) : Int) = (n : Int) ↔ _
    have h : n &&& 1 = n % 2 := Nat.and_one_is_mod n
    rw [h]
    have e : Int.ofNat n = (n : Int) := rfl
    rw [e]
    constructor
    · intro h1
      have : n % 2 = n := by exact_mod_cast h1
      omega
    · intro h2
      have : n % 2 = n := by omega
      exact_mod_cast this
  | negSucc n =>
    constructor
    · intro h1
      exfalso
      have : Int.land (Int.negSucc n) (0x00000001 : Int) = ((Nat.ldiff 1 n : Nat) : Int) := rfl
      rw [this] at h1
      have h2 := Int.negSucc_lt_zero n
      rw [← h1] at h2
      omega
    · intro h1
      have h2 := Int.negSucc_lt_zero n
      omega

/-- C20. With the checks compiled, `check_sljit_emit_enter` accepts its
arguments exactly when `options` is 0 or `SLJIT_DOUBLE_ALIGNMENT`,
`0 <= args <= 3`, `args <= saveds`, the four register counts are not negative,
`scratches + saveds <= SLJIT_NUM_REGS`,
`fscratches + fsaveds <= SLJIT_NUM_FLOAT_REGS` and
`0 <= local_size <= 65536`; with `skip_checks` clear `check_sljit_set_context`
accepts exactly the same arguments; both accept (0, 1, 4, 5, 4, 0, 16). -/
theorem context_arguments_accepted (cfg : Config) (compiler : sljit_compiler)
    (options args scratches saveds fscratches fsaveds local_size : Int)
    (hchecks : cfg.argument_checks = true) (hskip : compiler.skip_checks = 0) :
    (check_sljit_emit_enter cfg compiler options args scratches saveds fscratches fsaveds
          local_size = 0
        ↔ (options = 0 ∨ options = SLJIT_DOUBLE_ALIGNMENT)
          ∧ 0 ≤ args ∧ args ≤ 3 ∧ args ≤ saveds ∧ 0 ≤ scratches ∧ 0 ≤ saveds
          ∧ scratches + saveds ≤ SLJIT_NUM_REGS cfg
          ∧ 0 ≤ fscratches ∧ 0 ≤ fsaveds ∧ fscratches + fsaveds ≤ SLJIT_NUM_FLOAT_REGS
          ∧ 0 ≤ local_size ∧ local_size ≤ 65536)
      ∧ ((check_sljit_set_context cfg compiler options args scratches saveds fscratches
            fsaveds local_size).1 = 0
          ↔ check_sljit_emit_enter cfg compiler options args scratches saveds fscratches
              fsaveds local_size = 0)
      ∧ check_sljit_emit_enter cfg compiler 0 1 4 5 4 0 16 = 0
      ∧ (check_sljit_set_context cfg compiler 0 1 4 5 4 0 16).1 = 0 := by
  have hN := num_regs_bounds cfg
  have henter : ∀ o a s v fs fv l : Int,
      check_sljit_emit_enter cfg compiler o a s v fs fv l = 0
        ↔ (o = 0 ∨ o = SLJIT_DOUBLE_ALIGNMENT)
          ∧ 0 ≤ a ∧ a ≤ 3 ∧ a ≤ v ∧ 0 ≤ s ∧ 0 ≤ v
          ∧ s + v ≤ SLJIT_NUM_REGS cfg
          ∧ 0 ≤ fs ∧ 0 ≤ fv ∧ fs + fv ≤ SLJIT_NUM_FLOAT_REGS
          ∧ 0 ≤ l ∧ l ≤ 65536 := by
    intro o a s v fs fv l
    unfold check_sljit_emit_enter
    rw [← options_bits_iff]
    simp only [hchecks, if_true, SLJIT_MAX_LOCAL_SIZE, SLJIT_NUM_FLOAT_REGS]
    split
    · rename_i h
      simp only [Bool.and_eq_true, decide_eq_true_eq] at h
      simp only [true_iff]
      obtain ⟨⟨⟨⟨⟨⟨⟨⟨⟨h1, h2⟩, h3⟩, h4⟩, h5⟩, h6⟩, h7⟩, h8⟩, h9⟩, h10⟩ := h
      exact ⟨h1, by omega, by omega, by omega, by omega, by omega, by omega, by omega,
        by omega, by omega, by omega, by omega⟩
    · rename_i h
      simp only [Bool.and_eq_true, decide_eq_true_eq] at h
      simp only [one_ne_zero, false_iff]
      rintro ⟨h1, h2⟩
      apply h
      refine ⟨⟨⟨⟨⟨⟨⟨⟨⟨h1, ?_⟩, ?_⟩, ?_⟩, ?_⟩, ?_⟩, ?_⟩, ?_⟩, ?_⟩, ?_⟩ <;> omega
  have hset : ∀ o a s v fs fv l : Int,
      (check_sljit_set_context cfg compiler o a s v fs fv l).1 = 0
        ↔ check_sljit_emit_enter cfg compiler o a s v fs fv l = 0 := by
    intro o a s v fs fv l
    unfold check_sljit_set_context check_sljit_emit_enter
    simp only [hskip, hchecks, ne_eq, not_true_eq_false, if_false, if_true]
    split <;> simp
  have hex : check_sljit_emit_enter cfg compiler 0 1 4 5 4 0 16 = 0 := by
    rw [henter]
    refine ⟨Or.inl rfl, ?_⟩
    simp only [SLJIT_NUM_FLOAT_REGS]
    omega
  exact ⟨henter _ _ _ _ _ _ _, hset _ _ _ _ _ _ _, hex, (hset _ _ _ _ _ _ _).2 hex⟩

theorem context_arguments_accepted_witness :
    (check_sljit_emit_enter sample_config sample_compiler 1 3 4 5 4 0 65536 = 0
        ↔ ((1 : Int) = 0 ∨ (1 : Int) = SLJIT_DOUBLE_ALIGNMENT)
          ∧ 0 ≤ (3 : Int) ∧ (3 : Int) ≤ 3 ∧ (3 : Int) ≤ 5 ∧ 0 ≤ (4 : Int) ∧ 0 ≤ (5 : Int)
          ∧ (4 : Int) + 5 ≤ SLJIT_NUM_REGS sample_config
          ∧ 0 ≤ (4 : Int) ∧ 0 ≤ (0 : Int) ∧ (4 : Int) + 0 ≤ SLJIT_NUM_FLOAT_REGS
          ∧ 0 ≤ (65536 : Int) ∧ (65536 : Int) ≤ 65536)
      ∧ ((check_sljit_set_context sample_config sample_compiler 1 3 4 5 4 0 65536).1 = 0
          ↔ check_sljit_emit_enter sample_config sample_compiler 1 3 4 5 4 0 65536 = 0)
      ∧ check_sljit_emit_enter sample_config sample_compiler 0 1 4 5 4 0 16 = 0
      ∧ (check_sljit_set_context sample_config sample_compiler 0 1 4 5 4 0 16).1 = 0 :=
  context_arguments_accepted sample_config sample_compiler 1 3 4 5 4 0 65536 rfl rfl

/-! ## A compiler without a context -/

/-- The members of the compiler that `sljit_create_compiler` returns. -/
theorem create_compiler_fields (cfg : Config) (h0 h1 : Heap) (c0 : sljit_compiler)
    (hc : sljit_create_compiler cfg h0 = (some c0, h1)) :
    c0.error = 0
      ∧ (c0.scratches = -1 ∧ c0.saveds = -1 ∧ c0.fscratches = -1 ∧ c0.fsaveds = -1
          ∧ c0.local_size = -1)
      ∧ c0.skip_checks = 0
      ∧ (c0.buf.head.used_size = 0 ∧ c0.buf.next = [] ∧ c0.abuf.head.used_size = 0
          ∧ c0.abuf.next = [])
      ∧ (c0.labels = none ∧ c0.jumps = none ∧ c0.consts = none ∧ c0.size = 0) := by
  unfold sljit_create_compiler at hc
  rcases hm1 : malloc h0 cfg.compiler_size with ⟨_ | ⟨cb, cbytes⟩, g1⟩
  · rw [hm1] at hc; simp at hc
  rw [hm1] at hc
  simp only at hc
  rcases hm2 : malloc g1 BUF_SIZE with ⟨_ | ⟨bb, bbytes⟩, g2⟩
  · rw [hm2] at hc
    simp only at hc
    rcases hm3 : malloc g2 (ABUF_SIZE cfg) with ⟨_ | ⟨ab, abytes⟩, g3⟩ <;>
      rw [hm3] at hc <;> simp at hc
  rw [hm2] at hc
  simp only at hc
  rcases hm3 : malloc g2 (ABUF_SIZE cfg) with ⟨_ | ⟨ab, abytes⟩, g3⟩
  · rw [hm3] at hc; simp at hc
  rw [hm3] at hc
  simp only at hc
  by_cases harm : cfg.arch = Arch.ARM_V5
  · rw [if_pos harm] at hc
    rcases hm4 : malloc g3 (CPOOL_SIZE * cfg.long_size + CPOOL_SIZE * 1)
      with ⟨_ | ⟨pb, pbytes⟩, g4⟩
    · rw [hm4] at hc; simp at hc
    rw [hm4] at hc
    simp only [Prod.mk.injEq, Option.some.injEq] at hc
    obtain ⟨rfl, -⟩ := hc
    split_ifs <;> simp [initial_compiler, SLJIT_SUCCESS]
  · rw [if_neg harm] at hc
    simp only [Prod.mk.injEq, Option.some.injEq] at hc
    obtain ⟨rfl, -⟩ := hc
    split_ifs <;> simp [initial_compiler, SLJIT_SUCCESS]

/-- The three operand checks reject every operand when no context is set. -/
theorem no_context_operand_checks (cfg : Config) (compiler : sljit_compiler) (p w : Int)
    (hs : compiler.scratches = -1) (hfs : compiler.fscratches = -1) :
    FUNCTION_CHECK_SRC cfg compiler p w = false
      ∧ FUNCTION_CHECK_DST cfg compiler p w = false
      ∧ FUNCTION_FCHECK cfg compiler p w = false := by
  unfold FUNCTION_CHECK_SRC FUNCTION_CHECK_DST FUNCTION_FCHECK
  simp [hs, hfs]

/-- C21. On the compiler that `sljit_create_compiler` returns (no error, empty
buffers and lists, the four register counts and the local size -1,
`skip_checks` clear), with the checks compiled, the source, the destination
and the float operand check reject every operand, and the checks of
`sljit_emit_op1`, `sljit_emit_op2`, `sljit_emit_fop1`, `sljit_emit_fop2`,
`sljit_emit_cmp`, `sljit_emit_fcmp`, `sljit_emit_ijump`,
`sljit_emit_fast_enter`, `sljit_emit_fast_return`, `sljit_emit_const`,
`sljit_get_local_base` and `sljit_emit_return` return 1 for all arguments,
which the macro `CHECK` turns into the error `SLJIT_ERR_BAD_ARGUMENT`. -/
theorem no_context_rejects (cfg : Config) (h h1 : Heap) (compiler : sljit_compiler)
    (fpu op type dst dstw src1 src1w src2 src2w word : Int)
    (hchecks : cfg.argument_checks = true)
    (hcreate : sljit_create_compiler cfg h = (some compiler, h1)) :
    (compiler.error = 0
        ∧ (compiler.scratches = -1 ∧ compiler.saveds = -1 ∧ compiler.fscratches = -1
            ∧ compiler.fsaveds = -1 ∧ compiler.local_size = -1)
        ∧ compiler.skip_checks = 0
        ∧ (compiler.buf.head.used_size = 0 ∧ compiler.buf.next = []
            ∧ compiler.abuf.head.used_size = 0 ∧ compiler.abuf.next = [])
        ∧ (compiler.labels = none ∧ compiler.jumps = none ∧ compiler.consts = none
            ∧ compiler.size = 0))
      ∧ (FUNCTION_CHECK_SRC cfg compiler dst dstw = false
          ∧ FUNCTION_CHECK_DST cfg compiler dst dstw = false
          ∧ FUNCTION_FCHECK cfg compiler dst dstw = false)
      ∧ ((check_sljit_emit_op1 cfg compiler op dst dstw src1 src1w).1 = 1
          ∧ (check_sljit_emit_op2 cfg compiler op dst dstw src1 src1w src2 src2w).1 = 1
          ∧ (SELECT_FOP1_CHECK cfg fpu compiler op dst dstw src1 src1w).1 = 1
          ∧ check_sljit_emit_fop2 cfg fpu compiler op dst dstw src1 src1w src2 src2w = 1
          ∧ check_sljit_emit_cmp cfg compiler type src1 src1w src2 src2w = 1
          ∧ check_sljit_emit_fcmp cfg fpu compiler type src1 src1w src2 src2w = 1
          ∧ (check_sljit_emit_ijump cfg compiler type src1 src1w).1 = 1
          ∧ check_sljit_emit_fast_enter cfg compiler dst dstw = 1
          ∧ check_sljit_emit_fast_return cfg compiler src1 src1w = 1
          ∧ check_sljit_emit_const cfg compiler dst dstw word = 1
          ∧ check_sljit_get_local_base cfg compiler dst dstw word = 1
          ∧ check_sljit_emit_return cfg compiler op src1 src1w = 1)
      ∧ CHECK compiler 1
          = some (SLJIT_ERR_BAD_ARGUMENT, { compiler with error := SLJIT_ERR_BAD_ARGUMENT }) := by
  have hf := create_compiler_fields cfg h h1 compiler hcreate
  obtain ⟨herr, ⟨hs, hv, hfs, hfv, hl⟩, hskip, hbuf, hlists⟩ := hf
  have hop := fun p w => no_context_operand_checks cfg compiler p w hs hfs
  refine ⟨⟨herr, ⟨hs, hv, hfs, hfv, hl⟩, hskip, hbuf, hlists⟩, hop dst dstw, ?_, ?_⟩
  · refine ⟨?_, ?_, ?_, ?_, ?_, ?_, ?_, ?_, ?_, ?_, ?_, ?_⟩
    · simp [check_sljit_emit_op1, hskip, hchecks, (hop src1 src1w).1]
    · simp [check_sljit_emit_op2, hskip, hchecks, (hop src1 src1w).1]
    · unfold SELECT_FOP1_CHECK
      split_ifs <;>
        simp [check_sljit_emit_fop1, check_sljit_emit_fop1_cmp,
          check_sljit_emit_fop1_convw_fromd, check_sljit_emit_fop1_convd_fromw, hskip,
          hchecks, (hop src1 src1w).1, (hop src1 src1w).2.2, (hop dst dstw).2.2]
    · simp [check_sljit_emit_fop2, hchecks, (hop src1 src1w).2.2]
    · simp [check_sljit_emit_cmp, hchecks, (hop src1 src1w).1]
    · simp [check_sljit_emit_fcmp, hchecks, (hop src1 src1w).2.2]
    · simp [check_sljit_emit_ijump, hskip, hchecks, (hop src1 src1w).1]
    · simp [check_sljit_emit_fast_enter, hchecks, (hop dst dstw).2.1]
    · simp [check_sljit_emit_fast_return, hchecks, (hop src1 src1w).1]
    · simp [check_sljit_emit_const, hchecks, (hop dst dstw).2.1]
    · simp [check_sljit_get_local_base, hchecks, (hop dst dstw).2.1]
    · simp [check_sljit_emit_return, hchecks, hs]
  · simp [CHECK]

theorem no_context_rejects_witness :
    ∃ c0 h1, sljit_create_compiler sample_config sample_heap = (some c0, h1)
      ∧ ((c0.error = 0
        ∧ (c0.scratches = -1 ∧ c0.saveds = -1 ∧ c0.fscratches = -1
            ∧ c0.fsaveds = -1 ∧ c0.local_size = -1)
        ∧ c0.skip_checks = 0
        ∧ (c0.buf.head.used_size = 0 ∧ c0.buf.next = []
            ∧ c0.abuf.head.used_size = 0 ∧ c0.abuf.next = [])
        ∧ (c0.labels = none ∧ c0.jumps = none ∧ c0.consts = none
            ∧ c0.size = 0))
      ∧ (FUNCTION_CHECK_SRC sample_config c0 SLJIT_R0 0 = false
          ∧ FUNCTION_CHECK_DST sample_config c0 SLJIT_R0 0 = false
          ∧ FUNCTION_FCHECK sample_config c0 SLJIT_R0 0 = false)
      ∧ ((check_sljit_emit_op1 sample_config c0 SLJIT_MOV SLJIT_R0 0 SLJIT_R0 0).1 = 1
          ∧ (check_sljit_emit_op2 sample_config c0 SLJIT_MOV SLJIT_R0 0 SLJIT_R0 0 SLJIT_IMM 5).1 = 1
          ∧ (SELECT_FOP1_CHECK sample_config 1 c0 SLJIT_MOV SLJIT_R0 0 SLJIT_R0 0).1 = 1
          ∧ check_sljit_emit_fop2 sample_config 1 c0 SLJIT_MOV SLJIT_R0 0 SLJIT_R0 0 SLJIT_IMM 5 = 1
          ∧ check_sljit_emit_cmp sample_config c0 SLJIT_JUMP SLJIT_R0 0 SLJIT_IMM 5 = 1
          ∧ check_sljit_emit_fcmp sample_config 1 c0 SLJIT_JUMP SLJIT_R0 0 SLJIT_IMM 5 = 1
          ∧ (check_sljit_emit_ijump sample_config c0 SLJIT_JUMP SLJIT_R0 0).1 = 1
          ∧ check_sljit_emit_fast_enter sample_config c0 SLJIT_R0 0 = 1
          ∧ check_sljit_emit_fast_return sample_config c0 SLJIT_R0 0 = 1
          ∧ check_sljit_emit_const sample_config c0 SLJIT_R0 0 8 = 1
          ∧ check_sljit_get_local_base sample_config c0 SLJIT_R0 0 8 = 1
          ∧ check_sljit_emit_return sample_config c0 SLJIT_MOV SLJIT_R0 0 = 1)
      ∧ CHECK c0 1
          = some (SLJIT_ERR_BAD_ARGUMENT, { c0 with error := SLJIT_ERR_BAD_ARGUMENT })) :=
  ⟨_, _, rfl,
   no_context_rejects sample_config sample_heap _ _ 1 SLJIT_MOV SLJIT_JUMP SLJIT_R0 0
     SLJIT_R0 0 SLJIT_IMM 5 8 rfl rfl⟩

/-- The opcode of an `op` without modifier bits. -/
theorem get_opcode_plain (opcode : Int)
    (ho : Int.land opcode (Int.lor (Int.lor (Int.lor (Int.lor (Int.lor (Int.lor
      SLJIT_INT_OP SLJIT_SET_E) SLJIT_SET_U) SLJIT_SET_S) SLJIT_SET_O) SLJIT_SET_C)
      SLJIT_KEEP_FLAGS) = 0) :
    GET_OPCODE opcode = opcode := by
  have h := get_opcode_lor opcode 0 ho (by decide)
  rwa [lor_zero] at h

/-- The result of `check_sljit_emit_op1` is 1 when the checks are compiled,
`skip_checks` is clear and `FUNCTION_CHECK_OP1` fails. -/
theorem check_op1_rejects_movu (cfg : Config) (compiler : sljit_compiler)
    (op dst dstw src srcw : Int)
    (hchecks : cfg.argument_checks = true) (hskip : compiler.skip_checks = 0)
    (hmovu : FUNCTION_CHECK_OP1 cfg op dst src = false) :
    (check_sljit_emit_op1 cfg compiler op dst dstw src srcw).1 = 1 := by
  unfold check_sljit_emit_op1
  simp [hskip, hchecks, hmovu]

/-- The macro `FUNCTION_CHECK_OP1` on a pre-update move, one test at a time. -/
theorem check_op1_movu_iff (cfg : Config) (op dst src : Int)
    (hop : SLJIT_MOVU ≤ GET_OPCODE op ∧ GET_OPCODE op ≤ SLJIT_MOVU_P) :
    FUNCTION_CHECK_OP1 cfg op dst src = true ↔
      ¬ (Int.land src SLJIT_MEM ≠ 0 ∧ Int.land src REG_MASK = SLJIT_SP cfg)
        ∧ ¬ (Int.land dst SLJIT_MEM ≠ 0 ∧ Int.land dst REG_MASK = SLJIT_SP cfg)
        ∧ (Int.land src SLJIT_MEM ≠ 0 → Int.land src REG_MASK ≠ SLJIT_UNUSED →
            Int.land dst REG_MASK ≠ Int.land src REG_MASK
              ∧ OFFS_REG dst ≠ Int.land src REG_MASK) := by
  unfold FUNCTION_CHECK_OP1
  have hc : GET_OPCODE op ≥ SLJIT_MOVU ∧ GET_OPCODE op ≤ SLJIT_MOVU_P := hop
  rw [if_pos hc]
  simp only [SLJIT_UNUSED]
  by_cases h1 : Int.land src SLJIT_MEM = 0 <;> by_cases h2 : Int.land src REG_MASK = 0 <;>
    by_cases h3 : Int.land dst SLJIT_MEM = 0 <;> simp [h1, h2, h3, and_assoc]

/-- C22. For an `op` whose opcode is one of `SLJIT_MOVU` .. `SLJIT_MOVU_P`,
`FUNCTION_CHECK_OP1` passes exactly when neither operand is a memory operand
with the base `SLJIT_SP` and, if the source is a memory operand with a base
`b` other than `SLJIT_UNUSED`, the register field and the index field of the
destination differ from `b`; with the checks compiled and `skip_checks` clear
`check_sljit_emit_op1` returns 1 when it fails. So two memory operands with
the same base `b` are rejected, and so is a source `[b+..]` with the
destination register `b` or the destination index `b`. -/
theorem movu_operand_rule (cfg : Config) (compiler : sljit_compiler)
    (op dst dstw src srcw : Int)
    (hchecks : cfg.argument_checks = true) (hskip : compiler.skip_checks = 0)
    (hop : SLJIT_MOVU ≤ GET_OPCODE op ∧ GET_OPCODE op ≤ SLJIT_MOVU_P) :
    (FUNCTION_CHECK_OP1 cfg op dst src = true ↔
        ¬ (Int.land src SLJIT_MEM ≠ 0 ∧ Int.land src REG_MASK = SLJIT_SP cfg)
          ∧ ¬ (Int.land dst SLJIT_MEM ≠ 0 ∧ Int.land dst REG_MASK = SLJIT_SP cfg)
          ∧ (Int.land src SLJIT_MEM ≠ 0 → Int.land src REG_MASK ≠ SLJIT_UNUSED →
              Int.land dst REG_MASK ≠ Int.land src REG_MASK
                ∧ OFFS_REG dst ≠ Int.land src REG_MASK))
      ∧ (FUNCTION_CHECK_OP1 cfg op dst src = false →
          (check_sljit_emit_op1 cfg compiler op dst dstw src srcw).1 = 1)
      ∧ (Int.land src SLJIT_MEM ≠ 0 → Int.land src REG_MASK ≠ SLJIT_UNUSED →
          Int.land dst REG_MASK = Int.land src REG_MASK
            ∨ OFFS_REG dst = Int.land src REG_MASK →
          (check_sljit_emit_op1 cfg compiler op dst dstw src srcw).1 = 1) := by
  have hiff := check_op1_movu_iff cfg op dst src hop
  have hrej := check_op1_rejects_movu cfg compiler op dst dstw src srcw hchecks hskip
  refine ⟨hiff, hrej, ?_⟩
  intro hmem hbase hsame
  apply hrej
  rw [← Bool.not_eq_true, hiff]
  rintro ⟨-, -, h3⟩
  obtain ⟨h4, h5⟩ := h3 hmem hbase
  rcases hsame with h | h
  · exact h4 h
  · exact h5 h

theorem movu_operand_rule_witness :
    (FUNCTION_CHECK_OP1 sample_config SLJIT_MOVU (SLJIT_MEM1 SLJIT_R0) (SLJIT_MEM1 SLJIT_R0)
          = true ↔
        ¬ (Int.land (SLJIT_MEM1 SLJIT_R0) SLJIT_MEM ≠ 0
            ∧ Int.land (SLJIT_MEM1 SLJIT_R0) REG_MASK = SLJIT_SP sample_config)
          ∧ ¬ (Int.land (SLJIT_MEM1 SLJIT_R0) SLJIT_MEM ≠ 0
            ∧ Int.land (SLJIT_MEM1 SLJIT_R0) REG_MASK = SLJIT_SP sample_config)
          ∧ (Int.land (SLJIT_MEM1 SLJIT_R0) SLJIT_MEM ≠ 0 →
              Int.land (SLJIT_MEM1 SLJIT_R0) REG_MASK ≠ SLJIT_UNUSED →
              Int.land (SLJIT_MEM1 SLJIT_R0) REG_MASK ≠ Int.land (SLJIT_MEM1 SLJIT_R0) REG_MASK
                ∧ OFFS_REG (SLJIT_MEM1 SLJIT_R0) ≠ Int.land (SLJIT_MEM1 SLJIT_R0) REG_MASK))
      ∧ (FUNCTION_CHECK_OP1 sample_config SLJIT_MOVU (SLJIT_MEM1 SLJIT_R0)
            (SLJIT_MEM1 SLJIT_R0) = false →
          (check_sljit_emit_op1 sample_config sample_entered_compiler SLJIT_MOVU
            (SLJIT_MEM1 SLJIT_R0) 0 (SLJIT_MEM1 SLJIT_R0) 8).1 = 1)
      ∧ (Int.land (SLJIT_MEM1 SLJIT_R0) SLJIT_MEM ≠ 0 →
          Int.land (SLJIT_MEM1 SLJIT_R0) REG_MASK ≠ SLJIT_UNUSED →
          Int.land (SLJIT_MEM1 SLJIT_R0) REG_MASK = Int.land (SLJIT_MEM1 SLJIT_R0) REG_MASK
            ∨ OFFS_REG (SLJIT_MEM1 SLJIT_R0) = Int.land (SLJIT_MEM1 SLJIT_R0) REG_MASK →
          (check_sljit_emit_op1 sample_config sample_entered_compiler SLJIT_MOVU
            (SLJIT_MEM1 SLJIT_R0) 0 (SLJIT_MEM1 SLJIT_R0) 8).1 = 1) :=
  movu_operand_rule sample_config sample_entered_compiler SLJIT_MOVU
    (SLJIT_MEM1 SLJIT_R0) 0 (SLJIT_MEM1 SLJIT_R0) 8 rfl rfl
    (by rw [get_opcode_plain SLJIT_MOVU (by decide)]; decide)

/-- The pre-update move to `[SLJIT_R0 + 8]` from the register `SLJIT_R0` is
accepted: the destination is a memory operand with the base `SLJIT_R0`, and
the register field of the source is `SLJIT_R0`. -/
theorem movu_destination_base_accepted :
    Int.land (SLJIT_MEM1 SLJIT_R0) SLJIT_MEM ≠ 0
      ∧ Int.land (SLJIT_MEM1 SLJIT_R0) REG_MASK = SLJIT_R0
      ∧ SLJIT_R0 ≠ SLJIT_UNUSED
      ∧ Int.land SLJIT_R0 REG_MASK = SLJIT_R0
      ∧ (check_sljit_emit_op1 sample_config sample_entered_compiler SLJIT_MOVU
          (SLJIT_MEM1 SLJIT_R0) 8 SLJIT_R0 0).1 = 0 := by
  have hg : GET_OPCODE SLJIT_MOVU = SLJIT_MOVU := get_opcode_plain SLJIT_MOVU (by decide)
  have hop : SLJIT_MOV ≤ GET_OPCODE SLJIT_MOVU ∧ GET_OPCODE SLJIT_MOVU ≤ SLJIT_CLZ := by
    rw [hg]; decide
  have hmovu : SLJIT_MOVU ≤ GET_OPCODE SLJIT_MOVU ∧ GET_OPCODE SLJIT_MOVU ≤ SLJIT_MOVU_P := by
    rw [hg]; decide
  have hdst : FUNCTION_CHECK_DST sample_config sample_entered_compiler
      (SLJIT_MEM1 SLJIT_R0) 8 = true := by
    have hreg : FUNCTION_CHECK_IS_REG sample_config sample_entered_compiler
        (SLJIT_MEM1 SLJIT_R0) = false := by decide
    rw [dst_not_reg sample_config sample_entered_compiler _ 8 (by decide) hreg (by decide),
      if_neg (by decide), check_mem_iff]
    refine ⟨by decide, by decide, by decide, ?_, by decide, by decide⟩
    intro h
    exact absurd h (by decide)
  refine ⟨by decide, by decide, by decide, by decide, ?_⟩
  rw [check_op1_accepts sample_config sample_entered_compiler _ _ _ _ _ rfl rfl hop
      (by decide) hdst
      (by rw [check_op1_movu_iff _ _ _ _ hmovu]; decide),
    function_check_op_op1 _ hop, hg]
  decide

/-- A value is its bits outside `m` together with its bits inside `m`. -/
theorem lor_land_lnot_land (a m : Int) :
    Int.lor (Int.land a (Int.lnot m)) (Int.land a m) = a := by
  apply int_eq_of_testBit_eq
  intro k
  simp only [Int.testBit_land, Int.testBit_lor, Int.testBit_lnot]
  cases a.testBit k <;> cases m.testBit k <;> rfl

/-- The values that `SLJIT_INT_OP` cleared turns into `v`. -/
theorem clear_int_op_eq (op v : Int) (hv : Int.land v SLJIT_INT_OP = 0) :
    Int.land op (Int.lnot SLJIT_INT_OP) = v ↔ op = v ∨ op = Int.lor v SLJIT_INT_OP := by
  constructor
  · intro h
    have hsplit := lor_land_lnot_land op SLJIT_INT_OP
    rw [h] at hsplit
    rcases land_bit8 op with h0 | h1
    · left
      have h0' : Int.land op SLJIT_INT_OP = 0 := h0
      rw [h0', lor_zero] at hsplit
      exact hsplit.symm
    · right
      have h1' : Int.land op SLJIT_INT_OP = SLJIT_INT_OP := h1
      rw [h1'] at hsplit
      exact hsplit.symm
  · rintro (h | h)
    · rw [h]
      have := land_lnot_lor v 0 SLJIT_INT_OP hv (by decide)
      rwa [lor_zero] at this
    · rw [h]
      exact land_lnot_lor v SLJIT_INT_OP SLJIT_INT_OP hv (by decide)

/-- C23. With the checks compiled, `check_sljit_emit_op0` accepts `op` exactly
when `op` is `SLJIT_BREAKPOINT` or `SLJIT_NOP`, or the context has at least
two scratch registers and `op` is `SLJIT_LUMUL` or `SLJIT_LSMUL` or `op`
with `SLJIT_INT_OP` cleared is `SLJIT_LUDIV` or `SLJIT_LSDIV`, which holds for
the opcode itself and the opcode with `SLJIT_INT_OP` only. -/
theorem op0_check (cfg : Config) (compiler : sljit_compiler) (op : Int)
    (hchecks : cfg.argument_checks = true) :
    (check_sljit_emit_op0 cfg compiler op = 0 ↔
        (op = SLJIT_BREAKPOINT ∨ op = SLJIT_NOP)
          ∨ ((op = SLJIT_LUMUL ∨ op = SLJIT_LSMUL
                ∨ Int.land op (Int.lnot SLJIT_INT_OP) = SLJIT_LUDIV
                ∨ Int.land op (Int.lnot SLJIT_INT_OP) = SLJIT_LSDIV)
              ∧ 2 ≤ compiler.scratches))
      ∧ (Int.land op (Int.lnot SLJIT_INT_OP) = SLJIT_LUDIV
          ↔ op = SLJIT_LUDIV ∨ op = Int.lor SLJIT_LUDIV SLJIT_INT_OP)
      ∧ (Int.land op (Int.lnot SLJIT_INT_OP) = SLJIT_LSDIV
          ↔ op = SLJIT_LSDIV ∨ op = Int.lor SLJIT_LSDIV SLJIT_INT_OP) := by
  have hu := clear_int_op_eq op SLJIT_LUDIV (by decide)
  have hs := clear_int_op_eq op SLJIT_LSDIV (by decide)
  refine ⟨?_, hu, hs⟩
  have hval : Int.lor SLJIT_LUDIV SLJIT_INT_OP = 260
      ∧ Int.lor SLJIT_LSDIV SLJIT_INT_OP = 261 := by decide
  rw [hval.1] at hu
  rw [hval.2] at hs
  unfold check_sljit_emit_op0
  simp only [hchecks, if_true]
  simp only [SLJIT_BREAKPOINT, SLJIT_NOP, SLJIT_LUMUL, SLJIT_LSMUL, SLJIT_LUDIV, SLJIT_LSDIV,
    SLJIT_OP0_BASE] at hu hs ⊢
  generalize Int.land op (Int.lnot SLJIT_INT_OP) = g at hu hs ⊢
  split
  · rename_i h
    simp only [Bool.and_eq_true, Bool.or_eq_true, decide_eq_true_eq] at h
    simp only [true_iff]
    omega
  · rename_i h
    simp only [Bool.and_eq_true, Bool.or_eq_true, decide_eq_true_eq] at h
    simp only [one_ne_zero, false_iff]
    intro hc
    apply h
    omega

theorem op0_check_witness :
    (check_sljit_emit_op0 sample_config sample_entered_compiler SLJIT_LUMUL = 0 ↔
        (SLJIT_LUMUL = SLJIT_BREAKPOINT ∨ SLJIT_LUMUL = SLJIT_NOP)
          ∨ ((SLJIT_LUMUL = SLJIT_LUMUL ∨ SLJIT_LUMUL = SLJIT_LSMUL
                ∨ Int.land SLJIT_LUMUL (Int.lnot SLJIT_INT_OP) = SLJIT_LUDIV
                ∨ Int.land SLJIT_LUMUL (Int.lnot SLJIT_INT_OP) = SLJIT_LSDIV)
              ∧ 2 ≤ sample_entered_compiler.scratches))
      ∧ (Int.land SLJIT_LUMUL (Int.lnot SLJIT_INT_OP) = SLJIT_LUDIV
          ↔ SLJIT_LUMUL = SLJIT_LUDIV ∨ SLJIT_LUMUL = Int.lor SLJIT_LUDIV SLJIT_INT_OP)
      ∧ (Int.land SLJIT_LUMUL (Int.lnot SLJIT_INT_OP) = SLJIT_LSDIV
          ↔ SLJIT_LUMUL = SLJIT_LSDIV ∨ SLJIT_LUMUL = Int.lor SLJIT_LSDIV SLJIT_INT_OP) :=
  op0_check sample_config sample_entered_compiler SLJIT_LUMUL rfl

/-- C24. With the checks compiled, `check_sljit_emit_return` accepts
`(op, src, srcw)` exactly when the scratch count of the compiler is not
negative and either `op` is `SLJIT_UNUSED` with `src = 0` and `srcw = 0`, or
`op` is one of `SLJIT_MOV` .. `SLJIT_MOV_P` and `(src, srcw)` passes
`FUNCTION_CHECK_SRC`; such an `op` has no modifier bit. -/
theorem return_check (cfg : Config) (compiler : sljit_compiler) (op src srcw : Int)
    (hchecks : cfg.argument_checks = true) :
    (check_sljit_emit_return cfg compiler op src srcw = 0 ↔
        0 ≤ compiler.scratches
          ∧ ((op = SLJIT_UNUSED ∧ src = 0 ∧ srcw = 0)
              ∨ (SLJIT_MOV ≤ op ∧ op ≤ SLJIT_MOV_P
                  ∧ FUNCTION_CHECK_SRC cfg compiler src srcw = true)))
      ∧ (SLJIT_MOV ≤ op ∧ op ≤ SLJIT_MOV_P →
          Int.land op (Int.lor (Int.lor (Int.lor (Int.lor (Int.lor (Int.lor
            SLJIT_INT_OP SLJIT_SET_E) SLJIT_SET_U) SLJIT_SET_S) SLJIT_SET_O) SLJIT_SET_C)
            SLJIT_KEEP_FLAGS) = 0) := by
  constructor
  · unfold check_sljit_emit_return
    have key : ∀ b : Bool, ((if b = true then (0 : Int) else 1) = 0) ↔ b = true := by
      intro b
      cases b <;> simp
    simp only [hchecks, if_true]
    rw [key]
    have hm : ¬ (SLJIT_MOV ≤ SLJIT_UNUSED) := by decide
    by_cases hop : op = SLJIT_UNUSED
    · subst hop
      simp only [ne_eq, not_true_eq_false, if_false, Bool.and_eq_true, decide_eq_true_eq,
        ge_iff_le]
      constructor
      · rintro ⟨h1, h2, h3⟩
        exact ⟨h1, Or.inl ⟨trivial, h2, h3⟩⟩
      · rintro ⟨h1, h2 | h2⟩
        · exact ⟨h1, h2.2.1, h2.2.2⟩
        · exact absurd h2.1 hm
    · simp only [ne_eq, hop, not_false_eq_true, if_true, Bool.and_eq_true, decide_eq_true_eq,
        ge_iff_le]
      constructor
      · rintro ⟨h1, ⟨h2, h3⟩, h4⟩
        exact ⟨h1, Or.inr ⟨h2, h3, h4⟩⟩
      · rintro ⟨h1, h2 | h2⟩
        · exact absurd h2.1 (by simp)
        · exact ⟨h1, ⟨h2.1, h2.2.1⟩, h2.2.2⟩
  · rintro ⟨h1, h2⟩
    exact move_opcode_bits op ⟨h1, le_trans h2 (by decide)⟩

theorem return_check_witness :
    (check_sljit_emit_return sample_config sample_entered_compiler SLJIT_MOV SLJIT_R0 0 = 0 ↔
        0 ≤ sample_entered_compiler.scratches
          ∧ ((SLJIT_MOV = SLJIT_UNUSED ∧ SLJIT_R0 = 0 ∧ (0 : Int) = 0)
              ∨ (SLJIT_MOV ≤ SLJIT_MOV ∧ SLJIT_MOV ≤ SLJIT_MOV_P
                  ∧ FUNCTION_CHECK_SRC sample_config sample_entered_compiler SLJIT_R0 0
                      = true)))
      ∧ (SLJIT_MOV ≤ SLJIT_MOV ∧ SLJIT_MOV ≤ SLJIT_MOV_P →
          Int.land SLJIT_MOV (Int.lor (Int.lor (Int.lor (Int.lor (Int.lor (Int.lor
            SLJIT_INT_OP SLJIT_SET_E) SLJIT_SET_U) SLJIT_SET_S) SLJIT_SET_O) SLJIT_SET_C)
            SLJIT_KEEP_FLAGS) = 0) :=
  return_check sample_config sample_entered_compiler SLJIT_MOV SLJIT_R0 0 rfl

/-! ## Conditional types -/

/-- The inverse of an integer comparison type holds exactly when the type
does not. -/
theorem invert_integer_comparison (cfg : Config) (type : Int) (a b : Nat)
    (h0 : 0 ≤ type) (h1 : type ≤ 9) :
    condition_holds cfg (invert_condition type) a b = !condition_holds cfg type a b := by
  have hcases : type = 0 ∨ type = 1 ∨ type = 2 ∨ type = 3 ∨ type = 4 ∨ type = 5 ∨ type = 6
      ∨ type = 7 ∨ type = 8 ∨ type = 9 := by omega
  rcases hcases with h | h | h | h | h | h | h | h | h | h
  · subst h
    rw [show invert_condition 0 = 1 from by decide]
    simp [condition_holds, SLJIT_EQUAL, SLJIT_NOT_EQUAL, SLJIT_LESS, SLJIT_GREATER_EQUAL,
      SLJIT_GREATER, SLJIT_LESS_EQUAL, SLJIT_SIG_LESS, SLJIT_SIG_GREATER_EQUAL,
      SLJIT_SIG_GREATER, SLJIT_SIG_LESS_EQUAL]
  · subst h
    rw [show invert_condition 1 = 0 from by decide]
    simp [condition_holds, SLJIT_EQUAL, SLJIT_NOT_EQUAL, SLJIT_LESS, SLJIT_GREATER_EQUAL,
      SLJIT_GREATER, SLJIT_LESS_EQUAL, SLJIT_SIG_LESS, SLJIT_SIG_GREATER_EQUAL,
      SLJIT_SIG_GREATER, SLJIT_SIG_LESS_EQUAL]
  · subst h
    rw [show invert_condition 2 = 3 from by decide]
    simp [condition_holds, SLJIT_EQUAL, SLJIT_NOT_EQUAL, SLJIT_LESS, SLJIT_GREATER_EQUAL,
      SLJIT_GREATER, SLJIT_LESS_EQUAL, SLJIT_SIG_LESS, SLJIT_SIG_GREATER_EQUAL,
      SLJIT_SIG_GREATER, SLJIT_SIG_LESS_EQUAL]
    rw [← decide_not]
    simp only [not_lt, not_le]
  · subst h
    rw [show invert_condition 3 = 2 from by decide]
    simp [condition_holds, SLJIT_EQUAL, SLJIT_NOT_EQUAL, SLJIT_LESS, SLJIT_GREATER_EQUAL,
      SLJIT_GREATER, SLJIT_LESS_EQUAL, SLJIT_SIG_LESS, SLJIT_SIG_GREATER_EQUAL,
      SLJIT_SIG_GREATER, SLJIT_SIG_LESS_EQUAL]
    rw [← decide_not]
    simp only [not_lt, not_le]
  · subst h
    rw [show invert_condition 4 = 5 from by decide]
    simp [condition_holds, SLJIT_EQUAL, SLJIT_NOT_EQUAL, SLJIT_LESS, SLJIT_GREATER_EQUAL,
      SLJIT_GREATER, SLJIT_LESS_EQUAL, SLJIT_SIG_LESS, SLJIT_SIG_GREATER_EQUAL,
      SLJIT_SIG_GREATER, SLJIT_SIG_LESS_EQUAL]
    rw [← decide_not]
    simp only [not_lt, not_le]
  · subst h
    rw [show invert_condition 5 = 4 from by decide]
    simp [condition_holds, SLJIT_EQUAL, SLJIT_NOT_EQUAL, SLJIT_LESS, SLJIT_GREATER_EQUAL,
      SLJIT_GREATER, SLJIT_LESS_EQUAL, SLJIT_SIG_LESS, SLJIT_SIG_GREATER_EQUAL,
      SLJIT_SIG_GREATER, SLJIT_SIG_LESS_EQUAL]
    rw [← decide_not]
    simp only [not_lt, not_le]
  · subst h
    rw [show invert_condition 6 = 7 from by decide]
    simp [condition_holds, SLJIT_EQUAL, SLJIT_NOT_EQUAL, SLJIT_LESS, SLJIT_GREATER_EQUAL,
      SLJIT_GREATER, SLJIT_LESS_EQUAL, SLJIT_SIG_LESS, SLJIT_SIG_GREATER_EQUAL,
      SLJIT_SIG_GREATER, SLJIT_SIG_LESS_EQUAL]
    rw [← decide_not]
    simp only [not_lt, not_le]
  · subst h
    rw [show invert_condition 7 = 6 from by decide]
    simp [condition_holds, SLJIT_EQUAL, SLJIT_NOT_EQUAL, SLJIT_LESS, SLJIT_GREATER_EQUAL,
      SLJIT_GREATER, SLJIT_LESS_EQUAL, SLJIT_SIG_LESS, SLJIT_SIG_GREATER_EQUAL,
      SLJIT_SIG_GREATER, SLJIT_SIG_LESS_EQUAL]
    rw [← decide_not]
    simp only [not_lt, not_le]
  · subst h
    rw [show invert_condition 8 = 9 from by decide]
    simp [condition_holds, SLJIT_EQUAL, SLJIT_NOT_EQUAL, SLJIT_LESS, SLJIT_GREATER_EQUAL,
      SLJIT_GREATER, SLJIT_LESS_EQUAL, SLJIT_SIG_LESS, SLJIT_SIG_GREATER_EQUAL,
      SLJIT_SIG_GREATER, SLJIT_SIG_LESS_EQUAL]
    rw [← decide_not]
    simp only [not_lt, not_le]
  · subst h
    rw [show invert_condition 9 = 8 from by decide]
    simp [condition_holds, SLJIT_EQUAL, SLJIT_NOT_EQUAL, SLJIT_LESS, SLJIT_GREATER_EQUAL,
      SLJIT_GREATER, SLJIT_LESS_EQUAL, SLJIT_SIG_LESS, SLJIT_SIG_GREATER_EQUAL,
      SLJIT_SIG_GREATER, SLJIT_SIG_LESS_EQUAL]
    rw [← decide_not]
    simp only [not_lt, not_le]

/-- C25. For every conditional type `t` of `SLJIT_EQUAL` .. `SLJIT_D_ORDERED`,
`t` xor 1 is a type of the same range and inverting twice gives `t` back; for
an integer comparison (0 .. 9) the inverted type holds on two words exactly
when `t` does not; and overflow / not_overflow, mul_overflow /
mul_not_overflow, d_equal / d_not_equal, d_less / d_greater_equal, d_greater
/ d_less_equal and unordered / ordered are the inverse of each other, under
the names that `jump_names` gives them. -/
theorem inverted_condition (cfg : Config) (type : Int) (a b : Nat)
    (h0 : SLJIT_EQUAL ≤ type) (h1 : type ≤ SLJIT_D_ORDERED) :
    (SLJIT_EQUAL ≤ invert_condition type ∧ invert_condition type ≤ SLJIT_D_ORDERED)
      ∧ invert_condition (invert_condition type) = type
      ∧ (type ≤ SLJIT_SIG_LESS_EQUAL →
          (condition_holds cfg (invert_condition type) a b = true
            ↔ ¬ condition_holds cfg type a b = true))
      ∧ (invert_condition SLJIT_OVERFLOW = SLJIT_NOT_OVERFLOW ∧ invert_condition SLJIT_NOT_OVERFLOW = SLJIT_OVERFLOW
          ∧ invert_condition SLJIT_MUL_OVERFLOW = SLJIT_MUL_NOT_OVERFLOW ∧ invert_condition SLJIT_MUL_NOT_OVERFLOW = SLJIT_MUL_OVERFLOW
          ∧ invert_condition SLJIT_D_EQUAL = SLJIT_D_NOT_EQUAL ∧ invert_condition SLJIT_D_NOT_EQUAL = SLJIT_D_EQUAL
          ∧ invert_condition SLJIT_D_LESS = SLJIT_D_GREATER_EQUAL ∧ invert_condition SLJIT_D_GREATER_EQUAL = SLJIT_D_LESS
          ∧ invert_condition SLJIT_D_GREATER = SLJIT_D_LESS_EQUAL ∧ invert_condition SLJIT_D_LESS_EQUAL = SLJIT_D_GREATER
          ∧ invert_condition SLJIT_D_UNORDERED = SLJIT_D_ORDERED ∧ invert_condition SLJIT_D_ORDERED = SLJIT_D_UNORDERED)
      ∧ (jump_names.drop 10).take 12
          = ["overflow", "not_overflow", "mul_overflow", "mul_not_overflow",
             "equal", "not_equal", "less", "greater_equal", "greater", "less_equal",
             "unordered", "ordered"] := by
  simp only [SLJIT_EQUAL, SLJIT_D_ORDERED] at h0 h1
  refine ⟨?_, ?_, ?_, by decide, by decide⟩
  · have hcases : type = 0 ∨ type = 1 ∨ type = 2 ∨ type = 3 ∨ type = 4 ∨ type = 5 ∨ type = 6 ∨ type = 7 ∨ type = 8 ∨ type = 9 ∨ type = 10 ∨ type = 11 ∨ type = 12 ∨ type = 13 ∨ type = 14 ∨ type = 15 ∨ type = 16 ∨ type = 17 ∨ type = 18 ∨ type = 19 ∨ type = 20 ∨ type = 21 := by omega
    rcases hcases with h | h | h | h | h | h | h | h | h | h | h | h | h | h | h | h | h | h | h | h | h | h <;> subst h <;> decide
  · have hcases : type = 0 ∨ type = 1 ∨ type = 2 ∨ type = 3 ∨ type = 4 ∨ type = 5 ∨ type = 6 ∨ type = 7 ∨ type = 8 ∨ type = 9 ∨ type = 10 ∨ type = 11 ∨ type = 12 ∨ type = 13 ∨ type = 14 ∨ type = 15 ∨ type = 16 ∨ type = 17 ∨ type = 18 ∨ type = 19 ∨ type = 20 ∨ type = 21 := by omega
    rcases hcases with h | h | h | h | h | h | h | h | h | h | h | h | h | h | h | h | h | h | h | h | h | h <;> subst h <;> decide
  · intro h9
    simp only [SLJIT_SIG_LESS_EQUAL] at h9
    rw [invert_integer_comparison cfg type a b h0 h9]
    cases condition_holds cfg type a b <;> simp

theorem inverted_condition_witness :
    (SLJIT_EQUAL ≤ invert_condition SLJIT_LESS ∧ invert_condition SLJIT_LESS ≤ SLJIT_D_ORDERED)
      ∧ invert_condition (invert_condition SLJIT_LESS) = SLJIT_LESS
      ∧ (SLJIT_LESS ≤ SLJIT_SIG_LESS_EQUAL →
          (condition_holds sample_config (invert_condition SLJIT_LESS) 5 10 = true
            ↔ ¬ condition_holds sample_config SLJIT_LESS 5 10 = true))
      ∧ (invert_condition SLJIT_OVERFLOW = SLJIT_NOT_OVERFLOW ∧ invert_condition SLJIT_NOT_OVERFLOW = SLJIT_OVERFLOW
          ∧ invert_condition SLJIT_MUL_OVERFLOW = SLJIT_MUL_NOT_OVERFLOW ∧ invert_condition SLJIT_MUL_NOT_OVERFLOW = SLJIT_MUL_OVERFLOW
          ∧ invert_condition SLJIT_D_EQUAL = SLJIT_D_NOT_EQUAL ∧ invert_condition SLJIT_D_NOT_EQUAL = SLJIT_D_EQUAL
          ∧ invert_condition SLJIT_D_LESS = SLJIT_D_GREATER_EQUAL ∧ invert_condition SLJIT_D_GREATER_EQUAL = SLJIT_D_LESS
          ∧ invert_condition SLJIT_D_GREATER = SLJIT_D_LESS_EQUAL ∧ invert_condition SLJIT_D_LESS_EQUAL = SLJIT_D_GREATER
          ∧ invert_condition SLJIT_D_UNORDERED = SLJIT_D_ORDERED ∧ invert_condition SLJIT_D_ORDERED = SLJIT_D_UNORDERED)
      ∧ (jump_names.drop 10).take 12
          = ["overflow", "not_overflow", "mul_overflow", "mul_not_overflow",
             "equal", "not_equal", "less", "greater_equal", "greater", "less_equal",
             "unordered", "ordered"] :=
  inverted_condition sample_config SLJIT_LESS 5 10 (by decide) (by decide)

/-! ## Small allocations -/

/-- The call of `ensure_abuf` that `sljit_alloc_memory` makes for a size in
the range of a 64-bit target. -/
theorem alloc_memory_request_64 (cfg : Config) (compiler : sljit_compiler) (size : Int)
    (h : Heap) (herr : compiler.error = 0) (h64 : cfg.is64 = true)
    (h0 : 0 < size) (h1 : size ≤ 128) :
    sljit_alloc_memory cfg compiler size h
      = ensure_abuf cfg compiler
          (to_ulong cfg (Int.land (size + 7) (Int.lnot 0x111))) h := by
  unfold sljit_alloc_memory
  have hr : ¬ (size ≤ 0 ∨ size > 128) := by omega
  simp only [herr, ne_eq, not_true_eq_false, if_false, h64, if_true, hr]

/-- The call of `ensure_abuf` that `sljit_alloc_memory` makes for a size in
the range of a 32-bit target. -/
theorem alloc_memory_request_32 (cfg : Config) (compiler : sljit_compiler) (size : Int)
    (h : Heap) (herr : compiler.error = 0) (h32 : cfg.is64 = false)
    (h0 : 0 < size) (h1 : size ≤ 64) :
    sljit_alloc_memory cfg compiler size h
      = ensure_abuf cfg compiler
          (to_ulong cfg (Int.land (size + 3) (Int.lnot 0x11))) h := by
  unfold sljit_alloc_memory
  have hr : ¬ (size ≤ 0 ∨ size > 64) := by omega
  simp only [herr, ne_eq, not_true_eq_false, if_false, h32, Bool.false_eq_true, hr]

/-- C26. `sljit_alloc_memory` returns `NULL` and leaves the compiler and the
allocator as they are for every `size <= 0` and every `size > 128` on a 64-bit
target (`size > 64` on a 32-bit target); on a compiler without an error, for
every other size its result is that of one call of `ensure_abuf`. -/
theorem alloc_memory_range (cfg : Config) (compiler : sljit_compiler) (size : Int)
    (h : Heap) :
    (cfg.is64 = true → size ≤ 0 ∨ 128 < size →
        sljit_alloc_memory cfg compiler size h = (none, compiler, h))
      ∧ (cfg.is64 = false → size ≤ 0 ∨ 64 < size →
          sljit_alloc_memory cfg compiler size h = (none, compiler, h))
      ∧ (compiler.error = 0 → cfg.is64 = true → 0 < size → size ≤ 128 →
          sljit_alloc_memory cfg compiler size h
            = ensure_abuf cfg compiler
                (to_ulong cfg (Int.land (size + 7) (Int.lnot 0x111))) h)
      ∧ (compiler.error = 0 → cfg.is64 = false → 0 < size → size ≤ 64 →
          sljit_alloc_memory cfg compiler size h
            = ensure_abuf cfg compiler
                (to_ulong cfg (Int.land (size + 3) (Int.lnot 0x11))) h) := by
  refine ⟨?_, ?_, ?_, ?_⟩
  · intro h64 hr
    unfold sljit_alloc_memory
    have hr1 : size ≤ 0 ∨ size > 128 := hr
    by_cases herr : compiler.error = 0 <;> simp [herr, h64, hr1]
  · intro h32 hr
    unfold sljit_alloc_memory
    have hr1 : size ≤ 0 ∨ size > 64 := hr
    by_cases herr : compiler.error = 0 <;> simp [herr, h32, hr1]
  · intro herr h64 h0 h1
    exact alloc_memory_request_64 cfg compiler size h herr h64 h0 h1
  · intro herr h32 h0 h1
    exact alloc_memory_request_32 cfg compiler size h herr h32 h0 h1

theorem alloc_memory_range_witness :
    sljit_alloc_memory sample_config sample_compiler 200 sample_heap
        = (none, sample_compiler, sample_heap)
      ∧ sljit_alloc_memory sample_config_x86_32 sample_compiler 65 sample_heap
        = (none, sample_compiler, sample_heap)
      ∧ sljit_alloc_memory sample_config sample_compiler 128 sample_heap
        = ensure_abuf sample_config sample_compiler
            (to_ulong sample_config (Int.land (128 + 7) (Int.lnot 0x111))) sample_heap
      ∧ sljit_alloc_memory sample_config_x86_32 sample_compiler 64 sample_heap
        = ensure_abuf sample_config_x86_32 sample_compiler
            (to_ulong sample_config_x86_32 (Int.land (64 + 3) (Int.lnot 0x11))) sample_heap :=
  ⟨(alloc_memory_range sample_config sample_compiler 200 sample_heap).1 rfl (by decide),
   (alloc_memory_range sample_config_x86_32 sample_compiler 65 sample_heap).2.1 rfl
     (by decide),
   (alloc_memory_range sample_config sample_compiler 128 sample_heap).2.2.1 rfl rfl
     (by decide) (by decide),
   (alloc_memory_range sample_config_x86_32 sample_compiler 64 sample_heap).2.2.2 rfl rfl
     (by decide) (by decide)⟩

/-- The value of `a & ~m`, from its bits inside and outside `m`. -/
theorem land_lnot_eq_of (a m v : Int) (h1 : Int.land v m = 0)
    (h2 : Int.lor v (Int.land a m) = a) : Int.land a (Int.lnot m) = v := by
  rw [int_eq_zero_iff_testBit] at h1
  apply int_eq_of_testBit_eq
  intro k
  have hk1 := h1 k
  have hk2 := congrArg (fun z => Int.testBit z k) h2
  simp only [Int.testBit_land, Int.testBit_lor, Int.testBit_lnot] at hk1 hk2 ⊢
  cases ha : a.testBit k <;> cases hm : m.testBit k <;> cases hv : v.testBit k <;> simp_all

/-- The state after one request of `size` bytes that finds room in the first
fragment of the auxiliary buffer. -/
theorem ensure_abuf_room (cfg : Config) (compiler : sljit_compiler) (size : Nat) (h : Heap)
    (hroom : (compiler.abuf.head.used_size + size) % ULONG_MOD cfg ≤ ABUF_CAPACITY cfg) :
    ensure_abuf cfg compiler size h
      = (some { block := compiler.abuf.head.block, off := compiler.abuf.head.used_size },
         { compiler with abuf := { compiler.abuf with head := { compiler.abuf.head with
             used_size := (compiler.abuf.head.used_size + size) % ULONG_MOD cfg } } },
         h) := by
  unfold ensure_abuf
  rw [if_pos hroom]

/-- C27. On a 64-bit build, the first request of 8 bytes on a compiler with
an empty auxiliary buffer returns the offset 0 of the fragment and reserves
14 bytes, so the second request of 8 bytes returns the offset 14, which is
not a multiple of `sizeof(long)`. -/
theorem alloc_memory_unaligned :
    (sljit_alloc_memory sample_config sample_compiler 8 sample_heap).1
        = some { block := 3, off := 0 }
      ∧ (sljit_alloc_memory sample_config sample_compiler 8
          sample_heap).2.1.abuf.head.used_size = 14
      ∧ (sljit_alloc_memory sample_config
          (sljit_alloc_memory sample_config sample_compiler 8 sample_heap).2.1 8
          (sljit_alloc_memory sample_config sample_compiler 8 sample_heap).2.2).1
        = some { block := 3, off := 14 }
      ∧ 14 % sample_config.long_size ≠ 0 := by
  have hround : Int.land ((8 : Int) + 7) (Int.lnot 0x111) = 14 :=
    land_lnot_eq_of _ _ _ (by decide) (by decide)
  have hfirst : sljit_alloc_memory sample_config sample_compiler 8 sample_heap
      = (some { block := 3, off := 0 },
         { sample_compiler with abuf := { sample_compiler.abuf with
             head := { sample_compiler.abuf.head with used_size := 14 } } },
         sample_heap) := by
    rw [alloc_memory_request_64 sample_config sample_compiler 8 sample_heap rfl rfl
        (by decide) (by decide), hround,
      ensure_abuf_room sample_config sample_compiler _ sample_heap (by decide)]
    rfl
  rw [hfirst]
  refine ⟨rfl, rfl, ?_, by decide⟩
  simp only
  rw [alloc_memory_request_64 sample_config _ 8 sample_heap rfl rfl (by decide) (by decide),
    hround, ensure_abuf_room sample_config _ _ sample_heap (by decide)]
  rfl

/-- C28. On a 64-bit build, a request of 9 bytes on a compiler with an empty
auxiliary buffer succeeds and reserves no byte: the next request of 9 bytes
returns the same pointer, so the two regions of 9 bytes overlap. -/
theorem alloc_memory_overlap :
    (sljit_alloc_memory sample_config sample_compiler 9 sample_heap).1
        = some { block := 3, off := 0 }
      ∧ (sljit_alloc_memory sample_config sample_compiler 9
          sample_heap).2.1.abuf.head.used_size = 0
      ∧ (sljit_alloc_memory sample_config
          (sljit_alloc_memory sample_config sample_compiler 9 sample_heap).2.1 9
          (sljit_alloc_memory sample_config sample_compiler 9 sample_heap).2.2).1
        = some { block := 3, off := 0 }
      ∧ ¬ regions_disjoint { block := 3, off := 0 } 9 { block := 3, off := 0 } 9 := by
  have hround : Int.land ((9 : Int) + 7) (Int.lnot 0x111) = 0 :=
    land_lnot_eq_of _ _ _ (by decide) (by decide)
  have hfirst : sljit_alloc_memory sample_config sample_compiler 9 sample_heap
      = (some { block := 3, off := 0 },
         { sample_compiler with abuf := { sample_compiler.abuf with
             head := { sample_compiler.abuf.head with used_size := 0 } } },
         sample_heap) := by
    rw [alloc_memory_request_64 sample_config sample_compiler 9 sample_heap rfl rfl
        (by decide) (by decide), hround,
      ensure_abuf_room sample_config sample_compiler _ sample_heap (by decide)]
    rfl
  rw [hfirst]
  refine ⟨rfl, rfl, ?_, by decide⟩
  simp only
  rw [alloc_memory_request_64 sample_config _ 9 sample_heap rfl rfl (by decide) (by decide),
    hround, ensure_abuf_room sample_config _ _ sample_heap (by decide)]
  rfl

/-! ## The stack utility -/

/-- The two outcomes of `sljit_stack_resize`: -1 with the descriptor as it
was, or 0 with the new limit. -/
theorem stack_resize_cases (cfg : Config) (sys : StackSystem) (st : StackStatics)
    (stack : sljit_stack) (new_limit : Nat) :
    sljit_stack_resize cfg sys st stack new_limit = (-1, stack)
      ∨ sljit_stack_resize cfg sys st stack new_limit
          = (0, { stack with limit := new_limit }) := by
  unfold sljit_stack_resize
  simp only
  split_ifs <;> simp

/-- C30. `sljit_stack_resize` returns -1 and leaves the descriptor as it is
when `new_limit` is above `max_limit` or below `base`; without `_WIN32` it
returns 0 for every `new_limit` from `base` to `max_limit` and changes
`limit` to `new_limit` only; and whenever it returns a value other than 0 the
descriptor is unchanged. -/
theorem stack_resize_result (cfg : Config) (sys : StackSystem) (st : StackStatics)
    (stack : sljit_stack) (new_limit : Nat) :
    (stack.max_limit < new_limit ∨ new_limit < stack.base →
        sljit_stack_resize cfg sys st stack new_limit = (-1, stack))
      ∧ (sys.win32 = false → stack.base ≤ new_limit → new_limit ≤ stack.max_limit →
          sljit_stack_resize cfg sys st stack new_limit
            = (0, { top := stack.top, base := stack.base, limit := new_limit,
                    max_limit := stack.max_limit }))
      ∧ ((sljit_stack_resize cfg sys st stack new_limit).1 ≠ 0 →
          (sljit_stack_resize cfg sys st stack new_limit).2 = stack) := by
  refine ⟨?_, ?_, ?_⟩
  · intro h
    unfold sljit_stack_resize
    have h' : new_limit > stack.max_limit ∨ new_limit < stack.base := h
    rw [if_pos h']
  · intro hw h1 h2
    unfold sljit_stack_resize
    have h' : ¬ (new_limit > stack.max_limit ∨ new_limit < stack.base) := by omega
    rw [if_neg h']
    simp [hw]
  · intro h
    rcases stack_resize_cases cfg sys st stack new_limit with hc | hc
    · rw [hc]
    · rw [hc] at h
      exact absurd rfl h

theorem stack_resize_result_witness :
    sljit_stack_resize sample_config sample_system initial_statics sample_stack 80000
        = (-1, sample_stack)
      ∧ sljit_stack_resize sample_config sample_system initial_statics sample_stack 65536
        = (0, { top := 65536, base := 65536, limit := 65536, max_limit := 73728 })
      ∧ sljit_stack_resize sample_config sample_system initial_statics sample_stack 73728
        = (0, { top := 65536, base := 65536, limit := 73728, max_limit := 73728 })
      ∧ (sljit_stack_resize sample_config sample_system initial_statics sample_stack 100).2
        = sample_stack :=
  ⟨(stack_resize_result sample_config sample_system initial_statics sample_stack 80000).1
     (by decide),
   (stack_resize_result sample_config sample_system initial_statics sample_stack 65536).2.1
     rfl (by decide) (by decide),
   (stack_resize_result sample_config sample_system initial_statics sample_stack 73728).2.1
     rfl (by decide) (by decide),
   (stack_resize_result sample_config sample_system initial_statics sample_stack 100).2.2
     (by decide)⟩

/-- Clearing the `k` lowest of `w` bits rounds down to a multiple of `2 ^ k`. -/
theorem land_high_mask (w k y : Nat) (hk : k ≤ w) (hy : y < 2 ^ w) :
    y &&& (2 ^ w - 2 ^ k) = y / 2 ^ k * 2 ^ k := by
  have hmask : 2 ^ w - 2 ^ k = 2 ^ k * (2 ^ (w - k) - 1) := by
    have hw : 2 ^ w = 2 ^ k * 2 ^ (w - k) := by
      rw [← Nat.pow_add]
      congr 1
      omega
    rw [hw, Nat.mul_sub, Nat.mul_one]
  rw [hmask, Nat.mul_comm (y / 2 ^ k) (2 ^ k)]
  apply Nat.eq_of_testBit_eq
  intro i
  rw [Nat.testBit_and, Nat.testBit_mul_pow_two, Nat.testBit_mul_pow_two,
    Nat.testBit_two_pow_sub_one, ← Nat.shiftRight_eq_div_pow, Nat.testBit_shiftRight]
  by_cases hik : k ≤ i
  · have hki : k + (i - k) = i := by omega
    rw [hki]
    by_cases hiw : i < w
    · have : i - k < w - k := by omega
      simp [hik, this]
    · have hbit : y.testBit i = false :=
        Nat.testBit_lt_two_pow (lt_of_lt_of_le hy (Nat.pow_le_pow_right (by norm_num) (by omega)))
      simp [hbit]
  · simp [hik]

/-- The expression `(x + uintptr_tage_align) & ~uintptr_tage_align` rounds `x`
up to a multiple of the page size when the page size is a power of two and
the sum does not wrap around. -/
theorem align_to_page_pow (cfg : Config) (k x : Nat) (hk : k ≤ 8 * cfg.long_size)
    (hx : x + (2 ^ k - 1) < ULONG_MOD cfg) :
    align_to_page cfg (((2 ^ k - 1 : Nat) : Int)) x = (x + (2 ^ k - 1)) / 2 ^ k * 2 ^ k := by
  unfold align_to_page
  have hpos : 0 < 2 ^ k := Nat.two_pow_pos k
  have hM : ULONG_MOD cfg = 2 ^ (8 * cfg.long_size) := rfl
  have hle : 2 ^ k ≤ ULONG_MOD cfg := by
    rw [hM]
    exact Nat.pow_le_pow_right (by norm_num) hk
  have h1 : to_ulong cfg (((2 ^ k - 1 : Nat) : Int)) = 2 ^ k - 1 := by
    unfold to_ulong
    have : (((2 ^ k - 1 : Nat) : Int)) % ((ULONG_MOD cfg : Nat) : Int)
        = (((2 ^ k - 1) % ULONG_MOD cfg : Nat) : Int) := by
      exact (Int.natCast_mod _ _).symm
    rw [this, Int.toNat_natCast, Nat.mod_eq_of_lt (by omega)]
  have h2 : to_ulong cfg (Int.lnot (((2 ^ k - 1 : Nat) : Int))) = ULONG_MOD cfg - 2 ^ k := by
    unfold to_ulong
    have hl : Int.lnot (((2 ^ k - 1 : Nat) : Int)) = -((2 ^ k : Nat) : Int) := by
      show Int.negSucc (2 ^ k - 1) = _
      rw [Int.negSucc_eq]
      have : ((2 ^ k - 1 : Nat) : Int) + 1 = ((2 ^ k : Nat) : Int) := by
        have : 2 ^ k - 1 + 1 = 2 ^ k := by omega
        exact_mod_cast this
      rw [this]
    rw [hl]
    have hmod : (-((2 ^ k : Nat) : Int)) % ((ULONG_MOD cfg : Nat) : Int)
        = ((ULONG_MOD cfg - 2 ^ k : Nat) : Int) := by
      rcases Nat.eq_or_lt_of_le hle with he | hlt
      · rw [he]
        simp
      · have hcast : ((ULONG_MOD cfg - 2 ^ k : Nat) : Int)
            = ((ULONG_MOD cfg : Nat) : Int) - ((2 ^ k : Nat) : Int) := by
          exact Int.ofNat_sub hle
        rw [hcast]
        have h3 : (-((2 ^ k : Nat) : Int)) % ((ULONG_MOD cfg : Nat) : Int)
            = (((ULONG_MOD cfg : Nat) : Int) - ((2 ^ k : Nat) : Int))
                % ((ULONG_MOD cfg : Nat) : Int) := by
          have h4 := Int.add_emod_self (a := -((2 ^ k : Nat) : Int))
            (b := ((ULONG_MOD cfg : Nat) : Int))
          rw [← h4]
          congr 1
          ring
        have hpos' : (0 : Int) < ((2 ^ k : Nat) : Int) := by exact_mod_cast hpos
        have hlt' : ((2 ^ k : Nat) : Int) < ((ULONG_MOD cfg : Nat) : Int) := by
          exact_mod_cast hlt
        rw [h3, Int.emod_eq_of_lt (by omega) (by omega)]
    rw [hmod, Int.toNat_natCast]
  rw [h1, h2, Nat.mod_eq_of_lt hx, hM]
  exact land_high_mask _ k _ hk (by rw [← hM]; exact hx)

/-- C29. When `sljit_allocate_stack` succeeds, with `base` the pointer that
the reservation returns for the aligned size, the descriptor has `top = base`,
`limit = base + limit` and `max_limit = base + max_limit'` in `unsigned long`
arithmetic, where `max_limit'` is the value of
`(max_limit + uintptr_tage_align) & ~uintptr_tage_align`: the `max_limit`
argument rounded up to a multiple of the page size when that is a power of two
and the sum does not wrap around. -/
theorem allocate_stack_descriptor (cfg : Config) (sys : StackSystem) (st st1 : StackStatics)
    (h h1 : Heap) (limit max_limit block k : Nat) (stack : sljit_stack)
    (hres : sljit_allocate_stack cfg sys st h limit max_limit = (some (block, stack), st1, h1)) :
    st1.uintptr_tage_align = (page_align_setup cfg sys st).uintptr_tage_align
      ∧ stack.base = sys.reserve (align_to_page cfg st1.uintptr_tage_align max_limit)
      ∧ stack.top = stack.base
      ∧ stack.limit = (stack.base + limit) % ULONG_MOD cfg
      ∧ stack.max_limit
          = (stack.base + align_to_page cfg st1.uintptr_tage_align max_limit) % ULONG_MOD cfg
      ∧ (st1.uintptr_tage_align = ((2 ^ k - 1 : Nat) : Int) → k ≤ 8 * cfg.long_size →
          max_limit + (2 ^ k - 1) < ULONG_MOD cfg →
          align_to_page cfg st1.uintptr_tage_align max_limit
            = (max_limit + (2 ^ k - 1)) / 2 ^ k * 2 ^ k) := by
  have hpow : st1.uintptr_tage_align = ((2 ^ k - 1 : Nat) : Int) → k ≤ 8 * cfg.long_size →
      max_limit + (2 ^ k - 1) < ULONG_MOD cfg →
      align_to_page cfg st1.uintptr_tage_align max_limit
        = (max_limit + (2 ^ k - 1)) / 2 ^ k * 2 ^ k := by
    intro ha hk hx
    rw [ha]
    exact align_to_page_pow cfg k max_limit hk hx
  unfold sljit_allocate_stack at hres
  by_cases hr : limit > max_limit ∨ limit < 1
  · rw [if_pos hr] at hres
    simp at hres
  rw [if_neg hr] at hres
  simp only at hres
  rcases hm : malloc h (4 * cfg.long_size) with ⟨_ | ⟨b, bytes⟩, g1⟩
  · rw [hm] at hres
    simp at hres
  rw [hm] at hres
  simp only at hres
  by_cases hw : sys.win32 = true
  · rw [if_pos hw] at hres
    by_cases hnull : sys.reserve
        (align_to_page cfg (page_align_setup cfg sys st).uintptr_tage_align max_limit) = 0
    · rw [if_pos hnull] at hres
      simp at hres
    rw [if_neg hnull] at hres
    rcases stack_resize_cases cfg sys (page_align_setup cfg sys st)
        { top := 0,
          base := sys.reserve
            (align_to_page cfg (page_align_setup cfg sys st).uintptr_tage_align max_limit),
          limit := sys.reserve
            (align_to_page cfg (page_align_setup cfg sys st).uintptr_tage_align max_limit),
          max_limit := (sys.reserve
            (align_to_page cfg (page_align_setup cfg sys st).uintptr_tage_align max_limit)
              + align_to_page cfg (page_align_setup cfg sys st).uintptr_tage_align max_limit)
              % ULONG_MOD cfg }
        ((sys.reserve
            (align_to_page cfg (page_align_setup cfg sys st).uintptr_tage_align max_limit)
          + limit) % ULONG_MOD cfg) with hc | hc
    · rw [hc] at hres
      simp at hres
    · rw [hc] at hres
      simp only [ne_eq, not_true_eq_false, if_false, Prod.mk.injEq, Option.some.injEq] at hres
      obtain ⟨⟨-, rfl⟩, rfl, -⟩ := hres
      exact ⟨rfl, rfl, rfl, rfl, rfl, hpow⟩
  · rw [if_neg hw] at hres
    split_ifs at hres <;>
      simp only [Prod.mk.injEq, Option.some.injEq, reduceCtorEq, false_and] at hres
    all_goals
      obtain ⟨⟨-, rfl⟩, rfl, -⟩ := hres
      exact ⟨rfl, rfl, rfl, rfl, rfl, hpow⟩

theorem allocate_stack_descriptor_witness :
    ∃ block stack st1 h1,
      sljit_allocate_stack sample_config sample_system initial_statics sample_heap 4096 8000
          = (some (block, stack), st1, h1)
        ∧ st1.uintptr_tage_align
            = (page_align_setup sample_config sample_system initial_statics).uintptr_tage_align
        ∧ stack.base
            = sample_system.reserve (align_to_page sample_config st1.uintptr_tage_align 8000)
        ∧ stack.top = stack.base
        ∧ stack.limit = (stack.base + 4096) % ULONG_MOD sample_config
        ∧ stack.max_limit
            = (stack.base + align_to_page sample_config st1.uintptr_tage_align 8000)
                % ULONG_MOD sample_config
        ∧ (st1.uintptr_tage_align = ((2 ^ 12 - 1 : Nat) : Int) →
            12 ≤ 8 * sample_config.long_size →
            8000 + (2 ^ 12 - 1) < ULONG_MOD sample_config →
            align_to_page sample_config st1.uintptr_tage_align 8000
              = (8000 + (2 ^ 12 - 1)) / 2 ^ 12 * 2 ^ 12) :=
  ⟨_, _, _, _, rfl,
   allocate_stack_descriptor sample_config sample_system initial_statics _ sample_heap _
     4096 8000 _ 12 _ rfl⟩

/-- A reservation of one byte: the descriptor ends one page above the base,
not one byte above it. -/
theorem allocate_stack_rounds_max_limit :
    (sljit_allocate_stack sample_config sample_system initial_statics sample_heap 1 1).1
        = some (1, { top := 65536, base := 65536, limit := 65537, max_limit := 69632 })
      ∧ (69632 : Nat) ≠ 65536 + 1 := by
  constructor
  · rfl
  · decide

/-! ## The register namespace -/

theorem saved_regs_cases (cfg : Config) :
    (SLJIT_NUM_REGS cfg = 10 ∧ SLJIT_NUM_SAVED_REGS cfg = 7)
      ∨ (SLJIT_NUM_REGS cfg = 12 ∧ SLJIT_NUM_SAVED_REGS cfg = 6)
      ∨ (SLJIT_NUM_REGS cfg = 12 ∧ SLJIT_NUM_SAVED_REGS cfg = 8)
      ∨ (SLJIT_NUM_REGS cfg = 11 ∧ SLJIT_NUM_SAVED_REGS cfg = 8)
      ∨ (SLJIT_NUM_REGS cfg = 11 ∧ SLJIT_NUM_SAVED_REGS cfg = 7)
      ∨ (SLJIT_NUM_REGS cfg = 25 ∧ SLJIT_NUM_SAVED_REGS cfg = 10)
      ∨ (SLJIT_NUM_REGS cfg = 22 ∧ SLJIT_NUM_SAVED_REGS cfg = 17)
      ∨ (SLJIT_NUM_REGS cfg = 17 ∧ SLJIT_NUM_SAVED_REGS cfg = 8)
      ∨ (SLJIT_NUM_REGS cfg = 18 ∧ SLJIT_NUM_SAVED_REGS cfg = 14) := by
  unfold SLJIT_NUM_REGS SLJIT_NUM_SAVED_REGS
  cases cfg.arch <;> simp

/-- C33. In every supported configuration: `SLJIT_S(i)` is
`SLJIT_R(SLJIT_NUM_REGS - 1 - i)` for every `i` from 0 below `SLJIT_NUM_REGS`;
a register index from `SLJIT_R0` to `SLJIT_NUM_REGS` is below
`SLJIT_FIRST_SAVED_REG` exactly when it is one of the first
`SLJIT_NUM_SCRATCH_REGS` indices `SLJIT_R(0)`, .. and at or above it exactly
when it is one of the last `SLJIT_NUM_SAVED_REGS` indices `SLJIT_S(0)`, ..;
and `SLJIT_NUM_REGS >= 10`, `SLJIT_NUM_SAVED_REGS >= 5`. -/
theorem register_numbering (cfg : Config) :
    (∀ i : Int, 0 ≤ i → i < SLJIT_NUM_REGS cfg →
        SLJIT_S cfg i = SLJIT_R (SLJIT_NUM_REGS cfg - 1 - i))
      ∧ (∀ r : Int, SLJIT_R0 ≤ r → r ≤ SLJIT_NUM_REGS cfg →
          ((r < SLJIT_FIRST_SAVED_REG cfg
              ↔ ∃ i : Int, 0 ≤ i ∧ i < SLJIT_NUM_SCRATCH_REGS cfg ∧ r = SLJIT_R i)
            ∧ (SLJIT_FIRST_SAVED_REG cfg ≤ r
              ↔ ∃ i : Int, 0 ≤ i ∧ i < SLJIT_NUM_SAVED_REGS cfg ∧ r = SLJIT_S cfg i)))
      ∧ SLJIT_S0 cfg = SLJIT_S cfg 0
      ∧ SLJIT_FIRST_SAVED_REG cfg = SLJIT_R (SLJIT_NUM_SCRATCH_REGS cfg)
      ∧ 10 ≤ SLJIT_NUM_REGS cfg ∧ 5 ≤ SLJIT_NUM_SAVED_REGS cfg := by
  have hc := saved_regs_cases cfg
  refine ⟨?_, ?_, ?_, ?_, ?_, ?_⟩
  · intro i _ _
    unfold SLJIT_S SLJIT_R
    omega
  · intro r h0 h1
    unfold SLJIT_R0 at h0
    unfold SLJIT_FIRST_SAVED_REG SLJIT_NUM_SCRATCH_REGS SLJIT_S0 SLJIT_S SLJIT_R
    constructor
    · constructor
      · intro h
        exact ⟨r - 1, by omega, by omega, by omega⟩
      · rintro ⟨i, hi0, hi1, rfl⟩
        omega
    · constructor
      · intro h
        exact ⟨SLJIT_NUM_REGS cfg - r, by omega, by omega, by omega⟩
      · rintro ⟨i, hi0, hi1, rfl⟩
        omega
  · unfold SLJIT_S0 SLJIT_S
    omega
  · unfold SLJIT_FIRST_SAVED_REG SLJIT_NUM_SCRATCH_REGS SLJIT_S0 SLJIT_R
    omega
  · omega
  · omega

theorem register_numbering_witness :
    SLJIT_S sample_config 0 = SLJIT_R (SLJIT_NUM_REGS sample_config - 1 - 0)
      ∧ SLJIT_S sample_config 21 = SLJIT_R (SLJIT_NUM_REGS sample_config - 1 - 21)
      ∧ ((5 < SLJIT_FIRST_SAVED_REG sample_config
            ↔ ∃ i : Int, 0 ≤ i ∧ i < SLJIT_NUM_SCRATCH_REGS sample_config ∧ 5 = SLJIT_R i)
          ∧ (SLJIT_FIRST_SAVED_REG sample_config ≤ 5
            ↔ ∃ i : Int, 0 ≤ i ∧ i < SLJIT_NUM_SAVED_REGS sample_config
                ∧ 5 = SLJIT_S sample_config i))
      ∧ ((6 < SLJIT_FIRST_SAVED_REG sample_config
            ↔ ∃ i : Int, 0 ≤ i ∧ i < SLJIT_NUM_SCRATCH_REGS sample_config ∧ 6 = SLJIT_R i)
          ∧ (SLJIT_FIRST_SAVED_REG sample_config ≤ 6
            ↔ ∃ i : Int, 0 ≤ i ∧ i < SLJIT_NUM_SAVED_REGS sample_config
                ∧ 6 = SLJIT_S sample_config i)) :=
  ⟨(register_numbering sample_config).1 0 (by decide) (by decide),
   (register_numbering sample_config).1 21 (by decide) (by decide),
   (register_numbering sample_config).2.1 5 (by decide) (by decide),
   (register_numbering sample_config).2.1 6 (by decide) (by decide)⟩

/-! ## The packed operand -/

/-- The `SLJIT_IMM` bit of a non-negative operand. -/
theorem imm_bit_nat (n : Nat) : Int.land (n : Int) SLJIT_IMM = 0 ↔ n / 64 % 2 = 0 := by
  show ((n &&& 64 : Nat) : Int) = 0 ↔ _
  have h := Nat.and_two_pow n 6
  have hb := @Nat.testBit_to_div_mod 6 n
  norm_num at h hb
  rw [h]
  cases hbit : n.testBit 6 with
  | true =>
    rw [hbit] at hb
    simp only [Bool.toNat_true]
    have := of_decide_eq_true hb.symm
    omega
  | false =>
    rw [hbit] at hb
    simp only [Bool.toNat_false]
    have := of_decide_eq_false hb.symm
    omega

/-- The fields of `SLJIT_MEM2(r1, r2)` for two six-bit values. -/
theorem mem2_fields (r1 r2 : Int) (h1 : 0 ≤ r1 ∧ r1 ≤ 63) (h2 : 0 ≤ r2 ∧ r2 ≤ 63) :
    Int.land (SLJIT_MEM2 r1 r2) REG_MASK = r1
      ∧ OFFS_REG (SLJIT_MEM2 r1 r2) = r2
      ∧ Int.land (SLJIT_MEM2 r1 r2) SLJIT_MEM ≠ 0
      ∧ Int.land (SLJIT_MEM2 r1 r2) SLJIT_IMM = 0 := by
  rw [mem2_value r1 r2 h1.1 (by omega) h2.1]
  obtain ⟨a, rfl⟩ := Int.eq_ofNat_of_zero_le h1.1
  obtain ⟨b, rfl⟩ := Int.eq_ofNat_of_zero_le h2.1
  have ha : a ≤ 63 := by omega
  have hb : b ≤ 63 := by omega
  have hv : (128 + (a : Int) + 256 * (b : Int)) = ((128 + a + 256 * b : Nat) : Int) := by
    push_cast
    ring
  rw [hv, reg_field_nat, offs_reg_nat, imm_bit_nat]
  refine ⟨?_, ?_, ?_, ?_⟩
  · congr 1
    omega
  · congr 1
    omega
  · intro h
    rw [mem_bit_nat] at h
    omega
  · omega

/-- C40. For register indices `r1`, `r2` from 0 to 63, which covers every
register and `SLJIT_SP` of every configuration, the register field of
`SLJIT_MEM2(r1, r2)` is `r1`, its `OFFS_REG` is `r2`, its `SLJIT_MEM` bit is set
and its `SLJIT_IMM` bit is clear; `ADDRESSING_DEPENDS_ON(p, r)` holds exactly
when `p` has the `SLJIT_MEM` bit and `r` is its base field or its index field,
so on `SLJIT_MEM2(r1, r2)` exactly for `r1` and `r2`. -/
theorem operand_packing (r1 r2 : Int) (h1 : 0 ≤ r1 ∧ r1 ≤ 63) (h2 : 0 ≤ r2 ∧ r2 ≤ 63) :
    Int.land (SLJIT_MEM2 r1 r2) REG_MASK = r1
      ∧ OFFS_REG (SLJIT_MEM2 r1 r2) = r2
      ∧ Int.land (SLJIT_MEM2 r1 r2) SLJIT_MEM ≠ 0
      ∧ Int.land (SLJIT_MEM2 r1 r2) SLJIT_IMM = 0
      ∧ (∀ p r : Int, ADDRESSING_DEPENDS_ON p r = true
          ↔ Int.land p SLJIT_MEM ≠ 0 ∧ (r = Int.land p REG_MASK ∨ r = OFFS_REG p))
      ∧ (∀ r : Int, ADDRESSING_DEPENDS_ON (SLJIT_MEM2 r1 r2) r = true ↔ r = r1 ∨ r = r2)
      ∧ (∀ cfg : Config, 0 ≤ SLJIT_R0 ∧ SLJIT_NUM_REGS cfg ≤ 63
          ∧ 0 ≤ SLJIT_SP cfg ∧ SLJIT_SP cfg ≤ 63) := by
  obtain ⟨f1, f2, f3, f4⟩ := mem2_fields r1 r2 h1 h2
  have key : ∀ p r : Int, ADDRESSING_DEPENDS_ON p r = true
      ↔ Int.land p SLJIT_MEM ≠ 0 ∧ (r = Int.land p REG_MASK ∨ r = OFFS_REG p) := by
    intro p r
    unfold ADDRESSING_DEPENDS_ON
    simp only [Bool.and_eq_true, Bool.or_eq_true, decide_eq_true_eq]
    constructor
    · rintro ⟨hm, h | h⟩
      · exact ⟨hm, Or.inl h.symm⟩
      · exact ⟨hm, Or.inr h.symm⟩
    · rintro ⟨hm, h | h⟩
      · exact ⟨hm, Or.inl h.symm⟩
      · exact ⟨hm, Or.inr h.symm⟩
  refine ⟨f1, f2, f3, f4, key, ?_, ?_⟩
  · intro r
    rw [key, f1, f2]
    constructor
    · rintro ⟨-, h⟩
      exact h
    · intro h
      exact ⟨f3, h⟩
  · intro cfg
    have hb := num_regs_bounds cfg
    unfold SLJIT_SP SLJIT_R0
    omega

theorem operand_packing_witness :
    Int.land (SLJIT_MEM2 SLJIT_R1 (SLJIT_SP sample_config)) REG_MASK = SLJIT_R1
      ∧ OFFS_REG (SLJIT_MEM2 SLJIT_R1 (SLJIT_SP sample_config)) = SLJIT_SP sample_config
      ∧ Int.land (SLJIT_MEM2 SLJIT_R1 (SLJIT_SP sample_config)) SLJIT_MEM ≠ 0
      ∧ Int.land (SLJIT_MEM2 SLJIT_R1 (SLJIT_SP sample_config)) SLJIT_IMM = 0
      ∧ (∀ p r : Int, ADDRESSING_DEPENDS_ON p r = true
          ↔ Int.land p SLJIT_MEM ≠ 0 ∧ (r = Int.land p REG_MASK ∨ r = OFFS_REG p))
      ∧ (∀ r : Int, ADDRESSING_DEPENDS_ON (SLJIT_MEM2 SLJIT_R1 (SLJIT_SP sample_config)) r = true
          ↔ r = SLJIT_R1 ∨ r = SLJIT_SP sample_config)
      ∧ (∀ cfg : Config, 0 ≤ SLJIT_R0 ∧ SLJIT_NUM_REGS cfg ≤ 63
          ∧ 0 ≤ SLJIT_SP cfg ∧ SLJIT_SP cfg ≤ 63) :=
  operand_packing SLJIT_R1 (SLJIT_SP sample_config) (by decide) (by decide)

/-! ## The unsupported configuration -/

/-- C32. In the unsupported configuration built without `SLJIT_DEBUG`, every
emission function (enter, set_context, return, fast_enter, fast_return, op0,
op1, op2, op_custom, fop1, fop2, ijump, op_flags, get_local_base) returns
`SLJIT_ERR_UNSUPPORTED`, which is 4, for all arguments, and every function that
returns a pointer (create_compiler, alloc_memory, generate_code, emit_label,
emit_jump, emit_cmp, emit_fcmp, emit_const) returns `NULL`; built with
`SLJIT_DEBUG`, each of them halts the process at `SLJIT_ASSERT_STOP()` and
returns nothing; `sljit_get_platform_name` returns "unsupported" in both
builds. -/
theorem unsupported_stubs :
    SLJIT_ERR_UNSUPPORTED = 4
      ∧ Unsupported.sljit_get_platform_name = "unsupported"
      ∧ (∀ (compiler : Option Ptr) (a b c d e f g : Int),
          Unsupported.sljit_emit_enter false compiler a b c d e f g = Outcome.returns SLJIT_ERR_UNSUPPORTED)
      ∧ (∀ (compiler : Option Ptr) (a b c d e f g : Int),
          Unsupported.sljit_set_context false compiler a b c d e f g = Outcome.returns SLJIT_ERR_UNSUPPORTED)
      ∧ (∀ (compiler : Option Ptr) (a b c : Int),
          Unsupported.sljit_emit_return false compiler a b c = Outcome.returns SLJIT_ERR_UNSUPPORTED)
      ∧ (∀ (compiler : Option Ptr) (a b : Int),
          Unsupported.sljit_emit_fast_enter false compiler a b = Outcome.returns SLJIT_ERR_UNSUPPORTED)
      ∧ (∀ (compiler : Option Ptr) (a b : Int),
          Unsupported.sljit_emit_fast_return false compiler a b = Outcome.returns SLJIT_ERR_UNSUPPORTED)
      ∧ (∀ (compiler : Option Ptr) (a : Int),
          Unsupported.sljit_emit_op0 false compiler a = Outcome.returns SLJIT_ERR_UNSUPPORTED)
      ∧ (∀ (compiler : Option Ptr) (a b c d e : Int),
          Unsupported.sljit_emit_op1 false compiler a b c d e = Outcome.returns SLJIT_ERR_UNSUPPORTED)
      ∧ (∀ (compiler : Option Ptr) (a b c d e f g : Int),
          Unsupported.sljit_emit_op2 false compiler a b c d e f g = Outcome.returns SLJIT_ERR_UNSUPPORTED)
      ∧ (∀ (compiler instruction : Option Ptr) (size : Int),
          Unsupported.sljit_emit_op_custom false compiler instruction size = Outcome.returns SLJIT_ERR_UNSUPPORTED)
      ∧ (∀ (compiler : Option Ptr) (a b c d e : Int),
          Unsupported.sljit_emit_fop1 false compiler a b c d e = Outcome.returns SLJIT_ERR_UNSUPPORTED)
      ∧ (∀ (compiler : Option Ptr) (a b c d e f g : Int),
          Unsupported.sljit_emit_fop2 false compiler a b c d e f g = Outcome.returns SLJIT_ERR_UNSUPPORTED)
      ∧ (∀ (compiler : Option Ptr) (a b c : Int),
          Unsupported.sljit_emit_ijump false compiler a b c = Outcome.returns SLJIT_ERR_UNSUPPORTED)
      ∧ (∀ (compiler : Option Ptr) (a b c d e f : Int),
          Unsupported.sljit_emit_op_flags false compiler a b c d e f = Outcome.returns SLJIT_ERR_UNSUPPORTED)
      ∧ (∀ (compiler : Option Ptr) (a b c : Int),
          Unsupported.sljit_get_local_base false compiler a b c = Outcome.returns SLJIT_ERR_UNSUPPORTED)
      ∧ Unsupported.sljit_create_compiler false = Outcome.returns none
      ∧ (∀ (compiler : Option Ptr) (a : Int),
          Unsupported.sljit_alloc_memory false compiler a = Outcome.returns none)
      ∧ (∀ compiler : Option Ptr, Unsupported.sljit_generate_code false compiler = Outcome.returns none)
      ∧ (∀ compiler : Option Ptr, Unsupported.sljit_emit_label false compiler = Outcome.returns none)
      ∧ (∀ (compiler : Option Ptr) (a : Int),
          Unsupported.sljit_emit_jump false compiler a = Outcome.returns none)
      ∧ (∀ (compiler : Option Ptr) (a b c d e : Int),
          Unsupported.sljit_emit_cmp false compiler a b c d e = Outcome.returns none)
      ∧ (∀ (compiler : Option Ptr) (a b c d e : Int),
          Unsupported.sljit_emit_fcmp false compiler a b c d e = Outcome.returns none)
      ∧ (∀ (compiler : Option Ptr) (a b c : Int),
          Unsupported.sljit_emit_const false compiler a b c = Outcome.returns none)
      ∧ (∀ (compiler : Option Ptr) (a b c d e f g : Int),
          Unsupported.sljit_emit_enter true compiler a b c d e f g = Outcome.halts)
      ∧ (∀ (compiler : Option Ptr) (a b c d e f g : Int),
          Unsupported.sljit_set_context true compiler a b c d e f g = Outcome.halts)
      ∧ (∀ (compiler : Option Ptr) (a b c : Int),
          Unsupported.sljit_emit_return true compiler a b c = Outcome.halts)
      ∧ (∀ (compiler : Option Ptr) (a b : Int),
          Unsupported.sljit_emit_fast_enter true compiler a b = Outcome.halts)
      ∧ (∀ (compiler : Option Ptr) (a b : Int),
          Unsupported.sljit_emit_fast_return true compiler a b = Outcome.halts)
      ∧ (∀ (compiler : Option Ptr) (a : Int),
          Unsupported.sljit_emit_op0 true compiler a = Outcome.halts)
      ∧ (∀ (compiler : Option Ptr) (a b c d e : Int),
          Unsupported.sljit_emit_op1 true compiler a b c d e = Outcome.halts)
      ∧ (∀ (compiler : Option Ptr) (a b c d e f g : Int),
          Unsupported.sljit_emit_op2 true compiler a b c d e f g = Outcome.halts)
      ∧ (∀ (compiler instruction : Option Ptr) (size : Int),
          Unsupported.sljit_emit_op_custom true compiler instruction size = Outcome.halts)
      ∧ (∀ (compiler : Option Ptr) (a b c d e : Int),
          Unsupported.sljit_emit_fop1 true compiler a b c d e = Outcome.halts)
      ∧ (∀ (compiler : Option Ptr) (a b c d e f g : Int),
          Unsupported.sljit_emit_fop2 true compiler a b c d e f g = Outcome.halts)
      ∧ (∀ (compiler : Option Ptr) (a b c : Int),
          Unsupported.sljit_emit_ijump true compiler a b c = Outcome.halts)
      ∧ (∀ (compiler : Option Ptr) (a b c d e f : Int),
          Unsupported.sljit_emit_op_flags true compiler a b c d e f = Outcome.halts)
      ∧ (∀ (compiler : Option Ptr) (a b c : Int),
          Unsupported.sljit_get_local_base true compiler a b c = Outcome.halts)
      ∧ Unsupported.sljit_create_compiler true = Outcome.halts
      ∧ (∀ (compiler : Option Ptr) (a : Int),
          Unsupported.sljit_alloc_memory true compiler a = Outcome.halts)
      ∧ (∀ compiler : Option Ptr, Unsupported.sljit_generate_code true compiler = Outcome.halts)
      ∧ (∀ compiler : Option Ptr, Unsupported.sljit_emit_label true compiler = Outcome.halts)
      ∧ (∀ (compiler : Option Ptr) (a : Int),
          Unsupported.sljit_emit_jump true compiler a = Outcome.halts)
      ∧ (∀ (compiler : Option Ptr) (a b c d e : Int),
          Unsupported.sljit_emit_cmp true compiler a b c d e = Outcome.halts)
      ∧ (∀ (compiler : Option Ptr) (a b c d e : Int),
          Unsupported.sljit_emit_fcmp true compiler a b c d e = Outcome.halts)
      ∧ (∀ (compiler : Option Ptr) (a b c : Int),
          Unsupported.sljit_emit_const true compiler a b c = Outcome.halts) := by
  refine ⟨rfl, rfl, ?_⟩
  repeat' apply And.intro
  all_goals intros
  all_goals rfl

/-- In a build with `SLJIT_DEBUG` the stub `sljit_emit_op0` does not return
`SLJIT_ERR_UNSUPPORTED`: `SLJIT_ASSERT_STOP()` halts the process first. -/
theorem unsupported_stub_halts_in_debug_build :
    Unsupported.sljit_emit_op0 true none SLJIT_NOP = Outcome.halts
      ∧ Unsupported.sljit_emit_op0 true none SLJIT_NOP
          ≠ Outcome.returns SLJIT_ERR_UNSUPPORTED
      ∧ Unsupported.sljit_create_compiler true ≠ Outcome.returns none := by
  refine ⟨rfl, ?_, ?_⟩ <;> decide

/-! ## The move before a return -/

/-- C36. `emit_mov_before_return` returns `SLJIT_SUCCESS` and leaves the compiler
and the allocator as they are, so emits no instruction, when `op` is
`SLJIT_UNUSED`, or when `src` is `SLJIT_RETURN_REG` and `op` is `SLJIT_MOV` or
`SLJIT_MOV_P`, on a 32-bit target also `SLJIT_MOV_UI` or `SLJIT_MOV_SI`. In
every other case its result is that of the one call
`sljit_emit_op1(op, SLJIT_RETURN_REG, 0, src, srcw)` on the compiler with
`skip_checks` set, on which `check_sljit_emit_op1` accepts whatever the
arguments are. -/
theorem mov_before_return (cfg : Config) (E : Emitter) (compiler : sljit_compiler)
    (op src srcw : Int) (h : Heap) :
    (op = SLJIT_UNUSED
        ∨ (src = SLJIT_RETURN_REG
            ∧ (op = SLJIT_MOV ∨ op = SLJIT_MOV_P
                ∨ (cfg.is64 = false ∧ (op = SLJIT_MOV_UI ∨ op = SLJIT_MOV_SI)))) →
        emit_mov_before_return cfg E compiler op src srcw h = (SLJIT_SUCCESS, compiler, h))
      ∧ (¬ (op = SLJIT_UNUSED
            ∨ (src = SLJIT_RETURN_REG
                ∧ (op = SLJIT_MOV ∨ op = SLJIT_MOV_P
                    ∨ (cfg.is64 = false ∧ (op = SLJIT_MOV_UI ∨ op = SLJIT_MOV_SI))))) →
          emit_mov_before_return cfg E compiler op src srcw h
            = E.sljit_emit_op1 (set_skip_checks cfg compiler) op SLJIT_RETURN_REG 0 src srcw h)
      ∧ (cfg.argument_checks = true ∨ cfg.verbose = true →
          (set_skip_checks cfg compiler).skip_checks = 1
            ∧ check_sljit_emit_op1 cfg (set_skip_checks cfg compiler)
                op SLJIT_RETURN_REG 0 src srcw
              = (0, { compiler with skip_checks := 0 })) := by
  refine ⟨?_, ?_, ?_⟩
  · intro hc
    unfold emit_mov_before_return
    by_cases h0 : op = SLJIT_UNUSED
    · rw [if_pos h0]
    · rw [if_neg h0]
      rcases hc with hc | ⟨hs, hc⟩
      · exact absurd hc h0
      · by_cases h64 : cfg.is64 = true
        · have hop : op = SLJIT_MOV ∨ op = SLJIT_MOV_P := by
            rcases hc with hc | hc | ⟨hn, -⟩
            · exact Or.inl hc
            · exact Or.inr hc
            · rw [h64] at hn
              exact absurd hn (by decide)
          rw [if_pos ⟨h64, hs, hop⟩]
        · have hop : op = SLJIT_MOV ∨ op = SLJIT_MOV_UI ∨ op = SLJIT_MOV_SI ∨ op = SLJIT_MOV_P := by
            rcases hc with hc | hc | ⟨-, hc | hc⟩
            · exact Or.inl hc
            · exact Or.inr (Or.inr (Or.inr hc))
            · exact Or.inr (Or.inl hc)
            · exact Or.inr (Or.inr (Or.inl hc))
          rw [if_neg (fun hh => h64 hh.1), if_pos ⟨h64, hs, hop⟩]
  · intro hc
    unfold emit_mov_before_return
    have h0 : ¬ op = SLJIT_UNUSED := fun hh => hc (Or.inl hh)
    have h1 : ¬ (cfg.is64 = true ∧ src = SLJIT_RETURN_REG ∧ (op = SLJIT_MOV ∨ op = SLJIT_MOV_P)) := by
      rintro ⟨-, hs, ho | ho⟩
      · exact hc (Or.inr ⟨hs, Or.inl ho⟩)
      · exact hc (Or.inr ⟨hs, Or.inr (Or.inl ho)⟩)
    have h2 : ¬ (¬ cfg.is64 = true ∧ src = SLJIT_RETURN_REG
        ∧ (op = SLJIT_MOV ∨ op = SLJIT_MOV_UI ∨ op = SLJIT_MOV_SI ∨ op = SLJIT_MOV_P)) := by
      rintro ⟨hn, hs, ho | ho | ho | ho⟩
      · exact hc (Or.inr ⟨hs, Or.inl ho⟩)
      · exact hc (Or.inr ⟨hs, Or.inr (Or.inr ⟨by simpa using hn, Or.inl ho⟩)⟩)
      · exact hc (Or.inr ⟨hs, Or.inr (Or.inr ⟨by simpa using hn, Or.inr ho⟩)⟩)
      · exact hc (Or.inr ⟨hs, Or.inr (Or.inl ho)⟩)
    rw [if_neg h0, if_neg h1, if_neg h2]
  · intro hv
    have hset : set_skip_checks cfg compiler = { compiler with skip_checks := 1 } := by
      unfold set_skip_checks
      rcases hv with hv | hv <;> simp [hv]
    rw [hset]
    refine ⟨rfl, ?_⟩
    unfold check_sljit_emit_op1
    simp

/-- The example of `devel` in `sljitMain.c`: `sljit_emit_return(compiler, SLJIT_MOV,
SLJIT_RETURN_REG, 0)` moves nothing; a return of `SLJIT_R1` is one move. -/
theorem mov_before_return_witness :
    emit_mov_before_return sample_config sample_emitter sample_entered_compiler
        SLJIT_MOV SLJIT_RETURN_REG 0 sample_heap
      = (SLJIT_SUCCESS, sample_entered_compiler, sample_heap)
    ∧ emit_mov_before_return sample_config_x86_32 sample_emitter sample_entered_compiler
        SLJIT_MOV_UI SLJIT_RETURN_REG 0 sample_heap
      = (SLJIT_SUCCESS, sample_entered_compiler, sample_heap)
    ∧ emit_mov_before_return sample_config sample_emitter sample_entered_compiler
        SLJIT_MOV_UI SLJIT_RETURN_REG 0 sample_heap
      = sample_emitter.sljit_emit_op1 (set_skip_checks sample_config sample_entered_compiler)
          SLJIT_MOV_UI SLJIT_RETURN_REG 0 SLJIT_RETURN_REG 0 sample_heap
    ∧ emit_mov_before_return sample_config sample_emitter sample_entered_compiler
        SLJIT_MOV SLJIT_R1 0 sample_heap
      = sample_emitter.sljit_emit_op1 (set_skip_checks sample_config sample_entered_compiler)
          SLJIT_MOV SLJIT_RETURN_REG 0 SLJIT_R1 0 sample_heap
    ∧ ((set_skip_checks sample_config sample_entered_compiler).skip_checks = 1
        ∧ check_sljit_emit_op1 sample_config
            (set_skip_checks sample_config sample_entered_compiler)
            SLJIT_MOV SLJIT_RETURN_REG 0 SLJIT_R1 0
          = (0, { sample_entered_compiler with skip_checks := 0 })) :=
  ⟨(mov_before_return sample_config sample_emitter sample_entered_compiler
      SLJIT_MOV SLJIT_RETURN_REG 0 sample_heap).1 (Or.inr ⟨rfl, Or.inl rfl⟩),
   (mov_before_return sample_config_x86_32 sample_emitter sample_entered_compiler
      SLJIT_MOV_UI SLJIT_RETURN_REG 0 sample_heap).1
      (Or.inr ⟨rfl, Or.inr (Or.inr ⟨rfl, Or.inl rfl⟩)⟩),
   (mov_before_return sample_config sample_emitter sample_entered_compiler
      SLJIT_MOV_UI SLJIT_RETURN_REG 0 sample_heap).2.1 (by decide),
   (mov_before_return sample_config sample_emitter sample_entered_compiler
      SLJIT_MOV SLJIT_R1 0 sample_heap).2.1 (by decide),
   (mov_before_return sample_config sample_emitter sample_entered_compiler
      SLJIT_MOV SLJIT_R1 0 sample_heap).2.2 (Or.inl rfl)⟩

/-! ## The address of the local frame -/

/-- The conversion to `long` leaves a value of the range of `long` as it is. -/
theorem to_long_id (cfg : Config) (x : Int)
    (h0 : -((ULONG_MOD cfg : Int) / 2) ≤ x) (h1 : x < (ULONG_MOD cfg : Int) / 2) :
    to_long cfg x = x := by
  unfold to_long
  have hM : (0 : Int) ≤ (ULONG_MOD cfg : Int) := Int.ofNat_nonneg _
  have hhalf : (ULONG_MOD cfg : Int) / 2 + (ULONG_MOD cfg : Int) / 2 ≤ (ULONG_MOD cfg : Int) := by
    omega
  rw [Int.emod_eq_of_lt (by omega) (by omega)]
  omega

/-- C37. On a target other than x86, on a compiler without an error and with
arguments that `check_sljit_get_local_base` accepts, the result of
`sljit_get_local_base(dst, dstw, offset)` is that of one call: with `s` the sum
`offset + SLJIT_LOCALS_OFFSET` as `ADJUST_LOCAL_OFFSET` computes it, in
`unsigned long` arithmetic and converted back to `long`, of
`sljit_emit_op2(SLJIT_ADD | SLJIT_KEEP_FLAGS, dst, dstw, SLJIT_SP, 0, SLJIT_IMM,
s)` when `s` is not zero and of `sljit_emit_op1(SLJIT_MOV, dst, dstw, SLJIT_SP,
0)` when it is zero. For a `long` `offset` whose exact sum with
`SLJIT_LOCALS_OFFSET` is in the range of `long`, `s` is the exact sum. Neither
operation word has a `SLJIT_SET_*` bit. -/
theorem local_base_instruction (cfg : Config) (E : Emitter) (compiler : sljit_compiler)
    (dst dstw offset : Int) (h : Heap)
    (_hx86 : cfg.X86 = false)
    (herr : compiler.error = 0)
    (hcheck : check_sljit_get_local_base cfg compiler dst dstw offset = 0) :
    (to_long cfg (offset + SLJIT_LOCALS_OFFSET cfg) ≠ 0 →
        sljit_get_local_base cfg E compiler dst dstw offset h
          = E.sljit_emit_op2 (set_skip_checks cfg compiler)
              (Int.lor SLJIT_ADD SLJIT_KEEP_FLAGS) dst dstw (SLJIT_SP cfg) 0
              SLJIT_IMM (to_long cfg (offset + SLJIT_LOCALS_OFFSET cfg)) h)
      ∧ (to_long cfg (offset + SLJIT_LOCALS_OFFSET cfg) = 0 →
        sljit_get_local_base cfg E compiler dst dstw offset h
          = E.sljit_emit_op1 (set_skip_checks cfg compiler)
              SLJIT_MOV dst dstw (SLJIT_SP cfg) 0 h)
      ∧ (-((ULONG_MOD cfg : Int) / 2) ≤ offset + SLJIT_LOCALS_OFFSET cfg →
          offset + SLJIT_LOCALS_OFFSET cfg < (ULONG_MOD cfg : Int) / 2 →
          to_long cfg (offset + SLJIT_LOCALS_OFFSET cfg) = offset + SLJIT_LOCALS_OFFSET cfg)
      ∧ GET_FLAGS (Int.lor SLJIT_ADD SLJIT_KEEP_FLAGS) = 0
      ∧ GET_FLAGS SLJIT_MOV = 0
      ∧ GET_OPCODE (Int.lor SLJIT_ADD SLJIT_KEEP_FLAGS) = SLJIT_ADD
      ∧ GET_OPCODE SLJIT_MOV = SLJIT_MOV := by
  have hc : ¬(cfg.argument_checks = true
      ∧ check_sljit_get_local_base cfg compiler dst dstw offset ≠ 0) := by
    simp [hcheck]
  have hadj : ADJUST_LOCAL_OFFSET cfg (SLJIT_MEM1 (SLJIT_SP cfg)) offset
      = to_long cfg (offset + SLJIT_LOCALS_OFFSET cfg) := by
    unfold ADJUST_LOCAL_OFFSET
    rw [if_pos rfl]
  refine ⟨?_, ?_, to_long_id cfg _, by decide, by decide, ?_, ?_⟩
  · intro hne
    unfold sljit_get_local_base
    rw [if_neg (by simp [herr]), if_neg hc]
    simp only [hadj]
    rw [if_pos hne]
  · intro hz
    unfold sljit_get_local_base
    rw [if_neg (by simp [herr]), if_neg hc]
    simp only [hadj]
    rw [if_neg (by simp [hz])]
  · exact get_opcode_lor SLJIT_ADD SLJIT_KEEP_FLAGS (by decide) (by decide)
  · exact get_opcode_plain SLJIT_MOV (by decide)

theorem local_base_instruction_witness :
    sljit_get_local_base sample_config sample_emitter sample_entered_compiler SLJIT_R0 0 8
        sample_heap
      = sample_emitter.sljit_emit_op2 (set_skip_checks sample_config sample_entered_compiler)
          (Int.lor SLJIT_ADD SLJIT_KEEP_FLAGS) SLJIT_R0 0 (SLJIT_SP sample_config) 0
          SLJIT_IMM (to_long sample_config (8 + SLJIT_LOCALS_OFFSET sample_config)) sample_heap
    ∧ sljit_get_local_base sample_config sample_emitter sample_entered_compiler SLJIT_R0 0
        (-112) sample_heap
      = sample_emitter.sljit_emit_op1 (set_skip_checks sample_config sample_entered_compiler)
          SLJIT_MOV SLJIT_R0 0 (SLJIT_SP sample_config) 0 sample_heap
    ∧ to_long sample_config (8 + SLJIT_LOCALS_OFFSET sample_config)
        = 8 + SLJIT_LOCALS_OFFSET sample_config :=
  ⟨(local_base_instruction sample_config sample_emitter sample_entered_compiler SLJIT_R0 0 8
      sample_heap rfl rfl rfl).1 (by decide),
   (local_base_instruction sample_config sample_emitter sample_entered_compiler SLJIT_R0 0
      (-112) sample_heap rfl rfl rfl).2.1 (by decide),
   (local_base_instruction sample_config sample_emitter sample_entered_compiler SLJIT_R0 0 8
      sample_heap rfl rfl rfl).2.2.1 (by decide) (by decide)⟩

/-- For the largest `long` as `offset` on a 64-bit PowerPC build, where
`SLJIT_LOCALS_OFFSET` is 112, the immediate that `sljit_get_local_base` passes
to `sljit_emit_op2` is -9223372036854775697, not the sum 9223372036854775919. -/
theorem local_base_offset_wraps :
    SLJIT_LOCALS_OFFSET sample_config = 112
      ∧ ADJUST_LOCAL_OFFSET sample_config (SLJIT_MEM1 (SLJIT_SP sample_config))
          9223372036854775807 = -9223372036854775697
      ∧ (sljit_get_local_base sample_config sample_recording_emitter sample_entered_compiler
            SLJIT_R0 0 9223372036854775807 sample_heap).2.1.cache_arg
          = Int.lor SLJIT_ADD SLJIT_KEEP_FLAGS
      ∧ (sljit_get_local_base sample_config sample_recording_emitter sample_entered_compiler
            SLJIT_R0 0 9223372036854775807 sample_heap).2.1.cache_argw
          = -9223372036854775697
      ∧ (sljit_get_local_base sample_config sample_recording_emitter sample_entered_compiler
            SLJIT_R0 0 9223372036854775807 sample_heap).2.1.cache_argw
          ≠ 9223372036854775807 + SLJIT_LOCALS_OFFSET sample_config := by
  refine ⟨by decide, by decide, by decide, by decide, by decide⟩

/-! ## The exchange of the operands of a comparison -/

/-- Exchanging twice gives the condition back. -/
theorem swapped_condition_involutive (c : Int) :
    swapped_condition (swapped_condition c) = c := by
  by_cases h : 2 ≤ c ∧ c ≤ 9
  · have hcases : c = 2 ∨ c = 3 ∨ c = 4 ∨ c = 5 ∨ c = 6 ∨ c = 7 ∨ c = 8 ∨ c = 9 := by omega
    rcases hcases with h | h | h | h | h | h | h | h <;> subst h <;> decide
  · have hc : swapped_condition c = c := by
      unfold swapped_condition
      simp only [SLJIT_LESS, SLJIT_GREATER, SLJIT_GREATER_EQUAL,
        SLJIT_LESS_EQUAL, SLJIT_SIG_LESS, SLJIT_SIG_GREATER, SLJIT_SIG_GREATER_EQUAL,
        SLJIT_SIG_LESS_EQUAL]
      split_ifs <;> omega
    rw [hc, hc]

/-- The exchanged condition of an eight-bit value is an eight-bit value. -/
theorem swapped_condition_low_bits (t : Int) :
    Int.land (swapped_condition (Int.land t 0xff)) 0xff = swapped_condition (Int.land t 0xff) := by
  have h1 : Int.land (Int.land t 0xff) 0xff = Int.land t 0xff := by
    rw [land_land]
    have : Int.land 0xff 0xff = 0xff := by decide
    rw [this]
  unfold swapped_condition
  split_ifs <;> first | exact h1 | decide

/-- C34. The condition that `sljit_emit_cmp` tests after it has exchanged its
operands holds on `(b, a)` exactly when the condition of the call holds on
`(a, b)`, for every integer comparison type `SLJIT_EQUAL` ..
`SLJIT_SIG_LESS_EQUAL` and all words `a`, `b` (unsigned order for `LESS` ..
`LESS_EQUAL`, signed order for `SIG_*`); the rewrite of the condition is an
involution and leaves `SLJIT_EQUAL` and `SLJIT_NOT_EQUAL` as they are; and the
type after the exchange has the rewritten condition in its low byte and the
`SLJIT_INT_OP` and `SLJIT_REWRITABLE_JUMP` bits of the type of the call. -/
theorem swap_preserves_comparison (cfg : Config) (c type src1 src1w src2 src2w : Int)
    (a b : Nat) :
    (SLJIT_EQUAL ≤ c ∧ c ≤ SLJIT_SIG_LESS_EQUAL →
        (condition_holds cfg c a b = true
          ↔ condition_holds cfg (swapped_condition c) b a = true))
      ∧ swapped_condition (swapped_condition c) = c
      ∧ swapped_condition SLJIT_EQUAL = SLJIT_EQUAL
      ∧ swapped_condition SLJIT_NOT_EQUAL = SLJIT_NOT_EQUAL
      ∧ (Int.land src1 SLJIT_IMM ≠ 0 ∧ Int.land src2 SLJIT_IMM = 0 →
          (cmp_imm_second (cmp_entry type src1 src1w src2 src2w)).condition
              = swapped_condition (Int.land type 0xff)
            ∧ (cmp_imm_second (cmp_entry type src1 src1w src2 src2w)).src1 = src2
            ∧ (cmp_imm_second (cmp_entry type src1 src1w src2 src2w)).src1w = src2w
            ∧ (cmp_imm_second (cmp_entry type src1 src1w src2 src2w)).src2 = src1
            ∧ (cmp_imm_second (cmp_entry type src1 src1w src2 src2w)).src2w = src1w
            ∧ Int.land (cmp_imm_second (cmp_entry type src1 src1w src2 src2w)).type 0xff
                = swapped_condition (Int.land type 0xff)
            ∧ Int.land (cmp_imm_second (cmp_entry type src1 src1w src2 src2w)).type
                SLJIT_INT_OP = Int.land type SLJIT_INT_OP
            ∧ Int.land (cmp_imm_second (cmp_entry type src1 src1w src2 src2w)).type
                SLJIT_REWRITABLE_JUMP = Int.land type SLJIT_REWRITABLE_JUMP) := by
  refine ⟨?_, swapped_condition_involutive c, by decide, by decide, ?_⟩
  · rintro ⟨h0, h1⟩
    simp only [SLJIT_EQUAL, SLJIT_SIG_LESS_EQUAL] at h0 h1
    have hcases : c = 0 ∨ c = 1 ∨ c = 2 ∨ c = 3 ∨ c = 4 ∨ c = 5 ∨ c = 6
        ∨ c = 7 ∨ c = 8 ∨ c = 9 := by omega
    rcases hcases with h | h | h | h | h | h | h | h | h | h <;> subst h <;>
      simp [condition_holds, swapped_condition, SLJIT_EQUAL, SLJIT_NOT_EQUAL, SLJIT_LESS,
        SLJIT_GREATER_EQUAL, SLJIT_GREATER, SLJIT_LESS_EQUAL, SLJIT_SIG_LESS,
        SLJIT_SIG_GREATER_EQUAL, SLJIT_SIG_GREATER, SLJIT_SIG_LESS_EQUAL]
    · exact eq_comm
    · exact not_congr eq_comm
  · intro hs
    obtain ⟨hi, hr⟩ := swapped_condition_bits type
    obtain ⟨hb1, hb2⟩ := swapped_type_bits _ type hi hr
    have hres : cmp_imm_second (cmp_entry type src1 src1w src2 src2w)
        = { condition := swapped_condition (Int.land type 0xff),
            type := Int.lor (swapped_condition (Int.land type 0xff))
              (Int.land type (Int.lor SLJIT_INT_OP SLJIT_REWRITABLE_JUMP)),
            src1 := src2, src1w := src2w, src2 := src1, src2w := src1w } := by
      unfold cmp_imm_second cmp_entry
      rw [if_pos hs]
    rw [hres]
    refine ⟨rfl, rfl, rfl, rfl, rfl, ?_, hb1, hb2⟩
    show Int.land (Int.lor (swapped_condition (Int.land type 0xff))
      (Int.land type (Int.lor SLJIT_INT_OP SLJIT_REWRITABLE_JUMP))) 0xff = _
    rw [land_lor_distrib, land_land, swapped_condition_low_bits]
    have : Int.land (Int.lor SLJIT_INT_OP SLJIT_REWRITABLE_JUMP) 0xff = 0 := by decide
    rw [this, land_zero, lor_zero]

theorem swap_preserves_comparison_witness :
    (condition_holds sample_config SLJIT_LESS 5 10 = true
        ↔ condition_holds sample_config (swapped_condition SLJIT_LESS) 10 5 = true)
      ∧ (condition_holds sample_config SLJIT_SIG_GREATER_EQUAL (2 ^ 64 - 1) 1 = true
        ↔ condition_holds sample_config (swapped_condition SLJIT_SIG_GREATER_EQUAL)
            1 (2 ^ 64 - 1) = true)
      ∧ ((cmp_imm_second (cmp_entry 0x1102 SLJIT_IMM 5 SLJIT_R0 0)).condition
              = swapped_condition (Int.land 0x1102 0xff)
            ∧ (cmp_imm_second (cmp_entry 0x1102 SLJIT_IMM 5 SLJIT_R0 0)).src1 = SLJIT_R0
            ∧ (cmp_imm_second (cmp_entry 0x1102 SLJIT_IMM 5 SLJIT_R0 0)).src1w = 0
            ∧ (cmp_imm_second (cmp_entry 0x1102 SLJIT_IMM 5 SLJIT_R0 0)).src2 = SLJIT_IMM
            ∧ (cmp_imm_second (cmp_entry 0x1102 SLJIT_IMM 5 SLJIT_R0 0)).src2w = 5
            ∧ Int.land (cmp_imm_second (cmp_entry 0x1102 SLJIT_IMM 5 SLJIT_R0 0)).type 0xff
                = swapped_condition (Int.land 0x1102 0xff)
            ∧ Int.land (cmp_imm_second (cmp_entry 0x1102 SLJIT_IMM 5 SLJIT_R0 0)).type
                SLJIT_INT_OP = Int.land 0x1102 SLJIT_INT_OP
            ∧ Int.land (cmp_imm_second (cmp_entry 0x1102 SLJIT_IMM 5 SLJIT_R0 0)).type
                SLJIT_REWRITABLE_JUMP = Int.land 0x1102 SLJIT_REWRITABLE_JUMP) :=
  ⟨(swap_preserves_comparison sample_config SLJIT_LESS 0 0 0 0 0 5 10).1 (by decide),
   (swap_preserves_comparison sample_config SLJIT_SIG_GREATER_EQUAL 0 0 0 0 0
      (2 ^ 64 - 1) 1).1 (by decide),
   (swap_preserves_comparison sample_config 0 0x1102 SLJIT_IMM 5 SLJIT_R0 0 0 0).2.2.2.2
      (by decide)⟩

/-! ## The checks that the compare helpers skip -/

/-- A value of eight bits is its own low byte. -/
theorem low_byte_id (c : Int) (h0 : 0 ≤ c) (h1 : c < 256) : Int.land c 0xff = c := by
  obtain ⟨n, rfl⟩ := Int.eq_ofNat_of_zero_le h0
  show ((n &&& 255 : Nat) : Int) = _
  have h := Nat.and_pow_two_sub_one_eq_mod n 8
  norm_num at h
  rw [h]
  congr 1
  omega

/-- The exchange of the operands keeps an integer comparison an integer
comparison. -/
theorem swapped_condition_range (c : Int) (h : 0 ≤ c ∧ c ≤ 9) :
    0 ≤ swapped_condition c ∧ swapped_condition c ≤ 9 := by
  have hcases : c = 0 ∨ c = 1 ∨ c = 2 ∨ c = 3 ∨ c = 4 ∨ c = 5 ∨ c = 6
      ∨ c = 7 ∨ c = 8 ∨ c = 9 := by omega
  rcases hcases with h | h | h | h | h | h | h | h | h | h <;> subst h <;> decide

/-- The flag of the subtraction is one of three. -/
theorem cmp_flags_cases (c : Int) :
    cmp_flags c = SLJIT_SET_E ∨ cmp_flags c = SLJIT_SET_U ∨ cmp_flags c = SLJIT_SET_S := by
  unfold cmp_flags
  split_ifs <;> simp

/-- The subtraction of `sljit_emit_cmp` passes the tests on the operation
word. -/
theorem cmp_sub_op (f t : Int)
    (hf : f = SLJIT_SET_E ∨ f = SLJIT_SET_U ∨ f = SLJIT_SET_S) :
    GET_OPCODE (Int.lor (Int.lor SLJIT_SUB f) (Int.land t SLJIT_INT_OP)) = SLJIT_SUB
      ∧ FUNCTION_CHECK_OP (Int.lor (Int.lor SLJIT_SUB f) (Int.land t SLJIT_INT_OP)) = true := by
  have hb : Int.land t SLJIT_INT_OP = 0 ∨ Int.land t SLJIT_INT_OP = 0x100 := land_bit8 t
  have key : ∀ g : Int, (g = SLJIT_SET_E ∨ g = SLJIT_SET_U ∨ g = SLJIT_SET_S) →
      ∀ b : Int, (b = 0 ∨ b = 0x100) →
      GET_OPCODE (Int.lor (Int.lor SLJIT_SUB g) b) = SLJIT_SUB
        ∧ Int.land (Int.lor (Int.lor SLJIT_SUB g) b) SLJIT_KEEP_FLAGS = 0 := by
    intro g hg b hb
    rcases hg with rfl | rfl | rfl <;> rcases hb with rfl | rfl <;>
      exact ⟨by rw [lor_lor]; exact get_opcode_lor SLJIT_SUB _ (by decide) (by decide),
        by decide⟩
  obtain ⟨h1, h2⟩ := key f hf _ hb
  refine ⟨h1, ?_⟩
  unfold FUNCTION_CHECK_OP
  rw [h1, h2]
  simp [SLJIT_NOT, SLJIT_CLZ, SLJIT_AND, SLJIT_OR, SLJIT_XOR, SLJIT_SHL, SLJIT_LSHR,
    SLJIT_ASHR, SLJIT_NEG, SLJIT_MUL, SLJIT_ADD, SLJIT_SUB, SLJIT_OP1_BASE, SLJIT_OP2_BASE]

/-- The jump type that the compare helpers build passes `check_sljit_emit_jump`. -/
theorem jump_type_accepted (cfg : Config) (c1 : sljit_compiler) (c t : Int)
    (hc : 0 ≤ c ∧ c ≤ 21) (hskip : c1.skip_checks = 0) :
    (check_sljit_emit_jump cfg c1 (Int.lor c (Int.land t SLJIT_REWRITABLE_JUMP))).1 = 0 := by
  have hlow : Int.land c 0xff = c := low_byte_id c hc.1 (by omega)
  have h8 : Int.land c SLJIT_INT_OP = 0 := by
    rw [← hlow, land_land]
    have : Int.land 0xff SLJIT_INT_OP = 0 := by decide
    rw [this, land_zero]
  have hbyte : Int.land (Int.lor c (Int.land t SLJIT_REWRITABLE_JUMP)) 0xff = c := by
    rw [land_lor_distrib, land_land, hlow]
    have : Int.land SLJIT_REWRITABLE_JUMP 0xff = 0 := by decide
    rw [this, land_zero, lor_zero]
  have hint : Int.land (Int.lor c (Int.land t SLJIT_REWRITABLE_JUMP)) SLJIT_INT_OP = 0 := by
    rw [land_lor_distrib, land_land, h8]
    have : Int.land SLJIT_REWRITABLE_JUMP SLJIT_INT_OP = 0 := by decide
    rw [this, land_zero, lor_zero]
  have hmask : Int.land (Int.lor c (Int.land t SLJIT_REWRITABLE_JUMP))
      (Int.lnot (Int.lor (Int.lor 0xff SLJIT_REWRITABLE_JUMP) SLJIT_INT_OP)) = 0 := by
    rw [land_lnot_eq_zero, land_lor_distrib, land_land]
    have h1 : Int.land SLJIT_REWRITABLE_JUMP
        (Int.lor (Int.lor 0xff SLJIT_REWRITABLE_JUMP) SLJIT_INT_OP) = SLJIT_REWRITABLE_JUMP := by
      decide
    have h2 : Int.land c (Int.lor (Int.lor 0xff SLJIT_REWRITABLE_JUMP) SLJIT_INT_OP) = c := by
      rw [← hlow, land_land]
      have : Int.land 0xff (Int.lor (Int.lor 0xff SLJIT_REWRITABLE_JUMP) SLJIT_INT_OP)
          = 0xff := by decide
      rw [this]
    rw [h1, h2]
  unfold check_sljit_emit_jump
  rw [if_neg (by simp [hskip])]
  by_cases hchecks : cfg.argument_checks = true
  · rw [if_pos hchecks, hmask, hbyte, hint]
    have h0 : c ≥ SLJIT_EQUAL := hc.1
    have h1 : c ≤ SLJIT_CALL3 := by
      unfold SLJIT_CALL3
      omega
    simp [h0, h1]
  · rw [if_neg hchecks]

/-- The tests that an accepted call of `sljit_emit_cmp` has passed. -/
theorem cmp_check_parts (cfg : Config) (compiler : sljit_compiler)
    (type src1 src1w src2 src2w : Int) (hchecks : cfg.argument_checks = true)
    (hcheck : check_sljit_emit_cmp cfg compiler type src1 src1w src2 src2w = 0) :
    (0 ≤ Int.land type 0xff ∧ Int.land type 0xff ≤ 9)
      ∧ FUNCTION_CHECK_SRC cfg compiler src1 src1w = true
      ∧ FUNCTION_CHECK_SRC cfg compiler src2 src2w = true := by
  unfold check_sljit_emit_cmp at hcheck
  rw [if_pos hchecks] at hcheck
  split_ifs at hcheck with hc
  · simp only [Bool.and_eq_true, decide_eq_true_eq, SLJIT_EQUAL, SLJIT_SIG_LESS_EQUAL] at hc
    exact ⟨⟨hc.1.1.2.1, hc.1.1.2.2⟩, hc.1.2, hc.2⟩
  · exact absurd hcheck (by decide)

/-- The tests that an accepted call of `sljit_emit_fcmp` has passed. -/
theorem fcmp_check_parts (cfg : Config) (fpu : Int) (compiler : sljit_compiler)
    (type src1 src1w src2 src2w : Int) (hchecks : cfg.argument_checks = true)
    (hcheck : check_sljit_emit_fcmp cfg fpu compiler type src1 src1w src2 src2w = 0) :
    fpu ≠ 0
      ∧ (14 ≤ Int.land type 0xff ∧ Int.land type 0xff ≤ 21)
      ∧ FUNCTION_FCHECK cfg compiler src1 src1w = true
      ∧ FUNCTION_FCHECK cfg compiler src2 src2w = true := by
  unfold check_sljit_emit_fcmp at hcheck
  rw [if_pos hchecks] at hcheck
  split_ifs at hcheck with hc
  · simp only [Bool.and_eq_true, decide_eq_true_eq, SLJIT_D_EQUAL, SLJIT_D_ORDERED] at hc
    exact ⟨hc.1.1.1.1, ⟨hc.1.1.2.1, hc.1.1.2.2⟩, hc.1.2, hc.2⟩
  · exact absurd hcheck (by decide)

/-- The comparison of `sljit_emit_fcmp` passes the tests on the operation
word. -/
theorem fcmp_op (f : Int)
    (hf : f = SLJIT_SET_E ∨ f = SLJIT_SET_S ∨ f = Int.lor SLJIT_SET_E SLJIT_SINGLE_OP
      ∨ f = Int.lor SLJIT_SET_S SLJIT_SINGLE_OP) :
    GET_OPCODE (Int.lor SLJIT_DCMP f) = SLJIT_DCMP
      ∧ FUNCTION_CHECK_FOP (Int.lor SLJIT_DCMP f) = true := by
  have h1 : GET_OPCODE (Int.lor SLJIT_DCMP f) = SLJIT_DCMP := by
    rcases hf with rfl | rfl | rfl | rfl <;>
      exact get_opcode_lor SLJIT_DCMP _ (by decide) (by decide)
  refine ⟨h1, ?_⟩
  unfold FUNCTION_CHECK_FOP
  rw [h1, if_pos rfl]
  rcases hf with rfl | rfl | rfl | rfl <;> decide

/-- The operand checks do not read `skip_checks`. -/
theorem src_check_ignores_skip (cfg : Config) (compiler : sljit_compiler) (p i : Int) :
    FUNCTION_CHECK_SRC cfg { compiler with skip_checks := 0 } p i
        = FUNCTION_CHECK_SRC cfg compiler p i
      ∧ FUNCTION_CHECK_DST cfg { compiler with skip_checks := 0 } p i
        = FUNCTION_CHECK_DST cfg compiler p i
      ∧ FUNCTION_FCHECK cfg { compiler with skip_checks := 0 } p i
        = FUNCTION_FCHECK cfg compiler p i :=
  ⟨rfl, rfl, rfl⟩

/-- A compiler on which a source operand passes accepts `SLJIT_UNUSED` as a
destination. -/
theorem unused_dst_accepted (cfg : Config) (compiler : sljit_compiler) (p i : Int)
    (hsrc : FUNCTION_CHECK_SRC cfg compiler p i = true) :
    FUNCTION_CHECK_DST cfg compiler SLJIT_UNUSED 0 = true := by
  unfold FUNCTION_CHECK_SRC at hsrc
  simp only [Bool.and_eq_true, decide_eq_true_eq] at hsrc
  obtain ⟨⟨h1, h2⟩, -⟩ := hsrc
  unfold FUNCTION_CHECK_DST FUNCTION_CHECK_IS_REG_OR_UNUSED
  simp [h1, h2]

/-- C38. Whenever `check_sljit_emit_cmp` accepts a call, the subtraction that
the default path of `sljit_emit_cmp` builds (`SLJIT_SUB` with the flag of the
condition and the `SLJIT_INT_OP` bit of the type, destination `SLJIT_UNUSED`,
the two sources in the order the function leaves them) is accepted by
`check_sljit_emit_op2` and the jump type it builds is accepted by
`check_sljit_emit_jump`, both run with `skip_checks` clear, the second on
whatever compiler the subtraction leaves. Whenever `check_sljit_emit_fcmp`
accepts a call, the `SLJIT_DCMP` operation that `sljit_emit_fcmp` builds is
accepted by `check_sljit_emit_fop1_cmp` and its jump type by
`check_sljit_emit_jump`. -/
theorem compare_checks_sound (cfg : Config) (E : Emitter) (compiler c1 : sljit_compiler)
    (type src1 src1w src2 src2w : Int) (h : Heap) :
    emit_cmp_default cfg E compiler (cmp_entry type src1 src1w src2 src2w) h
        = sub_then_jump cfg E compiler
            (Int.lor (Int.lor SLJIT_SUB (cmp_flags (cmp_imm_second (cmp_entry type src1 src1w src2 src2w)).condition))
              (Int.land (cmp_imm_second (cmp_entry type src1 src1w src2 src2w)).type
                SLJIT_INT_OP))
            (cmp_imm_second (cmp_entry type src1 src1w src2 src2w)).src1
            (cmp_imm_second (cmp_entry type src1 src1w src2 src2w)).src1w
            (cmp_imm_second (cmp_entry type src1 src1w src2 src2w)).src2
            (cmp_imm_second (cmp_entry type src1 src1w src2 src2w)).src2w
            (Int.lor (cmp_imm_second (cmp_entry type src1 src1w src2 src2w)).condition
              (Int.land (cmp_imm_second (cmp_entry type src1 src1w src2 src2w)).type
                SLJIT_REWRITABLE_JUMP)) h
      ∧ (check_sljit_emit_cmp cfg compiler type src1 src1w src2 src2w = 0 →
          (check_sljit_emit_op2 cfg { compiler with skip_checks := 0 }
            (Int.lor (Int.lor SLJIT_SUB (cmp_flags (cmp_imm_second (cmp_entry type src1 src1w src2 src2w)).condition))
              (Int.land (cmp_imm_second (cmp_entry type src1 src1w src2 src2w)).type
                SLJIT_INT_OP))
            SLJIT_UNUSED 0
            (cmp_imm_second (cmp_entry type src1 src1w src2 src2w)).src1
            (cmp_imm_second (cmp_entry type src1 src1w src2 src2w)).src1w
            (cmp_imm_second (cmp_entry type src1 src1w src2 src2w)).src2
            (cmp_imm_second (cmp_entry type src1 src1w src2 src2w)).src2w).1 = 0
          ∧ (check_sljit_emit_jump cfg { c1 with skip_checks := 0 }
            (Int.lor (cmp_imm_second (cmp_entry type src1 src1w src2 src2w)).condition
              (Int.land (cmp_imm_second (cmp_entry type src1 src1w src2 src2w)).type
                SLJIT_REWRITABLE_JUMP))).1 = 0)
      ∧ (check_sljit_emit_fcmp cfg E.sljit_is_fpu_available compiler
            type src1 src1w src2 src2w = 0 →
          (compiler.error = 0 →
            sljit_emit_fcmp cfg E compiler type src1 src1w src2 src2w h
              = fcmp_then_jump cfg E compiler
                  (Int.lor SLJIT_DCMP
              (if Int.land type SLJIT_SINGLE_OP ≠ 0 then
                Int.lor (if Int.land type 0xff ≤ SLJIT_D_NOT_EQUAL then SLJIT_SET_E else SLJIT_SET_S)
                  SLJIT_SINGLE_OP
              else (if Int.land type 0xff ≤ SLJIT_D_NOT_EQUAL then SLJIT_SET_E else SLJIT_SET_S)))
                  src1 src1w src2 src2w
                  (Int.lor (Int.land type 0xff) (Int.land type SLJIT_REWRITABLE_JUMP)) h)
          ∧ (check_sljit_emit_fop1_cmp cfg E.sljit_is_fpu_available
              { compiler with skip_checks := 0 }
              (Int.lor SLJIT_DCMP
              (if Int.land type SLJIT_SINGLE_OP ≠ 0 then
                Int.lor (if Int.land type 0xff ≤ SLJIT_D_NOT_EQUAL then SLJIT_SET_E else SLJIT_SET_S)
                  SLJIT_SINGLE_OP
              else (if Int.land type 0xff ≤ SLJIT_D_NOT_EQUAL then SLJIT_SET_E else SLJIT_SET_S)))
              src1 src1w src2 src2w).1 = 0
          ∧ (check_sljit_emit_jump cfg { c1 with skip_checks := 0 }
              (Int.lor (Int.land type 0xff) (Int.land type SLJIT_REWRITABLE_JUMP))).1 = 0) := by
  refine ⟨rfl, ?_, ?_⟩
  · intro hcheck
    by_cases hchecks : cfg.argument_checks = true
    · obtain ⟨hcond, hs1, hs2⟩ := cmp_check_parts cfg compiler type src1 src1w src2 src2w
        hchecks hcheck
      have hA : (0 ≤ (cmp_imm_second (cmp_entry type src1 src1w src2 src2w)).condition
            ∧ (cmp_imm_second (cmp_entry type src1 src1w src2 src2w)).condition ≤ 9)
          ∧ FUNCTION_CHECK_SRC cfg compiler
              (cmp_imm_second (cmp_entry type src1 src1w src2 src2w)).src1
              (cmp_imm_second (cmp_entry type src1 src1w src2 src2w)).src1w = true
          ∧ FUNCTION_CHECK_SRC cfg compiler
              (cmp_imm_second (cmp_entry type src1 src1w src2 src2w)).src2
              (cmp_imm_second (cmp_entry type src1 src1w src2 src2w)).src2w = true := by
        unfold cmp_imm_second cmp_entry
        by_cases hs : Int.land src1 SLJIT_IMM ≠ 0 ∧ Int.land src2 SLJIT_IMM = 0
        · simp only [hs, and_self, ne_eq, not_false_eq_true, if_true]
          exact ⟨swapped_condition_range _ hcond, hs2, hs1⟩
        · simp only [hs, if_false]
          exact ⟨hcond, hs1, hs2⟩
      obtain ⟨hAc, hA1, hA2⟩ := hA
      obtain ⟨hop, hfop⟩ := cmp_sub_op
        (cmp_flags (cmp_imm_second (cmp_entry type src1 src1w src2 src2w)).condition)
        (cmp_imm_second (cmp_entry type src1 src1w src2 src2w)).type
        (cmp_flags_cases _)
      constructor
      · rw [check_op2_accepts cfg { compiler with skip_checks := 0 } _ _ _ _ _ _ _ hchecks rfl
          (by rw [hop]; decide) hA1 hA2 (unused_dst_accepted cfg compiler _ _ hA1)]
        exact hfop
      · exact jump_type_accepted cfg _ _ _ ⟨hAc.1, by omega⟩ rfl
    · constructor
      · unfold check_sljit_emit_op2
        simp [hchecks]
      · unfold check_sljit_emit_jump
        simp [hchecks]
  · intro hcheck
    refine ⟨?_, ?_, ?_⟩
    · intro herr
      have hc : ¬(cfg.argument_checks = true
          ∧ check_sljit_emit_fcmp cfg E.sljit_is_fpu_available compiler
              type src1 src1w src2 src2w ≠ 0) := by
        simp [hcheck]
      unfold sljit_emit_fcmp fcmp_then_jump
      rw [if_neg (by simp [herr]), if_neg hc]
    · by_cases hchecks : cfg.argument_checks = true
      · obtain ⟨hfpu, hcond, hs1, hs2⟩ := fcmp_check_parts cfg _ compiler type
          src1 src1w src2 src2w hchecks hcheck
        have hf : ∀ f : Int, (f = SLJIT_SET_E ∨ f = SLJIT_SET_S
            ∨ f = Int.lor SLJIT_SET_E SLJIT_SINGLE_OP ∨ f = Int.lor SLJIT_SET_S SLJIT_SINGLE_OP) →
            (check_sljit_emit_fop1_cmp cfg E.sljit_is_fpu_available
              { compiler with skip_checks := 0 } (Int.lor SLJIT_DCMP f)
              src1 src1w src2 src2w).1 = 0 := by
          intro f hf
          obtain ⟨hop, hfop⟩ := fcmp_op f hf
          unfold check_sljit_emit_fop1_cmp
          have e1 := (src_check_ignores_skip cfg compiler src1 src1w).2.2
          have e2 := (src_check_ignores_skip cfg compiler src2 src2w).2.2
          simp only [ne_eq, not_true_eq_false, if_false, hchecks, if_true, hfpu,
            not_false_eq_true, decide_True, hop, hfop, e1, e2, hs1, hs2, Bool.and_self]
        apply hf
        split_ifs <;> simp
      · unfold check_sljit_emit_fop1_cmp
        simp [hchecks]
    · by_cases hchecks : cfg.argument_checks = true
      · obtain ⟨-, hcond, -, -⟩ := fcmp_check_parts cfg _ compiler type
          src1 src1w src2 src2w hchecks hcheck
        exact jump_type_accepted cfg _ _ _ ⟨by omega, hcond.2⟩ rfl
      · unfold check_sljit_emit_jump
        simp [hchecks]

/-- The argument check accepts the comparison `5 < R0` of 32-bit values with
a rewritable jump. -/
theorem sample_cmp_accepted :
    check_sljit_emit_cmp sample_config sample_entered_compiler 0x1102 SLJIT_IMM 5 SLJIT_R0 0
      = 0 := by
  have hm : Int.land 0x1102
      (Int.lnot (Int.lor (Int.lor 0xff SLJIT_REWRITABLE_JUMP) SLJIT_INT_OP)) = 0 :=
    (land_lnot_eq_zero _ _).2 (by decide)
  unfold check_sljit_emit_cmp
  rw [hm]
  decide

/-- The argument check accepts the single precision comparison `FR0 < FR1`
with a rewritable jump. -/
theorem sample_fcmp_accepted :
    check_sljit_emit_fcmp sample_config sample_emitter.sljit_is_fpu_available
      sample_entered_compiler 0x1110 SLJIT_FR0 0 2 0 = 0 := by
  have hm : Int.land 0x1110
      (Int.lnot (Int.lor (Int.lor 0xff SLJIT_REWRITABLE_JUMP) SLJIT_SINGLE_OP)) = 0 :=
    (land_lnot_eq_zero _ _).2 (by decide)
  unfold check_sljit_emit_fcmp
  rw [hm]
  decide

theorem compare_checks_sound_witness :
    ((check_sljit_emit_op2 sample_config { sample_entered_compiler with skip_checks := 0 }
            (Int.lor (Int.lor SLJIT_SUB (cmp_flags (cmp_imm_second (cmp_entry 0x1102 SLJIT_IMM 5 SLJIT_R0 0)).condition))
              (Int.land (cmp_imm_second (cmp_entry 0x1102 SLJIT_IMM 5 SLJIT_R0 0)).type
                SLJIT_INT_OP))
            SLJIT_UNUSED 0
            (cmp_imm_second (cmp_entry 0x1102 SLJIT_IMM 5 SLJIT_R0 0)).src1
            (cmp_imm_second (cmp_entry 0x1102 SLJIT_IMM 5 SLJIT_R0 0)).src1w
            (cmp_imm_second (cmp_entry 0x1102 SLJIT_IMM 5 SLJIT_R0 0)).src2
            (cmp_imm_second (cmp_entry 0x1102 SLJIT_IMM 5 SLJIT_R0 0)).src2w).1 = 0
          ∧ (check_sljit_emit_jump sample_config
              { sample_sized_compiler with skip_checks := 0 }
            (Int.lor (cmp_imm_second (cmp_entry 0x1102 SLJIT_IMM 5 SLJIT_R0 0)).condition
              (Int.land (cmp_imm_second (cmp_entry 0x1102 SLJIT_IMM 5 SLJIT_R0 0)).type
                SLJIT_REWRITABLE_JUMP))).1 = 0)
      ∧ ((check_sljit_emit_fop1_cmp sample_config sample_emitter.sljit_is_fpu_available
              { sample_entered_compiler with skip_checks := 0 }
              (Int.lor SLJIT_DCMP
              (if Int.land 0x1110 SLJIT_SINGLE_OP ≠ 0 then
                Int.lor (if Int.land 0x1110 0xff ≤ SLJIT_D_NOT_EQUAL then SLJIT_SET_E else SLJIT_SET_S)
                  SLJIT_SINGLE_OP
              else (if Int.land 0x1110 0xff ≤ SLJIT_D_NOT_EQUAL then SLJIT_SET_E else SLJIT_SET_S)))
              SLJIT_FR0 0 2 0).1 = 0
          ∧ (check_sljit_emit_jump sample_config
              { sample_sized_compiler with skip_checks := 0 }
              (Int.lor (Int.land 0x1110 0xff) (Int.land 0x1110 SLJIT_REWRITABLE_JUMP))).1 = 0) :=
  ⟨(compare_checks_sound sample_config sample_emitter sample_entered_compiler
      sample_sized_compiler 0x1102 SLJIT_IMM 5 SLJIT_R0 0 sample_heap).2.1 sample_cmp_accepted,
   ((compare_checks_sound sample_config sample_emitter sample_entered_compiler
      sample_sized_compiler 0x1110 SLJIT_FR0 0 2 0 sample_heap).2.2 sample_fcmp_accepted).2⟩

/-! ## The limits of a stack -/

/-- The expression `(x + uintptr_tage_align) & ~uintptr_tage_align` for a page
size that is a power of two: the sum, reduced to an `unsigned long`, rounded
down to a multiple of the page size. -/
theorem align_to_page_mod (cfg : Config) (k x : Nat) (hk : k ≤ 8 * cfg.long_size) :
    align_to_page cfg (((2 ^ k - 1 : Nat) : Int)) x
      = (x + (2 ^ k - 1)) % ULONG_MOD cfg / 2 ^ k * 2 ^ k := by
  unfold align_to_page
  have hpos : 0 < 2 ^ k := Nat.two_pow_pos k
  have hM : ULONG_MOD cfg = 2 ^ (8 * cfg.long_size) := rfl
  have hle : 2 ^ k ≤ ULONG_MOD cfg := by
    rw [hM]
    exact Nat.pow_le_pow_right (by norm_num) hk
  have h1 : to_ulong cfg (((2 ^ k - 1 : Nat) : Int)) = 2 ^ k - 1 := by
    unfold to_ulong
    have : (((2 ^ k - 1 : Nat) : Int)) % ((ULONG_MOD cfg : Nat) : Int)
        = (((2 ^ k - 1) % ULONG_MOD cfg : Nat) : Int) := by
      exact (Int.natCast_mod _ _).symm
    rw [this, Int.toNat_natCast, Nat.mod_eq_of_lt (by omega)]
  have h2 : to_ulong cfg (Int.lnot (((2 ^ k - 1 : Nat) : Int))) = ULONG_MOD cfg - 2 ^ k := by
    unfold to_ulong
    have hl : Int.lnot (((2 ^ k - 1 : Nat) : Int)) = -((2 ^ k : Nat) : Int) := by
      show Int.negSucc (2 ^ k - 1) = _
      rw [Int.negSucc_eq]
      have : ((2 ^ k - 1 : Nat) : Int) + 1 = ((2 ^ k : Nat) : Int) := by
        have : 2 ^ k - 1 + 1 = 2 ^ k := by omega
        exact_mod_cast this
      rw [this]
    rw [hl]
    have hmod : (-((2 ^ k : Nat) : Int)) % ((ULONG_MOD cfg : Nat) : Int)
        = ((ULONG_MOD cfg - 2 ^ k : Nat) : Int) := by
      rcases Nat.eq_or_lt_of_le hle with he | hlt
      · rw [he]
        simp
      · have hcast : ((ULONG_MOD cfg - 2 ^ k : Nat) : Int)
            = ((ULONG_MOD cfg : Nat) : Int) - ((2 ^ k : Nat) : Int) := by
          exact Int.ofNat_sub hle
        rw [hcast]
        have h3 : (-((2 ^ k : Nat) : Int)) % ((ULONG_MOD cfg : Nat) : Int)
            = (((ULONG_MOD cfg : Nat) : Int) - ((2 ^ k : Nat) : Int))
                % ((ULONG_MOD cfg : Nat) : Int) := by
          have h4 := Int.add_emod_self (a := -((2 ^ k : Nat) : Int))
            (b := ((ULONG_MOD cfg : Nat) : Int))
          rw [← h4]
          congr 1
          ring
        have hpos' : (0 : Int) < ((2 ^ k : Nat) : Int) := by exact_mod_cast hpos
        have hlt' : ((2 ^ k : Nat) : Int) < ((ULONG_MOD cfg : Nat) : Int) := by
          exact_mod_cast hlt
        rw [h3, Int.emod_eq_of_lt (by omega) (by omega)]
    rw [hmod, Int.toNat_natCast]
  have hlt : (x + (2 ^ k - 1)) % ULONG_MOD cfg < ULONG_MOD cfg :=
    Nat.mod_lt _ (by omega)
  rw [h1, h2]
  rw [hM] at hlt ⊢
  exact land_high_mask _ k _ hk hlt

/-- The rounded value of an `unsigned long` is zero, when the sum wraps
around, or not below the value. -/
theorem align_to_page_ge (cfg : Config) (k x : Nat) (hk : k ≤ 8 * cfg.long_size)
    (hx : x < ULONG_MOD cfg) :
    align_to_page cfg (((2 ^ k - 1 : Nat) : Int)) x = 0
      ∨ x ≤ align_to_page cfg (((2 ^ k - 1 : Nat) : Int)) x := by
  rw [align_to_page_mod cfg k x hk]
  have hpos : 0 < 2 ^ k := Nat.two_pow_pos k
  have hle : 2 ^ k ≤ ULONG_MOD cfg := by
    show 2 ^ k ≤ 2 ^ (8 * cfg.long_size)
    exact Nat.pow_le_pow_right (by norm_num) hk
  generalize 2 ^ k = p at hpos hle ⊢
  generalize ULONG_MOD cfg = m at hx hle ⊢
  by_cases hw : x + (p - 1) < m
  · right
    rw [Nat.mod_eq_of_lt hw]
    have h1 := Nat.div_add_mod (x + (p - 1)) p
    have h2 := Nat.mod_lt (x + (p - 1)) hpos
    rw [Nat.mul_comm] at h1
    omega
  · left
    have h3 : (x + (p - 1)) % m = x + (p - 1) - m := by
      rw [Nat.mod_eq_sub_mod (by omega)]
      exact Nat.mod_eq_of_lt (by omega)
    rw [h3, Nat.div_eq_of_lt (by omega)]
    simp

/-- What a successful call of `sljit_allocate_stack` has passed and stored. -/
theorem allocate_stack_success (cfg : Config) (sys : StackSystem) (st st1 : StackStatics)
    (h h1 : Heap) (limit max_limit block : Nat) (stack : sljit_stack)
    (hres : sljit_allocate_stack cfg sys st h limit max_limit = (some (block, stack), st1, h1)) :
    (1 ≤ limit ∧ limit ≤ max_limit)
      ∧ (if sys.win32 then
          sys.reserve
            (align_to_page cfg (page_align_setup cfg sys st).uintptr_tage_align max_limit) ≠ 0
        else
          sys.reserve
            (align_to_page cfg (page_align_setup cfg sys st).uintptr_tage_align max_limit)
              ≠ MAP_FAILED cfg)
      ∧ stack.base = sys.reserve
          (align_to_page cfg (page_align_setup cfg sys st).uintptr_tage_align max_limit)
      ∧ stack.limit = (stack.base + limit) % ULONG_MOD cfg
      ∧ stack.max_limit
          = (stack.base
              + align_to_page cfg (page_align_setup cfg sys st).uintptr_tage_align max_limit)
            % ULONG_MOD cfg := by
  unfold sljit_allocate_stack at hres
  by_cases hr : limit > max_limit ∨ limit < 1
  · rw [if_pos hr] at hres
    simp at hres
  rw [if_neg hr] at hres
  have hlim : 1 ≤ limit ∧ limit ≤ max_limit := by omega
  simp only at hres
  rcases hm : malloc h (4 * cfg.long_size) with ⟨_ | ⟨b, bytes⟩, g1⟩
  · rw [hm] at hres
    simp at hres
  rw [hm] at hres
  simp only at hres
  by_cases hw : sys.win32 = true
  · rw [if_pos hw] at hres
    by_cases hnull : sys.reserve
        (align_to_page cfg (page_align_setup cfg sys st).uintptr_tage_align max_limit) = 0
    · rw [if_pos hnull] at hres
      simp at hres
    rw [if_neg hnull] at hres
    rcases stack_resize_cases cfg sys (page_align_setup cfg sys st)
        { top := 0,
          base := sys.reserve
            (align_to_page cfg (page_align_setup cfg sys st).uintptr_tage_align max_limit),
          limit := sys.reserve
            (align_to_page cfg (page_align_setup cfg sys st).uintptr_tage_align max_limit),
          max_limit := (sys.reserve
            (align_to_page cfg (page_align_setup cfg sys st).uintptr_tage_align max_limit)
              + align_to_page cfg (page_align_setup cfg sys st).uintptr_tage_align max_limit)
              % ULONG_MOD cfg }
        ((sys.reserve
            (align_to_page cfg (page_align_setup cfg sys st).uintptr_tage_align max_limit)
          + limit) % ULONG_MOD cfg) with hc | hc
    · rw [hc] at hres
      simp at hres
    · rw [hc] at hres
      simp only [ne_eq, not_true_eq_false, if_false, Prod.mk.injEq, Option.some.injEq] at hres
      obtain ⟨⟨-, rfl⟩, -, -⟩ := hres
      rw [if_pos hw]
      exact ⟨hlim, hnull, rfl, rfl, rfl⟩
  · rw [if_neg hw] at hres
    rw [if_neg hw]
    split_ifs at hres with ha hb <;>
      simp only [Prod.mk.injEq, Option.some.injEq, reduceCtorEq, false_and] at hres
    all_goals
      obtain ⟨⟨-, rfl⟩, -, -⟩ := hres
      exact ⟨hlim, by assumption, rfl, rfl, rfl⟩

/-- One call of `sljit_stack_resize` leaves the descriptor as it is, or stores a
`new_limit` that lies between `base` and `max_limit`. -/
theorem stack_resize_step (cfg : Config) (sys : StackSystem) (st : StackStatics)
    (stack : sljit_stack) (new_limit : Nat) :
    ((sljit_stack_resize cfg sys st stack new_limit).1 ≠ 0
        ∧ (sljit_stack_resize cfg sys st stack new_limit).2 = stack)
      ∨ ((sljit_stack_resize cfg sys st stack new_limit).1 = 0
          ∧ (sljit_stack_resize cfg sys st stack new_limit).2
              = { stack with limit := new_limit }
          ∧ stack.base ≤ new_limit ∧ new_limit ≤ stack.max_limit) := by
  unfold sljit_stack_resize
  by_cases hg : new_limit > stack.max_limit ∨ new_limit < stack.base
  · rw [if_pos hg]
    left
    exact ⟨by simp, rfl⟩
  · rw [if_neg hg]
    have hb : stack.base ≤ new_limit ∧ new_limit ≤ stack.max_limit := by omega
    simp only
    split_ifs <;> simp [hb.1, hb.2]

/-- Calls of `sljit_stack_resize` keep `base <= limit <= max_limit`. -/
theorem stack_resizes_ordered (cfg : Config) (sys : StackSystem) (st : StackStatics)
    (news : List Nat) :
    ∀ stack : sljit_stack, stack.base ≤ stack.limit ∧ stack.limit ≤ stack.max_limit →
      (stack_resizes cfg sys st stack news).base = stack.base
        ∧ (stack_resizes cfg sys st stack news).max_limit = stack.max_limit
        ∧ (stack_resizes cfg sys st stack news).base ≤ (stack_resizes cfg sys st stack news).limit
        ∧ (stack_resizes cfg sys st stack news).limit
            ≤ (stack_resizes cfg sys st stack news).max_limit := by
  induction news with
  | nil =>
    intro stack hs
    exact ⟨rfl, rfl, hs.1, hs.2⟩
  | cons n rest ih =>
    intro stack hs
    have e : stack_resizes cfg sys st stack (n :: rest)
        = stack_resizes cfg sys st (sljit_stack_resize cfg sys st stack n).2 rest := rfl
    rw [e]
    rcases stack_resize_step cfg sys st stack n with ⟨-, h2⟩ | ⟨-, h2, hb⟩
    · rw [h2]
      exact ih stack hs
    · rw [h2]
      exact ih { stack with limit := n } hb

/-- C31. `sljit_allocate_stack` returns `NULL` when `limit > max_limit` or
`limit < 1`. A descriptor that it returns satisfies `base <= limit <= max_limit`,
and so does the descriptor after any calls of `sljit_stack_resize` on it, for
a page size that is a power of two and an operating system whose successful
reservation of `n` bytes at `base` has `n > 0` and `base + n` representable as
an `unsigned long`. Every successful `sljit_stack_resize`, on any descriptor,
leaves `base <= limit <= max_limit`. -/
theorem stack_limits_ordered (cfg : Config) (sys : StackSystem) (st st1 st2 : StackStatics)
    (h h1 : Heap) (limit max_limit block k : Nat) (stack other : sljit_stack)
    (news : List Nat) (new_limit : Nat) :
    (limit > max_limit ∨ limit < 1 →
        sljit_allocate_stack cfg sys st h limit max_limit = (none, st, h))
      ∧ (sljit_allocate_stack cfg sys st h limit max_limit = (some (block, stack), st1, h1) →
          (page_align_setup cfg sys st).uintptr_tage_align = ((2 ^ k - 1 : Nat) : Int) →
          k ≤ 8 * cfg.long_size →
          max_limit < ULONG_MOD cfg →
          ((if sys.win32 then
              sys.reserve (align_to_page cfg
                (page_align_setup cfg sys st).uintptr_tage_align max_limit) ≠ 0
            else
              sys.reserve (align_to_page cfg
                (page_align_setup cfg sys st).uintptr_tage_align max_limit) ≠ MAP_FAILED cfg) →
            0 < align_to_page cfg (page_align_setup cfg sys st).uintptr_tage_align max_limit
              ∧ sys.reserve (align_to_page cfg
                  (page_align_setup cfg sys st).uintptr_tage_align max_limit)
                + align_to_page cfg (page_align_setup cfg sys st).uintptr_tage_align max_limit
                < ULONG_MOD cfg) →
          (stack.base ≤ stack.limit ∧ stack.limit ≤ stack.max_limit)
            ∧ (stack_resizes cfg sys st2 stack news).base
                ≤ (stack_resizes cfg sys st2 stack news).limit
            ∧ (stack_resizes cfg sys st2 stack news).limit
                ≤ (stack_resizes cfg sys st2 stack news).max_limit)
      ∧ ((sljit_stack_resize cfg sys st2 other new_limit).1 = 0 →
          (sljit_stack_resize cfg sys st2 other new_limit).2.base
              ≤ (sljit_stack_resize cfg sys st2 other new_limit).2.limit
            ∧ (sljit_stack_resize cfg sys st2 other new_limit).2.limit
              ≤ (sljit_stack_resize cfg sys st2 other new_limit).2.max_limit) := by
  refine ⟨?_, ?_, ?_⟩
  · intro hg
    unfold sljit_allocate_stack
    rw [if_pos hg]
  · intro hres hpage hk hmax hos
    obtain ⟨hlim, hok, hbase, hl, hm⟩ :=
      allocate_stack_success cfg sys st st1 h h1 limit max_limit block stack hres
    obtain ⟨hpos, hfit⟩ := hos hok
    rw [← hbase] at hfit
    rw [hpage] at hpos hfit hm
    have hinv : stack.base ≤ stack.limit ∧ stack.limit ≤ stack.max_limit := by
      rcases align_to_page_ge cfg k max_limit hk hmax with hz | hge
      · omega
      · rw [hl, hm, Nat.mod_eq_of_lt hfit, Nat.mod_eq_of_lt (by omega)]
        omega
    obtain ⟨-, -, h3, h4⟩ := stack_resizes_ordered cfg sys st2 news stack hinv
    exact ⟨hinv, h3, h4⟩
  · intro hz
    rcases stack_resize_step cfg sys st2 other new_limit with ⟨hne, -⟩ | ⟨-, h2, hb⟩
    · exact absurd hz hne
    · rw [h2]
      exact hb

theorem stack_limits_ordered_witness :
    sljit_allocate_stack sample_config sample_system initial_statics sample_heap 5 4
        = (none, initial_statics, sample_heap)
      ∧ (∃ block stack st1 h1,
          sljit_allocate_stack sample_config sample_system initial_statics sample_heap 4096 8000
              = (some (block, stack), st1, h1)
            ∧ (stack.base ≤ stack.limit ∧ stack.limit ≤ stack.max_limit)
            ∧ (stack_resizes sample_config sample_system sample_statics stack
                  [70000, 65636, 100, 80000, 73728]).base
                ≤ (stack_resizes sample_config sample_system sample_statics stack
                  [70000, 65636, 100, 80000, 73728]).limit
            ∧ (stack_resizes sample_config sample_system sample_statics stack
                  [70000, 65636, 100, 80000, 73728]).limit
                ≤ (stack_resizes sample_config sample_system sample_statics stack
                  [70000, 65636, 100, 80000, 73728]).max_limit)
      ∧ ((sljit_stack_resize sample_config sample_system sample_statics
              sample_wide_stack 70000).2.base
            ≤ (sljit_stack_resize sample_config sample_system sample_statics
              sample_wide_stack 70000).2.limit
          ∧ (sljit_stack_resize sample_config sample_system sample_statics
              sample_wide_stack 70000).2.limit
            ≤ (sljit_stack_resize sample_config sample_system sample_statics
              sample_wide_stack 70000).2.max_limit) :=
  ⟨(stack_limits_ordered sample_config sample_system initial_statics initial_statics
      initial_statics sample_heap sample_heap 5 4 0 0 sample_stack sample_stack [] 0).1
      (by decide),
   ⟨_, _, _, _, rfl,
    (stack_limits_ordered sample_config sample_system initial_statics _ sample_statics
      sample_heap _ 4096 8000 _ 12 _ sample_stack [70000, 65636, 100, 80000, 73728] 0).2.1
      rfl (by decide) (by decide) (by decide) (by decide)⟩,
   (stack_limits_ordered sample_config sample_system initial_statics initial_statics
      sample_statics sample_heap sample_heap 1 1 0 0 sample_stack sample_wide_stack [] 70000).2.2
      (by decide)⟩

/-! ## The lists of labels, jumps and constants -/

/-- A traversal with enough fuel visits exactly the records of a list. -/
theorem traverse_is_list (next : Ptr → Option Ptr) :
    ∀ (l : List Ptr) (head : Option Ptr) (fuel : Nat),
      is_list next head l → l.length < fuel → traverse next fuel head = l := by
  intro l
  induction l with
  | nil =>
    intro head fuel hl hf
    have hh : head = none := hl
    subst hh
    cases fuel with
    | zero => omega
    | succ n => rfl
  | cons p t ih =>
    intro head fuel hl hf
    obtain ⟨hh, ht⟩ : head = some p ∧ is_list next (next p) t := hl
    subst hh
    cases fuel with
    | zero => omega
    | succ n =>
      have hlen : t.length < n := by
        simp only [List.length_cons] at hf
        omega
      show p :: traverse next n (next p) = p :: t
      rw [ih (next p) n ht hlen]

/-- Appending a record `p` to a list: `p` gets `next == NULL`, the record that
was the last gets `next == p`, and the head changes only when the list was
empty. -/
theorem is_list_append (next next1 : Ptr → Option Ptr) (p : Ptr) :
    ∀ (l : List Ptr) (head : Option Ptr),
      is_list next head l → l.Nodup → p ∉ l → next1 p = none →
      (∀ q, q ≠ p → some q ≠ l.getLast? → next1 q = next q) →
      (∀ q, l.getLast? = some q → next1 q = some p) →
      is_list next1 (if l = [] then some p else head) (l ++ [p]) := by
  intro l
  induction l with
  | nil =>
    intro head _ _ _ hp _ _
    exact ⟨rfl, hp⟩
  | cons a t ih =>
    intro head hl hnd hnot hp hkeep hlast
    obtain ⟨hh, ht⟩ : head = some a ∧ is_list next (next a) t := hl
    have hap : a ≠ p := by
      intro e
      apply hnot
      rw [e]
      exact List.mem_cons_self _ _
    have hpt : p ∉ t := fun hm => hnot (List.mem_cons_of_mem _ hm)
    have hat : a ∉ t := (List.nodup_cons.1 hnd).1
    have htn : t.Nodup := (List.nodup_cons.1 hnd).2
    rw [if_neg (List.cons_ne_nil a t)]
    show head = some a ∧ is_list next1 (next1 a) (t ++ [p])
    refine ⟨hh, ?_⟩
    cases t with
    | nil =>
      have h1 : next1 a = some p := hlast a rfl
      rw [h1]
      exact ⟨rfl, hp⟩
    | cons b u =>
      have hg : (a :: b :: u).getLast? = (b :: u).getLast? := rfl
      have hne : some a ≠ (b :: u).getLast? := by
        intro e
        apply hat
        have hm := List.mem_of_getLast?_eq_some e.symm
        exact hm
      have h1 : next1 a = next a := hkeep a hap (by rw [hg]; exact hne)
      rw [h1]
      have h2 := ih (next a) ht htn hpt hp
        (fun q hq hq2 => hkeep q hq (by rw [hg]; exact hq2))
        (fun q hq => hlast q (by rw [hg]; exact hq))
      rw [if_neg (List.cons_ne_nil b u)] at h2
      exact h2

/-- One call of `set_label` on a list of label records appends the new record. -/
theorem set_label_step (p : Ptr) (compiler : sljit_compiler) (m : Ptr → sljit_label)
    (l : List Ptr)
    (hl : is_list (fun q => (m q).next) compiler.labels l)
    (hlast : compiler.last_label = l.getLast?) (hnd : l.Nodup) (hp : p ∉ l) :
    is_list (fun q => ((set_label p compiler m).2 q).next)
        (set_label p compiler m).1.labels (l ++ [p])
      ∧ (set_label p compiler m).1.last_label = some p
      ∧ ((set_label p compiler m).2 p).size = compiler.size
      ∧ (∀ q, q ≠ p → ((set_label p compiler m).2 q).size = (m q).size) := by
  cases hc : compiler.last_label with
  | none =>
    have hnil : l = [] := by
      rw [hc] at hlast
      exact List.getLast?_eq_none_iff.1 hlast.symm
    subst hnil
    have hres : set_label p compiler m
        = ({ compiler with labels := some p, last_label := some p },
           store_record (store_record m p { m p with next := none }) p
             { (store_record m p { m p with next := none }) p with size := compiler.size }) := by
      unfold set_label
      rw [hc]
    rw [hres]
    refine ⟨⟨rfl, ?_⟩, rfl, ?_, ?_⟩
    · show (store_record (store_record m p { m p with next := none }) p
          { (store_record m p { m p with next := none }) p with size := compiler.size } p).next = none
      simp [store_record]
    · simp [store_record]
    · intro q hq
      simp [store_record, hq]
  | some last =>
    have hres : set_label p compiler m
        = ({ compiler with last_label := some p },
           store_record (store_record (store_record m p { m p with next := none }) p
             { (store_record m p { m p with next := none }) p with size := compiler.size }) last
             { (store_record (store_record m p { m p with next := none }) p
                 { (store_record m p { m p with next := none }) p with size := compiler.size }) last
               with next := some p }) := by
      unfold set_label
      rw [hc]
    have hlast1 : l.getLast? = some last := by
      rw [← hlast, hc]
    have hmem : last ∈ l := List.mem_of_getLast?_eq_some hlast1
    have hne : last ≠ p := fun e => hp (e ▸ hmem)
    have hne1 : p ≠ last := fun e => hne e.symm
    have hlne : l ≠ [] := List.ne_nil_of_mem hmem
    rw [hres]
    refine ⟨?_, rfl, ?_, ?_⟩
    · have happ := is_list_append (fun q => (m q).next)
        (fun q => ((store_record (store_record (store_record m p { m p with next := none }) p
             { (store_record m p { m p with next := none }) p with size := compiler.size }) last
             { (store_record (store_record m p { m p with next := none }) p
                 { (store_record m p { m p with next := none }) p with size := compiler.size }) last
               with next := some p }) q).next) p l compiler.labels hl hnd hp
        (by simp [store_record, hne1])
        (by
          intro q hq hq2
          have hql : q ≠ last := by
            intro e
            apply hq2
            rw [hlast1, e]
          simp [store_record, hq, hql])
        (by
          intro q hq
          have hql : q = last := by
            rw [hlast1] at hq
            exact (Option.some.inj hq).symm
          simp [store_record, hql])
      rw [if_neg hlne] at happ
      exact happ
    · simp [store_record, hne1]
    · intro q hq
      by_cases hql : q = last
      · subst hql
        simp [store_record, hq]
      · simp [store_record, hq, hql]

/-- Calls of `set_label` in a row append their records in the order of the
calls. -/
theorem set_labels_append :
    ∀ (calls : List (Ptr × Nat)) (compiler : sljit_compiler) (m : Ptr → sljit_label)
      (l : List Ptr),
      is_list (fun q => (m q).next) compiler.labels l →
      compiler.last_label = l.getLast? →
      (l ++ calls.map Prod.fst).Nodup →
      is_list (fun q => ((set_labels compiler m calls).2 q).next)
          (set_labels compiler m calls).1.labels (l ++ calls.map Prod.fst)
        ∧ (set_labels compiler m calls).1.last_label = (l ++ calls.map Prod.fst).getLast?
        ∧ (∀ x ∈ calls, ((set_labels compiler m calls).2 x.1).size = x.2)
        ∧ (∀ q, q ∉ calls.map Prod.fst →
            ((set_labels compiler m calls).2 q).size = (m q).size) := by
  intro calls
  induction calls with
  | nil =>
    intro compiler m l hl hlast _
    simp only [List.map_nil, List.append_nil]
    exact ⟨hl, hlast, by simp, fun q _ => rfl⟩
  | cons x rest ih =>
    intro compiler m l hl hlast hnd
    obtain ⟨p, v⟩ := x
    have e : set_labels compiler m ((p, v) :: rest)
        = set_labels (set_label p { compiler with size := v } m).1
            (set_label p { compiler with size := v } m).2 rest := rfl
    rw [e]
    have hnd1 : ((l ++ [p]) ++ rest.map Prod.fst).Nodup := by
      rw [List.append_assoc]
      exact hnd
    have hassoc : l ++ List.map Prod.fst ((p, v) :: rest) = (l ++ [p]) ++ rest.map Prod.fst := by
      rw [List.append_assoc]
      rfl
    have hlnd : (l ++ [p]).Nodup := (List.nodup_append.1 hnd1).1
    have hpl : p ∉ l := by
      intro hm
      have h2 := (List.nodup_append.1 hlnd).2.2
      exact h2 hm (List.mem_singleton_self p)
    have hprest : p ∉ rest.map Prod.fst := by
      intro hm
      have h2 := (List.nodup_append.1 hnd1).2.2
      exact h2 (List.mem_append_right l (List.mem_singleton_self p)) hm
    obtain ⟨s1, s2, s3, s4⟩ := set_label_step p { compiler with size := v } m l hl hlast
      (List.nodup_append.1 hlnd).1 hpl
    have hlast2 : (set_label p { compiler with size := v } m).1.last_label = (l ++ [p]).getLast? := by
      rw [s2]
      simp
    obtain ⟨i1, i2, i3, i4⟩ := ih _ _ (l ++ [p]) s1 hlast2 hnd1
    rw [hassoc]
    refine ⟨i1, i2, ?_, ?_⟩
    · intro x hx
      rcases List.mem_cons.1 hx with hx | hx
      · subst hx
        rw [i4 p hprest]
        exact s3
      · exact i3 x hx
    · intro q hq
      have hqp : q ≠ p := by
        intro e2
        apply hq
        rw [e2]
        exact List.mem_cons_self _ _
      have hqr : q ∉ rest.map Prod.fst := fun hm => hq (List.mem_cons_of_mem _ hm)
      rw [i4 q hqr]
      exact s4 q hqp

/-- One call of `set_jump` on a list of jump records appends the new record. -/
theorem set_jump_step (p : Ptr) (compiler : sljit_compiler) (v : Int) (m : Ptr → sljit_jump)
    (l : List Ptr)
    (hl : is_list (fun q => (m q).next) compiler.jumps l)
    (hlast : compiler.last_jump = l.getLast?) (hnd : l.Nodup) (hp : p ∉ l) :
    is_list (fun q => ((set_jump p compiler v m).2 q).next)
        (set_jump p compiler v m).1.jumps (l ++ [p])
      ∧ (set_jump p compiler v m).1.last_jump = some p
      ∧ ((set_jump p compiler v m).2 p).flags = v
      ∧ (∀ q, q ≠ p → ((set_jump p compiler v m).2 q).flags = (m q).flags) := by
  cases hc : compiler.last_jump with
  | none =>
    have hnil : l = [] := by
      rw [hc] at hlast
      exact List.getLast?_eq_none_iff.1 hlast.symm
    subst hnil
    have hres : set_jump p compiler v m
        = ({ compiler with jumps := some p, last_jump := some p },
           store_record (store_record m p { m p with next := none }) p
             { (store_record m p { m p with next := none }) p with flags := v }) := by
      unfold set_jump
      rw [hc]
    rw [hres]
    refine ⟨⟨rfl, ?_⟩, rfl, ?_, ?_⟩
    · show (store_record (store_record m p { m p with next := none }) p
          { (store_record m p { m p with next := none }) p with flags := v } p).next = none
      simp [store_record]
    · simp [store_record]
    · intro q hq
      simp [store_record, hq]
  | some last =>
    have hres : set_jump p compiler v m
        = ({ compiler with last_jump := some p },
           store_record (store_record (store_record m p { m p with next := none }) p
             { (store_record m p { m p with next := none }) p with flags := v }) last
             { (store_record (store_record m p { m p with next := none }) p
                 { (store_record m p { m p with next := none }) p with flags := v }) last
               with next := some p }) := by
      unfold set_jump
      rw [hc]
    have hlast1 : l.getLast? = some last := by
      rw [← hlast, hc]
    have hmem : last ∈ l := List.mem_of_getLast?_eq_some hlast1
    have hne : last ≠ p := fun e => hp (e ▸ hmem)
    have hne1 : p ≠ last := fun e => hne e.symm
    have hlne : l ≠ [] := List.ne_nil_of_mem hmem
    rw [hres]
    refine ⟨?_, rfl, ?_, ?_⟩
    · have happ := is_list_append (fun q => (m q).next)
        (fun q => ((store_record (store_record (store_record m p { m p with next := none }) p
             { (store_record m p { m p with next := none }) p with flags := v }) last
             { (store_record (store_record m p { m p with next := none }) p
                 { (store_record m p { m p with next := none }) p with flags := v }) last
               with next := some p }) q).next) p l compiler.jumps hl hnd hp
        (by simp [store_record, hne1])
        (by
          intro q hq hq2
          have hql : q ≠ last := by
            intro e
            apply hq2
            rw [hlast1, e]
          simp [store_record, hq, hql])
        (by
          intro q hq
          have hql : q = last := by
            rw [hlast1] at hq
            exact (Option.some.inj hq).symm
          simp [store_record, hql])
      rw [if_neg hlne] at happ
      exact happ
    · simp [store_record, hne1]
    · intro q hq
      by_cases hql : q = last
      · subst hql
        simp [store_record, hq]
      · simp [store_record, hq, hql]

/-- Calls of `set_jump` in a row append their records in the order of the
calls. -/
theorem set_jumps_append :
    ∀ (calls : List (Ptr × Int)) (compiler : sljit_compiler) (m : Ptr → sljit_jump)
      (l : List Ptr),
      is_list (fun q => (m q).next) compiler.jumps l →
      compiler.last_jump = l.getLast? →
      (l ++ calls.map Prod.fst).Nodup →
      is_list (fun q => ((set_jumps compiler m calls).2 q).next)
          (set_jumps compiler m calls).1.jumps (l ++ calls.map Prod.fst)
        ∧ (set_jumps compiler m calls).1.last_jump = (l ++ calls.map Prod.fst).getLast?
        ∧ (∀ x ∈ calls, ((set_jumps compiler m calls).2 x.1).flags = x.2)
        ∧ (∀ q, q ∉ calls.map Prod.fst →
            ((set_jumps compiler m calls).2 q).flags = (m q).flags) := by
  intro calls
  induction calls with
  | nil =>
    intro compiler m l hl hlast _
    simp only [List.map_nil, List.append_nil]
    exact ⟨hl, hlast, by simp, fun q _ => rfl⟩
  | cons x rest ih =>
    intro compiler m l hl hlast hnd
    obtain ⟨p, v⟩ := x
    have e : set_jumps compiler m ((p, v) :: rest)
        = set_jumps (set_jump p compiler v m).1
            (set_jump p compiler v m).2 rest := rfl
    rw [e]
    have hnd1 : ((l ++ [p]) ++ rest.map Prod.fst).Nodup := by
      rw [List.append_assoc]
      exact hnd
    have hassoc : l ++ List.map Prod.fst ((p, v) :: rest) = (l ++ [p]) ++ rest.map Prod.fst := by
      rw [List.append_assoc]
      rfl
    have hlnd : (l ++ [p]).Nodup := (List.nodup_append.1 hnd1).1
    have hpl : p ∉ l := by
      intro hm
      have h2 := (List.nodup_append.1 hlnd).2.2
      exact h2 hm (List.mem_singleton_self p)
    have hprest : p ∉ rest.map Prod.fst := by
      intro hm
      have h2 := (List.nodup_append.1 hnd1).2.2
      exact h2 (List.mem_append_right l (List.mem_singleton_self p)) hm
    obtain ⟨s1, s2, s3, s4⟩ := set_jump_step p compiler v m l hl hlast
      (List.nodup_append.1 hlnd).1 hpl
    have hlast2 : (set_jump p compiler v m).1.last_jump = (l ++ [p]).getLast? := by
      rw [s2]
      simp
    obtain ⟨i1, i2, i3, i4⟩ := ih _ _ (l ++ [p]) s1 hlast2 hnd1
    rw [hassoc]
    refine ⟨i1, i2, ?_, ?_⟩
    · intro x hx
      rcases List.mem_cons.1 hx with hx | hx
      · subst hx
        rw [i4 p hprest]
        exact s3
      · exact i3 x hx
    · intro q hq
      have hqp : q ≠ p := by
        intro e2
        apply hq
        rw [e2]
        exact List.mem_cons_self _ _
      have hqr : q ∉ rest.map Prod.fst := fun hm => hq (List.mem_cons_of_mem _ hm)
      rw [i4 q hqr]
      exact s4 q hqp

/-- One call of `set_const` on a list of const records appends the new record. -/
theorem set_const_step (p : Ptr) (compiler : sljit_compiler) (m : Ptr → sljit_const)
    (l : List Ptr)
    (hl : is_list (fun q => (m q).next) compiler.consts l)
    (hlast : compiler.last_const = l.getLast?) (hnd : l.Nodup) (hp : p ∉ l) :
    is_list (fun q => ((set_const p compiler m).2 q).next)
        (set_const p compiler m).1.consts (l ++ [p])
      ∧ (set_const p compiler m).1.last_const = some p
      ∧ ((set_const p compiler m).2 p).addr = compiler.size
      ∧ (∀ q, q ≠ p → ((set_const p compiler m).2 q).addr = (m q).addr) := by
  cases hc : compiler.last_const with
  | none =>
    have hnil : l = [] := by
      rw [hc] at hlast
      exact List.getLast?_eq_none_iff.1 hlast.symm
    subst hnil
    have hres : set_const p compiler m
        = ({ compiler with consts := some p, last_const := some p },
           store_record (store_record m p { m p with next := none }) p
             { (store_record m p { m p with next := none }) p with addr := compiler.size }) := by
      unfold set_const
      rw [hc]
    rw [hres]
    refine ⟨⟨rfl, ?_⟩, rfl, ?_, ?_⟩
    · show (store_record (store_record m p { m p with next := none }) p
          { (store_record m p { m p with next := none }) p with addr := compiler.size } p).next = none
      simp [store_record]
    · simp [store_record]
    · intro q hq
      simp [store_record, hq]
  | some last =>
    have hres : set_const p compiler m
        = ({ compiler with last_const := some p },
           store_record (store_record (store_record m p { m p with next := none }) p
             { (store_record m p { m p with next := none }) p with addr := compiler.size }) last
             { (store_record (store_record m p { m p with next := none }) p
                 { (store_record m p { m p with next := none }) p with addr := compiler.size }) last
               with next := some p }) := by
      unfold set_const
      rw [hc]
    have hlast1 : l.getLast? = some last := by
      rw [← hlast, hc]
    have hmem : last ∈ l := List.mem_of_getLast?_eq_some hlast1
    have hne : last ≠ p := fun e => hp (e ▸ hmem)
    have hne1 : p ≠ last := fun e => hne e.symm
    have hlne : l ≠ [] := List.ne_nil_of_mem hmem
    rw [hres]
    refine ⟨?_, rfl, ?_, ?_⟩
    · have happ := is_list_append (fun q => (m q).next)
        (fun q => ((store_record (store_record (store_record m p { m p with next := none }) p
             { (store_record m p { m p with next := none }) p with addr := compiler.size }) last
             { (store_record (store_record m p { m p with next := none }) p
                 { (store_record m p { m p with next := none }) p with addr := compiler.size }) last
               with next := some p }) q).next) p l compiler.consts hl hnd hp
        (by simp [store_record, hne1])
        (by
          intro q hq hq2
          have hql : q ≠ last := by
            intro e
            apply hq2
            rw [hlast1, e]
          simp [store_record, hq, hql])
        (by
          intro q hq
          have hql : q = last := by
            rw [hlast1] at hq
            exact (Option.some.inj hq).symm
          simp [store_record, hql])
      rw [if_neg hlne] at happ
      exact happ
    · simp [store_record, hne1]
    · intro q hq
      by_cases hql : q = last
      · subst hql
        simp [store_record, hq]
      · simp [store_record, hq, hql]

/-- Calls of `set_const` in a row append their records in the order of the
calls. -/
theorem set_consts_append :
    ∀ (calls : List (Ptr × Nat)) (compiler : sljit_compiler) (m : Ptr → sljit_const)
      (l : List Ptr),
      is_list (fun q => (m q).next) compiler.consts l →
      compiler.last_const = l.getLast? →
      (l ++ calls.map Prod.fst).Nodup →
      is_list (fun q => ((set_consts compiler m calls).2 q).next)
          (set_consts compiler m calls).1.consts (l ++ calls.map Prod.fst)
        ∧ (set_consts compiler m calls).1.last_const = (l ++ calls.map Prod.fst).getLast?
        ∧ (∀ x ∈ calls, ((set_consts compiler m calls).2 x.1).addr = x.2)
        ∧ (∀ q, q ∉ calls.map Prod.fst →
            ((set_consts compiler m calls).2 q).addr = (m q).addr) := by
  intro calls
  induction calls with
  | nil =>
    intro compiler m l hl hlast _
    simp only [List.map_nil, List.append_nil]
    exact ⟨hl, hlast, by simp, fun q _ => rfl⟩
  | cons x rest ih =>
    intro compiler m l hl hlast hnd
    obtain ⟨p, v⟩ := x
    have e : set_consts compiler m ((p, v) :: rest)
        = set_consts (set_const p { compiler with size := v } m).1
            (set_const p { compiler with size := v } m).2 rest := rfl
    rw [e]
    have hnd1 : ((l ++ [p]) ++ rest.map Prod.fst).Nodup := by
      rw [List.append_assoc]
      exact hnd
    have hassoc : l ++ List.map Prod.fst ((p, v) :: rest) = (l ++ [p]) ++ rest.map Prod.fst := by
      rw [List.append_assoc]
      rfl
    have hlnd : (l ++ [p]).Nodup := (List.nodup_append.1 hnd1).1
    have hpl : p ∉ l := by
      intro hm
      have h2 := (List.nodup_append.1 hlnd).2.2
      exact h2 hm (List.mem_singleton_self p)
    have hprest : p ∉ rest.map Prod.fst := by
      intro hm
      have h2 := (List.nodup_append.1 hnd1).2.2
      exact h2 (List.mem_append_right l (List.mem_singleton_self p)) hm
    obtain ⟨s1, s2, s3, s4⟩ := set_const_step p { compiler with size := v } m l hl hlast
      (List.nodup_append.1 hlnd).1 hpl
    have hlast2 : (set_const p { compiler with size := v } m).1.last_const = (l ++ [p]).getLast? := by
      rw [s2]
      simp
    obtain ⟨i1, i2, i3, i4⟩ := ih _ _ (l ++ [p]) s1 hlast2 hnd1
    rw [hassoc]
    refine ⟨i1, i2, ?_, ?_⟩
    · intro x hx
      rcases List.mem_cons.1 hx with hx | hx
      · subst hx
        rw [i4 p hprest]
        exact s3
      · exact i3 x hx
    · intro q hq
      have hqp : q ≠ p := by
        intro e2
        apply hq
        rw [e2]
        exact List.mem_cons_self _ _
      have hqr : q ∉ rest.map Prod.fst := fun hm => hq (List.mem_cons_of_mem _ hm)
      rw [i4 q hqr]
      exact s4 q hqp

/-- C35. On a compiler whose lists are empty, as `sljit_create_compiler` leaves
them, after calls of `set_label` (of `set_jump`, of `set_const`) on pairwise
different records, a traversal from `labels` (from `jumps`, from `consts`)
that has fuel for one record more visits exactly the records of the calls,
in the order of the calls, and ends at a `NULL`; `last_label` (`last_jump`,
`last_const`) is the record of the last call; and the `size` of each label
(the `addr` of each constant) is the value that `compiler->size` had at its
call, the `flags` of each jump the argument of its call. -/
theorem records_in_creation_order (compiler : sljit_compiler)
    (ml : Ptr → sljit_label) (mj : Ptr → sljit_jump) (mc : Ptr → sljit_const)
    (labels : List (Ptr × Nat)) (jumps : List (Ptr × Int)) (consts : List (Ptr × Nat))
    (fuel : Nat) :
    (compiler.labels = none → compiler.last_label = none →
        (labels.map Prod.fst).Nodup → labels.length < fuel →
        traverse (fun q => ((set_labels compiler ml labels).2 q).next) fuel
            (set_labels compiler ml labels).1.labels = labels.map Prod.fst
          ∧ (set_labels compiler ml labels).1.last_label = (labels.map Prod.fst).getLast?
          ∧ (∀ x ∈ labels, ((set_labels compiler ml labels).2 x.1).size = x.2))
      ∧ (compiler.jumps = none → compiler.last_jump = none →
        (jumps.map Prod.fst).Nodup → jumps.length < fuel →
        traverse (fun q => ((set_jumps compiler mj jumps).2 q).next) fuel
            (set_jumps compiler mj jumps).1.jumps = jumps.map Prod.fst
          ∧ (set_jumps compiler mj jumps).1.last_jump = (jumps.map Prod.fst).getLast?
          ∧ (∀ x ∈ jumps, ((set_jumps compiler mj jumps).2 x.1).flags = x.2))
      ∧ (compiler.consts = none → compiler.last_const = none →
        (consts.map Prod.fst).Nodup → consts.length < fuel →
        traverse (fun q => ((set_consts compiler mc consts).2 q).next) fuel
            (set_consts compiler mc consts).1.consts = consts.map Prod.fst
          ∧ (set_consts compiler mc consts).1.last_const = (consts.map Prod.fst).getLast?
          ∧ (∀ x ∈ consts, ((set_consts compiler mc consts).2 x.1).addr = x.2)) := by
  refine ⟨?_, ?_, ?_⟩
  · intro h1 h2 hnd hf
    obtain ⟨i1, i2, i3, -⟩ := set_labels_append labels compiler ml []
      (by rw [h1]; rfl) (by rw [h2]; rfl) (by simpa using hnd)
    simp only [List.nil_append] at i1 i2
    exact ⟨traverse_is_list _ _ _ _ i1 (by simpa using hf), i2, i3⟩
  · intro h1 h2 hnd hf
    obtain ⟨i1, i2, i3, -⟩ := set_jumps_append jumps compiler mj []
      (by rw [h1]; rfl) (by rw [h2]; rfl) (by simpa using hnd)
    simp only [List.nil_append] at i1 i2
    exact ⟨traverse_is_list _ _ _ _ i1 (by simpa using hf), i2, i3⟩
  · intro h1 h2 hnd hf
    obtain ⟨i1, i2, i3, -⟩ := set_consts_append consts compiler mc []
      (by rw [h1]; rfl) (by rw [h2]; rfl) (by simpa using hnd)
    simp only [List.nil_append] at i1 i2
    exact ⟨traverse_is_list _ _ _ _ i1 (by simpa using hf), i2, i3⟩

/-- Three labels at the code sizes 0, 5 and 9, two jumps and two constants. -/
theorem records_in_creation_order_witness :
    (traverse (fun q => ((set_labels sample_compiler sample_labels
              [(⟨3, 0⟩, 0), (⟨3, 24⟩, 5), (⟨3, 48⟩, 9)]).2 q).next) 4
            (set_labels sample_compiler sample_labels
              [(⟨3, 0⟩, 0), (⟨3, 24⟩, 5), (⟨3, 48⟩, 9)]).1.labels
          = [(⟨3, 0⟩, 0), (⟨3, 24⟩, 5), (⟨3, 48⟩, 9)].map Prod.fst
        ∧ (set_labels sample_compiler sample_labels
              [(⟨3, 0⟩, 0), (⟨3, 24⟩, 5), (⟨3, 48⟩, 9)]).1.last_label
          = ([(⟨3, 0⟩, 0), (⟨3, 24⟩, 5), (⟨3, 48⟩, 9)].map Prod.fst).getLast?
        ∧ (∀ x ∈ [((⟨3, 0⟩ : Ptr), 0), (⟨3, 24⟩, 5), (⟨3, 48⟩, 9)],
            ((set_labels sample_compiler sample_labels
              [(⟨3, 0⟩, 0), (⟨3, 24⟩, 5), (⟨3, 48⟩, 9)]).2 x.1).size = x.2))
      ∧ (traverse (fun q => ((set_jumps sample_compiler sample_jumps
              [(⟨3, 72⟩, 0x1010), (⟨3, 104⟩, 0)]).2 q).next) 4
            (set_jumps sample_compiler sample_jumps
              [(⟨3, 72⟩, 0x1010), (⟨3, 104⟩, 0)]).1.jumps
          = [(⟨3, 72⟩, 0x1010), (⟨3, 104⟩, 0)].map Prod.fst
        ∧ (set_jumps sample_compiler sample_jumps
              [(⟨3, 72⟩, 0x1010), (⟨3, 104⟩, 0)]).1.last_jump
          = ([(⟨3, 72⟩, 0x1010), (⟨3, 104⟩, 0)].map Prod.fst).getLast?
        ∧ (∀ x ∈ [((⟨3, 72⟩ : Ptr), (0x1010 : Int)), (⟨3, 104⟩, 0)],
            ((set_jumps sample_compiler sample_jumps
              [(⟨3, 72⟩, 0x1010), (⟨3, 104⟩, 0)]).2 x.1).flags = x.2))
      ∧ (traverse (fun q => ((set_consts sample_compiler sample_consts
              [(⟨3, 136⟩, 2), (⟨3, 152⟩, 7)]).2 q).next) 4
            (set_consts sample_compiler sample_consts
              [(⟨3, 136⟩, 2), (⟨3, 152⟩, 7)]).1.consts
          = [(⟨3, 136⟩, 2), (⟨3, 152⟩, 7)].map Prod.fst
        ∧ (set_consts sample_compiler sample_consts
              [(⟨3, 136⟩, 2), (⟨3, 152⟩, 7)]).1.last_const
          = ([(⟨3, 136⟩, 2), (⟨3, 152⟩, 7)].map Prod.fst).getLast?
        ∧ (∀ x ∈ [((⟨3, 136⟩ : Ptr), 2), (⟨3, 152⟩, 7)],
            ((set_consts sample_compiler sample_consts
              [(⟨3, 136⟩, 2), (⟨3, 152⟩, 7)]).2 x.1).addr = x.2)) :=
  ⟨(records_in_creation_order sample_compiler sample_labels sample_jumps sample_consts
      [(⟨3, 0⟩, 0), (⟨3, 24⟩, 5), (⟨3, 48⟩, 9)] [] [] 4).1 rfl rfl (by decide) (by decide),
   (records_in_creation_order sample_compiler sample_labels sample_jumps sample_consts
      [] [(⟨3, 72⟩, 0x1010), (⟨3, 104⟩, 0)] [] 4).2.1 rfl rfl (by decide) (by decide),
   (records_in_creation_order sample_compiler sample_labels sample_jumps sample_consts
      [] [] [(⟨3, 136⟩, 2), (⟨3, 152⟩, 7)] 4).2.2 rfl rfl (by decide) (by decide)⟩

/-! ## The pages that a shrinking stack releases -/

/-- The page-rounded value of an address inside a stack whose `max_limit` is a
multiple of the page size. -/
theorem align_inside (cfg : Config) (k x top : Nat) (hk : k ≤ 8 * cfg.long_size)
    (hx : x ≤ top) (htop : top < ULONG_MOD cfg) (hdvd : 2 ^ k ∣ top) :
    align_to_page cfg (((2 ^ k - 1 : Nat) : Int)) x = (x + (2 ^ k - 1)) / 2 ^ k * 2 ^ k
      ∧ 2 ^ k ∣ align_to_page cfg (((2 ^ k - 1 : Nat) : Int)) x
      ∧ x ≤ align_to_page cfg (((2 ^ k - 1 : Nat) : Int)) x
      ∧ align_to_page cfg (((2 ^ k - 1 : Nat) : Int)) x ≤ top := by
  have hpos : 0 < 2 ^ k := Nat.two_pow_pos k
  have hle : 2 ^ k ≤ ULONG_MOD cfg := by
    show 2 ^ k ≤ 2 ^ (8 * cfg.long_size)
    exact Nat.pow_le_pow_right (by norm_num) hk
  obtain ⟨t, ht⟩ := hdvd
  have hM : 2 ^ k ∣ ULONG_MOD cfg := by
    show 2 ^ k ∣ 2 ^ (8 * cfg.long_size)
    exact pow_dvd_pow 2 hk
  obtain ⟨u, hu⟩ := hM
  have htu : t < u := by
    by_contra hge
    have : 2 ^ k * u ≤ 2 ^ k * t := Nat.mul_le_mul_left _ (by omega)
    omega
  have hsum : top + 2 ^ k ≤ ULONG_MOD cfg := by
    have : 2 ^ k * (t + 1) ≤ 2 ^ k * u := Nat.mul_le_mul_left _ (by omega)
    rw [Nat.mul_add, Nat.mul_one] at this
    omega
  have hw : x + (2 ^ k - 1) < ULONG_MOD cfg := by omega
  rw [align_to_page_pow cfg k x hk hw]
  have h1 := Nat.div_add_mod (x + (2 ^ k - 1)) (2 ^ k)
  have h2 := Nat.mod_lt (x + (2 ^ k - 1)) hpos
  refine ⟨rfl, Dvd.intro_left _ rfl, ?_, ?_⟩
  · rw [Nat.mul_comm] at h1
    omega
  · have hdiv : (x + (2 ^ k - 1)) / 2 ^ k ≤ t := by
      have h3 : x + (2 ^ k - 1) < 2 ^ k * (t + 1) := by
        rw [Nat.mul_add, Nat.mul_one]
        omega
      have h4 := (Nat.div_lt_iff_lt_mul hpos).2 (by rw [Nat.mul_comm]; exact h3)
      omega
    calc (x + (2 ^ k - 1)) / 2 ^ k * 2 ^ k ≤ t * 2 ^ k := Nat.mul_le_mul_right _ hdiv
      _ = top := by rw [ht, Nat.mul_comm]

/-- C39. Without `_WIN32`, on a descriptor with a page-aligned `base`, a
`max_limit - base` that is a multiple of the page size and
`base <= limit <= max_limit`, a call of `sljit_stack_resize` with
`base <= new_limit < limit` returns 0 and any call of `madvise` or
`posix_madvise` it makes is on the range from `new_limit` rounded up to a page
boundary to the old `limit` rounded up to a page boundary: both ends are
multiples of the page size, the range starts at or above `new_limit`, ends at
or below `max_limit` and is not empty, and the call is made whenever the two
rounded values differ and one of `MADV_DONTNEED`, `POSIX_MADV_DONTNEED` is
defined. A call with `new_limit >= limit` makes no such call. -/
theorem shrink_releases_pages (cfg : Config) (sys : StackSystem) (st : StackStatics)
    (dontneed : Bool) (stack : sljit_stack) (new_limit k : Nat)
    (hposix : sys.win32 = false)
    (hpage : st.uintptr_tage_align = ((2 ^ k - 1 : Nat) : Int))
    (hk : k ≤ 8 * cfg.long_size)
    (hbase : 2 ^ k ∣ stack.base) (hsize : 2 ^ k ∣ stack.max_limit - stack.base)
    (hinv : stack.base ≤ stack.limit ∧ stack.limit ≤ stack.max_limit)
    (hmax : stack.max_limit < ULONG_MOD cfg) :
    (stack.base ≤ new_limit → new_limit < stack.limit →
        sljit_stack_resize cfg sys st stack new_limit = (0, { stack with limit := new_limit })
          ∧ (∀ a len : Nat,
              sljit_stack_resize_madvise cfg sys st dontneed stack new_limit = some (a, len) →
              a = (new_limit + (2 ^ k - 1)) / 2 ^ k * 2 ^ k
                ∧ a + len = (stack.limit + (2 ^ k - 1)) / 2 ^ k * 2 ^ k
                ∧ 2 ^ k ∣ a ∧ 2 ^ k ∣ a + len
                ∧ new_limit ≤ a ∧ a + len ≤ stack.max_limit ∧ 0 < len)
          ∧ (dontneed = true →
              (new_limit + (2 ^ k - 1)) / 2 ^ k * 2 ^ k
                < (stack.limit + (2 ^ k - 1)) / 2 ^ k * 2 ^ k →
              sljit_stack_resize_madvise cfg sys st dontneed stack new_limit
                = some ((new_limit + (2 ^ k - 1)) / 2 ^ k * 2 ^ k,
                    (stack.limit + (2 ^ k - 1)) / 2 ^ k * 2 ^ k
                      - (new_limit + (2 ^ k - 1)) / 2 ^ k * 2 ^ k)))
      ∧ (stack.limit ≤ new_limit →
          sljit_stack_resize_madvise cfg sys st dontneed stack new_limit = none) := by
  have hdvd : 2 ^ k ∣ stack.max_limit := by
    have h := Nat.dvd_add hsize hbase
    rwa [Nat.sub_add_cancel (by omega)] at h
  constructor
  · intro hb hlt
    have hg : ¬ (new_limit > stack.max_limit ∨ new_limit < stack.base) := by omega
    obtain ⟨n1, n2, n3, n4⟩ := align_inside cfg k new_limit stack.max_limit hk (by omega)
      hmax hdvd
    obtain ⟨o1, o2, o3, o4⟩ := align_inside cfg k stack.limit stack.max_limit hk hinv.2
      hmax hdvd
    have hm : sljit_stack_resize_madvise cfg sys st dontneed stack new_limit
        = if dontneed = true then
            if (new_limit + (2 ^ k - 1)) / 2 ^ k * 2 ^ k
                < (stack.limit + (2 ^ k - 1)) / 2 ^ k * 2 ^ k then
              some ((new_limit + (2 ^ k - 1)) / 2 ^ k * 2 ^ k,
                (stack.limit + (2 ^ k - 1)) / 2 ^ k * 2 ^ k
                  - (new_limit + (2 ^ k - 1)) / 2 ^ k * 2 ^ k)
            else none
          else none := by
      unfold sljit_stack_resize_madvise
      rw [if_neg hg, hposix, hpage, n1, o1]
      simp only [Bool.false_eq_true, if_false]
      rw [if_neg (by omega)]
    rw [← n1] at hm
    rw [← o1] at hm
    refine ⟨?_, ?_, ?_⟩
    · unfold sljit_stack_resize
      rw [if_neg hg]
      simp [hposix]
    · intro a len hsome
      rw [hm] at hsome
      split_ifs at hsome with hd hlt2
      simp only [Option.some.injEq, Prod.mk.injEq] at hsome
      obtain ⟨rfl, rfl⟩ := hsome
      have hadd : align_to_page cfg (((2 ^ k - 1 : Nat) : Int)) new_limit
          + (align_to_page cfg (((2 ^ k - 1 : Nat) : Int)) stack.limit
            - align_to_page cfg (((2 ^ k - 1 : Nat) : Int)) new_limit)
          = align_to_page cfg (((2 ^ k - 1 : Nat) : Int)) stack.limit := by omega
      rw [hadd]
      exact ⟨n1, o1, n2, o2, n3, o4, by omega⟩
    · intro hd hlt2
      rw [← n1, ← o1] at hlt2 ⊢
      rw [hm, if_pos hd, if_pos hlt2]
  · intro hge
    unfold sljit_stack_resize_madvise
    split_ifs <;> rfl

theorem shrink_releases_pages_witness :
    (sljit_stack_resize sample_config sample_system sample_statics sample_wide_stack 66000
          = (0, { sample_wide_stack with limit := 66000 })
        ∧ (∀ a len : Nat,
            sljit_stack_resize_madvise sample_config sample_system sample_statics true
                sample_wide_stack 66000 = some (a, len) →
            a = (66000 + (2 ^ 12 - 1)) / 2 ^ 12 * 2 ^ 12
              ∧ a + len = (sample_wide_stack.limit + (2 ^ 12 - 1)) / 2 ^ 12 * 2 ^ 12
              ∧ 2 ^ 12 ∣ a ∧ 2 ^ 12 ∣ a + len
              ∧ 66000 ≤ a ∧ a + len ≤ sample_wide_stack.max_limit ∧ 0 < len)
        ∧ (true = true →
            (66000 + (2 ^ 12 - 1)) / 2 ^ 12 * 2 ^ 12
              < (sample_wide_stack.limit + (2 ^ 12 - 1)) / 2 ^ 12 * 2 ^ 12 →
            sljit_stack_resize_madvise sample_config sample_system sample_statics true
                sample_wide_stack 66000
              = some ((66000 + (2 ^ 12 - 1)) / 2 ^ 12 * 2 ^ 12,
                  (sample_wide_stack.limit + (2 ^ 12 - 1)) / 2 ^ 12 * 2 ^ 12
                    - (66000 + (2 ^ 12 - 1)) / 2 ^ 12 * 2 ^ 12)))
      ∧ sljit_stack_resize_madvise sample_config sample_system sample_statics true
          sample_wide_stack 76000 = none :=
  ⟨(shrink_releases_pages sample_config sample_system sample_statics true sample_wide_stack
      66000 12 rfl rfl (by decide) (by decide) (by decide) (by decide) (by decide)).1
      (by decide) (by decide),
   (shrink_releases_pages sample_config sample_system sample_statics true sample_wide_stack
      76000 12 rfl rfl (by decide) (by decide) (by decide) (by decide) (by decide)).2
      (by decide)⟩

end Sljit
